import Mathlib

/-!
# Shallow embedding of `panda/src/glstuff/glShaderContext_src.cxx`

The embedding follows the desktop OpenGL build of the file (`OPENGLES` and
`STDFLOAT_DOUBLE` undefined).  Driver calls and log output are recorded in a
trace; every entry of a trace carries the place of the source it comes from
(`Origin`).  Pointers are natural numbers compared by identity, `nullptr` is
`none`.  Scalars stored in buffers and matrices are opaque values (`Int`); a
conversion to `float` is a parameter of the graphics state guardian.
-/

namespace GLShaderContext

/-! ## Data model -/

/-- The scalar kinds of `ShaderType::ScalarType`. -/
inductive ScalarType
  | ST_unknown | ST_float | ST_double | ST_int | ST_uint | ST_bool
  deriving DecidableEq, Repr

/-- The composition functions `Shader::ShaderMatFunc` used by this file. -/
inductive ShaderMatFunc
  | SMF_compose | SMF_first
  deriving DecidableEq, Repr

/-- The state parts `Shader::ShaderMatInput` named by this file. -/
inductive ShaderMatInput
  | SMO_identity
  | SMO_model_to_apiview | SMO_apiview_to_model
  | SMO_apiview_to_apiclip | SMO_apiclip_to_apiview
  | SMO_model_to_view | SMO_view_to_model
  | SMO_world_to_view | SMO_view_to_world
  | SMO_view_to_apiview | SMO_apiview_to_view
  | SMO_view_to_apiclip | SMO_apiclip_to_view
  | SMO_texmat_i | SMO_inv_texmat_i
  | SMO_light_source_i_attrib | SMO_light_ambient
  | SMO_attr_material | SMO_attr_material2
  | SMO_attr_color | SMO_attr_colorscale
  | SMO_attr_fog | SMO_attr_fogcolor
  | SMO_apiview_clipplane_i | SMO_tex_is_alpha_i
  | SMO_frame_time | SMO_frame_delta
  | SMO_mat_constant_x | SMO_mat_constant_x_attrib | SMO_vec_constant_x_attrib
  | SMO_INVALID
  deriving DecidableEq, Repr

/-- The pieces `Shader::ShaderMatPiece`; `SMP_INVALID` stands for a `_piece`
that was never assigned. -/
inductive ShaderMatPiece
  | SMP_whole | SMP_transpose
  | SMP_row0 | SMP_row1 | SMP_row2 | SMP_row3
  | SMP_col0 | SMP_col1 | SMP_col2 | SMP_col3
  | SMP_row3x1 | SMP_row3x2 | SMP_row3x3
  | SMP_upper3x3 | SMP_transpose3x3
  | SMP_cell15 | SMP_cell14 | SMP_cell13
  | SMP_INVALID
  deriving DecidableEq, Repr

/-- A C string or `std::string`, as its list of characters. -/
abbrev CStr := List Char

/-- A `Shader::ShaderMatSpec`: `_id._name`, `_id._location`, `_func`, `_part`,
`_arg` (`none` is `nullptr`), `_piece`, `_index` and `_dep`. -/
structure ShaderMatSpec where
  name : CStr := []
  location : Int := 0
  func : ShaderMatFunc := ShaderMatFunc.SMF_compose
  part0 : ShaderMatInput := ShaderMatInput.SMO_INVALID
  part1 : ShaderMatInput := ShaderMatInput.SMO_INVALID
  arg0 : Option CStr := none
  arg1 : Option CStr := none
  piece : ShaderMatPiece := ShaderMatPiece.SMP_INVALID
  index : Int := 0
  dep : Nat := 0
  deriving DecidableEq, Repr

/-- A `Shader::ShaderPtrSpec`: `_id`, `_dim[0..2]` (each a `uint32_t`), `_type`
and `_arg`. -/
structure ShaderPtrSpec where
  name : CStr := []
  location : Int := 0
  dim0 : Nat := 1
  dim1 : Nat := 1
  dim2 : Nat := 1
  type : ScalarType := ScalarType.ST_unknown
  arg : CStr := []
  deriving DecidableEq, Repr

/-- A `Shader::ShaderPtrData`: the numeric kind `_type` of the supplied buffer
and the scalars `_ptr` points to; `_size` counts them. -/
structure ShaderPtrData where
  type : ScalarType
  ptr : List Int
  deriving DecidableEq, Repr

/-- The field `_size` of a `ShaderPtrData`: the number of scalars supplied. -/
def ShaderPtrData.size (d : ShaderPtrData) : Nat := d.ptr.length

/-- The place of the source a trace entry comes from: the `osg_FrameNumber`
push, the body of the pointer-data loop for table index `i`, the body of the
matrix/state loop for table index `i`, or the function body outside the loops. -/
inductive Origin
  | frame
  | ptr (i : Nat)
  | mat (i : Nat)
  | body
  deriving DecidableEq, Repr

/-- Driver calls, graphics-state-guardian calls and log output of
`issue_parameters`.  A pointer argument is recorded as the scalars found from
that address on. -/
inductive GLCall
  | glUniform1i (p : Int) (v : Int)
  | glUniformfv (n : Nat) (p : Int) (count : Int) (data : List Int)
  | glUniformMatrixfv (n : Nat) (p : Int) (count : Int) (transpose : Bool) (data : List Int)
  | glUniformiv (n : Nat) (p : Int) (count : Int) (data : List Int)
  | glUniformuiv (n : Nat) (p : Int) (count : Int) (data : List Int)
  | glUniform4f (p : Int) (a b c d : Int)
  | fetch_ptr_parameter (spec : ShaderPtrSpec)
  | update_shader_matrix_cache (altered : Nat)
  | fetch_specified_value (spec : ShaderMatSpec)
  | error (msg : String) (name : CStr)
  | assertion_failed
  | division_by_zero
  | glDetachShader (program : Nat) (handle : Nat)
  | glDeleteProgram (program : Nat)
  | glDeleteShader (handle : Nat)
  | report_my_gl_errors
  deriving DecidableEq, Repr

/-- A trace: the calls of one run in program order, each with its origin. -/
abbrev Trace := List (Origin × GLCall)

/-- Whether a call pushes a uniform value to the driver. -/
def GLCall.is_push : GLCall → Bool
  | .glUniform1i _ _ => true
  | .glUniformfv _ _ _ _ => true
  | .glUniformMatrixfv _ _ _ _ _ => true
  | .glUniformiv _ _ _ _ => true
  | .glUniformuiv _ _ _ _ => true
  | .glUniform4f _ _ _ _ _ => true
  | _ => false

/-- Whether a call is a `GLCAT.error()` report. -/
def GLCall.is_error : GLCall → Bool
  | .error _ _ => true
  | _ => false

/-- The scalars the driver reads for a `count`-element upload of `n`-scalar
elements from the address whose contents are `data`. -/
def scalars_read (n : Nat) (count : Int) (data : List Int) : List Int :=
  data.take (count.toNat * n)

/-- The texture types `Texture::TT_*` named by this file. -/
inductive TextureType
  | TT_1d_texture | TT_2d_texture | TT_3d_texture | TT_2d_texture_array
  | TT_cube_map | TT_buffer_texture | TT_cube_map_array | TT_1d_texture_array
  deriving DecidableEq, Repr

/-- The texture sources `Shader::ShaderTexInput` used by this file. -/
inductive ShaderTexInput
  | STO_named_input | STO_stage_i | STO_light_i_shadow_map
  deriving DecidableEq, Repr

/-- A `Shader::ShaderTexSpec`: `_id._name`, `_id._location`, `_part`, `_name`
(`none` is the null name), `_stage` and `_desired_type`. -/
structure ShaderTexSpec where
  name : CStr := []
  location : Int := 0
  part : ShaderTexInput := ShaderTexInput.STO_named_input
  input_name : Option CStr := none
  stage : Int := 0
  desired_type : TextureType := TextureType.TT_2d_texture
  deriving DecidableEq, Repr

/-- An `ImageInput` of `_glsl_img_inputs`: `_name`, `_gtc` (the `_index` of the
texture context, `none` for `nullptr`) and `_writable`. -/
structure ImageInput where
  name : CStr := []
  gtc : Option Nat := none
  writable : Bool := false
  deriving DecidableEq, Repr

/-- A `Shader::ShaderImgSpec`: `_id._name`, `_id._location`, the input `_name`
and `_writable`. -/
structure ShaderImgSpec where
  id_name : CStr := []
  location : Int := 0
  name : CStr := []
  writable : Bool := false
  deriving DecidableEq, Repr

/-- The `Shader` tables and flags used by this file. -/
structure Shader where
  ptr_spec : List ShaderPtrSpec := []
  mat_spec : List ShaderMatSpec := []
  tex_spec : List ShaderTexSpec := []
  img_spec : List ShaderImgSpec := []
  mat_deps : Nat := 0
  error_flag : Bool := false
  deriving DecidableEq, Repr

/-- The fields of the shader context used by `set_state_and_transform`,
`issue_parameters`, `release_resources`, `valid` and the vertex array
functions.  `_state_rs` and `_shader_attrib` are weak pointers: the address they
were set to, whether or not the object is still alive.  `_enabled_attribs` is a
`BitMask32`, kept as the number whose binary digits are its bits;
`_glsl_uniform_handles` is the map from texture location to resident handle,
kept as an association list. -/
structure Context where
  shader : Shader := {}
  has_glgsg : Bool := true
  glsl_program : Nat := 0
  modules : List Nat := []
  uniform_location_map : List Int := []
  frame_number_loc : Int := -1
  frame_number : Int := -1
  modelview_transform : Option Nat := none
  camera_transform : Option Nat := none
  projection_transform : Option Nat := none
  state_rs : Option Nat := none
  color_attrib : Option Nat := none
  shader_attrib : Option Nat := none
  enabled_attribs : Nat := 0
  color_attrib_index : Int := -1
  transform_table_index : Int := -1
  transform_table_size : Nat := 0
  slider_table_index : Int := -1
  slider_table_size : Nat := 0
  glsl_img_inputs : List ImageInput := []
  glsl_uniform_handles : List (Int × Nat) := []
  validated : Bool := true
  deriving DecidableEq, Repr

/-- The state dependency bits `Shader::SSD_*`; their values are declared in
`shader.h`, which is not part of the sources, so they are parameters. -/
structure ShaderStateDep where
  SSD_general : Nat
  SSD_transform : Nat
  SSD_color : Nat
  SSD_colorscale : Nat
  SSD_material : Nat
  SSD_shaderinputs : Nat
  SSD_fog : Nat
  SSD_light : Nat
  SSD_clip_planes : Nat
  SSD_tex_matrix : Nat
  SSD_frame : Nat
  SSD_projection : Nat
  SSD_texture : Nat
  SSD_view_transform : Nat

/-- The graphics state guardian as seen by `issue_parameters`:
`fetch_ptr_parameter` (`none` when it returns false), `fetch_specified_value`
after the cache update for `altered` (`none` is a null result, otherwise the 16
scalars of the matrix) and the C conversion of a scalar of a given kind to
`float`. -/
structure GSG where
  ssd : ShaderStateDep
  fetch_ptr_parameter : ShaderPtrSpec → Option ShaderPtrData
  fetch_specified_value : ShaderMatSpec → Nat → Option (List Int)
  to_float : ScalarType → Int → Int

/-- Modelled from the spec: `get_uniform_location` is defined in
`glShaderContext_src.I`, which is not part of the sources.  The spec's
remapping layer maps a declared slot to the slot the driver assigned, "not
found" being a negative location; `_uniform_location_map` is the vector that
`r_query_uniform_locations` pads with `-1`. -/
def get_uniform_location (map : List Int) (seqno : Int) : Int :=
  if seqno < 0 then -1 else map.getD seqno.toNat (-1)

/-- Modelled from the spec: `set_uniform_location` is defined in
`glShaderContext_src.I`, which is not part of the sources.  It pads the map with
`-1` up to the declared slot and stores the driver location there; a negative
slot is not a slot and leaves the map alone. -/
def set_uniform_location (map : List Int) (seqno : Int) (location : Int) : List Int :=
  if seqno < 0 then map
  else (map ++ List.replicate (seqno.toNat + 1 - map.length) (-1)).set seqno.toNat location

/-- The value of a `uint32_t` converted to `int`. -/
def to_int32 (x : Nat) : Int :=
  if x % 4294967296 < 2147483648 then ((x % 4294967296 : Nat) : Int)
  else ((x % 4294967296 : Nat) : Int) - 4294967296

/-- The function `release_resources`: the calls it makes and the context it leaves. -/
def release_resources (ctx : Context) : Context × List GLCall :=
  if !ctx.has_glgsg then (ctx, [])
  else
    let detach : List GLCall :=
      if ctx.glsl_program != 0 then
        ctx.modules.map (fun h => GLCall.glDetachShader ctx.glsl_program h)
          ++ [GLCall.glDeleteProgram ctx.glsl_program]
      else []
    let delete : List GLCall := ctx.modules.map GLCall.glDeleteShader
    ({ ctx with glsl_program := 0, modules := [] },
      detach ++ delete ++ [GLCall.report_my_gl_errors])

/-- The function `valid`. -/
def valid (ctx : Context) : Bool :=
  if ctx.shader.error_flag then false else ctx.glsl_program != 0

/-! ## `issue_parameters` -/

/-- What the body of a loop iteration does next: go on with the loop
(`continue`, `break` out of the `switch`, or falling off its end) or leave
`issue_parameters` (`return`, or a crash). -/
inductive Flow
  | next
  | stop
  deriving DecidableEq, Repr

/-- The push at the end of the float branch: `switch (dim)` at lines 2231-2239. -/
def push_float (dim : Nat) (p : Int) (array_size : Int) (data : List Int) : GLCall :=
  if dim = 1 then GLCall.glUniformfv 1 p array_size data
  else if dim = 2 then GLCall.glUniformfv 2 p array_size data
  else if dim = 3 then GLCall.glUniformfv 3 p array_size data
  else if dim = 4 then GLCall.glUniformfv 4 p array_size data
  else if dim = 9 then GLCall.glUniformMatrixfv 3 p array_size false data
  else if dim = 16 then GLCall.glUniformMatrixfv 4 p array_size false data
  else GLCall.assertion_failed

/-- The push of the `ST_int` branch: `switch (spec._dim[1] * spec._dim[2])` at
lines 2254-2260. -/
def push_int (dim : Nat) (p : Int) (array_size : Int) (data : List Int) : GLCall :=
  if dim = 1 then GLCall.glUniformiv 1 p array_size data
  else if dim = 2 then GLCall.glUniformiv 2 p array_size data
  else if dim = 3 then GLCall.glUniformiv 3 p array_size data
  else if dim = 4 then GLCall.glUniformiv 4 p array_size data
  else GLCall.assertion_failed

/-- The push of the `ST_uint` branch: lines 2275-2281. -/
def push_uint (dim : Nat) (p : Int) (array_size : Int) (data : List Int) : GLCall :=
  if dim = 1 then GLCall.glUniformuiv 1 p array_size data
  else if dim = 2 then GLCall.glUniformuiv 2 p array_size data
  else if dim = 3 then GLCall.glUniformuiv 3 p array_size data
  else if dim = 4 then GLCall.glUniformuiv 4 p array_size data
  else GLCall.assertion_failed

/-- The float data handed to the driver by the `ST_bool`/`ST_float` branch
(lines 2196-2229): a converted copy of the first `array_size * dim` scalars for
int, uint and double sources, the buffer itself for a float source, and `none`
where the source reaches `nassertd(false)`. -/
def float_data (gsg : GSG) (pd : ShaderPtrData) (array_size : Nat) (dim : Nat) :
    Option (List Int) :=
  match pd.type with
  | ScalarType.ST_int =>
      some ((pd.ptr.take ((array_size * dim) % 4294967296)).map (gsg.to_float ScalarType.ST_int))
  | ScalarType.ST_uint =>
      some ((pd.ptr.take ((array_size * dim) % 4294967296)).map (gsg.to_float ScalarType.ST_uint))
  | ScalarType.ST_double =>
      some ((pd.ptr.take ((array_size * dim) % 4294967296)).map (gsg.to_float ScalarType.ST_double))
  | ScalarType.ST_float => some pd.ptr
  | _ => none

/-- What one iteration of the loop over `_ptr_spec` comes to, after the call of
`fetch_ptr_parameter`. -/
inductive PtrOutcome
  | fetch_failed
  | assert_dim
  | skip
  | div_zero
  | call (c : GLCall)
  | deactivate (c : GLCall)
  | nothing
  deriving DecidableEq, Repr

/-- The `switch (spec._type)` of lines 2192-2295, for a live location `p`, a
non-zero `dim` and the element count `array_size_u`. -/
def ptr_switch (gsg : GSG) (spec : ShaderPtrSpec) (ptr_data : ShaderPtrData) (p : Int)
    (dim : Nat) (array_size_u : Nat) : PtrOutcome :=
  match spec.type with
  | ScalarType.ST_bool =>
      match float_data gsg ptr_data array_size_u dim with
      | none => PtrOutcome.call GLCall.assertion_failed
      | some data => PtrOutcome.call (push_float dim p (to_int32 array_size_u) data)
  | ScalarType.ST_float =>
      match float_data gsg ptr_data array_size_u dim with
      | none => PtrOutcome.call GLCall.assertion_failed
      | some data => PtrOutcome.call (push_float dim p (to_int32 array_size_u) data)
  | ScalarType.ST_int =>
      if ptr_data.type ≠ ScalarType.ST_int ∧ ptr_data.type ≠ ScalarType.ST_uint then
        PtrOutcome.deactivate
          (GLCall.error "Cannot pass floating-point data to integer shader input" spec.name)
      else PtrOutcome.call (push_int dim p (to_int32 array_size_u) ptr_data.ptr)
  | ScalarType.ST_uint =>
      if ptr_data.type ≠ ScalarType.ST_uint ∧ ptr_data.type ≠ ScalarType.ST_int then
        PtrOutcome.deactivate
          (GLCall.error "Cannot pass floating-point data to integer shader input" spec.name)
      else PtrOutcome.call (push_uint dim p (to_int32 array_size_u) ptr_data.ptr)
  | ScalarType.ST_double =>
      PtrOutcome.deactivate
        (GLCall.error "Passing double-precision shader inputs to shaders is not currently supported" [])
  | ScalarType.ST_unknown => PtrOutcome.nothing

/-- The decisions of the body of the loop over `_ptr_spec` (lines 2175-2295):
`fetch_ptr_parameter`, `nassertd(spec._dim[1] > 0)`, the location test, the
element count `min(spec._dim[0], (uint32_t)(ptr_data._size / dim))` and the
`switch` on the destination kind. -/
def ptr_outcome (gsg : GSG) (map : List Int) (spec : ShaderPtrSpec) : PtrOutcome :=
  match gsg.fetch_ptr_parameter spec with
  | none => PtrOutcome.fetch_failed
  | some ptr_data =>
      if spec.dim1 = 0 then PtrOutcome.assert_dim
      else if get_uniform_location map spec.location < 0 then PtrOutcome.skip
      else if (spec.dim1 * spec.dim2) % 4294967296 = 0 then PtrOutcome.div_zero
      else
        ptr_switch gsg spec ptr_data (get_uniform_location map spec.location)
          ((spec.dim1 * spec.dim2) % 4294967296)
          (min spec.dim0 ((ptr_data.size / ((spec.dim1 * spec.dim2) % 4294967296)) % 4294967296))

/-- The body of the loop over `_ptr_spec` (lines 2175-2295) for table index `i`:
what the loop does next, the context it leaves and the calls it makes.  A failed
fetch runs `release_resources` and returns; a conversion error deactivates the
location with `set_uniform_location(spec._id._location, -1)`. -/
def issue_ptr_binding (gsg : GSG) (ctx : Context) (i : Nat) (spec : ShaderPtrSpec) :
    Flow × Context × Trace :=
  match ptr_outcome gsg ctx.uniform_location_map spec with
  | PtrOutcome.fetch_failed =>
      (Flow.stop, (release_resources ctx).1,
        (Origin.ptr i, GLCall.fetch_ptr_parameter spec)
          :: (release_resources ctx).2.map (fun c => (Origin.ptr i, c)))
  | PtrOutcome.assert_dim =>
      (Flow.next, ctx,
        [(Origin.ptr i, GLCall.fetch_ptr_parameter spec), (Origin.ptr i, GLCall.assertion_failed)])
  | PtrOutcome.skip => (Flow.next, ctx, [(Origin.ptr i, GLCall.fetch_ptr_parameter spec)])
  | PtrOutcome.div_zero =>
      (Flow.stop, ctx,
        [(Origin.ptr i, GLCall.fetch_ptr_parameter spec), (Origin.ptr i, GLCall.division_by_zero)])
  | PtrOutcome.call c =>
      (Flow.next, ctx, [(Origin.ptr i, GLCall.fetch_ptr_parameter spec), (Origin.ptr i, c)])
  | PtrOutcome.deactivate c =>
      (Flow.next,
        { ctx with uniform_location_map :=
            set_uniform_location ctx.uniform_location_map spec.location (-1) },
        [(Origin.ptr i, GLCall.fetch_ptr_parameter spec), (Origin.ptr i, c)])
  | PtrOutcome.nothing => (Flow.next, ctx, [(Origin.ptr i, GLCall.fetch_ptr_parameter spec)])

/-- The loop over `_ptr_spec` (lines 2174-2296), from table index `i` on. -/
def issue_ptr_loop (gsg : GSG) : Context → Nat → List ShaderPtrSpec → Flow × Context × Trace
  | ctx, _, [] => (Flow.next, ctx, [])
  | ctx, i, spec :: rest =>
      match issue_ptr_binding gsg ctx i spec with
      | (Flow.stop, ctx1, t) => (Flow.stop, ctx1, t)
      | (Flow.next, ctx1, t) =>
          match issue_ptr_loop gsg ctx1 (i + 1) rest with
          | (f, ctx2, t2) => (f, ctx2, t ++ t2)

/-- The scalar `data[k]` of a matrix value. -/
def mat_at (val : List Int) (k : Nat) : Int := val.getD k 0

/-- The value of `LMatrix4::get_upper_3`, row by row. -/
def get_upper_3 (val : List Int) : List Int :=
  [mat_at val 0, mat_at val 1, mat_at val 2, mat_at val 4, mat_at val 5, mat_at val 6,
   mat_at val 8, mat_at val 9, mat_at val 10]

/-- The `switch (spec._piece)` of lines 2323-2366: the push made for a piece,
`none` where no case matches. -/
def push_piece (piece : ShaderMatPiece) (p : Int) (val : List Int) : Option GLCall :=
  match piece with
  | ShaderMatPiece.SMP_whole => some (GLCall.glUniformMatrixfv 4 p 1 false val)
  | ShaderMatPiece.SMP_transpose => some (GLCall.glUniformMatrixfv 4 p 1 true val)
  | ShaderMatPiece.SMP_col0 =>
      some (GLCall.glUniform4f p (mat_at val 0) (mat_at val 4) (mat_at val 8) (mat_at val 12))
  | ShaderMatPiece.SMP_col1 =>
      some (GLCall.glUniform4f p (mat_at val 1) (mat_at val 5) (mat_at val 9) (mat_at val 13))
  | ShaderMatPiece.SMP_col2 =>
      some (GLCall.glUniform4f p (mat_at val 2) (mat_at val 6) (mat_at val 10) (mat_at val 14))
  | ShaderMatPiece.SMP_col3 =>
      some (GLCall.glUniform4f p (mat_at val 3) (mat_at val 7) (mat_at val 11) (mat_at val 15))
  | ShaderMatPiece.SMP_row0 => some (GLCall.glUniformfv 4 p 1 (val.drop 0))
  | ShaderMatPiece.SMP_row1 => some (GLCall.glUniformfv 4 p 1 (val.drop 4))
  | ShaderMatPiece.SMP_row2 => some (GLCall.glUniformfv 4 p 1 (val.drop 8))
  | ShaderMatPiece.SMP_row3 => some (GLCall.glUniformfv 4 p 1 (val.drop 12))
  | ShaderMatPiece.SMP_row3x1 => some (GLCall.glUniformfv 1 p 1 (val.drop 12))
  | ShaderMatPiece.SMP_row3x2 => some (GLCall.glUniformfv 2 p 1 (val.drop 12))
  | ShaderMatPiece.SMP_row3x3 => some (GLCall.glUniformfv 3 p 1 (val.drop 12))
  | ShaderMatPiece.SMP_upper3x3 => some (GLCall.glUniformMatrixfv 3 p 1 false (get_upper_3 val))
  | ShaderMatPiece.SMP_transpose3x3 => some (GLCall.glUniformMatrixfv 3 p 1 true (get_upper_3 val))
  | ShaderMatPiece.SMP_cell15 => some (GLCall.glUniformfv 1 p 1 (val.drop 15))
  | ShaderMatPiece.SMP_cell14 => some (GLCall.glUniformfv 1 p 1 (val.drop 14))
  | ShaderMatPiece.SMP_cell13 => some (GLCall.glUniformfv 1 p 1 (val.drop 13))
  | ShaderMatPiece.SMP_INVALID => none

/-- The body of the loop over `_mat_spec` (lines 2302-2367) for table index `i`. -/
def issue_mat_binding (gsg : GSG) (ctx : Context) (altered : Nat) (i : Nat)
    (spec : ShaderMatSpec) : Trace :=
  if altered &&& spec.dep = 0 then []
  else
    match gsg.fetch_specified_value spec altered with
    | none => [(Origin.mat i, GLCall.fetch_specified_value spec)]
    | some val =>
        let p := get_uniform_location ctx.uniform_location_map spec.location
        if p < 0 then [(Origin.mat i, GLCall.fetch_specified_value spec)]
        else
          match push_piece spec.piece p val with
          | none => [(Origin.mat i, GLCall.fetch_specified_value spec)]
          | some c => [(Origin.mat i, GLCall.fetch_specified_value spec), (Origin.mat i, c)]

/-- The loop over `_mat_spec` (lines 2302-2367), from table index `i` on. -/
def issue_mat_loop (gsg : GSG) (ctx : Context) (altered : Nat) : Nat → List ShaderMatSpec → Trace
  | _, [] => []
  | i, spec :: rest =>
      issue_mat_binding gsg ctx altered i spec ++ issue_mat_loop gsg ctx altered (i + 1) rest

/-- The matrix/state part of `issue_parameters` (lines 2299-2370), with the
closing `report_my_gl_errors`. -/
def issue_mat_section (gsg : GSG) (ctx : Context) (altered : Nat) : Trace :=
  (if altered &&& ctx.shader.mat_deps ≠ 0 then
    (Origin.body, GLCall.update_shader_matrix_cache altered)
      :: issue_mat_loop gsg ctx altered 0 ctx.shader.mat_spec
   else [])
  ++ [(Origin.body, GLCall.report_my_gl_errors)]

/-- The function `issue_parameters(altered)`: the context it leaves and its trace. -/
def issue_parameters (gsg : GSG) (ctx : Context) (altered : Nat) : Context × Trace :=
  if altered &&& (gsg.ssd.SSD_shaderinputs ||| gsg.ssd.SSD_frame) ≠ 0 then
    let frame : Trace :=
      if altered &&& gsg.ssd.SSD_frame ≠ 0 ∧ ctx.frame_number_loc ≥ 0 then
        [(Origin.frame, GLCall.glUniform1i ctx.frame_number_loc ctx.frame_number)]
      else []
    match issue_ptr_loop gsg ctx 0 ctx.shader.ptr_spec with
    | (Flow.stop, ctx1, t) => (ctx1, frame ++ t)
    | (Flow.next, ctx1, t) => (ctx1, frame ++ t ++ issue_mat_section gsg ctx1 altered)
  else (ctx, issue_mat_section gsg ctx altered)

/-- A sequence of `issue_parameters` calls on one context, each with the
guardian state and the mask of its draw: the final context and the traces. -/
def issue_parameters_seq : Context → List (GSG × Nat) → Context × List Trace
  | ctx, [] => (ctx, [])
  | ctx, (gsg, altered) :: rest =>
      let r := issue_parameters gsg ctx altered
      let rs := issue_parameters_seq r.1 rest
      (rs.1, r.2 :: rs.2)

/-- The error reports of binding `j` in a trace. -/
def count_errors (j : Nat) (t : Trace) : Nat :=
  t.countP (fun e => decide (e.1 = Origin.ptr j) && e.2.is_error)

/-! ## Sample inputs -/

/-- The values of the `Shader::SSD_*` bits used in the sample inputs. -/
def sample_ssd : ShaderStateDep :=
  { SSD_general := 0x001, SSD_transform := 0x2002, SSD_color := 0x004,
    SSD_colorscale := 0x008, SSD_material := 0x010, SSD_shaderinputs := 0x020,
    SSD_fog := 0x040, SSD_light := 0x080, SSD_clip_planes := 0x100,
    SSD_tex_matrix := 0x200, SSD_frame := 0x400, SSD_projection := 0x800,
    SSD_texture := 0x1000, SSD_view_transform := 0x2000 }

/-- A sample guardian: every pointer input is the int buffer `[7, 8, 9]`, every
matrix value is `0 .. 15` and the conversion to float keeps the value. -/
def sample_gsg : GSG :=
  { ssd := sample_ssd
    fetch_ptr_parameter := fun _ => some { type := ScalarType.ST_int, ptr := [7, 8, 9] }
    fetch_specified_value := fun _ _ => some (List.range 16 |>.map Int.ofNat)
    to_float := fun _ x => x }

/-- A sample guardian whose `fetch_ptr_parameter` fails for the input named `bad`
and supplies the float buffer `[1, 2, 3, 4]` otherwise. -/
def sample_gsg_failing : GSG :=
  { ssd := sample_ssd
    fetch_ptr_parameter := fun spec =>
      if spec.name = "bad".toList then none
      else some { type := ScalarType.ST_float, ptr := [1, 2, 3, 4] }
    fetch_specified_value := fun _ _ => some (List.range 16 |>.map Int.ofNat)
    to_float := fun _ x => x }

/-- A sample guardian that supplies the float buffer `[1, 2, 3, 4]` for every
pointer input. -/
def sample_gsg_float : GSG :=
  { ssd := sample_ssd
    fetch_ptr_parameter := fun _ => some { type := ScalarType.ST_float, ptr := [1, 2, 3, 4] }
    fetch_specified_value := fun _ _ => some (List.range 16 |>.map Int.ofNat)
    to_float := fun _ x => x }

/-- A sample matrix/state binding that depends on the color. -/
def sample_color_spec : ShaderMatSpec :=
  { name := "p3d_Color".toList, location := 0, func := ShaderMatFunc.SMF_first,
    part0 := ShaderMatInput.SMO_attr_color, part1 := ShaderMatInput.SMO_identity,
    piece := ShaderMatPiece.SMP_row3, dep := 0x004 }

/-- A sample matrix/state binding that depends on the fog. -/
def sample_fog_spec : ShaderMatSpec :=
  { name := "p3d_Fog.color".toList, location := 1, func := ShaderMatFunc.SMF_first,
    part0 := ShaderMatInput.SMO_attr_fogcolor, part1 := ShaderMatInput.SMO_identity,
    piece := ShaderMatPiece.SMP_row3, dep := 0x040 }

/-- A sample context: two matrix/state bindings, one depending on the color and
one on the fog. -/
def sample_ctx_mat : Context :=
  { shader := { mat_spec := [sample_color_spec, sample_fog_spec], mat_deps := 0x044 }
    glsl_program := 1
    modules := [10, 11]
    uniform_location_map := [0, 1] }

/-- A sample guardian that supplies the uint buffer `[7, 8, 9]` for every
pointer input. -/
def sample_gsg_uint : GSG :=
  { ssd := sample_ssd
    fetch_ptr_parameter := fun _ => some { type := ScalarType.ST_uint, ptr := [7, 8, 9] }
    fetch_specified_value := fun _ _ => some (List.range 16 |>.map Int.ofNat)
    to_float := fun _ x => x }

/-- A sample pointer-data binding: one `int` at location 0. -/
def sample_int_spec : ShaderPtrSpec :=
  { name := "count".toList, location := 0, dim0 := 1, dim1 := 1, dim2 := 1,
    type := ScalarType.ST_int, arg := "count".toList }

/-- A sample context whose only binding is `sample_int_spec`. -/
def sample_ctx_int : Context :=
  { shader := { ptr_spec := [sample_int_spec] }
    glsl_program := 1
    modules := [10, 11]
    uniform_location_map := [0] }

/-- The element count argument of an array upload. -/
def GLCall.count : GLCall → Int
  | .glUniformfv _ _ count _ => count
  | .glUniformMatrixfv _ _ count _ _ => count
  | .glUniformiv _ _ count _ => count
  | .glUniformuiv _ _ count _ => count
  | _ => 0

/-- The scalars the driver reads for an array upload: `count` elements of `n`
scalars for `glUniform{n}{f,i,ui}v`, of `n * n` scalars for
`glUniformMatrix{n}fv`, from the address passed. -/
def GLCall.uploaded : GLCall → List Int
  | .glUniformfv n _ count data => scalars_read n count data
  | .glUniformMatrixfv n _ count _ data => scalars_read (n * n) count data
  | .glUniformiv n _ count data => scalars_read n count data
  | .glUniformuiv n _ count data => scalars_read n count data
  | _ => []

/-- A sample pointer-data binding: an array of two `vec2` at location 0. -/
def sample_vec2_spec : ShaderPtrSpec :=
  { name := "offsets".toList, location := 0, dim0 := 2, dim1 := 1, dim2 := 2,
    type := ScalarType.ST_float, arg := "offsets".toList }

/-- A sample context whose only binding is `sample_vec2_spec`. -/
def sample_ctx_vec2 : Context :=
  { shader := { ptr_spec := [sample_vec2_spec] }
    glsl_program := 1
    modules := [10, 11]
    uniform_location_map := [0] }

/-- Whether a call is `update_shader_matrix_cache`. -/
def GLCall.is_cache_update : GLCall → Bool
  | .update_shader_matrix_cache _ => true
  | _ => false

/-- Whether a call is `fetch_specified_value`. -/
def GLCall.is_fetch_value : GLCall → Bool
  | .fetch_specified_value _ => true
  | _ => false

/-- A sample pointer-data binding whose input the failing guardian does not
supply. -/
def sample_bad_spec : ShaderPtrSpec :=
  { name := "bad".toList, location := 0, dim0 := 1, dim1 := 1, dim2 := 4,
    type := ScalarType.ST_float, arg := "bad".toList }

/-- A sample pointer-data binding: one `vec4` at location 1. -/
def sample_good_spec : ShaderPtrSpec :=
  { name := "good".toList, location := 1, dim0 := 1, dim1 := 1, dim2 := 4,
    type := ScalarType.ST_float, arg := "good".toList }

/-- A sample context with a linked program, the pointer-data bindings `bad` and
`good` and the color binding. -/
def sample_ctx_failing : Context :=
  { shader :=
      { ptr_spec := [sample_bad_spec, sample_good_spec]
        mat_spec := [sample_color_spec]
        mat_deps := 0x004 }
    glsl_program := 1
    modules := [10, 11]
    uniform_location_map := [0, 1] }

/-! ## `set_state_and_transform` -/

/-- The render attribute slots `set_state_and_transform` compares. -/
inductive AttribSlot
  | color | color_scale | material | fog | light | clip_plane | tex_matrix | texture
  deriving DecidableEq, Repr

/-- The objects `set_state_and_transform` looks at: which addresses hold a live
object, `RenderState::get_attrib(slot)` of the state at an address,
`RenderState::get_attrib_def` for the color attribute, the guardian's
`_target_shader` and the frame count of the global clock. -/
structure World where
  alive : Nat → Bool
  get_attrib : Nat → AttribSlot → Option Nat
  get_color_attrib_def : Nat → Option Nat
  target_shader : Option Nat
  frame_count : Int

/-- The result of `lock()` on a weak pointer: the address when the object is
still alive, `nullptr` otherwise. -/
def World.lock (w : World) (p : Option Nat) : Option Nat :=
  match p with
  | some a => if w.alive a then some a else none
  | none => none

/-- The result of `was_deleted()` on a weak pointer. -/
def World.was_deleted (w : World) (p : Option Nat) : Bool :=
  match p with
  | some a => !w.alive a
  | none => false

/-- The C expression `a & ~b` on non-negative `int` values. -/
def and_not (a b : Nat) : Nat := a &&& (4294967295 ^^^ b)

/-- The bit of an attribute slot in the changed-state mask (lines 2096-2128). -/
def attrib_bit (ssd : ShaderStateDep) : AttribSlot → Nat
  | AttribSlot.color => ssd.SSD_color
  | AttribSlot.color_scale => ssd.SSD_colorscale
  | AttribSlot.material => ssd.SSD_material
  | AttribSlot.fog => ssd.SSD_fog
  | AttribSlot.light => ssd.SSD_light
  | AttribSlot.clip_plane => ssd.SSD_clip_planes
  | AttribSlot.tex_matrix => ssd.SSD_tex_matrix
  | AttribSlot.texture => ssd.SSD_texture

/-- One comparison of lines 2096-2128: OR the bit of the slot into the mask when
the attribute of the stored state differs from the one of the target state. -/
def compare_attrib (ssd : ShaderStateDep) (w : World) (state_rs target_rs : Nat)
    (altered : Nat) (slot : AttribSlot) : Nat :=
  if w.get_attrib state_rs slot ≠ w.get_attrib target_rs slot then
    altered ||| attrib_bit ssd slot
  else altered

/-- Lines 2072-2085: the three transforms are compared by identity and captured. -/
def capture_transforms (ssd : ShaderStateDep) (ctx : Context)
    (modelview_transform camera_transform projection_transform : Option Nat) : Context × Nat :=
  let altered := 0
  let altered := if ctx.modelview_transform ≠ modelview_transform then
      altered ||| and_not ssd.SSD_transform ssd.SSD_view_transform else altered
  let altered := if ctx.camera_transform ≠ camera_transform then
      altered ||| ssd.SSD_transform else altered
  let altered := if ctx.projection_transform ≠ projection_transform then
      altered ||| ssd.SSD_projection else altered
  ({ ctx with modelview_transform := modelview_transform,
              camera_transform := camera_transform,
              projection_transform := projection_transform }, altered)

/-- Lines 2087-2130: the render state captured last time is locked and compared
with the target state, attribute by attribute. -/
def capture_render_state (ssd : ShaderStateDep) (w : World) (r : Context × Nat)
    (target_rs : Nat) : Context × Nat :=
  match w.lock r.1.state_rs with
  | none =>
      ({ r.1 with state_rs := some target_rs,
                  color_attrib := w.get_color_attrib_def target_rs },
        r.2 ||| ssd.SSD_general)
  | some state_rs =>
      if state_rs ≠ target_rs then
        let a1 := compare_attrib ssd w state_rs target_rs r.2 AttribSlot.color
        let color := if w.get_attrib state_rs AttribSlot.color
            ≠ w.get_attrib target_rs AttribSlot.color
          then w.get_color_attrib_def target_rs else r.1.color_attrib
        let a2 := compare_attrib ssd w state_rs target_rs a1 AttribSlot.color_scale
        let a3 := compare_attrib ssd w state_rs target_rs a2 AttribSlot.material
        let a4 := compare_attrib ssd w state_rs target_rs a3 AttribSlot.fog
        let a5 := compare_attrib ssd w state_rs target_rs a4 AttribSlot.light
        let a6 := compare_attrib ssd w state_rs target_rs a5 AttribSlot.clip_plane
        let a7 := compare_attrib ssd w state_rs target_rs a6 AttribSlot.tex_matrix
        let a8 := compare_attrib ssd w state_rs target_rs a7 AttribSlot.texture
        ({ r.1 with state_rs := some target_rs, color_attrib := color }, a8)
      else r

/-- Lines 2132-2135: the shader attribute captured last time is compared with
the guardian's target shader attribute. -/
def capture_shader_attrib (ssd : ShaderStateDep) (w : World) (r : Context × Nat) :
    Context × Nat :=
  if r.1.shader_attrib ≠ w.target_shader ∨ w.was_deleted r.1.shader_attrib = true then
    ({ r.1 with shader_attrib := w.target_shader }, r.2 ||| ssd.SSD_shaderinputs)
  else r

/-- Lines 2137-2142: the frame count is compared with the one captured last time. -/
def capture_frame (ssd : ShaderStateDep) (w : World) (r : Context × Nat) : Context × Nat :=
  if w.frame_count ≠ r.1.frame_number then
    ({ r.1 with frame_number := w.frame_count }, r.2 ||| ssd.SSD_frame)
  else r

/-- Lines 2071-2142 of `set_state_and_transform`: the changed-state mask and the
context with the captured state. -/
def set_state_and_transform_mask (ssd : ShaderStateDep) (w : World) (ctx : Context)
    (target_rs : Nat) (modelview_transform camera_transform projection_transform : Option Nat) :
    Context × Nat :=
  capture_frame ssd w
    (capture_shader_attrib ssd w
      (capture_render_state ssd w
        (capture_transforms ssd ctx modelview_transform camera_transform projection_transform)
        target_rs))

/-- The function `set_state_and_transform`: the context it leaves, the mask it
computed and the trace of `issue_parameters`, `none` when it was not invoked. -/
def set_state_and_transform (gsg : GSG) (w : World) (ctx : Context) (target_rs : Nat)
    (modelview_transform camera_transform projection_transform : Option Nat) :
    Context × Nat × Option Trace :=
  let r := set_state_and_transform_mask gsg.ssd w ctx target_rs modelview_transform
    camera_transform projection_transform
  if r.2 ≠ 0 then
    ((issue_parameters gsg r.1 r.2).1, r.2, some (issue_parameters gsg r.1 r.2).2)
  else (r.1, r.2, none)

/-- A sample world: everything alive, state 1 has the color attribute 100 and
state 2 the color attribute 200, the target shader attribute is 7, frame 5. -/
def sample_world : World :=
  { alive := fun _ => true
    get_attrib := fun s slot =>
      if slot = AttribSlot.color then (if s = 1 then some 100 else some 200) else none
    get_color_attrib_def := fun s => if s = 1 then some 100 else some 200
    target_shader := some 7
    frame_count := 5 }

/-- A sample context that has captured state 1, the transforms 30, 40 and 50,
the shader attribute 7 and frame 5. -/
def sample_ctx_sync : Context :=
  { shader := { mat_spec := [sample_color_spec, sample_fog_spec], mat_deps := 0x044 }
    glsl_program := 1
    modules := [10, 11]
    uniform_location_map := [0, 1]
    frame_number := 5
    modelview_transform := some 30
    camera_transform := some 40
    projection_transform := some 50
    state_rs := some 1
    color_attrib := some 100
    shader_attrib := some 7 }

/-! ## Vertex arrays: `update_transform_table`, `update_slider_table`,
`update_shader_vertex_arrays` -/

/-- Driver calls and log output of the vertex array functions.  A matrix is the
list of its 16 scalars. -/
inductive VertexCall
  | glBindVertexBuffer (index : Nat) (buffer : Nat) (offset : Int) (stride : Int)
  | glVertexAttrib4fv (index : Int) (color : List Int)
  | glEnableVertexAttribArray (index : Nat)
  | glDisableVertexAttribArray (index : Nat)
  | glUniformMatrix4fv (p : Int) (count : Nat) (transpose : Bool) (matrices : List (List Int))
  | glUniform1fv (p : Int) (count : Nat) (values : List Int)
  | assertion_failed
  | report_my_gl_errors
  deriving DecidableEq, Repr

/-- The value of `LMatrix4f::ident_mat()`. -/
def ident_mat : List Int := [1, 0, 0, 0, 0, 1, 0, 0, 0, 0, 1, 0, 0, 0, 0, 1]

/-- The function `update_transform_table(table)`: `table` is `none` for
`nullptr`, otherwise the matrices `get_transform(i)->get_matrix` yields.  The
first loop copies `min(_transform_table_size, get_num_transforms())` matrices,
the second fills the rest with the identity. -/
def update_transform_table (ctx : Context) (table : Option (List (List Int))) : List VertexCall :=
  let copied : List (List Int) :=
    match table with
    | some t => t.take (min ctx.transform_table_size t.length)
    | none => []
  let matrices := copied ++ List.replicate (ctx.transform_table_size - copied.length) ident_mat
  [VertexCall.glUniformMatrix4fv ctx.transform_table_index ctx.transform_table_size false matrices]

/-- The function `update_slider_table(table)`: the buffer is cleared with
`memset`, then the first `min(_slider_table_size, get_num_sliders())` sliders
are copied. -/
def update_slider_table (ctx : Context) (table : Option (List Int)) : List VertexCall :=
  let copied : List Int :=
    match table with
    | some t => t.take (min ctx.slider_table_size t.length)
    | none => []
  let sliders := copied ++ List.replicate (ctx.slider_table_size - copied.length) 0
  [VertexCall.glUniform1fv ctx.slider_table_index ctx.slider_table_size sliders]

/-- One array of the data reader: the `_index` of the vertex buffer context
`prepare_now` yields (`none` for a null context), the result of
`update_vertex_buffer` and the stride of the array format. -/
structure VertexArrayInfo where
  gvbc : Option Nat
  update_ok : Bool
  stride : Int
  deriving DecidableEq, Repr

/-- The guardian state the vertex array update reads and writes. -/
structure VertexGSG where
  use_vertex_attrib_binding : Bool
  current_vertex_buffers : List Nat
  enabled_vertex_attrib_arrays : Nat
  arrays : List VertexArrayInfo
  color_is_vertex : Bool
  color : List Int
  transform_table : Option (List (List Int))
  slider_table : Option (List Int)
  deriving DecidableEq, Repr

/-- Lines 2461-2484: every array is prepared, updated and bound to its binding
index unless that index already holds the buffer; `none` when the function
returns false. -/
def bind_vertex_buffers : List Nat → Nat → List VertexArrayInfo →
    Option (List Nat × List VertexCall)
  | current, _, [] => some (current, [])
  | current, ai, a :: rest =>
      match a.gvbc with
      | none => none
      | some index =>
          if !a.update_ok then none
          else
            let current1 := if ai ≥ current.length
              then current ++ List.replicate (ai + 1 - current.length) 0 else current
            let bound : List VertexCall := if current1.getD ai 0 ≠ index
              then [VertexCall.glBindVertexBuffer ai index 0 a.stride] else []
            let current2 := if current1.getD ai 0 ≠ index then current1.set ai index else current1
            match bind_vertex_buffers current2 (ai + 1) rest with
            | none => none
            | some (current3, calls) => some (current3, bound ++ calls)

/-- The value of `BitMask32::clear_bit(index)`; an index outside the mask fails
the assertion of the class and leaves the mask alone. -/
def clear_bit (mask : Nat) (index : Int) : Nat :=
  if 0 ≤ index ∧ index < 32 then mask &&& (4294967295 ^^^ (1 <<< index.toNat)) else mask

/-- Lines 2487-2492: the attributes to enable, the mask of the program without
the color attribute when vertex colors are disabled. -/
def desired_attribs (ctx : Context) (gsg : VertexGSG) : Nat :=
  if ctx.color_attrib_index ≠ -1 ∧ !gsg.color_is_vertex then
    clear_bit ctx.enabled_attribs ctx.color_attrib_index
  else ctx.enabled_attribs

/-- Lines 2500-2510: for each of the 32 slots whose bit differs between the
desired and the enabled mask, one enable or one disable call. -/
def toggle_attribs (enabled_attribs old_attribs : Nat) : List VertexCall :=
  (List.range 32).filterMap (fun i =>
    if (enabled_attribs ^^^ old_attribs).testBit i then
      if enabled_attribs.testBit i then some (VertexCall.glEnableVertexAttribArray i)
      else some (VertexCall.glDisableVertexAttribArray i)
    else none)

/-- The function `update_shader_vertex_arrays`, with the branch for
`_use_vertex_attrib_binding` (lines 2457-2511) embedded from the source.  The
other branch, the client-pointer setup of lines 2513-2601, is the parameter
`legacy`: the guardian state and the calls it yields, `none` when it returns
false.  The result is `none` when the function returns false. -/
def update_shader_vertex_arrays
    (legacy : Context → VertexGSG → Option (VertexGSG × List VertexCall))
    (ctx : Context) (gsg : VertexGSG) : Option (VertexGSG × List VertexCall) :=
  if ctx.glsl_program = 0 then some (gsg, [])
  else
    let path : Option (VertexGSG × List VertexCall) :=
      if gsg.use_vertex_attrib_binding then
        match bind_vertex_buffers gsg.current_vertex_buffers 0 gsg.arrays with
        | none => none
        | some (buffers, calls) =>
            let color : List VertexCall :=
              if ctx.color_attrib_index ≠ -1 ∧ !gsg.color_is_vertex then
                [VertexCall.glVertexAttrib4fv ctx.color_attrib_index gsg.color]
              else []
            some ({ gsg with current_vertex_buffers := buffers,
                             enabled_vertex_attrib_arrays := desired_attribs ctx gsg },
              calls ++ color
                ++ toggle_attribs (desired_attribs ctx gsg) gsg.enabled_vertex_attrib_arrays)
      else legacy ctx gsg
    match path with
    | none => none
    | some (gsg1, calls) =>
        let transform : List VertexCall :=
          if ctx.transform_table_index ≥ 0 then update_transform_table ctx gsg.transform_table
          else []
        let slider : List VertexCall :=
          if ctx.slider_table_index ≥ 0 then update_slider_table ctx gsg.slider_table else []
        some (gsg1, calls ++ transform ++ slider ++ [VertexCall.report_my_gl_errors])

/-- Whether a call enables or disables a vertex attribute array. -/
def VertexCall.is_toggle : VertexCall → Bool
  | .glEnableVertexAttribArray _ => true
  | .glDisableVertexAttribArray _ => true
  | _ => false

/-- A sample program context that needs the attribute slots 0, 1 and 2. -/
def sample_ctx_vertex : Context :=
  { glsl_program := 1, enabled_attribs := 0b0111 }

/-- A sample guardian state after a program that used the slots 0, 1 and 3, with
one vertex array already bound. -/
def sample_vertex_gsg : VertexGSG :=
  { use_vertex_attrib_binding := true
    current_vertex_buffers := [5]
    enabled_vertex_attrib_arrays := 0b1011
    arrays := [{ gvbc := some 5, update_ok := true, stride := 32 }]
    color_is_vertex := true
    color := [1, 1, 1, 1]
    transform_table := none
    slider_table := none }

/-! ## `update_shader_texture_bindings` -/

/-- The value of `GL_SHADER_IMAGE_ACCESS_BARRIER_BIT` in the OpenGL headers. -/
def GL_SHADER_IMAGE_ACCESS_BARRIER_BIT : Nat := 0x20

/-- The value of `GL_TEXTURE_FETCH_BARRIER_BIT` in the OpenGL headers. -/
def GL_TEXTURE_FETCH_BARRIER_BIT : Nat := 0x8

/-- The value of `GL_RGBA` in the OpenGL headers. -/
def GL_RGBA : Nat := 0x1908

/-- The value of `GL_RGB` in the OpenGL headers. -/
def GL_RGB : Nat := 0x1907

/-- The value of `GL_R8` in the OpenGL headers. -/
def GL_R8 : Nat := 0x8229

/-- The access modes passed to `glBindImageTexture`. -/
inductive ImageAccess
  | GL_READ_ONLY | GL_WRITE_ONLY | GL_READ_WRITE
  deriving DecidableEq, Repr

/-- A prepared texture, the `TextureContext` that `prepare_now` yields: its
`_index`, its `_internal_format`, the answers of `needs_barrier` for the image
access bit and for the texture fetch bit, the results of `update_texture` with
and without `force`, and `get_handle()`. -/
structure TextureContext where
  index : Nat
  internal_format : Nat
  needs_image_barrier : Bool
  needs_fetch_barrier : Bool
  update_forced_ok : Bool
  update_ok : Bool
  handle : Nat
  deriving DecidableEq, Repr

/-- A texture as the binding code sees it: its name, `get_texture_type()`, the
result of `prepare_now` (`none` for a null context) and the result of
`get_internal_image_format(tex, true)`. -/
structure Texture where
  name : CStr
  texture_type : TextureType
  gtc : Option TextureContext
  image_format : Nat
  deriving DecidableEq, Repr

/-- A `ParamTextureImage`. -/
structure ParamTextureImage where
  texture : Option Texture
  bind_layered : Bool
  bind_level : Int
  bind_layer : Int
  has_read_access : Bool
  has_write_access : Bool
  deriving DecidableEq, Repr

/-- The value of a shader input, by `get_value_type()`. -/
inductive ShaderInputValue
  | M_texture_image (param : ParamTextureImage)
  | M_texture (tex : Option Texture)
  | M_invalid
  | M_other
  deriving DecidableEq, Repr

/-- The result of `fetch_specified_texture`: the texture (`none` for a null
pointer) and the `_index` of the sampler context that `sampler.prepare_now`
yields (`none` for `nullptr`). -/
structure FetchedTexture where
  tex : Option Texture
  sampler : Option Nat
  deriving DecidableEq, Repr

/-- The guardian and the configuration as seen by
`update_shader_texture_bindings`. -/
structure TexGSG where
  supports_multi_bind : Bool
  supports_sampler_objects : Bool
  supports_bindless_texture : Bool
  gl_use_bindless_texture : Bool
  gl_force_image_bindings_writeonly : Bool
  max_image_units : Nat
  white_texture : Nat
  get_shader_input : CStr → ShaderInputValue
  fetch_specified_texture : ShaderTexSpec → FetchedTexture

/-- The place of the source an entry of a texture trace comes from: the image
loop at unit `i`, the texture loop at unit `i`, or the function body. -/
inductive TexOrigin
  | image (i : Nat)
  | texture (i : Nat)
  | body
  deriving DecidableEq, Repr

/-- Driver calls, guardian calls and log output of
`update_shader_texture_bindings`.  A texture context is named by its `_index`. -/
inductive TexCall
  | error (msg : String) (name : CStr)
  | update_texture (gtc : Nat) (force : Bool)
  | glBindImageTexture (unit : Nat) (texture : Nat) (level : Int) (layered : Bool)
      (layer : Int) (access : ImageAccess) (format : Nat)
  | apply_white_texture (unit : Nat)
  | set_active_texture_stage (unit : Nat)
  | apply_texture (gtc : Nat)
  | apply_sampler (unit : Nat) (gtc : Nat)
  | make_handle_resident (gtc : Nat)
  | set_active (gtc : Nat)
  | enqueue_lru (sampler : Nat)
  | glUniformHandleui64 (p : Int) (handle : Nat)
  | glBindTextures (first : Nat) (count : Nat) (textures : List Nat)
  | glBindSamplers (first : Nat) (count : Nat) (samplers : List Nat)
  | issue_memory_barrier (barriers : Nat)
  | report_my_gl_errors
  deriving DecidableEq, Repr

/-- A trace of `update_shader_texture_bindings`. -/
abbrev TexTrace := List (TexOrigin × TexCall)

/-- The access mode and the texture bound for a texture image parameter (lines
2809-2828). -/
def image_access (gsg : TexGSG) (param : ParamTextureImage) (gl_tex : Nat) : ImageAccess × Nat :=
  if gsg.gl_force_image_bindings_writeonly then (ImageAccess.GL_WRITE_ONLY, gl_tex)
  else if param.has_read_access ∧ param.has_write_access then (ImageAccess.GL_READ_WRITE, gl_tex)
  else if param.has_read_access then (ImageAccess.GL_READ_ONLY, gl_tex)
  else if param.has_write_access then (ImageAccess.GL_WRITE_ONLY, gl_tex)
  else (ImageAccess.GL_READ_ONLY, 0)

/-- What lines 2736-2780 find for an image input: no input, an input of another
kind, a texture that is null or has no context (`gl_tex` stays 0), or a
prepared texture, with the texture image parameter when the input is one. -/
inductive ImageSource
  | missing
  | mismatching
  | unprepared
  | prepared (param : Option ParamTextureImage) (tex : Texture) (g : TextureContext)
  deriving DecidableEq, Repr

/-- Lines 2739-2780: the `switch` on the value type of the input and the
preparation of its texture. -/
def image_source (v : ShaderInputValue) : ImageSource :=
  match v with
  | ShaderInputValue.M_invalid => ImageSource.missing
  | ShaderInputValue.M_other => ImageSource.mismatching
  | ShaderInputValue.M_texture_image param =>
      match param.texture with
      | none => ImageSource.unprepared
      | some t =>
          match t.gtc with
          | none => ImageSource.unprepared
          | some g => ImageSource.prepared (some param) t g
  | ShaderInputValue.M_texture tex =>
      match tex with
      | none => ImageSource.unprepared
      | some t =>
          match t.gtc with
          | none => ImageSource.unprepared
          | some g => ImageSource.prepared none t g

/-- The report of lines 2790-2797 for a texture with an unsized format. -/
def unsized_format_error (i : Nat) (t : Texture) (g : TextureContext) : TexTrace :=
  if g.internal_format = GL_RGBA ∨ g.internal_format = GL_RGB then
    [(TexOrigin.image i, TexCall.error "Texture has an unsized format" t.name)]
  else []

/-- Lines 2781-2832 for a prepared texture: the image input and the calls. -/
def bind_prepared_image (gsg : TexGSG) (i : Nat) (input : ImageInput)
    (param : Option ParamTextureImage) (t : Texture) (g : TextureContext) :
    ImageInput × TexTrace :=
  if g.index = 0 then
    ({ input with gtc := some g.index, writable := false },
      [(TexOrigin.image i, TexCall.update_texture g.index true),
       (TexOrigin.image i,
        TexCall.glBindImageTexture i 0 0 false 0 ImageAccess.GL_READ_ONLY GL_R8)])
  else
    match param with
    | some pm =>
        ({ input with gtc := some g.index, writable := pm.has_write_access },
          (TexOrigin.image i, TexCall.update_texture g.index true)
            :: unsized_format_error i t g
            ++ [(TexOrigin.image i,
                TexCall.glBindImageTexture i (image_access gsg pm g.index).2 pm.bind_level
                  pm.bind_layered pm.bind_layer (image_access gsg pm g.index).1
                  g.internal_format)])
    | none =>
        ({ input with gtc := some g.index, writable := false },
          (TexOrigin.image i, TexCall.update_texture g.index true)
            :: unsized_format_error i t g
            ++ [(TexOrigin.image i,
                TexCall.glBindImageTexture i g.index 0 true 0 ImageAccess.GL_READ_WRITE
                  g.internal_format)])

/-- The body of the loop over the image units (lines 2735-2832) for unit `i`:
the image input it leaves, its calls and the barrier mask. -/
def bind_image (gsg : TexGSG) (barriers : Nat) (i : Nat) (input : ImageInput) :
    ImageInput × TexTrace × Nat :=
  match image_source (gsg.get_shader_input input.name) with
  | ImageSource.missing =>
      (input, [(TexOrigin.image i, TexCall.error "Missing texture image binding input" input.name)],
        barriers)
  | ImageSource.mismatching =>
      (input, [(TexOrigin.image i, TexCall.error "Mismatching type for parameter" input.name)],
        barriers)
  | ImageSource.unprepared =>
      ({ input with writable := false },
        [(TexOrigin.image i,
          TexCall.glBindImageTexture i 0 0 false 0 ImageAccess.GL_READ_ONLY GL_R8)],
        barriers)
  | ImageSource.prepared param t g =>
      ((bind_prepared_image gsg i input param t g).1,
        (bind_prepared_image gsg i input param t g).2,
        if g.needs_image_barrier then barriers ||| GL_SHADER_IMAGE_ACCESS_BARRIER_BIT
        else barriers)

/-- The loop over the image units (lines 2734-2833), from unit `i` on. -/
def bind_images (gsg : TexGSG) : Nat → Nat → List ImageInput → List ImageInput × TexTrace × Nat
  | barriers, _, [] => ([], [], barriers)
  | barriers, i, input :: rest =>
      let r := bind_image gsg barriers i input
      let rs := bind_images gsg r.2.2 (i + 1) rest
      (r.1 :: rs.1, r.2.1 ++ rs.2.1, rs.2.2)

/-- The value the resident-handle map holds for a location. -/
def handle_of (handles : List (Int × Nat)) (p : Int) : Option Nat :=
  match handles with
  | [] => none
  | (q, h) :: rest => if q = p then some h else handle_of rest p

/-- The map after `_glsl_uniform_handles[p] = handle`. -/
def set_handle (handles : List (Int × Nat)) (p : Int) (handle : Nat) : List (Int × Nat) :=
  match handles with
  | [] => [(p, handle)]
  | (q, h) :: rest => if q = p then (p, handle) :: rest else (q, h) :: set_handle rest p handle

/-- What one iteration of the texture loop leaves: the entries `textures[i]` and
`samplers[i]` of the multi-bind arrays (meaningful in multi-bind mode only), the
resident-handle map, its calls and the barrier mask. -/
structure TextureSlot where
  texture : Nat
  sampler : Nat
  handles : List (Int × Nat)
  calls : TexTrace
  barriers : Nat
  deriving DecidableEq, Repr

/-- The report of lines 2872-2894 for a texture whose type is not the desired
one. -/
def type_mismatch_error (spec : ShaderTexSpec) (tex : Texture) : TexCall :=
  match spec.part with
  | ShaderTexInput.STO_named_input =>
      TexCall.error "Sampler type of shader input does not match type of texture" tex.name
  | ShaderTexInput.STO_stage_i =>
      TexCall.error "Sampler type of shader input p3d_Texture does not match type of texture"
        tex.name
  | ShaderTexInput.STO_light_i_shadow_map =>
      TexCall.error
        "Sampler type of shader input p3d_LightSource[].shadowMap does not match type of texture"
        tex.name

/-- Lines 2947-2977: the texture is bound normally, through the multi-bind
arrays or to the active texture stage. -/
def bind_texture_normally (multi_bind : Bool) (handles : List (Int × Nat)) (barriers : Nat)
    (i : Nat) (g : TextureContext) (sampler : Option Nat) (pre : TexTrace) : TextureSlot :=
  if multi_bind then
    let updated : TexTrace := [(TexOrigin.texture i, TexCall.update_texture g.index false)]
      ++ (if g.update_ok then [(TexOrigin.texture i, TexCall.set_active g.index)] else [])
    let queued : TexTrace :=
      match sampler with
      | none => []
      | some sc => [(TexOrigin.texture i, TexCall.enqueue_lru sc)]
    { texture := if g.update_ok then g.index else 0
      sampler := match sampler with
        | none => 0
        | some sc => sc
      handles := handles
      calls := pre ++ updated ++ queued
      barriers := barriers }
  else
    let staged : TexTrace :=
      [(TexOrigin.texture i, TexCall.set_active_texture_stage i),
       (TexOrigin.texture i, TexCall.update_texture g.index false)]
    if !g.update_ok then
      { texture := 0, sampler := 0, handles := handles, calls := pre ++ staged,
        barriers := barriers }
    else
      { texture := 0, sampler := 0, handles := handles
        calls := pre ++ staged ++
          [(TexOrigin.texture i, TexCall.apply_texture g.index),
           (TexOrigin.texture i, TexCall.apply_sampler i g.index)]
        barriers := barriers }

/-- The body of the loop over `_tex_spec` (lines 2853-2977) for unit `i`. -/
def bind_texture (gsg : TexGSG) (multi_bind : Bool) (handles : List (Int × Nat))
    (barriers : Nat) (i : Nat) (spec : ShaderTexSpec) : TextureSlot :=
  match (gsg.fetch_specified_texture spec).tex with
  | none =>
      if multi_bind then
        { texture := gsg.white_texture, sampler := 0, handles := handles, calls := [],
          barriers := barriers }
      else
        { texture := 0, sampler := 0, handles := handles
          calls := [(TexOrigin.texture i, TexCall.apply_white_texture i)]
          barriers := barriers }
  | some tex =>
      let mismatch : TexTrace :=
        if tex.texture_type ≠ spec.desired_type then
          [(TexOrigin.texture i, type_mismatch_error spec tex)]
        else []
      match tex.gtc with
      | none =>
          { texture := 0, sampler := 0, handles := handles, calls := mismatch,
            barriers := barriers }
      | some g =>
          let barriers1 := if g.needs_fetch_barrier
            then barriers ||| GL_TEXTURE_FETCH_BARRIER_BIT else barriers
          if gsg.gl_use_bindless_texture ∧ gsg.supports_bindless_texture then
            let forced : TexTrace :=
              mismatch ++ [(TexOrigin.texture i, TexCall.update_texture g.index true)]
            if !g.update_forced_ok then
              { texture := 0, sampler := 0, handles := handles, calls := forced,
                barriers := barriers1 }
            else if g.handle ≠ 0 then
              let resident : TexTrace := forced ++
                [(TexOrigin.texture i, TexCall.make_handle_resident g.index),
                 (TexOrigin.texture i, TexCall.set_active g.index)]
              if handle_of handles spec.location = some g.handle then
                { texture := 0, sampler := 0, handles := handles, calls := resident,
                  barriers := barriers1 }
              else
                { texture := 0, sampler := 0
                  handles := set_handle handles spec.location g.handle
                  calls := resident ++
                    [(TexOrigin.texture i, TexCall.glUniformHandleui64 spec.location g.handle)]
                  barriers := barriers1 }
            else
              bind_texture_normally multi_bind handles barriers1 i g
                (gsg.fetch_specified_texture spec).sampler forced
          else
            bind_texture_normally multi_bind handles barriers1 i g
              (gsg.fetch_specified_texture spec).sampler mismatch

/-- The loop over `_tex_spec` (lines 2852-2978), from unit `i` on: what every
iteration leaves, in order. -/
def bind_textures (gsg : TexGSG) (multi_bind : Bool) :
    List (Int × Nat) → Nat → Nat → List ShaderTexSpec → List TextureSlot
  | _, _, _, [] => []
  | handles, barriers, i, spec :: rest =>
      let r := bind_texture gsg multi_bind handles barriers i spec
      r :: bind_textures gsg multi_bind r.handles r.barriers (i + 1) rest

/-- Lines 2842-2849: whether the textures and samplers are bound with one
multi-bind call. -/
def multi_bind_mode (gsg : TexGSG) (ctx : Context) : Bool :=
  decide (ctx.shader.tex_spec.length > 1) && gsg.supports_multi_bind
    && gsg.supports_sampler_objects

/-- The function `update_shader_texture_bindings`: the context it leaves and its
trace. -/
def update_shader_texture_bindings (gsg : TexGSG) (ctx : Context) : Context × TexTrace :=
  if ctx.glsl_program = 0 then (ctx, [])
  else
    let num_image_units := min ctx.glsl_img_inputs.length gsg.max_image_units
    let images := bind_images gsg 0 0 (ctx.glsl_img_inputs.take num_image_units)
    let num_textures := ctx.shader.tex_spec.length
    let multi_bind : Bool := multi_bind_mode gsg ctx
    let slots := bind_textures gsg multi_bind ctx.glsl_uniform_handles images.2.2 0
      ctx.shader.tex_spec
    let handles := match slots.getLast? with
      | some s => s.handles
      | none => ctx.glsl_uniform_handles
    let barriers := match slots.getLast? with
      | some s => s.barriers
      | none => images.2.2
    let bound : TexTrace :=
      if multi_bind = true ∧ num_textures > 0 then
        [(TexOrigin.body, TexCall.glBindTextures 0 num_textures (slots.map (·.texture))),
         (TexOrigin.body, TexCall.glBindSamplers 0 num_textures (slots.map (·.sampler)))]
      else []
    let barrier : TexTrace :=
      if barriers ≠ 0 then [(TexOrigin.body, TexCall.issue_memory_barrier barriers)] else []
    ({ ctx with glsl_img_inputs := images.1 ++ ctx.glsl_img_inputs.drop num_image_units,
                glsl_uniform_handles := handles },
      images.2.1 ++ (slots.map (·.calls)).flatten ++ bound ++ barrier
        ++ [(TexOrigin.body, TexCall.report_my_gl_errors)])

/-- A sample texture specification: the named sampler `tex` at location 4. -/
def sample_tex_spec : ShaderTexSpec :=
  { name := "tex".toList, location := 4, part := ShaderTexInput.STO_named_input,
    input_name := some "tex".toList, stage := 0, desired_type := TextureType.TT_2d_texture }

/-- A sample texture specification whose input is absent: the named sampler
`detail` at location 6. -/
def sample_missing_spec : ShaderTexSpec :=
  { name := "detail".toList, location := 6, part := ShaderTexInput.STO_named_input,
    input_name := some "detail".toList, stage := 0, desired_type := TextureType.TT_2d_texture }

/-- A sample prepared texture: context 21, resident handle 900, recently written
by an image store. -/
def sample_texture : Texture :=
  { name := "tex".toList, texture_type := TextureType.TT_2d_texture
    gtc := some { index := 21, internal_format := 0x8058, needs_image_barrier := false,
                  needs_fetch_barrier := true, update_forced_ok := true, update_ok := true,
                  handle := 900 }
    image_format := 0x8058 }

/-- A sample guardian without multi-bind and without bindless textures: the
input `tex` is `sample_texture`, every other texture input is absent. -/
def sample_tex_gsg : TexGSG :=
  { supports_multi_bind := false
    supports_sampler_objects := true
    supports_bindless_texture := false
    gl_use_bindless_texture := false
    gl_force_image_bindings_writeonly := false
    max_image_units := 8
    white_texture := 99
    get_shader_input := fun _ => ShaderInputValue.M_invalid
    fetch_specified_texture := fun spec =>
      if spec.name = "tex".toList then { tex := some sample_texture, sampler := some 3 }
      else { tex := none, sampler := none } }

/-- The sample guardian with multi-bind. -/
def sample_tex_gsg_multi : TexGSG :=
  { sample_tex_gsg with supports_multi_bind := true }

/-- The sample guardian with bindless textures. -/
def sample_tex_gsg_bindless : TexGSG :=
  { sample_tex_gsg with supports_bindless_texture := true, gl_use_bindless_texture := true }

/-- A sample context with the texture bindings `tex` and `detail`. -/
def sample_ctx_tex : Context :=
  { shader := { tex_spec := [sample_tex_spec, sample_missing_spec] }
    glsl_program := 1 }

/-- Whether a call is `issue_memory_barrier`. -/
def TexCall.is_barrier : TexCall → Bool
  | .issue_memory_barrier _ => true
  | _ => false

/-- Whether an image input is bound to a prepared texture whose `needs_barrier`
answers true for the image access bit. -/
def image_needs_barrier (gsg : TexGSG) (input : ImageInput) : Bool :=
  match image_source (gsg.get_shader_input input.name) with
  | ImageSource.prepared _ _ g => g.needs_image_barrier
  | _ => false

/-- Whether a texture specification is bound to a prepared texture whose
`needs_barrier` answers true for the texture fetch bit. -/
def texture_needs_barrier (gsg : TexGSG) (spec : ShaderTexSpec) : Bool :=
  match (gsg.fetch_specified_texture spec).tex with
  | some tex =>
      match tex.gtc with
      | some g => g.needs_fetch_barrier
      | none => false
  | none => false

/-- Whether a call is `glUniformHandleui64`. -/
def TexCall.is_handle_push : TexCall → Bool
  | .glUniformHandleui64 _ _ => true
  | _ => false

/-! ### The constructor's pass over the tables of a reflected program -/

/-- Lines 98-121 of the constructor, from unit `i` on: the texture entries that
stay and the `glUniform1i` calls.  An entry whose remapped location is negative
is erased and `i` stays; the others are given unit `i`.  `nassertd` is declared
in `pnotify.h`, which is not part of the sources: with assertions compiled in
(`assertions`), its `continue` on a negative declared location leaves `i` and
the table as they are, so the loop never gets past that entry (`none`); without
them the line is empty. -/
def rebind_tex_spec (assertions : Bool) (map : List Int) :
    Nat → List ShaderTexSpec → Option (List ShaderTexSpec × List GLCall)
  | _, [] => some ([], [])
  | i, spec :: rest =>
      if assertions ∧ ¬ (spec.location ≥ 0) then none
      else
        let location := get_uniform_location map spec.location
        if location < 0 then rebind_tex_spec assertions map i rest
        else
          match rebind_tex_spec assertions map (i + 1) rest with
          | none => none
          | some (kept, calls) => some (spec :: kept, GLCall.glUniform1i location i :: calls)

/-- Lines 123-149 of the constructor, from unit `i` on, with `n = num_images - i`
entries left to look at: the image table, the inputs appended to
`_glsl_img_inputs` and the `glUniform1i` calls.  Erasing an entry takes one from
`num_images` and leaves `i`, keeping one adds one to `i`: either way one entry
fewer is left to look at, and the entries after the last one looked at stay. -/
def rebind_img_spec (assertions : Bool) (map : List Int) :
    Nat → Nat → List ShaderImgSpec → Option (List ShaderImgSpec × List ImageInput × List GLCall)
  | _, 0, l => some (l, [], [])
  | _, _ + 1, [] => some ([], [], [])
  | i, n + 1, spec :: rest =>
      if assertions ∧ ¬ (spec.location ≥ 0) then none
      else
        let location := get_uniform_location map spec.location
        if location < 0 then rebind_img_spec assertions map i n rest
        else
          match rebind_img_spec assertions map (i + 1) n rest with
          | none => none
          | some (kept, inputs, calls) =>
              some (spec :: kept,
                { name := spec.name, gtc := none, writable := spec.writable } :: inputs,
                GLCall.glUniform1i location i :: calls)

/-- Lines 151-173 of the constructor: the matrix/state entries that stay. -/
def rebind_mat_spec (map : List Int) : List ShaderMatSpec → List ShaderMatSpec
  | [] => []
  | spec :: rest =>
      if get_uniform_location map spec.location < 0 then rebind_mat_spec map rest
      else spec :: rebind_mat_spec map rest

/-- Lines 175-197 of the constructor: the pointer-data entries that stay. -/
def rebind_ptr_spec (map : List Int) : List ShaderPtrSpec → List ShaderPtrSpec
  | [] => []
  | spec :: rest =>
      if get_uniform_location map spec.location < 0 then rebind_ptr_spec map rest
      else spec :: rebind_ptr_spec map rest

/-- Lines 98-198 of the constructor, the pass over the tables of a program that
needs no reflection, once the location map is filled: the context it leaves and
the driver calls, or `none` when an assertion stops a loop. -/
def rebind_inputs (assertions : Bool) (max_image_units : Nat) (ctx : Context) :
    Option (Context × List GLCall) :=
  match rebind_tex_spec assertions ctx.uniform_location_map 0 ctx.shader.tex_spec with
  | none => none
  | some (tex, tex_calls) =>
      match rebind_img_spec assertions ctx.uniform_location_map 0
          (min ctx.shader.img_spec.length max_image_units) ctx.shader.img_spec with
      | none => none
      | some (img, inputs, img_calls) =>
          some ({ ctx with
                  shader := { ctx.shader with
                    tex_spec := tex
                    img_spec := img
                    mat_spec := rebind_mat_spec ctx.uniform_location_map ctx.shader.mat_spec
                    ptr_spec := rebind_ptr_spec ctx.uniform_location_map ctx.shader.ptr_spec }
                  glsl_img_inputs := ctx.glsl_img_inputs ++ inputs },
                tex_calls ++ img_calls)

/-- The units given to a list of texture or image entries, from unit `i` on:
each declared location of the list gets the next unit at its remapped location. -/
def unit_calls (map : List Int) : Nat → List Int → List GLCall
  | _, [] => []
  | i, p :: rest => GLCall.glUniform1i (get_uniform_location map p) i :: unit_calls map (i + 1) rest

/-- A sample context of a reflected program: two samplers, two images, one
matrix and one pointer binding; the driver kept the declared slots 0 and 2. -/
def sample_ctx_reflected : Context :=
  { shader :=
      { tex_spec := [{ sample_tex_spec with location := 1 }, { sample_missing_spec with location := 2 }]
        img_spec := [{ id_name := "a".toList, location := 0, name := "a".toList },
                     { id_name := "b".toList, location := 3, name := "b".toList }]
        mat_spec := [{ sample_color_spec with location := 1 }]
        ptr_spec := [{ sample_int_spec with location := 2 }] }
    glsl_program := 1
    uniform_location_map := [7, -1, 9, -1] }

/-! ### Querying uniform locations by name -/

/-- A `ShaderType`, by what `as_array` and `as_struct` answer: an array with its
element type and number of elements, a struct with its member types, or a type
that is neither (`id` tells such types apart). -/
inductive ShaderType
  | basic (id : Nat)
  | array (element_type : ShaderType) (num_elements : Nat)
  | struct (members : List ShaderType)

/-- The virtual functions of `ShaderType` that `r_query_uniform_locations`
calls; they are declared in `shaderType.h`, which is not part of the sources, so
they are parameters. -/
structure ShaderTypeInfo where
  is_aggregate_type : ShaderType → Bool
  get_num_parameter_locations : ShaderType → Int

/-- The state `r_query_uniform_locations` works on: `_uniform_location_map` and
the names passed to `glGetUniformLocation` so far, in order. -/
structure QueryState where
  uniform_location_map : List Int := []
  lookups : List CStr := []
  deriving DecidableEq, Repr

/-- The decimal digits `%u` prints. -/
def decimal (n : Nat) : CStr := Nat.toDigits 10 n

/-- The `uint32_t` value of `from_location += n` for an `int` `n`. -/
def add_locations (from_location : Nat) (n : Int) : Nat :=
  (((from_location : Int) + n) % 4294967296).toNat

/-- Lines 359-361: the map is padded with `-1` until `from_location` is an index
of it. -/
def pad_location_map (from_location : Nat) (st : QueryState) : QueryState :=
  { st with uniform_location_map :=
      st.uniform_location_map ++
        List.replicate (from_location + 1 - st.uniform_location_map.length) (-1) }

/-- Lines 393-410: the lookup by name and the entry written for it. -/
def query_leaf (driver : CStr → Int) (from_location : Nat) (name : CStr) (st : QueryState) :
    QueryState :=
  let p := driver name
  { uniform_location_map :=
      if p ≥ 0 then set_uniform_location st.uniform_location_map from_location p
      else set_uniform_location st.uniform_location_map from_location (-1)
    lookups := st.lookups ++ [name] }

mutual
/-- The function `r_query_uniform_locations`; `driver` is
`glGetUniformLocation` on the linked program. -/
def r_query_uniform_locations (info : ShaderTypeInfo) (driver : CStr → Int) :
    Nat → ShaderType → CStr → QueryState → QueryState
  | from_location, .array element_type num_elements, name, st =>
      let st1 := pad_location_map from_location st
      if info.is_aggregate_type element_type then
        let num_locations := info.get_num_parameter_locations element_type
        ((List.range num_elements).foldl
          (fun (acc : Nat × QueryState) i =>
            (add_locations acc.1 num_locations,
              r_query_uniform_locations info driver acc.1 element_type
                (name ++ "[".toList ++ decimal i ++ "]".toList) acc.2))
          (from_location, st1)).2
      else query_leaf driver from_location name st1
  | from_location, .struct members, name, st =>
      r_query_members info driver from_location members 0 name
        (pad_location_map from_location st)
  | from_location, .basic _, name, st =>
      query_leaf driver from_location name (pad_location_map from_location st)
/-- The loop over the members of a struct (lines 380-389), from member `i` on. -/
def r_query_members (info : ShaderTypeInfo) (driver : CStr → Int) :
    Nat → List ShaderType → Nat → CStr → QueryState → QueryState
  | _, [], _, _, st => st
  | from_location, member :: rest, i, name, st =>
      r_query_members info driver
        (add_locations from_location (info.get_num_parameter_locations member)) rest (i + 1) name
        (r_query_uniform_locations info driver from_location member
          (name ++ "._m".toList ++ decimal i) st)
end

mutual
/-- The leaves of a type as the specification words them, each with its slot and
its name: a struct expands member `j` under `name._m<j>` at the slot after the
locations of the members before it, an array of aggregate elements expands
element `i` under `name[<i>]` at `from + i * k`, anything else is one leaf.
Slots are `uint32_t` values. -/
def leaf_lookups (info : ShaderTypeInfo) : Nat → ShaderType → CStr → List (Nat × CStr)
  | from_location, .array element_type num_elements, name =>
      if info.is_aggregate_type element_type then
        (List.range num_elements).flatMap (fun i =>
          leaf_lookups info
            (add_locations from_location (i * info.get_num_parameter_locations element_type))
            element_type (name ++ "[".toList ++ decimal i ++ "]".toList))
      else [(from_location, name)]
  | from_location, .struct members, name => member_lookups info from_location [] members name
  | from_location, .basic _, name => [(from_location, name)]
/-- The leaves of the members `rest` of a struct whose earlier members are
`done`. -/
def member_lookups (info : ShaderTypeInfo) :
    Nat → List ShaderType → List ShaderType → CStr → List (Nat × CStr)
  | _, _, [], _ => []
  | from_location, done, member :: rest, name =>
      leaf_lookups info
          (add_locations from_location (done.map info.get_num_parameter_locations).sum)
          member (name ++ "._m".toList ++ decimal done.length)
        ++ member_lookups info from_location (done ++ [member]) rest name
end

/-- The map after the leaves of the specification are each mapped to the
location the driver returns, or to `-1` when it is negative. -/
def map_leaves (driver : CStr → Int) (leaves : List (Nat × CStr)) (map : List Int) : List Int :=
  leaves.foldl (fun m l =>
    set_uniform_location m l.1 (if driver l.2 ≥ 0 then driver l.2 else -1)) map

/-- A sample type information: arrays and structs are aggregate types, a struct
takes the locations of its members, an array those of its elements, anything
else one. -/
def sample_num_locations : ShaderType → Int
  | .basic _ => 1
  | .array e n => n * sample_num_locations e
  | .struct ms => sample_num_locations_list ms
where
  /-- The locations of a list of members. -/
  sample_num_locations_list : List ShaderType → Int
  | [] => 0
  | m :: rest => sample_num_locations m + sample_num_locations_list rest

/-- The sample type information. -/
def sample_type_info : ShaderTypeInfo :=
  { is_aggregate_type := fun t =>
      match t with
      | .basic _ => false
      | _ => true
    get_num_parameter_locations := sample_num_locations }

/-- A sample type: `struct { float a; struct { vec4 b; float c[3]; } d[2]; }`. -/
def sample_type : ShaderType :=
  .struct [.basic 0, .array (.struct [.basic 1, .array (.basic 0) 3]) 2]

/-- A sample driver: every name is found at the location of its length, except
`p5._m1[1]._m0`, which the driver dropped. -/
def sample_driver (name : CStr) : Int :=
  if name = "p5._m1[1]._m0".toList then -1 else name.length

/-- A state `result` is `st` after the lookups of `leaves`, in order, each leaf
mapped to what the driver returns for its name; two maps count as the same when
`get_uniform_location` reads the same from them at every slot. -/
def query_refines (driver : CStr → Int) (st result : QueryState)
    (leaves : List (Nat × CStr)) : Prop :=
  result.lookups = st.lookups ++ leaves.map (·.2) ∧
  ∀ s, get_uniform_location result.uniform_location_map s =
    get_uniform_location (map_leaves driver leaves st.uniform_location_map) s

/-- A sample context whose binding `tex` asks for a 3-D texture, followed by the
binding `detail`. -/
def sample_ctx_mismatch : Context :=
  { shader :=
      { tex_spec := [{ sample_tex_spec with desired_type := TextureType.TT_3d_texture },
                     sample_missing_spec] }
    glsl_program := 1 }

/-- A sample texture with the unsized internal format `GL_RGBA`, for which
`get_internal_image_format` answers `GL_RGBA8`. -/
def sample_unsized_texture : Texture :=
  { name := "canvas".toList, texture_type := TextureType.TT_2d_texture
    gtc := some { index := 31, internal_format := GL_RGBA, needs_image_barrier := false,
                  needs_fetch_barrier := false, update_forced_ok := true, update_ok := true,
                  handle := 0 }
    image_format := 0x8058 }

/-- A sample guardian whose input `canvas` is `sample_unsized_texture`, passed as
a plain texture. -/
def sample_image_gsg : TexGSG :=
  { sample_tex_gsg with
    get_shader_input := fun name =>
      if name = "canvas".toList then ShaderInputValue.M_texture (some sample_unsized_texture)
      else ShaderInputValue.M_invalid }

/-- A sample context with the image input `canvas`. -/
def sample_ctx_image : Context :=
  { glsl_program := 1, glsl_img_inputs := [{ name := "canvas".toList }] }

/-- A sample texture image parameter: `sample_texture`, layered, with read
access only. -/
def sample_readonly_param : ParamTextureImage :=
  { texture := some sample_texture, bind_layered := true, bind_level := 0, bind_layer := 0,
    has_read_access := true, has_write_access := false }

/-- A sample guardian with `gl_force_image_bindings_writeonly`, whose input
`canvas` is `sample_readonly_param`. -/
def sample_force_gsg : TexGSG :=
  { sample_tex_gsg with
    gl_force_image_bindings_writeonly := true
    get_shader_input := fun name =>
      if name = "canvas".toList then ShaderInputValue.M_texture_image sample_readonly_param
      else ShaderInputValue.M_invalid }

/-- The sample guardian without `gl_force_image_bindings_writeonly`. -/
def sample_param_gsg : TexGSG :=
  { sample_force_gsg with gl_force_image_bindings_writeonly := false }

/-! ### `disable_shader_texture_bindings` -/

/-- The texture targets `disable_shader_texture_bindings` unbinds. -/
inductive TextureTarget
  | GL_TEXTURE_1D | GL_TEXTURE_2D | GL_TEXTURE_3D | GL_TEXTURE_2D_ARRAY | GL_TEXTURE_CUBE_MAP
  | GL_TEXTURE_BUFFER
  deriving DecidableEq, Repr

/-- Driver and guardian calls of `disable_shader_texture_bindings`; the multi-bind
calls are passed `nullptr`, `glBindImageTexture` unbinds its unit
(`(i, 0, 0, GL_FALSE, 0, GL_READ_ONLY, GL_R8)`). -/
inductive DisableCall
  | glBindTextures (first : Nat) (count : Int)
  | set_active_texture_stage (unit : Nat)
  | glBindTexture (target : TextureTarget) (texture : Nat)
  | glBindImageTextures (first : Nat) (count : Nat)
  | glBindImageTexture (unit : Nat)
  | mark_incoherent (gtc : Nat) (wrote : Bool)
  | report_my_gl_errors
  deriving DecidableEq, Repr

/-- The `switch` of lines 2650-2678 (desktop build): the unbind call for a desired
texture type, if the `switch` has a case for it. -/
def unbind_target (t : TextureType) : List DisableCall :=
  match t with
  | TextureType.TT_1d_texture => [DisableCall.glBindTexture TextureTarget.GL_TEXTURE_1D 0]
  | TextureType.TT_2d_texture => [DisableCall.glBindTexture TextureTarget.GL_TEXTURE_2D 0]
  | TextureType.TT_3d_texture => [DisableCall.glBindTexture TextureTarget.GL_TEXTURE_3D 0]
  | TextureType.TT_2d_texture_array =>
      [DisableCall.glBindTexture TextureTarget.GL_TEXTURE_2D_ARRAY 0]
  | TextureType.TT_cube_map => [DisableCall.glBindTexture TextureTarget.GL_TEXTURE_CUBE_MAP 0]
  | TextureType.TT_buffer_texture =>
      [DisableCall.glBindTexture TextureTarget.GL_TEXTURE_BUFFER 0]
  | _ => []

/-- The loop over `_tex_spec` of `disable_shader_texture_bindings` (lines
2629-2679), from unit `i` on; `n` is `_tex_spec.size()`. -/
def unbind_textures (gsg : TexGSG) (handles : List (Int × Nat)) (n : Nat) :
    Nat → List ShaderTexSpec → List DisableCall
  | _, [] => []
  | i, spec :: rest =>
      if gsg.supports_bindless_texture ∧ (handle_of handles spec.location).isSome then
        unbind_textures gsg handles n (i + 1) rest
      else if gsg.supports_multi_bind then
        [DisableCall.glBindTextures i ((n : Int) - (i : Int))]
      else
        DisableCall.set_active_texture_stage i :: unbind_target spec.desired_type
          ++ unbind_textures gsg handles n (i + 1) rest

/-- Lines 2696-2705: the image inputs after `mark_incoherent`, and the calls. -/
def mark_images : List ImageInput → List ImageInput × List DisableCall
  | [] => ([], [])
  | input :: rest =>
      match input.gtc with
      | some g =>
          ({ input with gtc := none } :: (mark_images rest).1,
            DisableCall.mark_incoherent g input.writable :: (mark_images rest).2)
      | none => (input :: (mark_images rest).1, (mark_images rest).2)

/-- The function `disable_shader_texture_bindings` (desktop build):
the context it leaves and its calls. -/
def disable_shader_texture_bindings (gsg : TexGSG) (gl_enable_memory_barriers : Bool)
    (ctx : Context) : Context × List DisableCall :=
  if ctx.glsl_program = 0 then (ctx, [])
  else
    let textures := unbind_textures gsg ctx.glsl_uniform_handles ctx.shader.tex_spec.length 0
      ctx.shader.tex_spec
    let num_image_units := min ctx.glsl_img_inputs.length gsg.max_image_units
    if num_image_units > 0 then
      let unbound : List DisableCall :=
        if gsg.supports_multi_bind then [DisableCall.glBindImageTextures 0 num_image_units]
        else (List.range num_image_units).map DisableCall.glBindImageTexture
      if gl_enable_memory_barriers then
        let marked := mark_images (ctx.glsl_img_inputs.take num_image_units)
        ({ ctx with glsl_img_inputs := marked.1 ++ ctx.glsl_img_inputs.drop num_image_units },
          textures ++ unbound ++ marked.2 ++ [DisableCall.report_my_gl_errors])
      else (ctx, textures ++ unbound ++ [DisableCall.report_my_gl_errors])
    else (ctx, textures ++ [DisableCall.report_my_gl_errors])

/-- A sample context with one cube map array sampler and one 2-D sampler. -/
def sample_ctx_cube_array : Context :=
  { shader :=
      { tex_spec := [{ sample_tex_spec with desired_type := TextureType.TT_cube_map_array },
                     sample_missing_spec] }
    glsl_program := 1 }

/-! ### `compile_and_link`, the constructor's first lines and `bind` -/

/-- What `compile_and_link` reads from the shader, the configuration and the
driver: the modules of the shader, the handle `glCreateProgram` returns, whether
`get_compiled` has a binary and whether it links, what `attach_shader` (lines
3100-3373) does for a module (`none` when it returns false, else the handle it
attaches and `needs_compile`), the flags the function tests, the link status
after `glLinkProgram` and the compile status of each shader handle. -/
structure LinkEnv where
  shader_modules : List Nat
  glCreateProgram : Nat
  use_object_labels : Bool
  get_compiled : Bool
  binary_link_status : Bool
  attach_shader : Nat → Option (Nat × Bool)
  gl_fixed_vertex_attrib_locations : Bool
  has_glBindFragDataLocation : Bool
  supports_get_program_binary : Bool
  cache_compiled_shader : Bool
  gl_dump_compiled_shaders : Bool
  link_status : Bool
  compile_status : Nat → Bool

/-- Driver calls and log output of `compile_and_link`. -/
inductive LinkCall
  | glCreateProgram
  | glObjectLabel (program : Nat)
  | glProgramBinary (program : Nat)
  | glGetProgramiv (program : Nat) (pname : String)
  | attach_shader (module : Nat)
  | glCompileShader (handle : Nat)
  | glBindAttribLocation (program : Nat) (index : Nat) (name : String)
  | glBindFragDataLocation (program : Nat) (index : Nat) (name : String)
  | glProgramParameteri (program : Nat)
  | glLinkProgram (program : Nat)
  | glGetShaderiv (handle : Nat)
  | error (msg : String)
  | report_shader_errors (handle : Nat) (fatal : Bool)
  | glDeleteShader (handle : Nat)
  | report_program_errors (program : Nat) (fatal : Bool)
  | glGetProgramBinary (program : Nat)
  | set_compiled
  | dump_binary
  | report_my_gl_errors
  deriving DecidableEq, Repr

/-- The loop of lines 3416-3418: every module is attached, `valid` is the AND of
the results, `_modules` gets the attached ones. -/
def attach_shaders (env : LinkEnv) : List Nat → Bool × List (Nat × Bool) × List LinkCall
  | [] => (true, [], [])
  | module :: rest =>
      let rs := attach_shaders env rest
      match env.attach_shader module with
      | none => (false, rs.2.1, LinkCall.attach_shader module :: rs.2.2)
      | some m => (rs.1, m :: rs.2.1, LinkCall.attach_shader module :: rs.2.2)

/-- Lines 3491-3507: the compile status of every module is queried and reported,
and its shader deleted; the result tells whether any failed. -/
def check_modules (env : LinkEnv) : List (Nat × Bool) → Bool × List LinkCall
  | [] => (false, [])
  | module :: rest =>
      let rs := check_modules env rest
      if !env.compile_status module.1 then
        (true,
          [LinkCall.glGetShaderiv module.1,
           LinkCall.error "An error occurred while compiling shader module",
           LinkCall.report_shader_errors module.1 true,
           LinkCall.glDeleteShader module.1] ++ rs.2)
      else
        (rs.1,
          [LinkCall.glGetShaderiv module.1,
           LinkCall.report_shader_errors module.1 false,
           LinkCall.glDeleteShader module.1] ++ rs.2)

/-- Lines 3421-3484: the compile calls, the attribute bindings and the link. -/
def link_calls (env : LinkEnv) (program : Nat) (modules : List (Nat × Bool)) : List LinkCall :=
  ((modules.filter (·.2)).map (fun m => LinkCall.glCompileShader m.1))
    ++ [LinkCall.glBindAttribLocation program 0 "p3d_Vertex",
        LinkCall.glBindAttribLocation program 0 "vertex",
        LinkCall.glBindAttribLocation program 2 "p3d_Normal",
        LinkCall.glBindAttribLocation program 3 "p3d_Color"]
    ++ (if env.gl_fixed_vertex_attrib_locations then
          [LinkCall.glBindAttribLocation program 1 "transform_weight",
           LinkCall.glBindAttribLocation program 2 "normal",
           LinkCall.glBindAttribLocation program 3 "color",
           LinkCall.glBindAttribLocation program 7 "transform_index",
           LinkCall.glBindAttribLocation program 8 "p3d_MultiTexCoord0",
           LinkCall.glBindAttribLocation program 8 "texcoord"]
        else [])
    ++ (if env.has_glBindFragDataLocation then
          [LinkCall.glBindFragDataLocation program 0 "p3d_FragData"]
        else [])
    ++ (if env.supports_get_program_binary then [LinkCall.glProgramParameteri program] else [])
    ++ [LinkCall.glLinkProgram program, LinkCall.glGetProgramiv program "GL_LINK_STATUS"]

/-- The function `compile_and_link` (build with `NDEBUG` undefined): its
result, the context it leaves and its calls. -/
def compile_and_link (env : LinkEnv) (ctx : Context) : Bool × Context × List LinkCall :=
  let program := env.glCreateProgram
  if program = 0 then
    (false, { ctx with modules := [], glsl_program := 0 }, [LinkCall.glCreateProgram])
  else
    let label : List LinkCall :=
      [LinkCall.glCreateProgram]
        ++ (if env.use_object_labels then [LinkCall.glObjectLabel program] else [])
    let binary : List LinkCall :=
      if env.get_compiled then
        [LinkCall.glProgramBinary program, LinkCall.glGetProgramiv program "GL_LINK_STATUS"]
      else []
    if env.get_compiled ∧ env.binary_link_status then
      (true, { ctx with modules := [], glsl_program := program }, label ++ binary)
    else
      let attached := attach_shaders env env.shader_modules
      if !attached.1 then
        (false, { ctx with modules := attached.2.1.map (·.1), glsl_program := program },
          label ++ binary ++ attached.2.2)
      else
        let linked := label ++ binary ++ attached.2.2 ++ link_calls env program attached.2.1
        if !env.link_status then
          let checked := check_modules env attached.2.1
          if checked.1 then
            (false, { ctx with modules := [], glsl_program := program }, linked ++ checked.2)
          else
            (false, { ctx with modules := [], glsl_program := program },
              linked ++ checked.2 ++
                [LinkCall.error "An error occurred while linking shader",
                 LinkCall.report_program_errors program true])
        else
          let retrieve_binary : Bool :=
            env.supports_get_program_binary
              && (env.cache_compiled_shader || env.gl_dump_compiled_shaders)
          (true, { ctx with modules := attached.2.1.map (·.1), glsl_program := program },
            linked ++ [LinkCall.report_program_errors program false]
              ++ (if retrieve_binary then
                    [LinkCall.glGetProgramiv program "GL_PROGRAM_BINARY_LENGTH",
                     LinkCall.glGetProgramBinary program, LinkCall.set_compiled]
                      ++ (if env.gl_dump_compiled_shaders then [LinkCall.dump_binary] else [])
                  else [])
              ++ [LinkCall.report_my_gl_errors])

/-- How far the constructor got: `compile_and_link` failed and the constructor
returned at line 64 (with the calls of `compile_and_link` and of
`release_resources`), or it succeeded and the constructor goes on with line 67. -/
inductive Constructed
  | failed (ctx : Context) (link : List LinkCall) (release : List GLCall)
  | linked (ctx : Context) (link : List LinkCall)

/-- Lines 46-57 of the constructor: the context before `compile_and_link`. -/
def initial_context (gl_validate_shaders : Bool) (s : Shader) : Context :=
  { shader := s, has_glgsg := true, glsl_program := 0, enabled_attribs := 0,
    color_attrib_index := -1, transform_table_index := -1, slider_table_index := -1,
    frame_number_loc := -1, frame_number := -1, validated := !gl_validate_shaders }

/-- Lines 46-65 of the constructor. -/
def construct (env : LinkEnv) (gl_validate_shaders : Bool) (s : Shader) : Constructed :=
  let r := compile_and_link env (initial_context gl_validate_shaders s)
  if !r.1 then
    let released := release_resources r.2.1
    Constructed.failed
      { released.1 with shader := { released.1.shader with error_flag := true } }
      r.2.2 released.2
  else Constructed.linked r.2.1 r.2.2

/-- Driver calls of `bind`. -/
inductive BindCall
  | glValidateProgram (program : Nat)
  | report_program_errors (program : Nat) (fatal : Bool)
  | glUseProgram (program : Nat)
  | report_my_gl_errors
  deriving DecidableEq, Repr

/-- The function `bind`: the context it leaves and its calls. -/
def bind (ctx : Context) : Context × List BindCall :=
  let validate : List BindCall :=
    if !ctx.validated then
      [BindCall.glValidateProgram ctx.glsl_program,
       BindCall.report_program_errors ctx.glsl_program false]
    else []
  let use : List BindCall :=
    if !ctx.shader.error_flag then [BindCall.glUseProgram ctx.glsl_program] else []
  ({ ctx with validated := true }, validate ++ use ++ [BindCall.report_my_gl_errors])

/-- A sample environment: two modules that attach as shaders 11 and 12, shader 12
fails to compile and the link fails. -/
def sample_link_env : LinkEnv :=
  { shader_modules := [1, 2]
    glCreateProgram := 5
    use_object_labels := false
    get_compiled := false
    binary_link_status := false
    attach_shader := fun m => some (10 + m, true)
    gl_fixed_vertex_attrib_locations := false
    has_glBindFragDataLocation := false
    supports_get_program_binary := false
    cache_compiled_shader := false
    gl_dump_compiled_shaders := false
    link_status := false
    compile_status := fun h => decide (h ≠ 12) }

/-- The sample environment with both shaders compiling, the link still failing. -/
def sample_link_env_compiled : LinkEnv :=
  { sample_link_env with compile_status := fun _ => true }

/-- Whether a call of `compile_and_link` reports an error: a logged error or a
fatal `report_program_errors`. -/
def LinkCall.is_error : LinkCall → Bool
  | .error _ => true
  | .report_program_errors _ true => true
  | _ => false

/-! ## `reflect_uniform` -/

/-- The values of `param_type` that `reflect_uniform` and
`get_sampler_texture_type` name (desktop build); `other` is any other value of
the `GLenum`. -/
inductive GLType
  | GL_FLOAT | GL_FLOAT_VEC2 | GL_FLOAT_VEC3 | GL_FLOAT_VEC4
  | GL_FLOAT_MAT2 | GL_FLOAT_MAT3 | GL_FLOAT_MAT4
  | GL_FLOAT_MAT2x3 | GL_FLOAT_MAT2x4 | GL_FLOAT_MAT3x2 | GL_FLOAT_MAT3x4
  | GL_FLOAT_MAT4x2 | GL_FLOAT_MAT4x3
  | GL_BOOL | GL_BOOL_VEC2 | GL_BOOL_VEC3 | GL_BOOL_VEC4
  | GL_INT | GL_INT_VEC2 | GL_INT_VEC3 | GL_INT_VEC4
  | GL_UNSIGNED_INT | GL_UNSIGNED_INT_VEC2 | GL_UNSIGNED_INT_VEC3 | GL_UNSIGNED_INT_VEC4
  | GL_SAMPLER_1D | GL_SAMPLER_1D_SHADOW | GL_SAMPLER_1D_ARRAY
  | GL_INT_SAMPLER_1D | GL_UNSIGNED_INT_SAMPLER_1D
  | GL_INT_SAMPLER_1D_ARRAY | GL_UNSIGNED_INT_SAMPLER_1D_ARRAY
  | GL_SAMPLER_2D | GL_SAMPLER_2D_SHADOW | GL_INT_SAMPLER_2D | GL_UNSIGNED_INT_SAMPLER_2D
  | GL_SAMPLER_3D | GL_INT_SAMPLER_3D | GL_UNSIGNED_INT_SAMPLER_3D
  | GL_SAMPLER_CUBE | GL_SAMPLER_CUBE_SHADOW | GL_INT_SAMPLER_CUBE | GL_UNSIGNED_INT_SAMPLER_CUBE
  | GL_SAMPLER_2D_ARRAY | GL_SAMPLER_2D_ARRAY_SHADOW
  | GL_INT_SAMPLER_2D_ARRAY | GL_UNSIGNED_INT_SAMPLER_2D_ARRAY
  | GL_SAMPLER_CUBE_MAP_ARRAY | GL_SAMPLER_CUBE_MAP_ARRAY_SHADOW
  | GL_INT_SAMPLER_CUBE_MAP_ARRAY | GL_UNSIGNED_INT_SAMPLER_CUBE_MAP_ARRAY
  | GL_SAMPLER_BUFFER | GL_INT_SAMPLER_BUFFER | GL_UNSIGNED_INT_SAMPLER_BUFFER
  | GL_IMAGE_1D | GL_IMAGE_2D | GL_IMAGE_3D | GL_IMAGE_CUBE | GL_IMAGE_2D_ARRAY
  | GL_IMAGE_CUBE_MAP_ARRAY | GL_IMAGE_BUFFER
  | GL_INT_IMAGE_1D | GL_INT_IMAGE_2D | GL_INT_IMAGE_3D | GL_INT_IMAGE_CUBE
  | GL_INT_IMAGE_2D_ARRAY | GL_INT_IMAGE_CUBE_MAP_ARRAY | GL_INT_IMAGE_BUFFER
  | GL_UNSIGNED_INT_IMAGE_1D | GL_UNSIGNED_INT_IMAGE_2D | GL_UNSIGNED_INT_IMAGE_3D
  | GL_UNSIGNED_INT_IMAGE_CUBE | GL_UNSIGNED_INT_IMAGE_2D_ARRAY
  | GL_UNSIGNED_INT_IMAGE_CUBE_MAP_ARRAY | GL_UNSIGNED_INT_IMAGE_BUFFER
  | other (code : Nat)
  deriving Repr

/-- What the driver reports for active uniform `i`: the name and the size and
type of `glGetActiveUniform`, and the location of `glGetUniformLocation`. -/
structure ActiveUniform where
  name : CStr
  param_size : Int
  param_type : GLType
  location : Int
  deriving Repr

/-- Driver calls and log output of `reflect_uniform`. -/
inductive ReflectCall
  | glUniform1i (p : Int) (v : Int)
  | error (msg : String) (name : CStr)
  | warning (msg : String)
  deriving DecidableEq, Repr

/-- What `reflect_uniform` reads from the build, the guardian and the parts of the
repository that are not among the sources: whether `__APPLE__` is defined, the
capability flags of `get_sampler_texture_type`, `string_to_int` (the value and
the unparsed tail), the dependency mask of a state part (`shader.cxx`), and
`Shader::bind_parameter` (`shader.cxx`). -/
structure ReflectEnv where
  apple : Bool
  supports_shadow_filter : Bool
  supports_3d_texture : Bool
  supports_cube_map : Bool
  supports_2d_texture_array : Bool
  supports_cube_map_array : Bool
  supports_buffer_texture : Bool
  string_to_int : CStr → Int × CStr
  cp_dependency : ShaderMatInput → Nat
  bind_parameter : Shader → CStr → Int → Shader

/-- The state `reflect_uniform` works on: the context (with the tables of its
shader), the calls so far, each with the index of the uniform it was made for,
and the two `static bool warned` flags of the deprecation warnings. -/
structure ReflectState where
  ctx : Context := {}
  calls : List (Nat × ReflectCall) := []
  warned_light_source : Bool := false
  warned_named : Bool := false
  deriving DecidableEq, Repr

/-- Modelled from the spec: `Shader::cp_add_mat_spec` is defined in `shader.cxx`,
which is not part of the sources.  By the spec a matrix/state binding enters the
table with a dependency mask that "is the union of the bitmasks of the state
parts it reads"; `_mat_deps` gathers the masks of the table. -/
def cp_add_mat_spec (env : ReflectEnv) (s : Shader) (bind : ShaderMatSpec) : Shader :=
  let dep := env.cp_dependency bind.part0 ||| env.cp_dependency bind.part1
  { s with mat_spec := s.mat_spec ++ [{ bind with dep := dep }], mat_deps := s.mat_deps ||| dep }

/-- Adds a matrix/state binding to the shader of the state. -/
def ReflectState.add_mat (env : ReflectEnv) (st : ReflectState) (bind : ShaderMatSpec) :
    ReflectState :=
  { st with ctx := { st.ctx with shader := cp_add_mat_spec env st.ctx.shader bind } }

/-- Logs a call for uniform `i`. -/
def ReflectState.log (st : ReflectState) (i : Nat) (c : ReflectCall) : ReflectState :=
  { st with calls := st.calls ++ [(i, c)] }

/-- Modelled from the spec: `InternalName` is declared outside the sources.  A
name "has a qualifying-namespace parent" when it has a component before a dot;
`get_parent() != get_root()` is that test. -/
def has_parent (name : CStr) : Bool := name.contains '.'

/-- Modelled from the spec: the parent of an `InternalName`, the name up to its
last dot. -/
def get_parent (name : CStr) : CStr :=
  (name.reverse.dropWhile (· ≠ '.')).drop 1 |>.reverse

/-- Modelled from the spec: the basename of an `InternalName`, the name after
its last dot. -/
def get_basename (name : CStr) : CStr :=
  (name.reverse.takeWhile (· ≠ '.')).reverse

/-- The characters `isspace` accepts in the C locale. -/
def isspace (c : Char) : Bool :=
  c = ' ' || c = '\t' || c = '\n' || c = '\x0b' || c = '\x0c' || c = '\r'

/-- The value of a run of decimal digits. -/
def digits_value (ds : List Char) : Nat :=
  ds.foldl (fun n c => 10 * n + (c.toNat - '0'.toNat)) 0

/-- The value of an `int` after wrapping. -/
def wrap_int32 (x : Int) : Int :=
  (x + 2147483648) % 4294967296 - 2147483648

/-- The conversion `%d` of `sscanf`: white space is skipped, then an optional
sign and at least one digit are read; the value and the rest of the input, or
`none` when the conversion fails. -/
def scan_int (s : CStr) : Option (Int × CStr) :=
  let s1 := s.dropWhile isspace
  let negative : Bool := s1.head? = some '-'
  let s2 := if s1.head? = some '-' ∨ s1.head? = some '+' then s1.drop 1 else s1
  let ds := s2.takeWhile Char.isDigit
  if ds = [] then none
  else
    some (wrap_int32 (if negative then -((digits_value ds : Nat) : Int) else (digits_value ds : Nat)),
      s2.dropWhile Char.isDigit)

/-- The call `sscanf(s, "LightSource[%d].%s", &index, name_buffer)` when it
returns 2: the index and the string stored in `name_buffer`; `none` when it
returns less. -/
def sscanf_light_source (s : CStr) : Option (Int × CStr) :=
  if s.take 12 = "LightSource[".toList then
    match scan_int (s.drop 12) with
    | none => none
    | some (index, rest) =>
        if rest.take 2 = "].".toList then
          let member := ((rest.drop 2).dropWhile isspace).takeWhile (fun c => !isspace c)
          if member = [] then none else some (index, member)
        else none
  else none

/-- The function `get_sampler_texture_type` (desktop build): the texture type
when it returns true, `none` when it returns false, and its log output. -/
def get_sampler_texture_type (env : ReflectEnv) (param_type : GLType) :
    Option TextureType × List ReflectCall :=
  let shadow_error : List ReflectCall :=
    [ReflectCall.error "GLSL shader uses shadow sampler, which is unsupported by the driver." []]
  match param_type with
  | .GL_SAMPLER_1D_SHADOW =>
      if !env.supports_shadow_filter then (none, shadow_error)
      else (some TextureType.TT_1d_texture, [])
  | .GL_INT_SAMPLER_1D | .GL_UNSIGNED_INT_SAMPLER_1D | .GL_SAMPLER_1D =>
      (some TextureType.TT_1d_texture, [])
  | .GL_INT_SAMPLER_1D_ARRAY | .GL_UNSIGNED_INT_SAMPLER_1D_ARRAY | .GL_SAMPLER_1D_ARRAY =>
      (some TextureType.TT_1d_texture_array, [])
  | .GL_INT_SAMPLER_2D | .GL_UNSIGNED_INT_SAMPLER_2D | .GL_SAMPLER_2D =>
      (some TextureType.TT_2d_texture, [])
  | .GL_SAMPLER_2D_SHADOW =>
      if !env.supports_shadow_filter then (none, shadow_error)
      else (some TextureType.TT_2d_texture, [])
  | .GL_INT_SAMPLER_3D | .GL_UNSIGNED_INT_SAMPLER_3D | .GL_SAMPLER_3D =>
      if env.supports_3d_texture then (some TextureType.TT_3d_texture, [])
      else (none,
        [ReflectCall.error "GLSL shader uses 3D texture, which is unsupported by the driver." []])
  | .GL_SAMPLER_CUBE_SHADOW =>
      if !env.supports_shadow_filter then (none, shadow_error)
      else if !env.supports_cube_map then
        (none,
          [ReflectCall.error "GLSL shader uses cube map, which is unsupported by the driver." []])
      else (some TextureType.TT_cube_map, [])
  | .GL_INT_SAMPLER_CUBE | .GL_UNSIGNED_INT_SAMPLER_CUBE | .GL_SAMPLER_CUBE =>
      if !env.supports_cube_map then
        (none,
          [ReflectCall.error "GLSL shader uses cube map, which is unsupported by the driver." []])
      else (some TextureType.TT_cube_map, [])
  | .GL_SAMPLER_2D_ARRAY_SHADOW =>
      if !env.supports_shadow_filter then (none, shadow_error)
      else if env.supports_2d_texture_array then (some TextureType.TT_2d_texture_array, [])
      else (none,
        [ReflectCall.error
          "GLSL shader uses 2D texture array, which is unsupported by the driver." []])
  | .GL_INT_SAMPLER_2D_ARRAY | .GL_UNSIGNED_INT_SAMPLER_2D_ARRAY | .GL_SAMPLER_2D_ARRAY =>
      if env.supports_2d_texture_array then (some TextureType.TT_2d_texture_array, [])
      else (none,
        [ReflectCall.error
          "GLSL shader uses 2D texture array, which is unsupported by the driver." []])
  | .GL_SAMPLER_CUBE_MAP_ARRAY_SHADOW =>
      if !env.supports_shadow_filter then (none, shadow_error)
      else if env.supports_cube_map_array then (some TextureType.TT_cube_map_array, [])
      else (none,
        [ReflectCall.error
          "GLSL shader uses cube map array, which is unsupported by the driver." []])
  | .GL_INT_SAMPLER_CUBE_MAP_ARRAY | .GL_UNSIGNED_INT_SAMPLER_CUBE_MAP_ARRAY
  | .GL_SAMPLER_CUBE_MAP_ARRAY =>
      if env.supports_cube_map_array then (some TextureType.TT_cube_map_array, [])
      else (none,
        [ReflectCall.error
          "GLSL shader uses cube map array, which is unsupported by the driver." []])
  | .GL_INT_SAMPLER_BUFFER | .GL_UNSIGNED_INT_SAMPLER_BUFFER | .GL_SAMPLER_BUFFER =>
      if env.supports_buffer_texture then (some TextureType.TT_buffer_texture, [])
      else (none,
        [ReflectCall.error
          "GLSL shader uses buffer texture, which is unsupported by the driver." []])
  | _ =>
      (none,
        [ReflectCall.error "GLSL shader uses unsupported sampler type for texture input." []])

/-- Lines 676-691: the `Transpose` and `Inverse` suffixes are chopped off the name
without its prefix; the name that is left, `transpose` and `inverse`. -/
def parse_matrix_suffix ( noprefix : CStr) : CStr × Bool × Bool :=
  let size := noprefix.length
  let transpose : Bool :=
    decide (size > 15) && decide ( noprefix.drop (size - 9) = "Transpose".toList)
  let name1 := if transpose then noprefix.take (size - 9) else noprefix
  let size1 := name1.length
  let inverse : Bool :=
    decide (size1 > 13) && decide (name1.drop (size1 - 7) = "Inverse".toList)
  let name2 := if inverse then name1.take (size1 - 7) else name1
  (name2, transpose, inverse)

/-- Line 695: whether what is left of the name ends in `Matrix`. -/
def is_matrix_name (matrix_name : CStr) : Bool :=
  decide (matrix_name.length > 6) &&
    decide (matrix_name.drop (matrix_name.length - 6) = "Matrix".toList)

/-- Lines 699-715: the piece for a matrix input, `none` for a type that is
neither `mat3` nor `mat4`. -/
def matrix_piece (param_type : GLType) (transpose : Bool) : Option ShaderMatPiece :=
  match param_type with
  | .GL_FLOAT_MAT3 =>
      some (if transpose then ShaderMatPiece.SMP_upper3x3 else ShaderMatPiece.SMP_transpose3x3)
  | .GL_FLOAT_MAT4 =>
      some (if transpose then ShaderMatPiece.SMP_transpose else ShaderMatPiece.SMP_whole)
  | _ => none

/-- Whether a type is `GL_FLOAT_MAT3`. -/
def GLType.is_mat3 : GLType → Bool
  | .GL_FLOAT_MAT3 => true
  | _ => false

/-- Whether a type is `GL_FLOAT_MAT4`. -/
def GLType.is_mat4 : GLType → Bool
  | .GL_FLOAT_MAT4 => true
  | _ => false

/-- Lines 779-803: `p3d_TextureMatrix`, one binding for each index below
`param_size`. -/
def add_texture_matrices (env : ReflectEnv) (bind : ShaderMatSpec) (p : Int) :
    Nat → Nat → ReflectState → ReflectState
  | _, 0, st => st
  | index, n + 1, st =>
      add_texture_matrices env bind p (index + 1) n
        (st.add_mat env
          { bind with index := index
                      location := if env.apple then p + (index : Int) * 4 else p + (index : Int) })

/-- Lines 723-778: the seven matrix names that take no index, with the function
and the two parts each gets, by `inverse`; `none` for every other name. -/
def simple_matrix (matrix_name : CStr) (inverse : Bool) :
    Option (ShaderMatFunc × ShaderMatInput × ShaderMatInput) :=
  if matrix_name = "ModelViewProjectionMatrix".toList then
    some (if inverse then
        (ShaderMatFunc.SMF_compose, ShaderMatInput.SMO_apiclip_to_apiview,
          ShaderMatInput.SMO_apiview_to_model)
      else
        (ShaderMatFunc.SMF_compose, ShaderMatInput.SMO_model_to_apiview,
          ShaderMatInput.SMO_apiview_to_apiclip))
  else if matrix_name = "ModelViewMatrix".toList then
    some (ShaderMatFunc.SMF_first,
      if inverse then ShaderMatInput.SMO_apiview_to_model else ShaderMatInput.SMO_model_to_apiview,
      ShaderMatInput.SMO_identity)
  else if matrix_name = "ProjectionMatrix".toList then
    some (ShaderMatFunc.SMF_first,
      if inverse then ShaderMatInput.SMO_apiclip_to_apiview
      else ShaderMatInput.SMO_apiview_to_apiclip,
      ShaderMatInput.SMO_identity)
  else if matrix_name = "NormalMatrix".toList then
    some (ShaderMatFunc.SMF_first,
      if inverse then ShaderMatInput.SMO_model_to_apiview else ShaderMatInput.SMO_apiview_to_model,
      ShaderMatInput.SMO_identity)
  else if matrix_name = "ModelMatrix".toList then
    some (if inverse then
        (ShaderMatFunc.SMF_compose, ShaderMatInput.SMO_world_to_view,
          ShaderMatInput.SMO_view_to_model)
      else
        (ShaderMatFunc.SMF_compose, ShaderMatInput.SMO_model_to_view,
          ShaderMatInput.SMO_view_to_world))
  else if matrix_name = "ViewMatrix".toList then
    some (if inverse then
        (ShaderMatFunc.SMF_compose, ShaderMatInput.SMO_apiview_to_view,
          ShaderMatInput.SMO_view_to_world)
      else
        (ShaderMatFunc.SMF_compose, ShaderMatInput.SMO_world_to_view,
          ShaderMatInput.SMO_view_to_apiview))
  else if matrix_name = "ViewProjectionMatrix".toList then
    some (if inverse then
        (ShaderMatFunc.SMF_compose, ShaderMatInput.SMO_apiclip_to_view,
          ShaderMatInput.SMO_view_to_world)
      else
        (ShaderMatFunc.SMF_compose, ShaderMatInput.SMO_world_to_view,
          ShaderMatInput.SMO_view_to_apiclip))
  else none

/-- Lines 804-851: a matrix member of a `p3d_LightSource` struct, when `sscanf`
found the index and the member. -/
def reflect_light_matrix (env : ReflectEnv) (st : ReflectState) (i : Nat)
    (bind : ShaderMatSpec) (matrix_name : CStr) (inverse : Bool) (index : Int)
    (member : CStr) : ReflectState :=
  if member = "shadowViewMatrix".toList then
    st.add_mat env
      { bind with index := index
                  func := ShaderMatFunc.SMF_first
                  part0 := ShaderMatInput.SMO_light_source_i_attrib
                  arg0 := some (if inverse then member ++ "Inverse".toList else member)
                  part1 := ShaderMatInput.SMO_identity
                  arg1 := none }
  else if member = "shadowMatrix".toList then
    let warned : ReflectState :=
      if !st.warned_light_source then
        { st.log i (ReflectCall.warning "p3d_LightSource[].shadowMatrix is deprecated")
          with warned_light_source := true }
      else st
    warned.add_mat env
      { bind with index := index
                  func := ShaderMatFunc.SMF_compose
                  part0 := ShaderMatInput.SMO_model_to_apiview
                  arg0 := none
                  part1 := ShaderMatInput.SMO_light_source_i_attrib
                  arg1 := some "shadowViewMatrix".toList }
  else
    st.log i
      (ReflectCall.error "p3d_LightSource struct does not provide a matrix named" matrix_name)

/-- Lines 695-857: the matrix inputs.  `name` is the name of the parameter, `p`
its location. -/
def reflect_matrix (env : ReflectEnv) (st : ReflectState) (i : Nat) (name : CStr)
    (param_size : Int) (param_type : GLType) (p : Int) (matrix_name : CStr)
    (transpose inverse : Bool) : ReflectState :=
  match matrix_piece param_type transpose with
  | none => st.log i (ReflectCall.error "Matrix input should be mat3 or mat4" matrix_name)
  | some piece =>
      let bind : ShaderMatSpec :=
        { name := name, location := p, func := ShaderMatFunc.SMF_compose, piece := piece,
          arg0 := none, arg1 := none }
      match simple_matrix matrix_name inverse with
      | some parts =>
          let warned : ReflectState :=
            if matrix_name = "NormalMatrix".toList ∧ param_type.is_mat3 = false then
              st.log i (ReflectCall.warning "p3d_NormalMatrix input should be mat3, not mat4!")
            else st
          warned.add_mat env { bind with func := parts.1, part0 := parts.2.1, part1 := parts.2.2 }
      | none =>
          if matrix_name = "TextureMatrix".toList then
            if !param_type.is_mat4 then
              st.log i (ReflectCall.error "p3d_TextureMatrix should be mat4[], not mat3[]!" [])
            else
              add_texture_matrices env
                { bind with func := ShaderMatFunc.SMF_first
                            part0 := if inverse then ShaderMatInput.SMO_inv_texmat_i
                                     else ShaderMatInput.SMO_texmat_i
                            part1 := ShaderMatInput.SMO_identity }
                p 0 param_size.toNat st
          else
            match (if matrix_name.length > 15 ∧ matrix_name.take 12 = "LightSource[".toList
                   then sscanf_light_source matrix_name else none) with
            | some (index, member) =>
                reflect_light_matrix env st i bind matrix_name inverse index member
            | none => st.log i (ReflectCall.error "Unrecognized uniform matrix name" matrix_name)

/-- Whether a type is `GL_FLOAT`. -/
def GLType.is_float : GLType → Bool
  | .GL_FLOAT => true
  | _ => false

/-- Whether a type is `GL_FLOAT_VEC3`. -/
def GLType.is_vec3 : GLType → Bool
  | .GL_FLOAT_VEC3 => true
  | _ => false

/-- Whether a type is `GL_FLOAT_VEC4`. -/
def GLType.is_vec4 : GLType → Bool
  | .GL_FLOAT_VEC4 => true
  | _ => false

/-- Whether a type is `GL_BOOL`. -/
def GLType.is_bool : GLType → Bool
  | .GL_BOOL => true
  | _ => false

/-- Whether a type is `GL_INT`. -/
def GLType.is_int : GLType → Bool
  | .GL_INT => true
  | _ => false

/-- The sampler types of the `case` labels of lines 1269-1298. -/
def GLType.is_sampler : GLType → Bool
  | .GL_INT_SAMPLER_2D | .GL_INT_SAMPLER_3D | .GL_INT_SAMPLER_2D_ARRAY | .GL_INT_SAMPLER_CUBE
  | .GL_UNSIGNED_INT_SAMPLER_2D | .GL_UNSIGNED_INT_SAMPLER_3D | .GL_UNSIGNED_INT_SAMPLER_CUBE
  | .GL_UNSIGNED_INT_SAMPLER_2D_ARRAY | .GL_SAMPLER_CUBE_SHADOW | .GL_SAMPLER_2D_ARRAY
  | .GL_SAMPLER_2D_ARRAY_SHADOW | .GL_INT_SAMPLER_1D | .GL_INT_SAMPLER_1D_ARRAY
  | .GL_INT_SAMPLER_BUFFER | .GL_INT_SAMPLER_CUBE_MAP_ARRAY | .GL_UNSIGNED_INT_SAMPLER_1D
  | .GL_UNSIGNED_INT_SAMPLER_1D_ARRAY | .GL_UNSIGNED_INT_SAMPLER_BUFFER
  | .GL_UNSIGNED_INT_SAMPLER_CUBE_MAP_ARRAY | .GL_SAMPLER_1D | .GL_SAMPLER_1D_ARRAY
  | .GL_SAMPLER_1D_SHADOW | .GL_SAMPLER_BUFFER | .GL_SAMPLER_CUBE_MAP_ARRAY
  | .GL_SAMPLER_CUBE_MAP_ARRAY_SHADOW | .GL_SAMPLER_2D | .GL_SAMPLER_2D_SHADOW
  | .GL_SAMPLER_3D | .GL_SAMPLER_CUBE => true
  | _ => false

/-- The matrix types of the `case` labels of lines 1311-1317 and 1523-1529. -/
def GLType.is_unsupported_matrix : GLType → Bool
  | .GL_FLOAT_MAT2 | .GL_FLOAT_MAT2x3 | .GL_FLOAT_MAT2x4 | .GL_FLOAT_MAT3x2
  | .GL_FLOAT_MAT3x4 | .GL_FLOAT_MAT4x2 | .GL_FLOAT_MAT4x3 => true
  | _ => false

/-- The image types of the `case` labels of lines 1478-1500. -/
def GLType.is_image : GLType → Bool
  | .GL_IMAGE_2D | .GL_IMAGE_3D | .GL_IMAGE_CUBE | .GL_IMAGE_2D_ARRAY
  | .GL_INT_IMAGE_2D | .GL_INT_IMAGE_3D | .GL_INT_IMAGE_CUBE | .GL_INT_IMAGE_2D_ARRAY
  | .GL_UNSIGNED_INT_IMAGE_2D | .GL_UNSIGNED_INT_IMAGE_3D | .GL_UNSIGNED_INT_IMAGE_CUBE
  | .GL_UNSIGNED_INT_IMAGE_2D_ARRAY | .GL_IMAGE_1D | .GL_IMAGE_CUBE_MAP_ARRAY | .GL_IMAGE_BUFFER
  | .GL_INT_IMAGE_1D | .GL_INT_IMAGE_CUBE_MAP_ARRAY | .GL_INT_IMAGE_BUFFER
  | .GL_UNSIGNED_INT_IMAGE_1D | .GL_UNSIGNED_INT_IMAGE_CUBE_MAP_ARRAY
  | .GL_UNSIGNED_INT_IMAGE_BUFFER => true
  | _ => false

/-- The bool, int and unsigned types of the `case` labels of lines 1417-1428. -/
def GLType.is_integral : GLType → Bool
  | .GL_BOOL | .GL_BOOL_VEC2 | .GL_BOOL_VEC3 | .GL_BOOL_VEC4
  | .GL_INT | .GL_INT_VEC2 | .GL_INT_VEC3 | .GL_INT_VEC4
  | .GL_UNSIGNED_INT | .GL_UNSIGNED_INT_VEC2 | .GL_UNSIGNED_INT_VEC3
  | .GL_UNSIGNED_INT_VEC4 => true
  | _ => false

/-- The float vector types of the `case` labels of lines 1392-1395. -/
def GLType.is_float_vector : GLType → Bool
  | .GL_FLOAT | .GL_FLOAT_VEC2 | .GL_FLOAT_VEC3 | .GL_FLOAT_VEC4 => true
  | _ => false

/-- The `switch` of lines 1433-1458 (and 1553-1578): `_dim[1]` and `_dim[2]` for a
pointer-data binding; `none` where no case matches and `_dim[2]` stays
unassigned. -/
def ptr_dims (param_type : GLType) : Option (Nat × Nat) :=
  match param_type with
  | .GL_BOOL | .GL_INT | .GL_UNSIGNED_INT | .GL_FLOAT => some (1, 1)
  | .GL_BOOL_VEC2 | .GL_INT_VEC2 | .GL_UNSIGNED_INT_VEC2 | .GL_FLOAT_VEC2 => some (1, 2)
  | .GL_BOOL_VEC3 | .GL_INT_VEC3 | .GL_UNSIGNED_INT_VEC3 | .GL_FLOAT_VEC3 => some (1, 3)
  | .GL_BOOL_VEC4 | .GL_INT_VEC4 | .GL_UNSIGNED_INT_VEC4 | .GL_FLOAT_VEC4 => some (1, 4)
  | .GL_FLOAT_MAT3 => some (3, 3)
  | .GL_FLOAT_MAT4 => some (4, 4)
  | _ => none

/-- The `switch` of lines 1459-1484 (and 1579-1604): `_type` for a pointer-data
binding; `none` where no case matches and `_type` stays unassigned. -/
def ptr_type (param_type : GLType) : Option ScalarType :=
  match param_type with
  | .GL_BOOL | .GL_BOOL_VEC2 | .GL_BOOL_VEC3 | .GL_BOOL_VEC4
  | .GL_UNSIGNED_INT | .GL_UNSIGNED_INT_VEC2 | .GL_UNSIGNED_INT_VEC3
  | .GL_UNSIGNED_INT_VEC4 => some ScalarType.ST_uint
  | .GL_INT | .GL_INT_VEC2 | .GL_INT_VEC3 | .GL_INT_VEC4 => some ScalarType.ST_int
  | .GL_FLOAT | .GL_FLOAT_VEC2 | .GL_FLOAT_VEC3 | .GL_FLOAT_VEC4
  | .GL_FLOAT_MAT3 | .GL_FLOAT_MAT4 => some ScalarType.ST_float
  | _ => none

/-- The pointer-data binding of lines 1429-1487 (`dim0 = 1`) and 1549-1607
(`dim0 = param_size`, as a `uint32_t`); an unassigned `_dim[2]` is 0 and an
unassigned `_type` is `ST_unknown`. -/
def make_ptr_spec (name : CStr) (p : Int) (dim0 : Nat) (param_type : GLType) : ShaderPtrSpec :=
  { name := name, location := p, dim0 := dim0
    dim1 := match ptr_dims param_type with
      | some d => d.1
      | none => 1
    dim2 := match ptr_dims param_type with
      | some d => d.2
      | none => 0
    type := match ptr_type param_type with
      | some t => t
      | none => ScalarType.ST_unknown
    arg := name }

/-- Adds a pointer-data binding to the shader of the state. -/
def ReflectState.add_ptr (st : ReflectState) (bind : ShaderPtrSpec) : ReflectState :=
  { st with ctx := { st.ctx with
      shader := { st.ctx.shader with ptr_spec := st.ctx.shader.ptr_spec ++ [bind] } } }

/-- The statements `_glUniform1i(p, _shader->_tex_spec.size());
_shader->_tex_spec.push_back(bind);`. -/
def ReflectState.add_tex (st : ReflectState) (i : Nat) (p : Int) (bind : ShaderTexSpec) :
    ReflectState :=
  { st with
    ctx := { st.ctx with
      shader := { st.ctx.shader with tex_spec := st.ctx.shader.tex_spec ++ [bind] } }
    calls := st.calls ++ [(i, ReflectCall.glUniform1i p (st.ctx.shader.tex_spec.length : Int))] }

/-- Logs the calls of `get_sampler_texture_type` for uniform `i`. -/
def ReflectState.log_all (st : ReflectState) (i : Nat) (cs : List ReflectCall) : ReflectState :=
  { st with calls := st.calls ++ cs.map (fun c => (i, c)) }

/-- Lines 858-881: `p3d_Texture<N>`. -/
def reflect_texture_stage (env : ReflectEnv) (st : ReflectState) (i : Nat) (name : CStr)
    (param_type : GLType) (p : Int) ( noprefix : CStr) : ReflectState :=
  let parsed := env.string_to_int ( noprefix.drop 7)
  if parsed.2 ≠ [] then
    st.log i (ReflectCall.error "Error parsing shader input name" name)
  else
    match (get_sampler_texture_type env param_type).1 with
    | some t =>
        (st.log_all i (get_sampler_texture_type env param_type).2).add_tex i p
          { name := name, location := p, part := ShaderTexInput.STO_stage_i, input_name := none,
            stage := parsed.1, desired_type := t }
    | none =>
        (st.log_all i (get_sampler_texture_type env param_type).2).log i
          (ReflectCall.error "Could not bind texture input" name)

/-- Lines 882-976: the fields of `p3d_Material`: the expected type, the part and
the piece; `none` for a name that is no field, where control falls through. -/
def material_field ( noprefix : CStr) (param_type : GLType) :
    Option (Bool × String × ShaderMatInput × ShaderMatPiece) :=
  if noprefix = "Material.baseColor".toList then
    some (param_type.is_vec4, "p3d_Material.baseColor should be vec4",
      ShaderMatInput.SMO_attr_material2, ShaderMatPiece.SMP_row0)
  else if noprefix = "Material.ambient".toList then
    some (param_type.is_vec4, "p3d_Material.ambient should be vec4",
      ShaderMatInput.SMO_attr_material, ShaderMatPiece.SMP_row0)
  else if noprefix = "Material.diffuse".toList then
    some (param_type.is_vec4, "p3d_Material.diffuse should be vec4",
      ShaderMatInput.SMO_attr_material, ShaderMatPiece.SMP_row1)
  else if noprefix = "Material.emission".toList then
    some (param_type.is_vec4, "p3d_Material.emission should be vec4",
      ShaderMatInput.SMO_attr_material, ShaderMatPiece.SMP_row2)
  else if noprefix = "Material.specular".toList then
    some (param_type.is_vec3, "p3d_Material.specular should be vec3",
      ShaderMatInput.SMO_attr_material, ShaderMatPiece.SMP_row3x3)
  else if noprefix = "Material.shininess".toList then
    some (param_type.is_float, "p3d_Material.shininess should be float",
      ShaderMatInput.SMO_attr_material, ShaderMatPiece.SMP_cell15)
  else if noprefix = "Material.roughness".toList then
    some (param_type.is_float, "p3d_Material.roughness should be float",
      ShaderMatInput.SMO_attr_material2, ShaderMatPiece.SMP_cell15)
  else if noprefix = "Material.metallic".toList then
    some (param_type.is_float || param_type.is_bool,
      "p3d_Material.metallic should be bool or float",
      ShaderMatInput.SMO_attr_material2, ShaderMatPiece.SMP_row3x1)
  else if noprefix = "Material.refractiveIndex".toList then
    some (param_type.is_float, "p3d_Material.refractiveIndex should be float",
      ShaderMatInput.SMO_attr_material2, ShaderMatPiece.SMP_cell13)
  else none

/-- Lines 882-976: `p3d_Material.<field>`; `none` where control leaves the block
without returning.  A field of another type than expected is reported, and its
binding is added all the same. -/
def reflect_material (env : ReflectEnv) (st : ReflectState) (i : Nat) (name : CStr)
    (param_type : GLType) (p : Int) ( noprefix : CStr) : Option ReflectState :=
  match material_field noprefix param_type with
  | none => none
  | some (type_ok, msg, part, piece) =>
      let reported := if !type_ok then st.log i (ReflectCall.error msg []) else st
      some (reported.add_mat env
        { name := name, location := p, func := ShaderMatFunc.SMF_first, part0 := part,
          arg0 := none, part1 := ShaderMatInput.SMO_identity, arg1 := none, piece := piece })

/-- The piece for a colour input: `vec3` or `vec4`. -/
def color_piece (param_type : GLType) : Option ShaderMatPiece :=
  match param_type with
  | .GL_FLOAT_VEC3 => some ShaderMatPiece.SMP_row3x3
  | .GL_FLOAT_VEC4 => some ShaderMatPiece.SMP_row3
  | _ => none

/-- Lines 977-1018 and 1109-1129: `p3d_ColorScale`, `p3d_Color` and
`p3d_LightModel.ambient`. -/
def reflect_color (env : ReflectEnv) (st : ReflectState) (i : Nat) (name : CStr)
    (param_type : GLType) (p : Int) (part : ShaderMatInput) (msg : String) : ReflectState :=
  match color_piece param_type with
  | some piece =>
      st.add_mat env
        { name := name, location := p, func := ShaderMatFunc.SMF_first, part0 := part,
          arg0 := none, part1 := ShaderMatInput.SMO_identity, arg1 := none, piece := piece }
  | none => st.log i (ReflectCall.error msg [])

/-- Lines 1025-1036: `p3d_ClipPlane`, one binding for each index below
`param_size`. -/
def add_clip_planes (env : ReflectEnv) (name : CStr) (p : Int) :
    Nat → Nat → ReflectState → ReflectState
  | _, 0, st => st
  | index, n + 1, st =>
      add_clip_planes env name p (index + 1) n
        (st.add_mat env
          { name := name, location := p + (index : Int), piece := ShaderMatPiece.SMP_row3,
            func := ShaderMatFunc.SMF_first, index := index,
            part0 := ShaderMatInput.SMO_apiview_clipplane_i, arg0 := none,
            part1 := ShaderMatInput.SMO_identity, arg1 := none })

/-- Lines 1046-1104: the fields of `p3d_Fog`: the part, and the piece when the
type is the expected one, with the error message otherwise; `none` for a name
that is none of the five fields. -/
def fog_field ( noprefix : CStr) (param_type : GLType) :
    Option (ShaderMatInput × Option ShaderMatPiece × String) :=
  if noprefix = "Fog.color".toList then
    some (ShaderMatInput.SMO_attr_fogcolor, color_piece param_type,
      "p3d_Fog.color should be vec3 or vec4")
  else if noprefix = "Fog.density".toList then
    some (ShaderMatInput.SMO_attr_fog,
      if param_type.is_float then some ShaderMatPiece.SMP_row3x1 else none,
      "p3d_Fog.density should be float")
  else if noprefix = "Fog.start".toList then
    some (ShaderMatInput.SMO_attr_fog,
      if param_type.is_float then some ShaderMatPiece.SMP_cell13 else none,
      "p3d_Fog.start should be float")
  else if noprefix = "Fog.end".toList then
    some (ShaderMatInput.SMO_attr_fog,
      if param_type.is_float then some ShaderMatPiece.SMP_cell14 else none,
      "p3d_Fog.end should be float")
  else if noprefix = "Fog.scale".toList then
    some (ShaderMatInput.SMO_attr_fog,
      if param_type.is_float then some ShaderMatPiece.SMP_cell15 else none,
      "p3d_Fog.scale should be float")
  else none

/-- Lines 1037-1108: `p3d_Fog.<field>`.  For a name that is none of the five
fields no branch of the chain is taken, and `cp_add_mat_spec(bind)` is reached
with `_part[0]` and `_piece` never assigned (`SMO_INVALID`, `SMP_INVALID`). -/
def reflect_fog (env : ReflectEnv) (st : ReflectState) (i : Nat) (name : CStr)
    (param_type : GLType) (p : Int) ( noprefix : CStr) : ReflectState :=
  let bind : ShaderMatSpec :=
    { name := name, location := p, func := ShaderMatFunc.SMF_first, arg0 := none,
      part1 := ShaderMatInput.SMO_identity, arg1 := none }
  match fog_field noprefix param_type with
  | some (part, some piece, _) => st.add_mat env { bind with part0 := part, piece := piece }
  | some (_, none, msg) => st.log i (ReflectCall.error msg [])
  | none => st.add_mat env bind

/-- The piece for a member of a light source: `float` or a float vector. -/
def light_piece (param_type : GLType) : Option ShaderMatPiece :=
  match param_type with
  | .GL_FLOAT => some ShaderMatPiece.SMP_row3x1
  | .GL_FLOAT_VEC2 => some ShaderMatPiece.SMP_row3x2
  | .GL_FLOAT_VEC3 => some ShaderMatPiece.SMP_row3x3
  | .GL_FLOAT_VEC4 => some ShaderMatPiece.SMP_row3
  | _ => none

/-- The sampler types of the `case` labels of lines 1137-1140. -/
def GLType.is_shadow_map : GLType → Bool
  | .GL_SAMPLER_CUBE_SHADOW | .GL_SAMPLER_2D | .GL_SAMPLER_2D_SHADOW | .GL_SAMPLER_CUBE => true
  | _ => false

/-- Lines 1130-1196: `p3d_LightSource[i].<member>`, when `sscanf` found the index
and the member. -/
def reflect_light_source (env : ReflectEnv) (st : ReflectState) (i : Nat) (name : CStr)
    (param_type : GLType) (p : Int) (index : Int) (member : CStr) : ReflectState :=
  if member = "shadowMap".toList then
    if param_type.is_shadow_map then
      match (get_sampler_texture_type env param_type).1 with
      | some t =>
          (st.log_all i (get_sampler_texture_type env param_type).2).add_tex i p
            { name := name, location := p, part := ShaderTexInput.STO_light_i_shadow_map,
              input_name := none, stage := index, desired_type := t }
      | none => st.log_all i (get_sampler_texture_type env param_type).2
    else st.log i (ReflectCall.error "Invalid type for p3d_LightSource[].shadowMap input!" [])
  else
    match light_piece param_type with
    | some piece =>
        st.add_mat env
          { name := name, location := p, func := ShaderMatFunc.SMF_first, index := index,
            part0 := ShaderMatInput.SMO_light_source_i_attrib, arg0 := some member,
            part1 := ShaderMatInput.SMO_identity, arg1 := none, piece := piece }
    | none => st.log i (ReflectCall.error "p3d_LightSource[] member should be float or vec" member)

/-- Lines 1197-1232: what follows the light sources in the `p3d_` branch:
`p3d_TransformTable`, `p3d_SliderTable`, `p3d_TexAlphaOnly`, and the error for
every other name. -/
def reflect_tables (env : ReflectEnv) (st : ReflectState) (i : Nat) (name : CStr)
    (param_size : Int) (param_type : GLType) (p : Int) ( noprefix : CStr) : ReflectState :=
  if noprefix = "TransformTable".toList then
    if !param_type.is_mat4 then
      st.log i (ReflectCall.error "p3d_TransformTable should be uniform mat4[]" [])
    else
      { st with ctx := { st.ctx with transform_table_index := p
                                     transform_table_size := param_size.toNat } }
  else if noprefix = "SliderTable".toList then
    if !param_type.is_float then
      st.log i (ReflectCall.error "p3d_SliderTable should be uniform float[]" [])
    else
      { st with ctx := { st.ctx with slider_table_index := p
                                     slider_table_size := param_size.toNat } }
  else if noprefix = "TexAlphaOnly".toList then
    st.add_mat env
      { name := name, location := p, func := ShaderMatFunc.SMF_first, index := 0,
        part0 := ShaderMatInput.SMO_tex_is_alpha_i, arg0 := none,
        part1 := ShaderMatInput.SMO_identity, arg1 := none, piece := ShaderMatPiece.SMP_row3 }
  else st.log i (ReflectCall.error "Unrecognized uniform name" name)

/-- Lines 667-1233: a uniform whose name begins with `p3d_`.  `size` is the
length of what is left of the name after the suffixes are chopped off, as in the
source, where the later tests read the same variable. -/
def reflect_p3d (env : ReflectEnv) (st : ReflectState) (i : Nat) (name : CStr)
    (param_size : Int) (param_type : GLType) (p : Int) : ReflectState :=
  let noprefix := name.drop 4
  let parsed := parse_matrix_suffix noprefix
  let matrix_name := parsed.1
  let size := matrix_name.length
  if is_matrix_name matrix_name then
    reflect_matrix env st i name param_size param_type p matrix_name parsed.2.1 parsed.2.2
  else if size > 7 ∧ noprefix.take 7 = "Texture".toList then
    reflect_texture_stage env st i name param_type p noprefix
  else
    match (if size > 9 ∧ noprefix.take 9 = "Material.".toList
           then reflect_material env st i name param_type p noprefix else none) with
    | some r => r
    | none =>
        if noprefix = "ColorScale".toList then
          reflect_color env st i name param_type p ShaderMatInput.SMO_attr_colorscale
            "p3d_ColorScale should be vec3 or vec4"
        else if noprefix = "Color".toList then
          reflect_color env st i name param_type p ShaderMatInput.SMO_attr_color
            "p3d_Color should be vec3 or vec4"
        else if noprefix = "ClipPlane".toList then
          if !param_type.is_vec4 then
            st.log i (ReflectCall.error "p3d_ClipPlane should be vec4 or vec4[]" [])
          else add_clip_planes env name p 0 param_size.toNat st
        else if size > 4 ∧ noprefix.take 4 = "Fog.".toList then
          reflect_fog env st i name param_type p noprefix
        else if noprefix = "LightModel.ambient".toList then
          reflect_color env st i name param_type p ShaderMatInput.SMO_light_ambient
            "p3d_LightModel.ambient should be vec3 or vec4"
        else
          match (if size > 15 ∧ noprefix.take 12 = "LightSource[".toList
                 then sscanf_light_source noprefix else none) with
          | some (index, member) =>
              reflect_light_source env st i name param_type p index member
          | none => reflect_tables env st i name param_size param_type p noprefix

/-- Lines 1234-1283: a uniform whose name begins with `osg_`. -/
def reflect_osg (env : ReflectEnv) (st : ReflectState) (i : Nat) (name : CStr)
    (param_type : GLType) (p : Int) : ReflectState :=
  let noprefix := name.drop 4
  let bind : ShaderMatSpec := { name := name, location := p, arg0 := none, arg1 := none }
  if noprefix = "ViewMatrix".toList then
    st.add_mat env
      { bind with piece := ShaderMatPiece.SMP_whole, func := ShaderMatFunc.SMF_compose
                  part0 := ShaderMatInput.SMO_world_to_view
                  part1 := ShaderMatInput.SMO_view_to_apiview }
  else if noprefix = "InverseViewMatrix".toList ∨ noprefix = "ViewMatrixInverse".toList then
    st.add_mat env
      { bind with piece := ShaderMatPiece.SMP_whole, func := ShaderMatFunc.SMF_compose
                  part0 := ShaderMatInput.SMO_apiview_to_view
                  part1 := ShaderMatInput.SMO_view_to_world }
  else if noprefix = "FrameTime".toList then
    st.add_mat env
      { bind with piece := ShaderMatPiece.SMP_row3x1, func := ShaderMatFunc.SMF_first
                  part0 := ShaderMatInput.SMO_frame_time
                  part1 := ShaderMatInput.SMO_identity }
  else if noprefix = "DeltaFrameTime".toList then
    st.add_mat env
      { bind with piece := ShaderMatPiece.SMP_row3x1, func := ShaderMatFunc.SMF_first
                  part0 := ShaderMatInput.SMO_frame_delta
                  part1 := ShaderMatInput.SMO_identity }
  else if noprefix = "FrameNumber".toList then
    if !param_type.is_int then
      st.log i (ReflectCall.error "osg_FrameNumber should be uniform int" [])
    else { st with ctx := { st.ctx with frame_number_loc := p } }
  else st

/-- The call `_shader->bind_parameter(param)`. -/
def ReflectState.bind_parameter (env : ReflectEnv) (st : ReflectState) (name : CStr) (p : Int) :
    ReflectState :=
  { st with ctx := { st.ctx with shader := env.bind_parameter st.ctx.shader name p } }

/-- Lines 1284-1517: a single uniform (`param_size == 1`) that has neither
prefix. -/
def reflect_single (env : ReflectEnv) (st : ReflectState) (i : Nat) (name : CStr)
    (param_type : GLType) (p : Int) : ReflectState :=
  if param_type.is_sampler then
    match (get_sampler_texture_type env param_type).1 with
    | some t =>
        (st.log_all i (get_sampler_texture_type env param_type).2).add_tex i p
          { name := name, location := p, part := ShaderTexInput.STO_named_input,
            input_name := some name, stage := 0, desired_type := t }
    | none => st.log_all i (get_sampler_texture_type env param_type).2
  else if param_type.is_unsupported_matrix then
    st.log i (ReflectCall.warning "GLSL shader requested an unsupported matrix type")
  else if param_type.is_mat3 then
    if has_parent name then
      st.add_mat env
        { name := name, location := p, piece := ShaderMatPiece.SMP_upper3x3,
          func := ShaderMatFunc.SMF_first, part0 := ShaderMatInput.SMO_mat_constant_x,
          arg0 := some name, part1 := ShaderMatInput.SMO_identity, arg1 := none }
    else st.bind_parameter env name p
  else if param_type.is_mat4 then
    if has_parent name then
      if get_basename name = "shadowMatrix".toList then
        let warned : ReflectState :=
          if !st.warned_named then
            { st.log i (ReflectCall.warning "light.shadowMatrix inputs are deprecated")
              with warned_named := true }
          else st
        warned.add_mat env
          { name := name, location := p, piece := ShaderMatPiece.SMP_whole,
            func := ShaderMatFunc.SMF_compose, part0 := ShaderMatInput.SMO_model_to_apiview,
            arg0 := none, part1 := ShaderMatInput.SMO_mat_constant_x_attrib,
            arg1 := some (get_parent name ++ ".shadowViewMatrix".toList) }
      else
        st.add_mat env
          { name := name, location := p, piece := ShaderMatPiece.SMP_whole,
            func := ShaderMatFunc.SMF_first, part0 := ShaderMatInput.SMO_mat_constant_x_attrib,
            arg0 := some name, part1 := ShaderMatInput.SMO_identity, arg1 := none }
    else st.bind_parameter env name p
  else if param_type.is_float_vector then
    if has_parent name then
      st.add_mat env
        { name := name, location := p
          piece := match light_piece param_type with
            | some piece => piece
            | none => ShaderMatPiece.SMP_row3
          func := ShaderMatFunc.SMF_first, part0 := ShaderMatInput.SMO_vec_constant_x_attrib,
          arg0 := some name, part1 := ShaderMatInput.SMO_identity, arg1 := none }
    else st.bind_parameter env name p
  else if param_type.is_integral then
    st.add_ptr (make_ptr_spec name p 1 param_type)
  else if param_type.is_image then
    { st with
      ctx := { st.ctx with glsl_img_inputs :=
        st.ctx.glsl_img_inputs ++ [{ name := name, writable := false, gtc := none }] }
      calls := st.calls ++
        [(i, ReflectCall.glUniform1i p (st.ctx.glsl_img_inputs.length : Int))] }
  else st.log i (ReflectCall.warning "Ignoring unrecognized GLSL parameter type!")

/-- Lines 1518-1631: a uniform array that has neither prefix. -/
def reflect_array (st : ReflectState) (i : Nat) (name : CStr) (param_size : Int)
    (param_type : GLType) (p : Int) : ReflectState :=
  if param_type.is_unsupported_matrix then
    st.log i (ReflectCall.warning "GLSL shader requested an unrecognized matrix array type")
  else if param_type.is_integral ∨ param_type.is_float_vector ∨ param_type.is_mat3
      ∨ param_type.is_mat4 then
    st.add_ptr (make_ptr_spec name p (param_size % 4294967296).toNat param_type)
  else st.log i (ReflectCall.warning "Ignoring unrecognized GLSL parameter array type!")

/-- Lines 651-657: the name without the `[0]` that some drivers append. -/
def strip_array_suffix (name : CStr) : CStr :=
  if name.length > 3 ∧ name.drop (name.length - 3) = "[0]".toList
  then name.take (name.length - 3) else name

/-- The function `reflect_uniform` for active uniform `i`, given what the driver
reports for it. -/
def reflect_uniform (env : ReflectEnv) (st : ReflectState) (i : Nat) (u : ActiveUniform) :
    ReflectState :=
  if u.name.take 6 = "_main_".toList then st
  else if u.location < 0 then st
  else
    let name := strip_array_suffix u.name
    if name.take 4 = "p3d_".toList then
      reflect_p3d env st i name u.param_size u.param_type u.location
    else if name.take 4 = "osg_".toList then
      reflect_osg env st i name u.param_type u.location
    else if u.param_size = 1 then
      reflect_single env st i name u.param_type u.location
    else reflect_array st i name u.param_size u.param_type u.location

/-- The loop of `reflect_program` over the active uniforms (lines 332-334), from
uniform `i` on. -/
def reflect_uniforms (env : ReflectEnv) : ReflectState → Nat → List ActiveUniform → ReflectState
  | st, _, [] => st
  | st, i, u :: rest => reflect_uniforms env (reflect_uniform env st i u) (i + 1) rest

/-- Lines 327-334 of `reflect_program`: the three tables are cleared and every
active uniform is reflected. -/
def reflect_program (env : ReflectEnv) (st : ReflectState) (uniforms : List ActiveUniform) :
    ReflectState :=
  reflect_uniforms env
    { st with ctx := { st.ctx with
        shader := { st.ctx.shader with ptr_spec := [], mat_spec := [], tex_spec := [] } } }
    0 uniforms

/-- A sample `string_to_int`: the digits at the front and the rest. -/
def sample_string_to_int (s : CStr) : Int × CStr :=
  ((digits_value (s.takeWhile Char.isDigit) : Nat), s.dropWhile Char.isDigit)

/-- A sample dependency mask: the transform bit for the parts that read a
transform, the material bit and the fog bit for their parts, none for the
rest. -/
def sample_cp_dependency : ShaderMatInput → Nat
  | .SMO_identity => 0
  | .SMO_attr_material | .SMO_attr_material2 => 0x010
  | .SMO_attr_fog | .SMO_attr_fogcolor => 0x200
  | .SMO_attr_color => 0x004
  | .SMO_INVALID => 0
  | _ => 0x002

/-- A sample environment: a desktop driver with every capability; a plain named
input is left out of the tables. -/
def sample_reflect_env : ReflectEnv :=
  { apple := false
    supports_shadow_filter := true
    supports_3d_texture := true
    supports_cube_map := true
    supports_2d_texture_array := true
    supports_cube_map_array := true
    supports_buffer_texture := true
    string_to_int := sample_string_to_int
    cp_dependency := sample_cp_dependency
    bind_parameter := fun s _ _ => s }

/-- The base names of the matrix vocabulary that take no `LightSource` index. -/
def matrix_vocabulary : List CStr :=
  ["ModelViewProjectionMatrix".toList, "ModelViewMatrix".toList, "ProjectionMatrix".toList,
   "NormalMatrix".toList, "ModelMatrix".toList, "ViewMatrix".toList,
   "ViewProjectionMatrix".toList, "TextureMatrix".toList]

/-- The suffixes of a matrix name, each with whether it holds `Inverse` and
whether it holds `Transpose`. -/
def matrix_suffixes : List (CStr × Bool × Bool) :=
  [([], false, false), ("Inverse".toList, true, false), ("Transpose".toList, false, true),
   ("InverseTranspose".toList, true, true)]

/-- The seven matrix names that take no index. -/
def simple_matrix_names : List CStr :=
  ["ModelViewProjectionMatrix".toList, "ModelViewMatrix".toList, "ProjectionMatrix".toList,
   "NormalMatrix".toList, "ModelMatrix".toList, "ViewMatrix".toList,
   "ViewProjectionMatrix".toList]

/-- The inverse of a state part as the specification words it: the two ends of
its `from_to` pair are swapped; a part that names no pair has none. -/
def inverse_part : ShaderMatInput → Option ShaderMatInput
  | .SMO_model_to_apiview => some .SMO_apiview_to_model
  | .SMO_apiview_to_model => some .SMO_model_to_apiview
  | .SMO_apiview_to_apiclip => some .SMO_apiclip_to_apiview
  | .SMO_apiclip_to_apiview => some .SMO_apiview_to_apiclip
  | .SMO_model_to_view => some .SMO_view_to_model
  | .SMO_view_to_model => some .SMO_model_to_view
  | .SMO_world_to_view => some .SMO_view_to_world
  | .SMO_view_to_world => some .SMO_world_to_view
  | .SMO_view_to_apiview => some .SMO_apiview_to_view
  | .SMO_apiview_to_view => some .SMO_view_to_apiview
  | .SMO_view_to_apiclip => some .SMO_apiclip_to_view
  | .SMO_apiclip_to_view => some .SMO_view_to_apiclip
  | _ => none

/-- The function and parts of the inverse binding as the specification words
them: compose has the reversed and individually inverted parts, take-first the
inverted first part. -/
def inverse_parts (parts : ShaderMatFunc × ShaderMatInput × ShaderMatInput) :
    Option (ShaderMatFunc × ShaderMatInput × ShaderMatInput) :=
  match parts.1 with
  | ShaderMatFunc.SMF_compose =>
      match inverse_part parts.2.2, inverse_part parts.2.1 with
      | some a, some b => some (ShaderMatFunc.SMF_compose, a, b)
      | _, _ => none
  | ShaderMatFunc.SMF_first =>
      match inverse_part parts.2.1 with
      | some a => some (ShaderMatFunc.SMF_first, a, parts.2.2)
      | none => none

/-- The sample uniform `p3d_LightSource[2].shadowViewMatrix` plus a suffix, a
`mat4` at location 3. -/
def sample_shadow_view_uniform (suffix : String) : ActiveUniform :=
  { name := "p3d_LightSource[2].shadowViewMatrix".toList ++ suffix.toList, param_size := 1,
    param_type := GLType.GL_FLOAT_MAT4, location := 3 }

/-! ## The outcome of one `reflect_uniform` -/

/-- The location and the value of a `glUniform1i` call; `none` for log output. -/
def ReflectCall.unit : ReflectCall → Option (Int × Int)
  | .glUniform1i p v => some (p, v)
  | _ => none

/-- The `glUniform1i` calls among logged calls, in order. -/
def unit_pushes (calls : List (Nat × ReflectCall)) : List (Int × Int) :=
  calls.filterMap (fun c => c.2.unit)

/-- Whether active uniform `i` has an image type; false where there is none. -/
def image_uniform (us : List ActiveUniform) (i : Nat) : Bool :=
  match us[i]? with
  | some u => u.param_type.is_image
  | none => false

/-- The `glUniform1i` calls made for the uniforms that have no image type, in
order. -/
def sampler_pushes (img : Nat → Bool) (calls : List (Nat × ReflectCall)) : List (Int × Int) :=
  unit_pushes (calls.filter (fun c => !img c.1))

/-- The location of each texture binding with its index in the table, the table
starting at index `k`. -/
def units_from : Nat → List ShaderTexSpec → List (Int × Int)
  | _, [] => []
  | k, b :: bs => (b.location, (k : Int)) :: units_from (k + 1) bs

/-- The dimensions of a pointer-data binding that the pushes of
`issue_parameters` handle: a row count of at least one, one to four columns, and
a product of nine or sixteen only for a `float` destination. -/
def ShaderPtrSpec.valid_dims (b : ShaderPtrSpec) : Prop :=
  b.dim1 ≥ 1 ∧ b.dim2 ∈ [1, 2, 3, 4] ∧ b.dim1 * b.dim2 ∈ [1, 2, 3, 4, 9, 16] ∧
    (b.dim1 * b.dim2 ∈ [9, 16] → b.type = ScalarType.ST_float)

/-- What one `reflect_uniform` for uniform `i` of type `t` does to the texture
table, the pointer-data table and the calls: nothing to the texture table and
no `glUniform1i`; or one texture binding with its `glUniform1i`; or an image
input; or `bind_parameter` alone. -/
def reflect_step (env : ReflectEnv) (i : Nat) (t : GLType) (st r : ReflectState) : Prop :=
  ∃ new, r.calls = st.calls ++ new ∧ (∀ c ∈ new, c.1 = i) ∧
    ((r.ctx.shader.tex_spec = st.ctx.shader.tex_spec ∧
        (∀ b ∈ r.ctx.shader.ptr_spec, b ∈ st.ctx.shader.ptr_spec ∨ b.valid_dims) ∧
        unit_pushes new = []) ∨
     (t.is_image = false ∧ r.ctx.shader.ptr_spec = st.ctx.shader.ptr_spec ∧
        ∃ b, r.ctx.shader.tex_spec = st.ctx.shader.tex_spec ++ [b] ∧
          unit_pushes new = [(b.location, (st.ctx.shader.tex_spec.length : Int))]) ∨
     (t.is_image = true ∧ r.ctx.shader.tex_spec = st.ctx.shader.tex_spec ∧
        r.ctx.shader.ptr_spec = st.ctx.shader.ptr_spec) ∨
     (∃ name p, r.ctx.shader = env.bind_parameter st.ctx.shader name p ∧ new = []))

/-- A step that leaves the texture table and the pointer-data table as they are
and makes no `glUniform1i` call. -/
def quiet_step (i : Nat) (st r : ReflectState) : Prop :=
  ∃ new, r.calls = st.calls ++ new ∧ (∀ c ∈ new, c.1 = i) ∧
    r.ctx.shader.tex_spec = st.ctx.shader.tex_spec ∧
    r.ctx.shader.ptr_spec = st.ctx.shader.ptr_spec ∧ unit_pushes new = []

/-! ## Pieces and what the driver gets -/

/-- The transpose flag of a matrix push; `none` for every other call. -/
def GLCall.transpose_flag : GLCall → Option Bool
  | .glUniformMatrixfv _ _ _ t _ => some t
  | _ => none

/-- The transpose flag `issue_parameters` passes for a piece (lines 2323-2366);
`none` for a piece that is pushed as a vector. -/
def piece_transpose_flag (piece : ShaderMatPiece) : Option Bool :=
  (push_piece piece 0 []).bind GLCall.transpose_flag

/-- A step of `reflect_uniform` that adds matrix/state bindings of the one piece
only. -/
def adds_pieces (piece : ShaderMatPiece) (st r : ReflectState) : Prop :=
  ∃ added, r.ctx.shader.mat_spec = st.ctx.shader.mat_spec ++ added ∧
    ∀ b ∈ added, b.piece = piece

/-- The cells of the 4x4 matrix that `issue_parameters` delivers for a piece
(lines 2323-2366): the values the driver reads when cell `k` holds `k`. -/
def delivered_cells (piece : ShaderMatPiece) : List Int :=
  match push_piece piece 0 ((List.range 16).map Int.ofNat) with
  | some (GLCall.glUniformfv n _ count data) => data.take (n * count.toNat)
  | some (GLCall.glUniformMatrixfv n _ count _ data) => data.take (n * n * count.toNat)
  | some (GLCall.glUniform4f _ a b c d) => [a, b, c, d]
  | _ => []

/-- The nine fields of `p3d_Material`, without the prefix. -/
def material_fields : List CStr :=
  ["Material.ambient".toList, "Material.diffuse".toList, "Material.emission".toList,
   "Material.specular".toList, "Material.shininess".toList, "Material.baseColor".toList,
   "Material.roughness".toList, "Material.metallic".toList,
   "Material.refractiveIndex".toList]

/-- The four scalar fields of `p3d_Fog`, without the prefix. -/
def fog_scalar_fields : List CStr :=
  ["Fog.density".toList, "Fog.start".toList, "Fog.end".toList, "Fog.scale".toList]

/-- The part and the piece `material_field` gives for a name. -/
def material_part_piece ( noprefix : CStr) (param_type : GLType) :
    Option (ShaderMatInput × ShaderMatPiece) :=
  (material_field noprefix param_type).map (fun r => (r.2.2.1, r.2.2.2))

/-- The part and the piece `fog_field` gives for a name declared `float`. -/
def fog_part_piece ( noprefix : CStr) : Option (ShaderMatInput × ShaderMatPiece) :=
  match fog_field noprefix GLType.GL_FLOAT with
  | some (part, some piece, _) => some (part, piece)
  | _ => none

/-! ## Theorems -/

/-! ### Helper lemmas on the loops of `issue_parameters` -/

theorem release_resources_shader (ctx : Context) :
    (release_resources ctx).1.shader = ctx.shader ∧
    (release_resources ctx).1.uniform_location_map = ctx.uniform_location_map := by
  unfold release_resources
  split <;> simp

theorem push_float_not_error (dim : Nat) (p a : Int) (d : List Int) :
    (push_float dim p a d).is_error = false := by
  unfold push_float
  repeat' split
  all_goals rfl

theorem push_int_not_error (dim : Nat) (p a : Int) (d : List Int) :
    (push_int dim p a d).is_error = false := by
  unfold push_int
  repeat' split
  all_goals rfl

theorem push_uint_not_error (dim : Nat) (p a : Int) (d : List Int) :
    (push_uint dim p a d).is_error = false := by
  unfold push_uint
  repeat' split
  all_goals rfl

/-- Every entry the body of the pointer-data loop records carries the origin of
its table index. -/
theorem issue_ptr_binding_origin (gsg : GSG) (ctx : Context) (i : Nat) (spec : ShaderPtrSpec)
    (e : Origin × GLCall) (he : e ∈ (issue_ptr_binding gsg ctx i spec).2.2) :
    e.1 = Origin.ptr i := by
  unfold issue_ptr_binding at he
  cases h : ptr_outcome gsg ctx.uniform_location_map spec <;> rw [h] at he <;> simp at he
  · rcases he with h | ⟨c, -, rfl⟩
    · rw [h]
    · rfl
  all_goals
    first
    | (rcases he with h | h <;> rw [h])
    | (rw [he])

theorem issue_ptr_binding_shader (gsg : GSG) (ctx : Context) (i : Nat) (spec : ShaderPtrSpec) :
    (issue_ptr_binding gsg ctx i spec).2.1.shader = ctx.shader := by
  unfold issue_ptr_binding
  cases h : ptr_outcome gsg ctx.uniform_location_map spec <;> simp
  exact (release_resources_shader ctx).1

/-- Every entry of the pointer-data loop is recorded by the body of the loop at
some table index, run on a context with the same shader tables. -/
theorem issue_ptr_loop_mem (gsg : GSG) (l : List ShaderPtrSpec) :
    ∀ (ctx : Context) (i : Nat) (e : Origin × GLCall),
      e ∈ (issue_ptr_loop gsg ctx i l).2.2 →
      ∃ k spec ctx', l[k]? = some spec ∧ ctx'.shader = ctx.shader ∧
        e ∈ (issue_ptr_binding gsg ctx' (i + k) spec).2.2 := by
  induction l with
  | nil => intro ctx i e he; simp [issue_ptr_loop] at he
  | cons spec rest ih =>
    intro ctx i e he
    unfold issue_ptr_loop at he
    rcases hb : issue_ptr_binding gsg ctx i spec with ⟨f, ctx1, t⟩
    rw [hb] at he
    have hsh : ctx1.shader = ctx.shader := by
      have := issue_ptr_binding_shader gsg ctx i spec
      rw [hb] at this; exact this
    cases f with
    | stop =>
      simp only at he
      refine ⟨0, spec, ctx, by simp, rfl, ?_⟩
      rw [Nat.add_zero, hb]; exact he
    | next =>
      simp only at he
      rcases hl : issue_ptr_loop gsg ctx1 (i + 1) rest with ⟨f2, ctx2, t2⟩
      rw [hl] at he
      simp only [List.mem_append] at he
      rcases he with he | he
      · refine ⟨0, spec, ctx, by simp, rfl, ?_⟩
        rw [Nat.add_zero, hb]; exact he
      · have h2 : e ∈ (issue_ptr_loop gsg ctx1 (i + 1) rest).2.2 := by rw [hl]; exact he
        obtain ⟨k, sp, ctx', hk, hs, hm⟩ := ih ctx1 (i + 1) e h2
        refine ⟨k + 1, sp, ctx', by simpa using hk, hs.trans hsh, ?_⟩
        have : i + (k + 1) = i + 1 + k := by omega
        rw [this]; exact hm

theorem issue_ptr_loop_shader (gsg : GSG) (l : List ShaderPtrSpec) :
    ∀ (ctx : Context) (i : Nat), (issue_ptr_loop gsg ctx i l).2.1.shader = ctx.shader := by
  induction l with
  | nil => intro ctx i; simp [issue_ptr_loop]
  | cons spec rest ih =>
    intro ctx i
    unfold issue_ptr_loop
    rcases hb : issue_ptr_binding gsg ctx i spec with ⟨f, ctx1, t⟩
    have hsh : ctx1.shader = ctx.shader := by
      have := issue_ptr_binding_shader gsg ctx i spec
      rw [hb] at this; exact this
    cases f with
    | stop => simpa using hsh
    | next =>
      simp only
      rcases hl : issue_ptr_loop gsg ctx1 (i + 1) rest with ⟨f2, ctx2, t2⟩
      have := ih ctx1 (i + 1)
      rw [hl] at this
      simpa using this.trans hsh

/-- Every entry of the matrix/state loop is recorded by the body of the loop at
some table index. -/
theorem issue_mat_loop_mem (gsg : GSG) (ctx : Context) (altered : Nat) (l : List ShaderMatSpec) :
    ∀ (i : Nat) (e : Origin × GLCall), e ∈ issue_mat_loop gsg ctx altered i l →
      ∃ k spec, l[k]? = some spec ∧ e ∈ issue_mat_binding gsg ctx altered (i + k) spec := by
  induction l with
  | nil => intro i e he; simp [issue_mat_loop] at he
  | cons spec rest ih =>
    intro i e he
    unfold issue_mat_loop at he
    simp only [List.mem_append] at he
    rcases he with he | he
    · exact ⟨0, spec, by simp, by simpa using he⟩
    · obtain ⟨k, sp, hk, hm⟩ := ih (i + 1) e he
      refine ⟨k + 1, sp, by simpa using hk, ?_⟩
      have : i + (k + 1) = i + 1 + k := by omega
      rw [this]; exact hm

theorem push_piece_is_push (piece : ShaderMatPiece) (p : Int) (val : List Int) (c : GLCall)
    (h : push_piece piece p val = some c) : c.is_push = true := by
  cases piece <;> simp [push_piece] at h <;> subst h <;> rfl

/-- What the body of the matrix/state loop records: only entries of its own
table index, only when the binding's mask meets `altered`, and only the fetch of
the binding followed by a push. -/
theorem issue_mat_binding_mem (gsg : GSG) (ctx : Context) (altered i : Nat)
    (spec : ShaderMatSpec) (e : Origin × GLCall)
    (he : e ∈ issue_mat_binding gsg ctx altered i spec) :
    e.1 = Origin.mat i ∧ altered &&& spec.dep ≠ 0 ∧
      (e.2 = GLCall.fetch_specified_value spec ∨ e.2.is_push = true) := by
  unfold issue_mat_binding at he
  by_cases hd : altered &&& spec.dep = 0
  · simp [hd] at he
  · simp only [hd, if_false] at he
    refine ⟨?_, hd, ?_⟩
    · cases hf : gsg.fetch_specified_value spec altered with
      | none => simp [hf] at he; rw [he]
      | some val =>
        simp only [hf] at he
        split at he
        · simp at he; rw [he]
        · cases hp : push_piece spec.piece
              (get_uniform_location ctx.uniform_location_map spec.location) val with
          | none => simp [hp] at he; rw [he]
          | some c => simp [hp] at he; rcases he with h | h <;> rw [h]
    · cases hf : gsg.fetch_specified_value spec altered with
      | none => simp [hf] at he; rw [he]; exact Or.inl rfl
      | some val =>
        simp only [hf] at he
        split at he
        · simp at he; rw [he]; exact Or.inl rfl
        · cases hp : push_piece spec.piece
              (get_uniform_location ctx.uniform_location_map spec.location) val with
          | none => simp [hp] at he; rw [he]; exact Or.inl rfl
          | some c =>
            simp [hp] at he
            rcases he with h | h <;> rw [h]
            · exact Or.inl rfl
            · exact Or.inr (push_piece_is_push _ _ _ _ hp)

/-- Where an entry of the trace of `issue_parameters` comes from. -/
theorem issue_parameters_mem (gsg : GSG) (ctx : Context) (altered : Nat) (e : Origin × GLCall)
    (he : e ∈ (issue_parameters gsg ctx altered).2) :
    e = (Origin.frame, GLCall.glUniform1i ctx.frame_number_loc ctx.frame_number)
    ∨ (∃ k spec ctx', ctx.shader.ptr_spec[k]? = some spec ∧ ctx'.shader = ctx.shader ∧
          e ∈ (issue_ptr_binding gsg ctx' k spec).2.2)
    ∨ (e = (Origin.body, GLCall.update_shader_matrix_cache altered) ∧
          altered &&& ctx.shader.mat_deps ≠ 0)
    ∨ (∃ k spec ctx', ctx.shader.mat_spec[k]? = some spec ∧
          altered &&& ctx.shader.mat_deps ≠ 0 ∧ e ∈ issue_mat_binding gsg ctx' altered k spec)
    ∨ e = (Origin.body, GLCall.report_my_gl_errors) := by
  have hmat : ∀ ctx1 : Context, ctx1.shader = ctx.shader →
      e ∈ issue_mat_section gsg ctx1 altered →
      (e = (Origin.body, GLCall.update_shader_matrix_cache altered) ∧
          altered &&& ctx.shader.mat_deps ≠ 0)
      ∨ (∃ k spec ctx', ctx.shader.mat_spec[k]? = some spec ∧
          altered &&& ctx.shader.mat_deps ≠ 0 ∧ e ∈ issue_mat_binding gsg ctx' altered k spec)
      ∨ e = (Origin.body, GLCall.report_my_gl_errors) := by
    intro ctx1 hs hm
    unfold issue_mat_section at hm
    rw [hs] at hm
    by_cases hd : altered &&& ctx.shader.mat_deps = 0
    · simp [hd] at hm; exact Or.inr (Or.inr hm)
    · simp only [hd, ne_eq, not_false_eq_true, if_true, List.mem_append, List.mem_cons,
        List.mem_singleton, List.not_mem_nil, or_false] at hm
      rcases hm with (hm | hm) | hm
      · exact Or.inl ⟨hm, hd⟩
      · obtain ⟨k, sp, hk, hb⟩ := issue_mat_loop_mem gsg ctx1 altered _ 0 e hm
        rw [Nat.zero_add] at hb
        exact Or.inr (Or.inl ⟨k, sp, ctx1, hk, hd, hb⟩)
      · exact Or.inr (Or.inr hm)
  unfold issue_parameters at he
  by_cases hp : altered &&& (gsg.ssd.SSD_shaderinputs ||| gsg.ssd.SSD_frame) = 0
  · simp only [hp, ne_eq, not_true_eq_false, if_false] at he
    exact Or.inr (Or.inr (hmat ctx rfl he))
  · simp only [hp, ne_eq, not_false_eq_true, if_true] at he
    rcases hl : issue_ptr_loop gsg ctx 0 ctx.shader.ptr_spec with ⟨f, ctx1, t⟩
    have hsh : ctx1.shader = ctx.shader := by
      have := issue_ptr_loop_shader gsg ctx.shader.ptr_spec ctx 0
      rw [hl] at this; exact this
    have hptr : e ∈ t → ∃ k spec ctx', ctx.shader.ptr_spec[k]? = some spec ∧
        ctx'.shader = ctx.shader ∧ e ∈ (issue_ptr_binding gsg ctx' k spec).2.2 := by
      intro ht
      have h2 : e ∈ (issue_ptr_loop gsg ctx 0 ctx.shader.ptr_spec).2.2 := by rw [hl]; exact ht
      obtain ⟨k, sp, ctx', hk, hs, hm⟩ := issue_ptr_loop_mem gsg _ ctx 0 e h2
      rw [Nat.zero_add] at hm
      exact ⟨k, sp, ctx', hk, hs, hm⟩
    have hframe : e ∈ (if altered &&& gsg.ssd.SSD_frame ≠ 0 ∧ ctx.frame_number_loc ≥ 0 then
          [(Origin.frame, GLCall.glUniform1i ctx.frame_number_loc ctx.frame_number)]
        else ([] : Trace)) →
        e = (Origin.frame, GLCall.glUniform1i ctx.frame_number_loc ctx.frame_number) := by
      intro hf
      split at hf
      · simpa using hf
      · simp at hf
    rw [hl] at he
    cases f with
    | stop =>
      simp only [List.mem_append] at he
      rcases he with he | he
      · exact Or.inl (hframe he)
      · exact Or.inr (Or.inl (hptr he))
    | next =>
      simp only [List.mem_append] at he
      rcases he with (he | he) | he
      · exact Or.inl (hframe he)
      · exact Or.inr (Or.inl (hptr he))
      · exact Or.inr (Or.inr (hmat ctx1 hsh he))

/-- What the body of the pointer-data loop records, by outcome. -/
theorem issue_ptr_binding_mem (gsg : GSG) (ctx : Context) (i : Nat) (spec : ShaderPtrSpec)
    (e : Origin × GLCall) (he : e ∈ (issue_ptr_binding gsg ctx i spec).2.2) :
    e.2 = GLCall.fetch_ptr_parameter spec
    ∨ (ptr_outcome gsg ctx.uniform_location_map spec = PtrOutcome.fetch_failed ∧
        e.2 ∈ (release_resources ctx).2)
    ∨ (ptr_outcome gsg ctx.uniform_location_map spec = PtrOutcome.assert_dim ∧
        e.2 = GLCall.assertion_failed)
    ∨ (ptr_outcome gsg ctx.uniform_location_map spec = PtrOutcome.div_zero ∧
        e.2 = GLCall.division_by_zero)
    ∨ ptr_outcome gsg ctx.uniform_location_map spec = PtrOutcome.call e.2
    ∨ ptr_outcome gsg ctx.uniform_location_map spec = PtrOutcome.deactivate e.2 := by
  unfold issue_ptr_binding at he
  cases h : ptr_outcome gsg ctx.uniform_location_map spec <;> rw [h] at he <;> simp at he
  · rcases he with h1 | ⟨c, hc, rfl⟩
    · rw [h1]; exact Or.inl rfl
    · exact Or.inr (Or.inl ⟨rfl, hc⟩)
  · rcases he with h1 | h1 <;> rw [h1] <;> simp
  · rw [he]; simp
  · rcases he with h1 | h1 <;> rw [h1] <;> simp
  · rcases he with h1 | h1 <;> rw [h1] <;> simp
  · rcases he with h1 | h1 <;> rw [h1] <;> simp
  · rw [he]; simp

theorem release_resources_calls (ctx : Context) (c : GLCall) (hc : c ∈ (release_resources ctx).2) :
    c.is_push = false ∧ c.is_error = false ∧
      (∀ s, c ≠ GLCall.fetch_specified_value s) ∧
      (∀ a, c ≠ GLCall.update_shader_matrix_cache a) := by
  unfold release_resources at hc
  split at hc
  · simp at hc
  · simp only [List.mem_append, List.mem_map, List.mem_singleton] at hc
    rcases hc with (hc | hc) | hc
    · split at hc
      · simp only [List.mem_append, List.mem_map, List.mem_singleton] at hc
        rcases hc with ⟨h, -, rfl⟩ | rfl <;> simp [GLCall.is_push, GLCall.is_error]
      · simp at hc
    · obtain ⟨h, -, rfl⟩ := hc
      simp [GLCall.is_push, GLCall.is_error]
    · subst hc; simp [GLCall.is_push, GLCall.is_error]

theorem push_float_cases (dim : Nat) (p a : Int) (d : List Int) :
    push_float dim p a d = GLCall.assertion_failed ∨ (push_float dim p a d).is_push = true := by
  unfold push_float
  repeat' split
  all_goals first | exact Or.inl rfl | exact Or.inr rfl

theorem push_int_cases (dim : Nat) (p a : Int) (d : List Int) :
    push_int dim p a d = GLCall.assertion_failed ∨ (push_int dim p a d).is_push = true := by
  unfold push_int
  repeat' split
  all_goals first | exact Or.inl rfl | exact Or.inr rfl

theorem push_uint_cases (dim : Nat) (p a : Int) (d : List Int) :
    push_uint dim p a d = GLCall.assertion_failed ∨ (push_uint dim p a d).is_push = true := by
  unfold push_uint
  repeat' split
  all_goals first | exact Or.inl rfl | exact Or.inr rfl

/-- The destination kinds and source kinds for which the `switch` pushes: a call
of the outcome `call` is a push or a failed assertion. -/
theorem ptr_switch_call (gsg : GSG) (spec : ShaderPtrSpec) (pd : ShaderPtrData) (p : Int)
    (dim n : Nat) (c : GLCall) (h : ptr_switch gsg spec pd p dim n = PtrOutcome.call c) :
    (c = GLCall.assertion_failed ∨ c.is_push = true) ∧
    (c.is_push = true →
      ((spec.type = ScalarType.ST_bool ∨ spec.type = ScalarType.ST_float) ∧
        (pd.type = ScalarType.ST_int ∨ pd.type = ScalarType.ST_uint ∨
          pd.type = ScalarType.ST_double ∨ pd.type = ScalarType.ST_float))
      ∨ ((spec.type = ScalarType.ST_int ∨ spec.type = ScalarType.ST_uint) ∧
        (pd.type = ScalarType.ST_int ∨ pd.type = ScalarType.ST_uint))) := by
  unfold ptr_switch at h
  cases ht : spec.type <;> rw [ht] at h <;> simp only at h
  · simp at h
  · cases hf : float_data gsg pd n dim with
    | none => rw [hf] at h; simp at h; subst h; simp [GLCall.is_push]
    | some data =>
      rw [hf] at h; simp at h; subst h
      refine ⟨push_float_cases _ _ _ _, fun _ => Or.inl ⟨Or.inr rfl, ?_⟩⟩
      unfold float_data at hf
      cases hs : pd.type <;> rw [hs] at hf <;> simp at hf <;> simp
  · simp at h
  · split at h
    · simp at h
    · rename_i hk
      simp at h; subst h
      refine ⟨push_int_cases _ _ _ _, fun _ => Or.inr ⟨Or.inl rfl, ?_⟩⟩
      by_cases h1 : pd.type = ScalarType.ST_int
      · exact Or.inl h1
      · by_cases h2 : pd.type = ScalarType.ST_uint
        · exact Or.inr h2
        · exact absurd ⟨h1, h2⟩ hk
  · split at h
    · simp at h
    · rename_i hk
      simp at h; subst h
      refine ⟨push_uint_cases _ _ _ _, fun _ => Or.inr ⟨Or.inr rfl, ?_⟩⟩
      by_cases h1 : pd.type = ScalarType.ST_int
      · exact Or.inl h1
      · by_cases h2 : pd.type = ScalarType.ST_uint
        · exact Or.inr h2
        · exact absurd ⟨h2, h1⟩ hk
  · cases hf : float_data gsg pd n dim with
    | none => rw [hf] at h; simp at h; subst h; simp [GLCall.is_push]
    | some data =>
      rw [hf] at h; simp at h; subst h
      refine ⟨push_float_cases _ _ _ _, fun _ => Or.inl ⟨Or.inl rfl, ?_⟩⟩
      unfold float_data at hf
      cases hs : pd.type <;> rw [hs] at hf <;> simp at hf <;> simp

/-- The destination kinds and source kinds for which the `switch` reports a
conversion error and deactivates the binding. -/
theorem ptr_switch_deactivate (gsg : GSG) (spec : ShaderPtrSpec) (pd : ShaderPtrData) (p : Int)
    (dim n : Nat) (c : GLCall) (h : ptr_switch gsg spec pd p dim n = PtrOutcome.deactivate c) :
    c.is_error = true ∧ c.is_push = false ∧
    (((spec.type = ScalarType.ST_int ∨ spec.type = ScalarType.ST_uint) ∧
        pd.type ≠ ScalarType.ST_int ∧ pd.type ≠ ScalarType.ST_uint)
      ∨ spec.type = ScalarType.ST_double) := by
  unfold ptr_switch at h
  cases ht : spec.type <;> rw [ht] at h <;> simp only at h
  · simp at h
  · cases hf : float_data gsg pd n dim <;> rw [hf] at h <;> simp at h
  · simp at h; subst h; simp [GLCall.is_error, GLCall.is_push]
  · split at h
    · rename_i hk
      simp at h; subst h
      exact ⟨rfl, rfl, Or.inl ⟨Or.inl rfl, hk⟩⟩
    · simp at h
  · split at h
    · rename_i hk
      simp at h; subst h
      exact ⟨rfl, rfl, Or.inl ⟨Or.inr rfl, hk.2, hk.1⟩⟩
    · simp at h
  · cases hf : float_data gsg pd n dim <;> rw [hf] at h <;> simp at h

/-- An outcome `call` or `deactivate` is reached only with a supplied buffer, a
positive `_dim[1]`, a live location and a non-zero element size, and is the
outcome of the `switch`. -/
theorem ptr_outcome_switch (gsg : GSG) (map : List Int) (spec : ShaderPtrSpec) (o : PtrOutcome)
    (h : ptr_outcome gsg map spec = o)
    (ho : (∃ c, o = PtrOutcome.call c) ∨ (∃ c, o = PtrOutcome.deactivate c)) :
    ∃ pd, gsg.fetch_ptr_parameter spec = some pd ∧ spec.dim1 ≠ 0 ∧
      0 ≤ get_uniform_location map spec.location ∧
      (spec.dim1 * spec.dim2) % 4294967296 ≠ 0 ∧
      ptr_switch gsg spec pd (get_uniform_location map spec.location)
        ((spec.dim1 * spec.dim2) % 4294967296)
        (min spec.dim0 ((pd.size / ((spec.dim1 * spec.dim2) % 4294967296)) % 4294967296)) = o := by
  unfold ptr_outcome at h
  cases hf : gsg.fetch_ptr_parameter spec with
  | none => rw [hf] at h; simp at h; subst h; simp at ho
  | some pd =>
    rw [hf] at h
    simp only at h
    split at h
    · subst h; simp at ho
    · split at h
      · subst h; simp at ho
      · split at h
        · subst h; simp at ho
        · rename_i h1 h2 h3
          exact ⟨pd, rfl, h1, by omega, h3, h⟩

/-! ### C1 -/

/-- C1: for every changed-state mask `altered` and every matrix/state binding
`spec` of the table, at index `i`, whose dependency mask does not meet `altered`,
`issue_parameters(altered)` records no call at all for that binding (no
`fetch_specified_value`, no uniform push), and no `fetch_specified_value` call
for `spec` anywhere in its trace. -/
theorem issue_parameters_skips_unaffected_binding (gsg : GSG) (ctx : Context) (altered i : Nat)
    (spec : ShaderMatSpec) (hi : ctx.shader.mat_spec[i]? = some spec)
    (hdep : altered &&& spec.dep = 0) :
    (∀ e ∈ (issue_parameters gsg ctx altered).2, e.1 ≠ Origin.mat i) ∧
    (∀ o, (o, GLCall.fetch_specified_value spec) ∉ (issue_parameters gsg ctx altered).2) := by
  constructor
  · intro e he hor
    rcases issue_parameters_mem gsg ctx altered e he with h | h | h | h | h
    · rw [h] at hor; simp at hor
    · obtain ⟨k, sp, ctx', -, -, hm⟩ := h
      have := issue_ptr_binding_origin gsg ctx' k sp e hm
      rw [this] at hor; simp at hor
    · rw [h.1] at hor; simp at hor
    · obtain ⟨k, sp, ctx', hk, -, hm⟩ := h
      obtain ⟨ho, hd, -⟩ := issue_mat_binding_mem gsg ctx' altered k sp e hm
      rw [ho] at hor
      have hki : k = i := by simpa using hor
      subst hki
      rw [hi] at hk
      have : spec = sp := by simpa using hk
      subst this
      exact hd hdep
    · rw [h] at hor; simp at hor
  · intro o he
    rcases issue_parameters_mem gsg ctx altered _ he with h | h | h | h | h
    · simp at h
    · obtain ⟨k, sp, ctx', -, -, hm⟩ := h
      rcases issue_ptr_binding_mem gsg ctx' k sp _ hm with h1 | h1 | h1 | h1 | h1 | h1
      · simp at h1
      · exact (release_resources_calls ctx' _ h1.2).2.2.1 spec rfl
      · simp at h1
      · simp at h1
      · obtain ⟨pd, -, -, -, -, hsw⟩ :=
          ptr_outcome_switch gsg _ sp _ h1 (Or.inl ⟨_, rfl⟩)
        rcases (ptr_switch_call gsg sp pd _ _ _ _ hsw).1 with h2 | h2
        · simp at h2
        · simp [GLCall.is_push] at h2
      · obtain ⟨pd, -, -, -, -, hsw⟩ :=
          ptr_outcome_switch gsg _ sp _ h1 (Or.inr ⟨_, rfl⟩)
        have := (ptr_switch_deactivate gsg sp pd _ _ _ _ hsw).1
        simp [GLCall.is_error] at this
    · simp at h
    · obtain ⟨k, sp, ctx', hk, -, hm⟩ := h
      obtain ⟨-, hd, h2⟩ := issue_mat_binding_mem gsg ctx' altered k sp _ hm
      rcases h2 with h2 | h2
      · have : spec = sp := by simpa using h2
        subst this
        exact hd hdep
      · simp [GLCall.is_push] at h2
    · simp at h

/-- C1, at a sample input: with only the fog bit changed, the color binding at
index 0 is left alone. -/
theorem issue_parameters_skips_unaffected_binding_witness :
    (sample_ctx_mat.shader.mat_spec[0]? = some sample_color_spec ∧
      0x040 &&& sample_color_spec.dep = 0) ∧
    ((∀ e ∈ (issue_parameters sample_gsg sample_ctx_mat 0x040).2, e.1 ≠ Origin.mat 0) ∧
      (∀ o, (o, GLCall.fetch_specified_value sample_color_spec)
        ∉ (issue_parameters sample_gsg sample_ctx_mat 0x040).2)) :=
  ⟨⟨by decide, by decide⟩,
    issue_parameters_skips_unaffected_binding sample_gsg sample_ctx_mat 0x040 0
      sample_color_spec (by decide) (by decide)⟩

/-- An entry of the trace of `issue_parameters` with the origin of pointer-data
index `i` is recorded by the loop body run on the `i`-th binding. -/
theorem issue_parameters_ptr_entry (gsg : GSG) (ctx : Context) (altered i : Nat)
    (spec : ShaderPtrSpec) (hi : ctx.shader.ptr_spec[i]? = some spec) (e : Origin × GLCall)
    (he : e ∈ (issue_parameters gsg ctx altered).2) (ho : e.1 = Origin.ptr i) :
    ∃ ctx', ctx'.shader = ctx.shader ∧ e ∈ (issue_ptr_binding gsg ctx' i spec).2.2 := by
  rcases issue_parameters_mem gsg ctx altered e he with h | h | h | h | h
  · rw [h] at ho; simp at ho
  · obtain ⟨k, sp, ctx', hk, hs, hm⟩ := h
    have := issue_ptr_binding_origin gsg ctx' k sp e hm
    rw [this] at ho
    have hki : k = i := by simpa using ho
    subst hki
    rw [hi] at hk
    have : spec = sp := by simpa using hk
    subst this
    exact ⟨ctx', hs, hm⟩
  · rw [h.1] at ho; simp at ho
  · obtain ⟨k, sp, ctx', -, -, hm⟩ := h
    rw [(issue_mat_binding_mem gsg ctx' altered k sp e hm).1] at ho
    simp at ho
  · rw [h] at ho; simp at ho

/-- A push or an error recorded by the loop body comes from the `switch` on the
destination kind, with the buffer that was fetched. -/
theorem issue_ptr_binding_push_or_error (gsg : GSG) (ctx : Context) (i : Nat)
    (spec : ShaderPtrSpec) (e : Origin × GLCall)
    (he : e ∈ (issue_ptr_binding gsg ctx i spec).2.2)
    (hk : e.2.is_push = true ∨ e.2.is_error = true) :
    ∃ pd, gsg.fetch_ptr_parameter spec = some pd ∧ spec.dim1 ≠ 0 ∧
      0 ≤ get_uniform_location ctx.uniform_location_map spec.location ∧
      (spec.dim1 * spec.dim2) % 4294967296 ≠ 0 ∧
      ((e.2.is_push = true ∧
          ptr_switch gsg spec pd (get_uniform_location ctx.uniform_location_map spec.location)
            ((spec.dim1 * spec.dim2) % 4294967296)
            (min spec.dim0 ((pd.size / ((spec.dim1 * spec.dim2) % 4294967296)) % 4294967296))
            = PtrOutcome.call e.2)
        ∨ (e.2.is_error = true ∧
          ptr_switch gsg spec pd (get_uniform_location ctx.uniform_location_map spec.location)
            ((spec.dim1 * spec.dim2) % 4294967296)
            (min spec.dim0 ((pd.size / ((spec.dim1 * spec.dim2) % 4294967296)) % 4294967296))
            = PtrOutcome.deactivate e.2)) := by
  rcases issue_ptr_binding_mem gsg ctx i spec e he with h1 | h1 | h1 | h1 | h1 | h1
  · rw [h1] at hk; simp [GLCall.is_push, GLCall.is_error] at hk
  · have := release_resources_calls ctx _ h1.2
    rw [this.1, this.2.1] at hk; simp at hk
  · rw [h1.2] at hk; simp [GLCall.is_push, GLCall.is_error] at hk
  · rw [h1.2] at hk; simp [GLCall.is_push, GLCall.is_error] at hk
  · obtain ⟨pd, hf, hd, hp, hz, hsw⟩ := ptr_outcome_switch gsg _ spec _ h1 (Or.inl ⟨_, rfl⟩)
    refine ⟨pd, hf, hd, hp, hz, Or.inl ⟨?_, hsw⟩⟩
    rcases (ptr_switch_call gsg spec pd _ _ _ _ hsw).1 with h2 | h2
    · rw [h2] at hk; simp [GLCall.is_push, GLCall.is_error] at hk
    · exact h2
  · obtain ⟨pd, hf, hd, hp, hz, hsw⟩ := ptr_outcome_switch gsg _ spec _ h1 (Or.inr ⟨_, rfl⟩)
    exact ⟨pd, hf, hd, hp, hz, Or.inr ⟨(ptr_switch_deactivate gsg spec pd _ _ _ _ hsw).1, hsw⟩⟩

/-! ### C8 -/

/-- C8, as stated, fails: a `uint` buffer supplied to an `int` binding (source
kind different from the destination kind, and not one of int to float, uint to
float, double to float) is pushed with `glUniform1iv` and no error is reported. -/
theorem issue_parameters_uint_to_int_counterexample :
    (sample_ctx_int.shader.ptr_spec = [sample_int_spec] ∧
      sample_int_spec.type = ScalarType.ST_int ∧
      sample_gsg_uint.fetch_ptr_parameter sample_int_spec
        = some { type := ScalarType.ST_uint, ptr := [7, 8, 9] }) ∧
    (issue_parameters sample_gsg_uint sample_ctx_int 0x020).2 =
      [(Origin.ptr 0, GLCall.fetch_ptr_parameter sample_int_spec),
       (Origin.ptr 0, GLCall.glUniformiv 1 0 1 [7, 8, 9]),
       (Origin.body, GLCall.report_my_gl_errors)] := by
  decide

/-- C8, amended: for the pointer-data binding `spec` at table index `i`, supplied
with the buffer `pd`, `issue_parameters` records a push only when the
destination kind is float or bool and the source kind is int, uint, double or
float, or when the destination kind is int or uint and the source kind is int or
uint; it records a conversion error only when the destination kind is int or
uint and the source kind is neither int nor uint, or when the destination kind
is double; and for those pairs the loop body, run with a live location and a
non-zero element size, records the fetch and one error report, and no push. -/
theorem issue_parameters_pointer_kinds (gsg : GSG) (ctx : Context) (altered i : Nat)
    (spec : ShaderPtrSpec) (pd : ShaderPtrData)
    (hi : ctx.shader.ptr_spec[i]? = some spec)
    (hpd : gsg.fetch_ptr_parameter spec = some pd) :
    (∀ e ∈ (issue_parameters gsg ctx altered).2, e.1 = Origin.ptr i → e.2.is_push = true →
      ((spec.type = ScalarType.ST_bool ∨ spec.type = ScalarType.ST_float) ∧
        (pd.type = ScalarType.ST_int ∨ pd.type = ScalarType.ST_uint ∨
          pd.type = ScalarType.ST_double ∨ pd.type = ScalarType.ST_float))
      ∨ ((spec.type = ScalarType.ST_int ∨ spec.type = ScalarType.ST_uint) ∧
        (pd.type = ScalarType.ST_int ∨ pd.type = ScalarType.ST_uint))) ∧
    (∀ e ∈ (issue_parameters gsg ctx altered).2, e.1 = Origin.ptr i → e.2.is_error = true →
      ((spec.type = ScalarType.ST_int ∨ spec.type = ScalarType.ST_uint) ∧
        pd.type ≠ ScalarType.ST_int ∧ pd.type ≠ ScalarType.ST_uint)
      ∨ spec.type = ScalarType.ST_double) ∧
    ((((spec.type = ScalarType.ST_int ∨ spec.type = ScalarType.ST_uint) ∧
        pd.type ≠ ScalarType.ST_int ∧ pd.type ≠ ScalarType.ST_uint)
        ∨ spec.type = ScalarType.ST_double) →
      spec.dim1 ≠ 0 → 0 ≤ get_uniform_location ctx.uniform_location_map spec.location →
      (spec.dim1 * spec.dim2) % 4294967296 ≠ 0 →
      ∃ c, c.is_error = true ∧ c.is_push = false ∧
        (issue_ptr_binding gsg ctx i spec).2.2 =
          [(Origin.ptr i, GLCall.fetch_ptr_parameter spec), (Origin.ptr i, c)]) := by
  refine ⟨?_, ?_, ?_⟩
  · intro e he ho hp
    obtain ⟨ctx', -, hm⟩ := issue_parameters_ptr_entry gsg ctx altered i spec hi e he ho
    obtain ⟨pd', hf, -, -, -, h⟩ :=
      issue_ptr_binding_push_or_error gsg ctx' i spec e hm (Or.inl hp)
    rw [hpd] at hf
    have : pd = pd' := by simpa using hf
    subst this
    rcases h with ⟨-, hsw⟩ | ⟨hE, hsw⟩
    · exact (ptr_switch_call gsg spec pd _ _ _ _ hsw).2 hp
    · have := (ptr_switch_deactivate gsg spec pd _ _ _ _ hsw).2.1
      rw [this] at hp; simp at hp
  · intro e he ho hp
    obtain ⟨ctx', -, hm⟩ := issue_parameters_ptr_entry gsg ctx altered i spec hi e he ho
    obtain ⟨pd', hf, -, -, -, h⟩ :=
      issue_ptr_binding_push_or_error gsg ctx' i spec e hm (Or.inr hp)
    rw [hpd] at hf
    have : pd = pd' := by simpa using hf
    subst this
    rcases h with ⟨hP, hsw⟩ | ⟨-, hsw⟩
    · rcases (ptr_switch_call gsg spec pd _ _ _ _ hsw).1 with h2 | h2
      · rw [h2] at hP; simp [GLCall.is_push] at hP
      · cases hc : e.2 <;> rw [hc] at hp h2 <;> simp [GLCall.is_push, GLCall.is_error] at hp h2
    · exact (ptr_switch_deactivate gsg spec pd _ _ _ _ hsw).2.2
  · intro hk hd hp hz
    have hp' : ¬ get_uniform_location ctx.uniform_location_map spec.location < 0 := by omega
    have hout : ∃ c, c.is_error = true ∧ c.is_push = false ∧
        ptr_outcome gsg ctx.uniform_location_map spec = PtrOutcome.deactivate c := by
      unfold ptr_outcome
      rw [hpd]
      simp only [hd, hp', hz, if_false]
      unfold ptr_switch
      rcases hk with ⟨ht | ht, h1, h2⟩ | ht
      · rw [ht]; simp [h1, h2, GLCall.is_error, GLCall.is_push]
      · rw [ht]; simp [h1, h2, GLCall.is_error, GLCall.is_push]
      · rw [ht]; simp [GLCall.is_error, GLCall.is_push]
    obtain ⟨c, hE, hP, ho⟩ := hout
    refine ⟨c, hE, hP, ?_⟩
    unfold issue_ptr_binding
    rw [ho]

/-- C8 amended, at a sample input: a float buffer supplied to the `int` binding
of `sample_ctx_int` is reported and not pushed. -/
theorem issue_parameters_pointer_kinds_witness :
    (sample_ctx_int.shader.ptr_spec[0]? = some sample_int_spec ∧
      sample_gsg_float.fetch_ptr_parameter sample_int_spec
        = some { type := ScalarType.ST_float, ptr := [1, 2, 3, 4] }) ∧
    ∃ c, c.is_error = true ∧ c.is_push = false ∧
      (issue_ptr_binding sample_gsg_float sample_ctx_int 0 sample_int_spec).2.2 =
        [(Origin.ptr 0, GLCall.fetch_ptr_parameter sample_int_spec), (Origin.ptr 0, c)] :=
  ⟨⟨by decide, by decide⟩,
    (issue_parameters_pointer_kinds sample_gsg_float sample_ctx_int 0x020 0 sample_int_spec
      { type := ScalarType.ST_float, ptr := [1, 2, 3, 4] } (by decide) (by decide)).2.2
      (by decide) (by decide) (by decide) (by decide)⟩

/-! ### The location map under `issue_parameters` -/

/-- Reading the location map after one `set_uniform_location`. -/
theorem get_set_uniform_location (m : List Int) (t s : Int) (v : Int) :
    get_uniform_location (set_uniform_location m t v) s =
      if s = t ∧ 0 ≤ t then v else get_uniform_location m s := by
  unfold get_uniform_location set_uniform_location
  by_cases ht : t < 0
  · have : ¬ (0 ≤ t) := by omega
    simp [ht, this]
  · by_cases hs : s < 0
    · have hne : s ≠ t := by omega
      simp [ht, hs, hne]
    · simp only [ht, hs, if_false]
      by_cases hst : s = t
      · subst hst
        have h0 : 0 ≤ s := by omega
        simp only [true_and, h0, if_true]
        rw [List.getD_eq_getElem?_getD, List.getElem?_set]
        simp only [List.length_append, List.length_replicate, if_true]
        rw [if_pos (by omega)]
        rfl
      · have hne : t.toNat ≠ s.toNat := by omega
        simp only [hst, false_and, if_false]
        rw [List.getD_eq_getElem?_getD, List.getD_eq_getElem?_getD, List.getElem?_set]
        simp only [hne, if_false]
        rw [List.getElem?_append]
        split
        · rfl
        · rename_i hlt
          have h1 : m[s.toNat]? = none := List.getElem?_eq_none (by omega)
          rw [h1, List.getElem?_replicate]
          split <;> rfl

theorem set_uniform_location_keeps_dead (m : List Int) (t s : Int)
    (h : get_uniform_location m s = -1) :
    get_uniform_location (set_uniform_location m t (-1)) s = -1 := by
  rw [get_set_uniform_location]
  split
  · rfl
  · exact h

theorem issue_ptr_binding_keeps_dead (gsg : GSG) (ctx : Context) (i : Nat) (spec : ShaderPtrSpec)
    (loc : Int) (h : get_uniform_location ctx.uniform_location_map loc = -1) :
    get_uniform_location (issue_ptr_binding gsg ctx i spec).2.1.uniform_location_map loc = -1 := by
  unfold issue_ptr_binding
  cases ho : ptr_outcome gsg ctx.uniform_location_map spec <;> simp only
  · rw [(release_resources_shader ctx).2]; exact h
  all_goals first | exact h | exact set_uniform_location_keeps_dead _ _ _ h

/-- The loop over `_ptr_spec` keeps every property of the context that its body
keeps. -/
theorem issue_ptr_loop_inv (gsg : GSG) (P : Context → Prop)
    (hP : ∀ c i s, P c → P (issue_ptr_binding gsg c i s).2.1) (l : List ShaderPtrSpec) :
    ∀ (ctx : Context) (i : Nat), P ctx → P (issue_ptr_loop gsg ctx i l).2.1 := by
  induction l with
  | nil => intro ctx i h; simpa [issue_ptr_loop] using h
  | cons spec rest ih =>
    intro ctx i h
    unfold issue_ptr_loop
    have h1 := hP ctx i spec h
    rcases hb : issue_ptr_binding gsg ctx i spec with ⟨f, ctx1, t⟩
    rw [hb] at h1
    cases f with
    | stop => exact h1
    | next =>
      simp only
      have h2 := ih ctx1 (i + 1) h1
      rcases hl : issue_ptr_loop gsg ctx1 (i + 1) rest with ⟨f2, ctx2, t2⟩
      rw [hl] at h2
      exact h2

/-- Every entry of the pointer-data loop is recorded by the body of the loop at
some table index, run on a context that has every property the body keeps. -/
theorem issue_ptr_loop_mem_inv (gsg : GSG) (P : Context → Prop)
    (hP : ∀ c i s, P c → P (issue_ptr_binding gsg c i s).2.1) (l : List ShaderPtrSpec) :
    ∀ (ctx : Context) (i : Nat) (e : Origin × GLCall), P ctx →
      e ∈ (issue_ptr_loop gsg ctx i l).2.2 →
      ∃ k spec ctx', l[k]? = some spec ∧ P ctx' ∧
        e ∈ (issue_ptr_binding gsg ctx' (i + k) spec).2.2 := by
  induction l with
  | nil => intro ctx i e _ he; simp [issue_ptr_loop] at he
  | cons spec rest ih =>
    intro ctx i e hc he
    unfold issue_ptr_loop at he
    have h1 := hP ctx i spec hc
    rcases hb : issue_ptr_binding gsg ctx i spec with ⟨f, ctx1, t⟩
    rw [hb] at he h1
    cases f with
    | stop =>
      simp only at he
      refine ⟨0, spec, ctx, by simp, hc, ?_⟩
      rw [Nat.add_zero, hb]; exact he
    | next =>
      simp only at he
      rcases hl : issue_ptr_loop gsg ctx1 (i + 1) rest with ⟨f2, ctx2, t2⟩
      rw [hl] at he
      simp only [List.mem_append] at he
      rcases he with he | he
      · refine ⟨0, spec, ctx, by simp, hc, ?_⟩
        rw [Nat.add_zero, hb]; exact he
      · have h2 : e ∈ (issue_ptr_loop gsg ctx1 (i + 1) rest).2.2 := by rw [hl]; exact he
        obtain ⟨k, sp, ctx', hk, hs, hm⟩ := ih ctx1 (i + 1) e h1 h2
        refine ⟨k + 1, sp, ctx', by simpa using hk, hs, ?_⟩
        have : i + (k + 1) = i + 1 + k := by omega
        rw [this]; exact hm

/-- The context `issue_parameters` leaves is the one its pointer-data loop leaves. -/
theorem issue_parameters_ctx (gsg : GSG) (ctx : Context) (altered : Nat) :
    (issue_parameters gsg ctx altered).1 =
      if altered &&& (gsg.ssd.SSD_shaderinputs ||| gsg.ssd.SSD_frame) ≠ 0 then
        (issue_ptr_loop gsg ctx 0 ctx.shader.ptr_spec).2.1
      else ctx := by
  unfold issue_parameters
  split
  · rcases hl : issue_ptr_loop gsg ctx 0 ctx.shader.ptr_spec with ⟨f, ctx1, t⟩
    cases f <;> rfl
  · rfl

/-- An entry with a pointer-data origin lies in the trace of the pointer-data
loop, which was run. -/
theorem issue_parameters_ptr_part (gsg : GSG) (ctx : Context) (altered i : Nat)
    (e : Origin × GLCall) (he : e ∈ (issue_parameters gsg ctx altered).2)
    (ho : e.1 = Origin.ptr i) :
    altered &&& (gsg.ssd.SSD_shaderinputs ||| gsg.ssd.SSD_frame) ≠ 0 ∧
      e ∈ (issue_ptr_loop gsg ctx 0 ctx.shader.ptr_spec).2.2 := by
  have hmat : ∀ ctx1 : Context, e ∉ issue_mat_section gsg ctx1 altered := by
    intro ctx1 hm
    unfold issue_mat_section at hm
    simp only [List.mem_append, List.mem_singleton] at hm
    rcases hm with hm | hm
    · split at hm
      · simp only [List.mem_cons] at hm
        rcases hm with hm | hm
        · rw [hm] at ho; simp at ho
        · obtain ⟨k, sp, -, hb⟩ := issue_mat_loop_mem gsg ctx1 altered _ 0 e hm
          rw [(issue_mat_binding_mem gsg ctx1 altered _ sp e hb).1] at ho
          simp at ho
      · simp at hm
    · rw [hm] at ho; simp at ho
  unfold issue_parameters at he
  by_cases hp : altered &&& (gsg.ssd.SSD_shaderinputs ||| gsg.ssd.SSD_frame) = 0
  · simp only [hp, ne_eq, not_true_eq_false, if_false] at he
    exact absurd he (hmat ctx)
  · refine ⟨hp, ?_⟩
    simp only [hp, ne_eq, not_false_eq_true, if_true] at he
    rcases hl : issue_ptr_loop gsg ctx 0 ctx.shader.ptr_spec with ⟨f, ctx1, t⟩
    rw [hl] at he
    have hframe : e ∉ (if altered &&& gsg.ssd.SSD_frame ≠ 0 ∧ ctx.frame_number_loc ≥ 0 then
          [(Origin.frame, GLCall.glUniform1i ctx.frame_number_loc ctx.frame_number)]
        else ([] : Trace)) := by
      intro hf
      split at hf
      · simp only [List.mem_singleton] at hf
        rw [hf] at ho; simp at ho
      · simp at hf
    cases f with
    | stop =>
      simp only [List.mem_append] at he
      rcases he with he | he
      · exact absurd he hframe
      · exact he
    | next =>
      simp only [List.mem_append] at he
      rcases he with (he | he) | he
      · exact absurd he hframe
      · exact he
      · exact absurd he (hmat ctx1)

/-- `issue_parameters` keeps every property of the context that the body of its
pointer-data loop keeps. -/
theorem issue_parameters_inv (gsg : GSG) (P : Context → Prop)
    (hP : ∀ c i s, P c → P (issue_ptr_binding gsg c i s).2.1) (ctx : Context) (altered : Nat)
    (h : P ctx) : P (issue_parameters gsg ctx altered).1 := by
  rw [issue_parameters_ctx]
  split
  · exact issue_ptr_loop_inv gsg P hP _ ctx 0 h
  · exact h

/-- A binding whose location is dead records neither a push nor an error. -/
theorem issue_ptr_binding_dead_quiet (gsg : GSG) (ctx : Context) (i : Nat) (spec : ShaderPtrSpec)
    (h : get_uniform_location ctx.uniform_location_map spec.location = -1)
    (e : Origin × GLCall) (he : e ∈ (issue_ptr_binding gsg ctx i spec).2.2) :
    e.2.is_push = false ∧ e.2.is_error = false := by
  by_contra hcon
  have hk : e.2.is_push = true ∨ e.2.is_error = true := by
    by_cases h1 : e.2.is_push = true
    · exact Or.inl h1
    · by_cases h2 : e.2.is_error = true
      · exact Or.inr h2
      · exact absurd ⟨by simpa using h1, by simpa using h2⟩ hcon
  obtain ⟨pd, -, -, hp, -, -⟩ := issue_ptr_binding_push_or_error gsg ctx i spec e he hk
  rw [h] at hp
  omega

/-- An error recorded by the loop body leaves the binding's location dead. -/
theorem issue_ptr_binding_error_dead (gsg : GSG) (ctx : Context) (i : Nat) (spec : ShaderPtrSpec)
    (e : Origin × GLCall) (he : e ∈ (issue_ptr_binding gsg ctx i spec).2.2)
    (hE : e.2.is_error = true) :
    get_uniform_location (issue_ptr_binding gsg ctx i spec).2.1.uniform_location_map
      spec.location = -1 := by
  obtain ⟨pd, hf, hd, hp, hz, h⟩ :=
    issue_ptr_binding_push_or_error gsg ctx i spec e he (Or.inr hE)
  have hdeact : ptr_outcome gsg ctx.uniform_location_map spec = PtrOutcome.deactivate e.2 := by
    rcases h with ⟨hP, hsw⟩ | ⟨-, hsw⟩
    · rcases (ptr_switch_call gsg spec pd _ _ _ _ hsw).1 with h2 | h2
      · rw [h2] at hE; simp [GLCall.is_error] at hE
      · cases hc : e.2 <;> rw [hc] at hE h2 <;> simp [GLCall.is_push, GLCall.is_error] at hE h2
    · unfold ptr_outcome
      rw [hf]
      have hp' : ¬ get_uniform_location ctx.uniform_location_map spec.location < 0 := by omega
      simp only [hd, hp', hz, if_false]
      exact hsw
  unfold issue_ptr_binding
  rw [hdeact]
  simp only
  rw [get_set_uniform_location]
  split
  · rfl
  · rename_i hne
    have : ¬ (0 ≤ spec.location) := by simpa using hne
    unfold get_uniform_location
    rw [if_pos (by omega)]

/-- Every entry of the pointer-data loop started at index `i` has the origin of
a later or equal index. -/
theorem issue_ptr_loop_origin (gsg : GSG) (l : List ShaderPtrSpec) (ctx : Context) (i : Nat)
    (e : Origin × GLCall) (he : e ∈ (issue_ptr_loop gsg ctx i l).2.2) :
    ∃ k, k < l.length ∧ e.1 = Origin.ptr (i + k) := by
  obtain ⟨k, sp, ctx', hk, -, hm⟩ := issue_ptr_loop_mem gsg l ctx i e he
  refine ⟨k, ?_, issue_ptr_binding_origin gsg ctx' (i + k) sp e hm⟩
  by_contra hlt
  rw [List.getElem?_eq_none (by omega)] at hk
  simp at hk

/-- An error recorded for the binding at index `i + k` leaves that binding's
location dead when the loop ends. -/
theorem issue_ptr_loop_error_dead (gsg : GSG) (l : List ShaderPtrSpec) :
    ∀ (ctx : Context) (i k : Nat) (spec : ShaderPtrSpec) (e : Origin × GLCall),
      l[k]? = some spec → e ∈ (issue_ptr_loop gsg ctx i l).2.2 → e.1 = Origin.ptr (i + k) →
      e.2.is_error = true →
      get_uniform_location (issue_ptr_loop gsg ctx i l).2.1.uniform_location_map
        spec.location = -1 := by
  induction l with
  | nil => intro ctx i k spec e hk; simp at hk
  | cons s rest ih =>
    intro ctx i k spec e hk he ho hE
    unfold issue_ptr_loop at he ⊢
    have hdead := issue_ptr_binding_error_dead gsg ctx i s e
    have horig := issue_ptr_binding_origin gsg ctx i s e
    rcases hb : issue_ptr_binding gsg ctx i s with ⟨f, ctx1, t⟩
    rw [hb] at he hdead horig
    simp only at hdead horig
    cases f with
    | stop =>
      simp only at he ⊢
      have h0 := horig he
      rw [ho] at h0
      have hk0 : k = 0 := by
        have : i + k = i := by simpa using h0
        omega
      subst hk0
      have : s = spec := by simpa using hk
      subst this
      exact hdead he hE
    | next =>
      simp only at he ⊢
      have hrest := issue_ptr_loop_origin gsg rest ctx1 (i + 1) e
      have hkeep := issue_ptr_loop_inv gsg
        (fun c => get_uniform_location c.uniform_location_map spec.location = -1)
        (fun c j sp h => issue_ptr_binding_keeps_dead gsg c j sp spec.location h) rest ctx1 (i + 1)
      have hih := ih ctx1 (i + 1)
      rcases hl : issue_ptr_loop gsg ctx1 (i + 1) rest with ⟨f2, ctx2, t2⟩
      rw [hl] at he hrest hkeep hih
      simp only [List.mem_append] at he
      simp only at hrest hkeep hih ⊢
      rcases he with he | he
      · have h0 := horig he
        rw [ho] at h0
        have hk0 : k = 0 := by
          have : i + k = i := by simpa using h0
          omega
        subst hk0
        have : s = spec := by simpa using hk
        subst this
        exact hkeep (hdead he hE)
      · obtain ⟨k', -, hk'⟩ := hrest he
        rw [ho] at hk'
        have hkk : i + k = i + 1 + k' := by simpa using hk'
        have hk1 : k = k' + 1 := by omega
        subst hk1
        have hk2 : rest[k']? = some spec := by simpa using hk
        exact hih k' spec e hk2 he (ho.trans (by rw [show i + (k' + 1) = i + 1 + k' by omega])) hE

/-- The loop body records at most one error report. -/
theorem issue_ptr_binding_count_errors (gsg : GSG) (ctx : Context) (i j : Nat)
    (spec : ShaderPtrSpec) :
    count_errors j (issue_ptr_binding gsg ctx i spec).2.2 ≤ 1 := by
  unfold count_errors issue_ptr_binding
  cases ho : ptr_outcome gsg ctx.uniform_location_map spec
  · simp only [List.countP_cons, GLCall.is_error, Bool.and_false, Bool.false_eq_true, if_false]
    rw [List.countP_eq_zero.mpr]
    · omega
    · intro e he
      obtain ⟨c, hc, rfl⟩ := List.mem_map.mp he
      have h := (release_resources_calls ctx c hc).2.1
      cases c <;> simp [GLCall.is_error] at h ⊢
  all_goals
    simp only [List.countP_cons, List.countP_nil, GLCall.is_error, Bool.and_false,
      Bool.false_eq_true, if_false]
    first | omega | (split <;> omega)

/-- The pointer-data loop records at most one error report per binding. -/
theorem issue_ptr_loop_count_errors (gsg : GSG) (j : Nat) (l : List ShaderPtrSpec) :
    ∀ (ctx : Context) (i : Nat), count_errors j (issue_ptr_loop gsg ctx i l).2.2 ≤ 1 := by
  induction l with
  | nil => intro ctx i; simp [issue_ptr_loop, count_errors]
  | cons s rest ih =>
    intro ctx i
    unfold issue_ptr_loop
    have hb1 := issue_ptr_binding_count_errors gsg ctx i j s
    have horig := issue_ptr_binding_origin gsg ctx i s
    rcases hb : issue_ptr_binding gsg ctx i s with ⟨f, ctx1, t⟩
    rw [hb] at hb1 horig
    simp only at hb1 horig
    cases f with
    | stop => exact hb1
    | next =>
      simp only
      have hrest := issue_ptr_loop_origin gsg rest ctx1 (i + 1)
      have hih := ih ctx1 (i + 1)
      rcases hl : issue_ptr_loop gsg ctx1 (i + 1) rest with ⟨f2, ctx2, t2⟩
      rw [hl] at hrest hih
      simp only at hrest hih ⊢
      unfold count_errors at hb1 hih ⊢
      rw [List.countP_append]
      by_cases hij : i = j
      · have : List.countP (fun e => decide (e.1 = Origin.ptr j) && e.2.is_error) t2 = 0 := by
          rw [List.countP_eq_zero]
          intro e he
          obtain ⟨k, -, hk⟩ := hrest e he
          have : e.1 ≠ Origin.ptr j := by rw [hk]; simp; omega
          simp [this]
        omega
      · have : List.countP (fun e => decide (e.1 = Origin.ptr j) && e.2.is_error) t = 0 := by
          rw [List.countP_eq_zero]
          intro e he
          have : e.1 ≠ Origin.ptr j := by rw [horig e he]; simp; exact hij
          simp [this]
        omega

/-- No entry of the matrix/state part has a pointer-data origin. -/
theorem issue_mat_section_origin (gsg : GSG) (ctx : Context) (altered j : Nat)
    (e : Origin × GLCall) (he : e ∈ issue_mat_section gsg ctx altered) :
    e.1 ≠ Origin.ptr j := by
  intro ho
  unfold issue_mat_section at he
  simp only [List.mem_append, List.mem_singleton] at he
  rcases he with hm | hm
  · split at hm
    · simp only [List.mem_cons] at hm
      rcases hm with hm | hm
      · rw [hm] at ho; simp at ho
      · obtain ⟨k, sp, -, hb⟩ := issue_mat_loop_mem gsg ctx altered _ 0 e hm
        rw [(issue_mat_binding_mem gsg ctx altered _ sp e hb).1] at ho
        simp at ho
    · simp at hm
  · rw [hm] at ho; simp at ho

/-- One call of `issue_parameters` records at most one error report per binding. -/
theorem issue_parameters_count_errors (gsg : GSG) (ctx : Context) (altered j : Nat) :
    count_errors j (issue_parameters gsg ctx altered).2 ≤ 1 := by
  have hmat : ∀ c : Context, count_errors j (issue_mat_section gsg c altered) = 0 := by
    intro c
    unfold count_errors
    rw [List.countP_eq_zero]
    intro e he
    simp [issue_mat_section_origin gsg c altered j e he]
  unfold issue_parameters
  split
  · have hloop := issue_ptr_loop_count_errors gsg j ctx.shader.ptr_spec ctx 0
    rcases hl : issue_ptr_loop gsg ctx 0 ctx.shader.ptr_spec with ⟨f, ctx1, t⟩
    rw [hl] at hloop
    simp only at hloop
    have hframe : count_errors j
        (if altered &&& gsg.ssd.SSD_frame ≠ 0 ∧ ctx.frame_number_loc ≥ 0 then
          [(Origin.frame, GLCall.glUniform1i ctx.frame_number_loc ctx.frame_number)]
        else ([] : Trace)) = 0 := by
      unfold count_errors
      split <;> simp [GLCall.is_error]
    have hm1 := hmat ctx1
    unfold count_errors at hloop hframe hm1 ⊢
    cases f with
    | stop => simp only [List.countP_append]; omega
    | next => simp only [List.countP_append]; omega
  · rw [hmat ctx]; omega

/-- On a context in which the location of binding `i` is dead, a call of
`issue_parameters` records neither a push nor an error for that binding. -/
theorem issue_parameters_dead_quiet (gsg : GSG) (ctx : Context) (altered i : Nat)
    (spec : ShaderPtrSpec) (hi : ctx.shader.ptr_spec[i]? = some spec)
    (hd : get_uniform_location ctx.uniform_location_map spec.location = -1)
    (e : Origin × GLCall) (he : e ∈ (issue_parameters gsg ctx altered).2)
    (ho : e.1 = Origin.ptr i) :
    e.2.is_push = false ∧ e.2.is_error = false := by
  obtain ⟨-, hl⟩ := issue_parameters_ptr_part gsg ctx altered i e he ho
  obtain ⟨k, sp, ctx', hk, hP, hm⟩ := issue_ptr_loop_mem_inv gsg
    (fun c => get_uniform_location c.uniform_location_map spec.location = -1)
    (fun c j s h => issue_ptr_binding_keeps_dead gsg c j s spec.location h)
    ctx.shader.ptr_spec ctx 0 e hd hl
  have horig := issue_ptr_binding_origin gsg ctx' (0 + k) sp e hm
  rw [ho] at horig
  have hki : i = k := by
    have : i = 0 + k := by simpa using horig
    omega
  subst hki
  rw [hi] at hk
  have : spec = sp := by simpa using hk
  subst this
  exact issue_ptr_binding_dead_quiet gsg ctx' (0 + i) spec hP e hm

/-- Over any sequence of later calls, a binding whose location is dead is never
pushed and never reported. -/
theorem issue_parameters_seq_dead_quiet (i : Nat) (spec : ShaderPtrSpec)
    (calls : List (GSG × Nat)) :
    ∀ (ctx : Context), ctx.shader.ptr_spec[i]? = some spec →
      get_uniform_location ctx.uniform_location_map spec.location = -1 →
      ∀ t ∈ (issue_parameters_seq ctx calls).2, ∀ e ∈ t, e.1 = Origin.ptr i →
        e.2.is_push = false ∧ e.2.is_error = false := by
  induction calls with
  | nil => intro ctx _ _ t ht; simp [issue_parameters_seq] at ht
  | cons call rest ih =>
    intro ctx hi hd t ht e he ho
    obtain ⟨gsg, altered⟩ := call
    unfold issue_parameters_seq at ht
    simp only [List.mem_cons] at ht
    rcases ht with ht | ht
    · subst ht
      exact issue_parameters_dead_quiet gsg ctx altered i spec hi hd e he ho
    · have hs : (issue_parameters gsg ctx altered).1.shader = ctx.shader :=
        issue_parameters_inv gsg (fun c => c.shader = ctx.shader)
          (fun c j s h => (issue_ptr_binding_shader gsg c j s).trans h) ctx altered rfl
      have hd' := issue_parameters_inv gsg
        (fun c => get_uniform_location c.uniform_location_map spec.location = -1)
        (fun c j s h => issue_ptr_binding_keeps_dead gsg c j s spec.location h) ctx altered hd
      exact ih _ (by rw [hs]; exact hi) hd' t ht e he ho

/-! ### C9 -/

/-- C9: if a call of `issue_parameters` reports a conversion error for the
pointer-data binding at table index `i`, then the binding's remapped location
is -1 when the call returns, that call reports the error exactly once, and in
every later sequence of `issue_parameters` calls, whatever the guardian state
and the mask, no call records a push or an error report for that binding. -/
theorem issue_parameters_conversion_error_once (gsg : GSG) (ctx : Context) (altered i : Nat)
    (spec : ShaderPtrSpec) (hi : ctx.shader.ptr_spec[i]? = some spec)
    (e : Origin × GLCall) (he : e ∈ (issue_parameters gsg ctx altered).2)
    (ho : e.1 = Origin.ptr i) (hE : e.2.is_error = true) :
    get_uniform_location (issue_parameters gsg ctx altered).1.uniform_location_map
      spec.location = -1 ∧
    count_errors i (issue_parameters gsg ctx altered).2 = 1 ∧
    ∀ (calls : List (GSG × Nat)),
      ∀ t ∈ (issue_parameters_seq (issue_parameters gsg ctx altered).1 calls).2,
        ∀ e' ∈ t, e'.1 = Origin.ptr i → e'.2.is_push = false ∧ e'.2.is_error = false := by
  obtain ⟨hbits, hl⟩ := issue_parameters_ptr_part gsg ctx altered i e he ho
  have hdead : get_uniform_location (issue_parameters gsg ctx altered).1.uniform_location_map
      spec.location = -1 := by
    rw [issue_parameters_ctx, if_pos hbits]
    exact issue_ptr_loop_error_dead gsg ctx.shader.ptr_spec ctx 0 i spec e hi hl
      (by rw [ho, Nat.zero_add]) hE
  refine ⟨hdead, ?_, ?_⟩
  · have hle := issue_parameters_count_errors gsg ctx altered i
    have hpos : 0 < count_errors i (issue_parameters gsg ctx altered).2 := by
      unfold count_errors
      rw [List.countP_pos_iff]
      exact ⟨e, he, by simp [ho, hE]⟩
    omega
  · intro calls
    have hs : (issue_parameters gsg ctx altered).1.shader = ctx.shader :=
      issue_parameters_inv gsg (fun c => c.shader = ctx.shader)
        (fun c j s h => (issue_ptr_binding_shader gsg c j s).trans h) ctx altered rfl
    exact issue_parameters_seq_dead_quiet i spec calls _ (by rw [hs]; exact hi) hdead

/-- C9, at a sample input: the float buffer supplied to the `int` binding of
`sample_ctx_int` is reported once and the binding is then dead. -/
theorem issue_parameters_conversion_error_once_witness :
    (sample_ctx_int.shader.ptr_spec[0]? = some sample_int_spec ∧
      (Origin.ptr 0, GLCall.error "Cannot pass floating-point data to integer shader input"
          "count".toList) ∈ (issue_parameters sample_gsg_float sample_ctx_int 0x020).2) ∧
    (get_uniform_location
        (issue_parameters sample_gsg_float sample_ctx_int 0x020).1.uniform_location_map
        sample_int_spec.location = -1 ∧
      count_errors 0 (issue_parameters sample_gsg_float sample_ctx_int 0x020).2 = 1 ∧
      ∀ (calls : List (GSG × Nat)),
        ∀ t ∈ (issue_parameters_seq
            (issue_parameters sample_gsg_float sample_ctx_int 0x020).1 calls).2,
          ∀ e' ∈ t, e'.1 = Origin.ptr 0 → e'.2.is_push = false ∧ e'.2.is_error = false) :=
  ⟨⟨by decide, by decide⟩,
    issue_parameters_conversion_error_once sample_gsg_float sample_ctx_int 0x020 0
      sample_int_spec (by decide)
      (Origin.ptr 0, GLCall.error "Cannot pass floating-point data to integer shader input"
          "count".toList) (by decide) rfl rfl⟩

/-! ### C10 -/

theorem to_int32_small (x : Nat) (h : x < 2147483648) : to_int32 x = (x : Int) := by
  unfold to_int32
  have : x % 4294967296 = x := Nat.mod_eq_of_lt (by omega)
  rw [this, if_pos h]

/-- The outcome of the `switch` for a buffer of the binding's own kind and a
supported element size: one upload of `k` elements from the buffer. -/
theorem ptr_switch_same_kind (gsg : GSG) (spec : ShaderPtrSpec) (pd : ShaderPtrData) (p : Int)
    (k : Nat)
    (hkind : (spec.type = ScalarType.ST_float ∧ pd.type = ScalarType.ST_float) ∨
      (spec.type = ScalarType.ST_int ∧ pd.type = ScalarType.ST_int) ∨
      (spec.type = ScalarType.ST_uint ∧ pd.type = ScalarType.ST_uint))
    (hshape : (spec.type = ScalarType.ST_float ∧ spec.dim1 * spec.dim2 ∈ [1, 2, 3, 4, 9, 16]) ∨
      (spec.type ≠ ScalarType.ST_float ∧ spec.dim1 * spec.dim2 ∈ [1, 2, 3, 4]))
    (hk : k < 2147483648) :
    ∃ c, ptr_switch gsg spec pd p (spec.dim1 * spec.dim2) k = PtrOutcome.call c ∧
      c.is_push = true ∧ c.count = (k : Int) ∧
      c.uploaded = pd.ptr.take (k * (spec.dim1 * spec.dim2)) := by
  unfold ptr_switch
  rw [to_int32_small k hk]
  rcases hkind with ⟨ht, hs⟩ | ⟨ht, hs⟩ | ⟨ht, hs⟩
  · rcases hshape with ⟨-, hd⟩ | ⟨hne, -⟩
    · rw [ht]
      simp only [float_data, hs]
      simp only [List.mem_cons, List.mem_singleton, List.not_mem_nil, or_false] at hd
      rcases hd with hd | hd | hd | hd | hd | hd <;> rw [hd] <;>
        exact ⟨_, rfl, rfl, rfl, by simp [GLCall.uploaded, scalars_read, push_float]⟩
    · exact absurd ht hne
  · rcases hshape with ⟨hf, -⟩ | ⟨-, hd⟩
    · rw [ht] at hf; simp at hf
    · rw [ht]
      simp only [hs, ne_eq, not_true_eq_false, false_and, if_false]
      simp only [List.mem_cons, List.mem_singleton, List.not_mem_nil, or_false] at hd
      rcases hd with hd | hd | hd | hd <;> rw [hd] <;>
        exact ⟨_, rfl, rfl, rfl, by simp [GLCall.uploaded, scalars_read, push_int]⟩
  · rcases hshape with ⟨hf, -⟩ | ⟨-, hd⟩
    · rw [ht] at hf; simp at hf
    · rw [ht]
      simp only [hs, ne_eq, not_true_eq_false, false_and, if_false]
      simp only [List.mem_cons, List.mem_singleton, List.not_mem_nil, or_false] at hd
      rcases hd with hd | hd | hd | hd <;> rw [hd] <;>
        exact ⟨_, rfl, rfl, rfl, by simp [GLCall.uploaded, scalars_read, push_uint]⟩

/-- C10: for the pointer-data binding `spec` at table index `i`, with declared
dimensions `(n, r, c) = (dim0, dim1, dim2)`, supplied with a buffer `pd` of the
binding's own numeric kind (float/float, int/int, uint/uint) holding `s`
scalars, every push `issue_parameters` records for the binding uploads exactly
`min(n, s / (r*c))` elements of `r*c` scalars, and the scalars uploaded are the
first `min(n, s / (r*c)) * r * c` scalars of the buffer, unmodified and in
order; the loop body, run with a live location, records that push; the count
never exceeds `n` and the upload never reads past the `s` scalars supplied.
The element size `r*c` is one the `switch` accepts and `s` fits an `int`. -/
theorem issue_parameters_same_kind_upload (gsg : GSG) (ctx : Context) (altered i : Nat)
    (spec : ShaderPtrSpec) (pd : ShaderPtrData)
    (hi : ctx.shader.ptr_spec[i]? = some spec)
    (hpd : gsg.fetch_ptr_parameter spec = some pd)
    (hkind : (spec.type = ScalarType.ST_float ∧ pd.type = ScalarType.ST_float) ∨
      (spec.type = ScalarType.ST_int ∧ pd.type = ScalarType.ST_int) ∨
      (spec.type = ScalarType.ST_uint ∧ pd.type = ScalarType.ST_uint))
    (hshape : (spec.type = ScalarType.ST_float ∧ spec.dim1 * spec.dim2 ∈ [1, 2, 3, 4, 9, 16]) ∨
      (spec.type ≠ ScalarType.ST_float ∧ spec.dim1 * spec.dim2 ∈ [1, 2, 3, 4]))
    (hsize : pd.size < 2147483648) :
    (∀ e ∈ (issue_parameters gsg ctx altered).2, e.1 = Origin.ptr i → e.2.is_push = true →
      e.2.count = ((min spec.dim0 (pd.size / (spec.dim1 * spec.dim2)) : Nat) : Int) ∧
      e.2.uploaded =
        pd.ptr.take (min spec.dim0 (pd.size / (spec.dim1 * spec.dim2)) * (spec.dim1 * spec.dim2))) ∧
    (0 ≤ get_uniform_location ctx.uniform_location_map spec.location →
      ∃ c, c.is_push = true ∧
        c.count = ((min spec.dim0 (pd.size / (spec.dim1 * spec.dim2)) : Nat) : Int) ∧
        c.uploaded =
          pd.ptr.take (min spec.dim0 (pd.size / (spec.dim1 * spec.dim2)) * (spec.dim1 * spec.dim2)) ∧
        (issue_ptr_binding gsg ctx i spec).2.2 =
          [(Origin.ptr i, GLCall.fetch_ptr_parameter spec), (Origin.ptr i, c)]) ∧
    min spec.dim0 (pd.size / (spec.dim1 * spec.dim2)) ≤ spec.dim0 ∧
    min spec.dim0 (pd.size / (spec.dim1 * spec.dim2)) * (spec.dim1 * spec.dim2) ≤ pd.ptr.length := by
  have hdim : spec.dim1 * spec.dim2 ∈ [1, 2, 3, 4, 9, 16] := by
    rcases hshape with ⟨-, h⟩ | ⟨-, h⟩
    · exact h
    · simp only [List.mem_cons, List.mem_singleton, List.not_mem_nil, or_false] at h ⊢
      omega
  have hpos : 0 < spec.dim1 * spec.dim2 ∧ spec.dim1 * spec.dim2 < 4294967296 := by
    simp only [List.mem_cons, List.mem_singleton, List.not_mem_nil, or_false] at hdim
    omega
  have hmod : (spec.dim1 * spec.dim2) % 4294967296 = spec.dim1 * spec.dim2 :=
    Nat.mod_eq_of_lt hpos.2
  have hd1 : spec.dim1 ≠ 0 := by
    intro h0
    rw [h0] at hpos
    simp at hpos
  have hdiv : pd.size / (spec.dim1 * spec.dim2) ≤ pd.size := Nat.div_le_self _ _
  have hmod2 : (pd.size / (spec.dim1 * spec.dim2)) % 4294967296
      = pd.size / (spec.dim1 * spec.dim2) := Nat.mod_eq_of_lt (by omega)
  have hk : min spec.dim0 (pd.size / (spec.dim1 * spec.dim2)) < 2147483648 := by
    have := Nat.min_le_right spec.dim0 (pd.size / (spec.dim1 * spec.dim2))
    omega
  have hsw := fun p => ptr_switch_same_kind gsg spec pd p _ hkind hshape hk
  refine ⟨?_, ?_, Nat.min_le_left _ _, ?_⟩
  · intro e he ho hp
    obtain ⟨ctx', -, hm⟩ := issue_parameters_ptr_entry gsg ctx altered i spec hi e he ho
    obtain ⟨pd', hf, -, -, -, h⟩ :=
      issue_ptr_binding_push_or_error gsg ctx' i spec e hm (Or.inl hp)
    rw [hpd] at hf
    have : pd = pd' := by simpa using hf
    subst this
    rw [hmod, hmod2] at h
    obtain ⟨c, hc, -, hcount, hup⟩ :=
      hsw (get_uniform_location ctx'.uniform_location_map spec.location)
    rcases h with ⟨-, h⟩ | ⟨hE, h⟩
    · rw [hc] at h
      have : c = e.2 := by simpa using h
      rw [← this]
      exact ⟨hcount, hup⟩
    · rw [hc] at h; simp at h
  · intro hp
    obtain ⟨c, hc, hpush, hcount, hup⟩ :=
      hsw (get_uniform_location ctx.uniform_location_map spec.location)
    refine ⟨c, hpush, hcount, hup, ?_⟩
    have hp' : ¬ get_uniform_location ctx.uniform_location_map spec.location < 0 := by omega
    have hz : ¬ (spec.dim1 * spec.dim2 = 0) := by omega
    have hout : ptr_outcome gsg ctx.uniform_location_map spec = PtrOutcome.call c := by
      unfold ptr_outcome
      rw [hpd]
      simp only [hd1, hp', hmod, hmod2, hz, if_false]
      exact hc
    unfold issue_ptr_binding
    rw [hout]
  · have h1 : min spec.dim0 (pd.size / (spec.dim1 * spec.dim2)) * (spec.dim1 * spec.dim2)
        ≤ pd.size / (spec.dim1 * spec.dim2) * (spec.dim1 * spec.dim2) :=
      Nat.mul_le_mul_right _ (Nat.min_le_right _ _)
    have h2 := Nat.div_mul_le_self pd.size (spec.dim1 * spec.dim2)
    exact Nat.le_trans h1 h2

/-- C10, at a sample input: the binding `vec2 offsets[2]` supplied with the four
floats `[1, 2, 3, 4]` uploads two elements, the whole buffer. -/
theorem issue_parameters_same_kind_upload_witness :
    (sample_ctx_vec2.shader.ptr_spec[0]? = some sample_vec2_spec ∧
      sample_gsg_float.fetch_ptr_parameter sample_vec2_spec
        = some { type := ScalarType.ST_float, ptr := [1, 2, 3, 4] }) ∧
    (issue_parameters sample_gsg_float sample_ctx_vec2 0x020).2 =
      [(Origin.ptr 0, GLCall.fetch_ptr_parameter sample_vec2_spec),
       (Origin.ptr 0, GLCall.glUniformfv 2 0 2 [1, 2, 3, 4]),
       (Origin.body, GLCall.report_my_gl_errors)] ∧
    ∀ e ∈ (issue_parameters sample_gsg_float sample_ctx_vec2 0x020).2,
      e.1 = Origin.ptr 0 → e.2.is_push = true →
      e.2.count = ((min 2 (4 / (1 * 2)) : Nat) : Int) ∧
      e.2.uploaded = [1, 2, 3, 4] :=
  ⟨⟨by decide, by decide⟩, by decide,
    (issue_parameters_same_kind_upload sample_gsg_float sample_ctx_vec2 0x020 0 sample_vec2_spec
      { type := ScalarType.ST_float, ptr := [1, 2, 3, 4] } (by decide) (by decide)
      (by decide) (by decide) (by decide)).1⟩

/-! ### C11 -/

theorem issue_ptr_binding_glgsg (gsg : GSG) (ctx : Context) (i : Nat) (spec : ShaderPtrSpec) :
    (issue_ptr_binding gsg ctx i spec).2.1.has_glgsg = ctx.has_glgsg := by
  unfold issue_ptr_binding
  cases h : ptr_outcome gsg ctx.uniform_location_map spec <;> simp
  unfold release_resources
  split <;> simp

/-- The loop body for a binding whose fetch fails: `release_resources` and
`return`. -/
theorem issue_ptr_binding_fetch_failed (gsg : GSG) (ctx : Context) (i : Nat)
    (spec : ShaderPtrSpec) (hg : ctx.has_glgsg = true)
    (hf : gsg.fetch_ptr_parameter spec = none) :
    (issue_ptr_binding gsg ctx i spec).1 = Flow.stop ∧
    (issue_ptr_binding gsg ctx i spec).2.1.glsl_program = 0 ∧
    (issue_ptr_binding gsg ctx i spec).2.1.modules = [] := by
  have ho : ptr_outcome gsg ctx.uniform_location_map spec = PtrOutcome.fetch_failed := by
    unfold ptr_outcome
    rw [hf]
  unfold issue_ptr_binding
  rw [ho]
  simp [release_resources, hg]

/-- When the binding at index `i + k` is reached and its fetch fails, the loop
returns there: the program is released and no later binding is visited. -/
theorem issue_ptr_loop_fetch_failed (gsg : GSG) (l : List ShaderPtrSpec) :
    ∀ (ctx : Context) (i k : Nat) (spec : ShaderPtrSpec) (e : Origin × GLCall),
      ctx.has_glgsg = true → l[k]? = some spec → gsg.fetch_ptr_parameter spec = none →
      e ∈ (issue_ptr_loop gsg ctx i l).2.2 → e.1 = Origin.ptr (i + k) →
      (issue_ptr_loop gsg ctx i l).1 = Flow.stop ∧
      (issue_ptr_loop gsg ctx i l).2.1.glsl_program = 0 ∧
      (issue_ptr_loop gsg ctx i l).2.1.modules = [] ∧
      ∀ e' ∈ (issue_ptr_loop gsg ctx i l).2.2, ∃ j, j ≤ i + k ∧ e'.1 = Origin.ptr j := by
  induction l with
  | nil => intro ctx i k spec e _ hk; simp at hk
  | cons s rest ih =>
    intro ctx i k spec e hg hk hf he ho
    unfold issue_ptr_loop at he ⊢
    have hfail := issue_ptr_binding_fetch_failed gsg ctx i s hg
    have horig := issue_ptr_binding_origin gsg ctx i s
    have hgl := issue_ptr_binding_glgsg gsg ctx i s
    rcases hb : issue_ptr_binding gsg ctx i s with ⟨f, ctx1, t⟩
    rw [hb] at he hfail horig hgl
    simp only at hfail horig hgl
    have hk0 : e ∈ t → k = 0 ∧ s = spec := by
      intro het
      have h0 := horig e het
      rw [ho] at h0
      have : i + k = i := by simpa using h0
      have hk0 : k = 0 := by omega
      subst hk0
      exact ⟨rfl, by simpa using hk⟩
    cases f with
    | stop =>
      simp only at he ⊢
      obtain ⟨hk0, hs⟩ := hk0 he
      subst hk0 hs
      refine ⟨trivial, (hfail hf).2.1, (hfail hf).2.2, ?_⟩
      intro e' he'
      exact ⟨i, by omega, horig e' he'⟩
    | next =>
      simp only at he ⊢
      have hrest := issue_ptr_loop_origin gsg rest ctx1 (i + 1) e
      have hih := ih ctx1 (i + 1)
      rcases hl : issue_ptr_loop gsg ctx1 (i + 1) rest with ⟨f2, ctx2, t2⟩
      rw [hl] at he hrest hih
      simp only [List.mem_append] at he
      simp only at hrest hih ⊢
      rcases he with he | he
      · obtain ⟨hk0, hs⟩ := hk0 he
        subst hs
        have := (hfail hf).1
        simp at this
      · obtain ⟨k', -, hk'⟩ := hrest he
        rw [ho] at hk'
        have hkk : i + k = i + 1 + k' := by simpa using hk'
        have hk1 : k = k' + 1 := by omega
        subst hk1
        have hk2 : rest[k']? = some spec := by simpa using hk
        obtain ⟨h1, h2, h3, h4⟩ := hih k' spec e (by rw [hgl]; exact hg) hk2 hf he
          (ho.trans (by rw [show i + (k' + 1) = i + 1 + k' by omega]))
        refine ⟨h1, h2, h3, ?_⟩
        intro e' he'
        simp only [List.mem_append] at he'
        rcases he' with he' | he'
        · exact ⟨i, by omega, horig e' he'⟩
        · obtain ⟨j, hj, hje⟩ := h4 e' he'
          exact ⟨j, by omega, hje⟩

/-- C11, as stated, fails: in a context with the bindings `bad` and `good` and a
color binding selected by the mask, the failing fetch of `bad` makes
`issue_parameters` release the program and return; nothing is recorded for
`good` or for the color binding, the program handle is 0 and `valid()` has
turned false. -/
theorem issue_parameters_fetch_failure_counterexample :
    (sample_gsg_failing.fetch_ptr_parameter sample_bad_spec = none ∧
      valid sample_ctx_failing = true ∧ 0x024 &&& sample_color_spec.dep ≠ 0) ∧
    (issue_parameters sample_gsg_failing sample_ctx_failing 0x024).2 =
      [(Origin.ptr 0, GLCall.fetch_ptr_parameter sample_bad_spec),
       (Origin.ptr 0, GLCall.glDetachShader 1 10),
       (Origin.ptr 0, GLCall.glDetachShader 1 11),
       (Origin.ptr 0, GLCall.glDeleteProgram 1),
       (Origin.ptr 0, GLCall.glDeleteShader 10),
       (Origin.ptr 0, GLCall.glDeleteShader 11),
       (Origin.ptr 0, GLCall.report_my_gl_errors)] ∧
    (issue_parameters sample_gsg_failing sample_ctx_failing 0x024).1.glsl_program = 0 ∧
    valid (issue_parameters sample_gsg_failing sample_ctx_failing 0x024).1 = false := by
  decide

/-- C11, amended: if `fetch_ptr_parameter` fails for the pointer-data binding at
table index `i` when `issue_parameters` reaches it, the call runs
`release_resources` and returns at once: its trace holds only the frame-number
push and entries of the bindings up to `i` (nothing for a later pointer-data
binding, nothing for a matrix/state binding, no cache update), and afterwards
the context holds no program (handle 0, no modules) and `valid()` is false. -/
theorem issue_parameters_fetch_failure_returns (gsg : GSG) (ctx : Context) (altered i : Nat)
    (spec : ShaderPtrSpec) (hg : ctx.has_glgsg = true)
    (hi : ctx.shader.ptr_spec[i]? = some spec)
    (hf : gsg.fetch_ptr_parameter spec = none)
    (e : Origin × GLCall) (he : e ∈ (issue_parameters gsg ctx altered).2)
    (ho : e.1 = Origin.ptr i) :
    (∀ e' ∈ (issue_parameters gsg ctx altered).2,
      e'.1 = Origin.frame ∨ ∃ j, j ≤ i ∧ e'.1 = Origin.ptr j) ∧
    (issue_parameters gsg ctx altered).1.glsl_program = 0 ∧
    (issue_parameters gsg ctx altered).1.modules = [] ∧
    valid (issue_parameters gsg ctx altered).1 = false := by
  obtain ⟨hbits, hl⟩ := issue_parameters_ptr_part gsg ctx altered i e he ho
  obtain ⟨h1, h2, h3, h4⟩ := issue_ptr_loop_fetch_failed gsg ctx.shader.ptr_spec ctx 0 i spec e
    hg hi hf hl (by rw [ho, Nat.zero_add])
  have hctx := issue_parameters_ctx gsg ctx altered
  rw [if_pos hbits] at hctx
  refine ⟨?_, by rw [hctx]; exact h2, by rw [hctx]; exact h3, ?_⟩
  · intro e' he'
    unfold issue_parameters at he'
    rw [if_pos hbits] at he'
    rcases hloop : issue_ptr_loop gsg ctx 0 ctx.shader.ptr_spec with ⟨f, ctx1, t⟩
    rw [hloop] at he' h1 h4
    simp only at h1 h4
    subst h1
    simp only [List.mem_append] at he'
    rcases he' with he' | he'
    · split at he'
      · simp only [List.mem_singleton] at he'
        rw [he']; exact Or.inl rfl
      · simp at he'
    · obtain ⟨j, hj, hje⟩ := h4 e' he'
      exact Or.inr ⟨j, by omega, hje⟩
  · unfold valid
    rw [hctx, h2]
    split <;> rfl

/-- C11 amended, at the sample input of the counterexample. -/
theorem issue_parameters_fetch_failure_returns_witness :
    (sample_ctx_failing.has_glgsg = true ∧
      sample_ctx_failing.shader.ptr_spec[0]? = some sample_bad_spec ∧
      sample_gsg_failing.fetch_ptr_parameter sample_bad_spec = none ∧
      (Origin.ptr 0, GLCall.fetch_ptr_parameter sample_bad_spec)
        ∈ (issue_parameters sample_gsg_failing sample_ctx_failing 0x024).2) ∧
    ((∀ e' ∈ (issue_parameters sample_gsg_failing sample_ctx_failing 0x024).2,
        e'.1 = Origin.frame ∨ ∃ j, j ≤ 0 ∧ e'.1 = Origin.ptr j) ∧
      (issue_parameters sample_gsg_failing sample_ctx_failing 0x024).1.glsl_program = 0 ∧
      (issue_parameters sample_gsg_failing sample_ctx_failing 0x024).1.modules = [] ∧
      valid (issue_parameters sample_gsg_failing sample_ctx_failing 0x024).1 = false) :=
  ⟨⟨by decide, by decide, by decide, by decide⟩,
    issue_parameters_fetch_failure_returns sample_gsg_failing sample_ctx_failing 0x024 0
      sample_bad_spec (by decide) (by decide) (by decide)
      (Origin.ptr 0, GLCall.fetch_ptr_parameter sample_bad_spec) (by decide) rfl⟩

/-! ### C17 -/

/-- The loop body records no matrix-cache update and no `fetch_specified_value`. -/
theorem issue_ptr_binding_no_mat_call (gsg : GSG) (ctx : Context) (i : Nat)
    (spec : ShaderPtrSpec) (e : Origin × GLCall)
    (he : e ∈ (issue_ptr_binding gsg ctx i spec).2.2) :
    e.2.is_cache_update = false ∧ e.2.is_fetch_value = false := by
  rcases issue_ptr_binding_mem gsg ctx i spec e he with h1 | h1 | h1 | h1 | h1 | h1
  · rw [h1]; exact ⟨rfl, rfl⟩
  · have h := release_resources_calls ctx _ h1.2
    cases hc : e.2 <;> simp [GLCall.is_cache_update, GLCall.is_fetch_value]
    · exact h.2.2.2 _ hc
    · exact h.2.2.1 _ hc
  · rw [h1.2]; exact ⟨rfl, rfl⟩
  · rw [h1.2]; exact ⟨rfl, rfl⟩
  · obtain ⟨pd, -, -, -, -, hsw⟩ := ptr_outcome_switch gsg _ spec _ h1 (Or.inl ⟨_, rfl⟩)
    rcases (ptr_switch_call gsg spec pd _ _ _ _ hsw).1 with h2 | h2
    · rw [h2]; exact ⟨rfl, rfl⟩
    · cases hc : e.2 <;> rw [hc] at h2 <;>
        simp [GLCall.is_push, GLCall.is_cache_update, GLCall.is_fetch_value] at h2 ⊢
  · obtain ⟨pd, -, -, -, -, hsw⟩ := ptr_outcome_switch gsg _ spec _ h1 (Or.inr ⟨_, rfl⟩)
    have h2 := (ptr_switch_deactivate gsg spec pd _ _ _ _ hsw).1
    cases hc : e.2 <;> rw [hc] at h2 <;>
      simp [GLCall.is_error, GLCall.is_cache_update, GLCall.is_fetch_value] at h2 ⊢

/-- The pointer-data loop runs to its end when every input is supplied and no
element size is zero. -/
theorem issue_ptr_loop_completes (gsg : GSG) (l : List ShaderPtrSpec)
    (hfetch : ∀ spec ∈ l, gsg.fetch_ptr_parameter spec ≠ none)
    (hdim : ∀ spec ∈ l, (spec.dim1 * spec.dim2) % 4294967296 ≠ 0) :
    ∀ (ctx : Context) (i : Nat), (issue_ptr_loop gsg ctx i l).1 = Flow.next := by
  induction l with
  | nil => intro ctx i; rfl
  | cons s rest ih =>
    intro ctx i
    unfold issue_ptr_loop
    have hb1 : (issue_ptr_binding gsg ctx i s).1 = Flow.next := by
      unfold issue_ptr_binding
      cases ho : ptr_outcome gsg ctx.uniform_location_map s <;> simp only
      · unfold ptr_outcome at ho
        cases hf : gsg.fetch_ptr_parameter s with
        | none => exact absurd hf (hfetch s (List.mem_cons_self _ _))
        | some pd =>
          rw [hf] at ho
          simp only at ho
          repeat' split at ho
          all_goals first | (simp at ho) | skip
          rename_i h1 h2 h3
          unfold ptr_switch at ho
          repeat' split at ho
          all_goals simp at ho
      · unfold ptr_outcome at ho
        cases hf : gsg.fetch_ptr_parameter s with
        | none => rw [hf] at ho; simp at ho
        | some pd =>
          rw [hf] at ho
          simp only at ho
          repeat' split at ho
          all_goals first | (simp at ho) | skip
          · rename_i h1 h2 h3
            exact absurd h3 (hdim s (List.mem_cons_self _ _))
          · unfold ptr_switch at ho
            repeat' split at ho
            all_goals simp at ho
    rcases hb : issue_ptr_binding gsg ctx i s with ⟨f, ctx1, t⟩
    rw [hb] at hb1
    simp only at hb1
    subst hb1
    simp only
    have := ih (fun sp h => hfetch sp (List.mem_cons_of_mem _ h))
      (fun sp h => hdim sp (List.mem_cons_of_mem _ h)) ctx1 (i + 1)
    rcases hl : issue_ptr_loop gsg ctx1 (i + 1) rest with ⟨f2, ctx2, t2⟩
    rw [hl] at this
    exact this

/-- C17, as stated, fails: in the sample context the mask meets `_mat_deps`, but
the failing fetch of `bad` makes `issue_parameters` return before the
matrix/state part, so `update_shader_matrix_cache` is not invoked at all. -/
theorem issue_parameters_cache_update_counterexample :
    0x024 &&& sample_ctx_failing.shader.mat_deps ≠ 0 ∧
    ∀ e ∈ (issue_parameters sample_gsg_failing sample_ctx_failing 0x024).2,
      e.2.is_cache_update = false := by
  decide

/-- C17, amended: in every `issue_parameters(altered)` call in which every
pointer-data input is supplied (no `fetch_ptr_parameter` failure) and has a
non-zero element size `_dim[1] * _dim[2]`, if `(altered & _mat_deps) != 0` then
`update_shader_matrix_cache` is invoked exactly once, whatever the number of
matrix/state bindings, and before every `fetch_specified_value` call; and in
every call whatsoever with `(altered & _mat_deps) == 0` neither of the two is
invoked. -/
theorem issue_parameters_cache_update_once (gsg : GSG) (ctx : Context) (altered : Nat) :
    ((∀ spec ∈ ctx.shader.ptr_spec, gsg.fetch_ptr_parameter spec ≠ none) →
      (∀ spec ∈ ctx.shader.ptr_spec, (spec.dim1 * spec.dim2) % 4294967296 ≠ 0) →
      altered &&& ctx.shader.mat_deps ≠ 0 →
      ∃ pre post, (issue_parameters gsg ctx altered).2 =
          pre ++ (Origin.body, GLCall.update_shader_matrix_cache altered) :: post ∧
        (∀ e ∈ pre, e.2.is_cache_update = false ∧ e.2.is_fetch_value = false) ∧
        (∀ e ∈ post, e.2.is_cache_update = false)) ∧
    (altered &&& ctx.shader.mat_deps = 0 →
      ∀ e ∈ (issue_parameters gsg ctx altered).2,
        e.2.is_cache_update = false ∧ e.2.is_fetch_value = false) := by
  constructor
  · intro hfetch hdim hd
    have hpost : ∀ c : Context, ∀ e ∈ issue_mat_loop gsg c altered 0 c.shader.mat_spec
        ++ [(Origin.body, GLCall.report_my_gl_errors)], e.2.is_cache_update = false := by
      intro c e he
      simp only [List.mem_append, List.mem_singleton] at he
      rcases he with he | he
      · obtain ⟨k, sp, -, hb⟩ := issue_mat_loop_mem gsg c altered _ 0 e he
        rcases (issue_mat_binding_mem gsg c altered _ sp e hb).2.2 with h | h
        · rw [h]; rfl
        · cases hc : e.2 <;> rw [hc] at h <;> simp [GLCall.is_push, GLCall.is_cache_update] at h ⊢
      · rw [he]; rfl
    have hsec : ∀ c : Context, c.shader = ctx.shader → issue_mat_section gsg c altered =
        (Origin.body, GLCall.update_shader_matrix_cache altered)
          :: (issue_mat_loop gsg c altered 0 c.shader.mat_spec
            ++ [(Origin.body, GLCall.report_my_gl_errors)]) := by
      intro c hs
      unfold issue_mat_section
      rw [hs, if_pos hd]
      rfl
    unfold issue_parameters
    by_cases hp : altered &&& (gsg.ssd.SSD_shaderinputs ||| gsg.ssd.SSD_frame) = 0
    · simp only [hp, ne_eq, not_true_eq_false, if_false]
      refine ⟨[], _, by rw [hsec ctx rfl]; rfl, by simp, hpost ctx⟩
    · simp only [hp, ne_eq, not_false_eq_true, if_true]
      have hflow := issue_ptr_loop_completes gsg ctx.shader.ptr_spec hfetch hdim ctx 0
      have hsh := issue_ptr_loop_shader gsg ctx.shader.ptr_spec ctx 0
      have hmem := issue_ptr_loop_mem gsg ctx.shader.ptr_spec ctx 0
      rcases hl : issue_ptr_loop gsg ctx 0 ctx.shader.ptr_spec with ⟨f, ctx1, t⟩
      rw [hl] at hflow hsh hmem
      simp only at hflow hsh hmem
      subst hflow
      simp only
      refine ⟨_, _, by rw [hsec ctx1 hsh, List.append_assoc], ?_, hpost ctx1⟩
      intro e he
      simp only [List.mem_append] at he
      rcases he with he | he
      · split at he
        · simp only [List.mem_singleton] at he
          rw [he]; exact ⟨rfl, rfl⟩
        · simp at he
      · obtain ⟨k, sp, ctx', -, -, hm⟩ := hmem e he
        exact issue_ptr_binding_no_mat_call gsg ctx' _ sp e hm
  · intro hd e he
    rcases issue_parameters_mem gsg ctx altered e he with h | h | h | h | h
    · rw [h]; exact ⟨rfl, rfl⟩
    · obtain ⟨k, sp, ctx', -, -, hm⟩ := h
      exact issue_ptr_binding_no_mat_call gsg ctx' _ sp e hm
    · exact absurd hd h.2
    · obtain ⟨k, sp, ctx', -, hne, -⟩ := h
      exact absurd hd hne
    · rw [h]; exact ⟨rfl, rfl⟩

/-- C17 amended, at a sample input: the pointer-data loop runs over the two
supplied inputs `bad` and `good`, then the cache update comes, once, and the
fetch of the color binding follows it. -/
theorem issue_parameters_cache_update_once_witness :
    ((∀ spec ∈ sample_ctx_failing.shader.ptr_spec,
        sample_gsg_float.fetch_ptr_parameter spec ≠ none) ∧
      (∀ spec ∈ sample_ctx_failing.shader.ptr_spec,
        (spec.dim1 * spec.dim2) % 4294967296 ≠ 0) ∧
      0x024 &&& sample_ctx_failing.shader.mat_deps ≠ 0 ∧
      sample_ctx_failing.shader.ptr_spec = [sample_bad_spec, sample_good_spec] ∧
      (Origin.ptr 1, GLCall.fetch_ptr_parameter sample_good_spec)
        ∈ (issue_parameters sample_gsg_float sample_ctx_failing 0x024).2 ∧
      (Origin.mat 0, GLCall.fetch_specified_value sample_color_spec)
        ∈ (issue_parameters sample_gsg_float sample_ctx_failing 0x024).2) ∧
    ∃ pre post, (issue_parameters sample_gsg_float sample_ctx_failing 0x024).2 =
        pre ++ (Origin.body, GLCall.update_shader_matrix_cache 0x024) :: post ∧
      (∀ e ∈ pre, e.2.is_cache_update = false ∧ e.2.is_fetch_value = false) ∧
      (∀ e ∈ post, e.2.is_cache_update = false) :=
  ⟨⟨by decide, by decide, by decide, by decide, by decide, by decide⟩,
    (issue_parameters_cache_update_once sample_gsg_float sample_ctx_failing 0x024).1
      (by decide) (by decide) (by decide)⟩

/-! ### C2 and C3: `set_state_and_transform` -/

theorem ite_or_zero (c : Prop) [Decidable c] (a x : Nat) :
    (if c then a ||| x else a) = a ||| (if c then x else 0) := by
  split <;> simp

theorem mask_snd_ite (c : Prop) [Decidable c] (x y : Context × Nat) :
    (if c then x else y).2 = if c then x.2 else y.2 := by
  split <;> rfl

theorem mask_fst_ite (c : Prop) [Decidable c] (x y : Context × Nat) :
    (if c then x else y).1 = if c then x.1 else y.1 := by
  split <;> rfl

theorem frame_number_ite (c : Prop) [Decidable c] (x y : Context) :
    (if c then x else y).frame_number = if c then x.frame_number else y.frame_number := by
  split <;> rfl

theorem shader_attrib_ite (c : Prop) [Decidable c] (x y : Context) :
    (if c then x else y).shader_attrib = if c then x.shader_attrib else y.shader_attrib := by
  split <;> rfl

/-- The mask `set_state_and_transform` reports is the one of lines 2071-2142. -/
theorem set_state_and_transform_altered (gsg : GSG) (w : World) (ctx : Context) (target_rs : Nat)
    (mv cam proj : Option Nat) :
    (set_state_and_transform gsg w ctx target_rs mv cam proj).2.1 =
      (set_state_and_transform_mask gsg.ssd w ctx target_rs mv cam proj).2 := by
  unfold set_state_and_transform
  simp only
  split <;> rfl

/-- The mask computed when the captured render state is still alive. -/
theorem set_state_and_transform_mask_alive (ssd : ShaderStateDep) (w : World) (ctx : Context)
    (target_rs state_rs : Nat) (mv cam proj : Option Nat)
    (hlive : w.lock ctx.state_rs = some state_rs) :
    (set_state_and_transform_mask ssd w ctx target_rs mv cam proj).2 =
      List.foldl (· ||| ·) 0
        [ if ctx.modelview_transform ≠ mv then and_not ssd.SSD_transform ssd.SSD_view_transform
            else 0,
          if ctx.camera_transform ≠ cam then ssd.SSD_transform else 0,
          if ctx.projection_transform ≠ proj then ssd.SSD_projection else 0,
          if w.get_attrib state_rs AttribSlot.color ≠ w.get_attrib target_rs AttribSlot.color
            then ssd.SSD_color else 0,
          if w.get_attrib state_rs AttribSlot.color_scale
              ≠ w.get_attrib target_rs AttribSlot.color_scale
            then ssd.SSD_colorscale else 0,
          if w.get_attrib state_rs AttribSlot.material ≠ w.get_attrib target_rs AttribSlot.material
            then ssd.SSD_material else 0,
          if w.get_attrib state_rs AttribSlot.fog ≠ w.get_attrib target_rs AttribSlot.fog
            then ssd.SSD_fog else 0,
          if w.get_attrib state_rs AttribSlot.light ≠ w.get_attrib target_rs AttribSlot.light
            then ssd.SSD_light else 0,
          if w.get_attrib state_rs AttribSlot.clip_plane
              ≠ w.get_attrib target_rs AttribSlot.clip_plane
            then ssd.SSD_clip_planes else 0,
          if w.get_attrib state_rs AttribSlot.tex_matrix
              ≠ w.get_attrib target_rs AttribSlot.tex_matrix
            then ssd.SSD_tex_matrix else 0,
          if w.get_attrib state_rs AttribSlot.texture ≠ w.get_attrib target_rs AttribSlot.texture
            then ssd.SSD_texture else 0,
          if ctx.shader_attrib ≠ w.target_shader ∨ w.was_deleted ctx.shader_attrib = true
            then ssd.SSD_shaderinputs else 0,
          if w.frame_count ≠ ctx.frame_number then ssd.SSD_frame else 0 ] := by
  unfold set_state_and_transform_mask capture_frame capture_shader_attrib capture_render_state
    capture_transforms
  simp only [hlive, List.foldl]
  by_cases hs : state_rs = target_rs
  · subst hs
    simp only [ne_eq, not_true_eq_false, if_false, mask_snd_ite, mask_fst_ite, ite_or_zero,
      Nat.or_zero, ite_self, frame_number_ite, shader_attrib_ite]
  · simp only [hs, ne_eq, not_false_eq_true, if_true, compare_attrib, attrib_bit,
      mask_snd_ite, mask_fst_ite, ite_or_zero, ite_self, frame_number_ite, shader_attrib_ite]

/-- C3: when the previously captured render state is still alive (`lock()`
yields `state_rs`), the mask computed by `set_state_and_transform` is exactly
the bitwise OR of `SSD_transform & ~SSD_view_transform` if the modelview
transform differs, `SSD_transform` if the camera transform differs,
`SSD_projection` if the projection transform differs, the bit of each of the
eight render attributes whose identity differs between the stored and the
target state, `SSD_shaderinputs` if the shader attrib differs or was deleted,
and `SSD_frame` if the frame number differs; and when only the modelview
transform differs the mask equals `SSD_transform & ~SSD_view_transform`. -/
theorem set_state_and_transform_mask_exact (gsg : GSG) (w : World) (ctx : Context)
    (target_rs state_rs : Nat) (mv cam proj : Option Nat)
    (hlive : w.lock ctx.state_rs = some state_rs) :
    (set_state_and_transform gsg w ctx target_rs mv cam proj).2.1 =
      List.foldl (· ||| ·) 0
        [ if ctx.modelview_transform ≠ mv
            then and_not gsg.ssd.SSD_transform gsg.ssd.SSD_view_transform else 0,
          if ctx.camera_transform ≠ cam then gsg.ssd.SSD_transform else 0,
          if ctx.projection_transform ≠ proj then gsg.ssd.SSD_projection else 0,
          if w.get_attrib state_rs AttribSlot.color ≠ w.get_attrib target_rs AttribSlot.color
            then gsg.ssd.SSD_color else 0,
          if w.get_attrib state_rs AttribSlot.color_scale
              ≠ w.get_attrib target_rs AttribSlot.color_scale
            then gsg.ssd.SSD_colorscale else 0,
          if w.get_attrib state_rs AttribSlot.material ≠ w.get_attrib target_rs AttribSlot.material
            then gsg.ssd.SSD_material else 0,
          if w.get_attrib state_rs AttribSlot.fog ≠ w.get_attrib target_rs AttribSlot.fog
            then gsg.ssd.SSD_fog else 0,
          if w.get_attrib state_rs AttribSlot.light ≠ w.get_attrib target_rs AttribSlot.light
            then gsg.ssd.SSD_light else 0,
          if w.get_attrib state_rs AttribSlot.clip_plane
              ≠ w.get_attrib target_rs AttribSlot.clip_plane
            then gsg.ssd.SSD_clip_planes else 0,
          if w.get_attrib state_rs AttribSlot.tex_matrix
              ≠ w.get_attrib target_rs AttribSlot.tex_matrix
            then gsg.ssd.SSD_tex_matrix else 0,
          if w.get_attrib state_rs AttribSlot.texture ≠ w.get_attrib target_rs AttribSlot.texture
            then gsg.ssd.SSD_texture else 0,
          if ctx.shader_attrib ≠ w.target_shader ∨ w.was_deleted ctx.shader_attrib = true
            then gsg.ssd.SSD_shaderinputs else 0,
          if w.frame_count ≠ ctx.frame_number then gsg.ssd.SSD_frame else 0 ] ∧
    (ctx.modelview_transform ≠ mv → ctx.camera_transform = cam →
      ctx.projection_transform = proj →
      (∀ slot, w.get_attrib state_rs slot = w.get_attrib target_rs slot) →
      ctx.shader_attrib = w.target_shader → w.was_deleted ctx.shader_attrib = false →
      w.frame_count = ctx.frame_number →
      (set_state_and_transform gsg w ctx target_rs mv cam proj).2.1 =
        and_not gsg.ssd.SSD_transform gsg.ssd.SSD_view_transform) := by
  rw [set_state_and_transform_altered,
    set_state_and_transform_mask_alive gsg.ssd w ctx target_rs state_rs mv cam proj hlive]
  refine ⟨rfl, ?_⟩
  intro hmv hcam hproj hattr hsh hdel hfr
  rw [hsh] at hdel
  simp [hmv, hcam, hproj, hattr, hsh, hdel, hfr, List.foldl]

/-- C3, at a sample input: only the modelview transform differs, and the mask is
`0x2002 & ~0x2000 = 2`. -/
theorem set_state_and_transform_mask_exact_witness :
    sample_world.lock sample_ctx_sync.state_rs = some 1 ∧
    (set_state_and_transform sample_gsg sample_world sample_ctx_sync 1
      (some 31) (some 40) (some 50)).2.1 = 2 :=
  ⟨by decide,
    ((set_state_and_transform_mask_exact sample_gsg sample_world sample_ctx_sync 1 1
      (some 31) (some 40) (some 50) (by decide)).1).trans (by decide)⟩

theorem lock_eq_some (w : World) (p : Option Nat) (a : Nat) (h : w.lock p = some a) :
    p = some a ∧ w.alive a = true := by
  unfold World.lock at h
  cases p with
  | none => simp at h
  | some b =>
    simp only at h
    split at h
    · rename_i hb
      have : b = a := by simpa using h
      subst this
      exact ⟨rfl, hb⟩
    · simp at h

theorem capture_render_state_fields (ssd : ShaderStateDep) (w : World) (r : Context × Nat)
    (target_rs : Nat) :
    (capture_render_state ssd w r target_rs).1.state_rs = some target_rs ∧
    (capture_render_state ssd w r target_rs).1.modelview_transform = r.1.modelview_transform ∧
    (capture_render_state ssd w r target_rs).1.camera_transform = r.1.camera_transform ∧
    (capture_render_state ssd w r target_rs).1.projection_transform
      = r.1.projection_transform ∧
    (capture_render_state ssd w r target_rs).1.shader_attrib = r.1.shader_attrib ∧
    (capture_render_state ssd w r target_rs).1.frame_number = r.1.frame_number := by
  unfold capture_render_state
  cases hl : w.lock r.1.state_rs with
  | none => simp
  | some s =>
    obtain ⟨hp, -⟩ := lock_eq_some w _ _ hl
    simp only
    by_cases hs : s = target_rs
    · subst hs; simp [hp]
    · simp [hs]

theorem capture_shader_attrib_fields (ssd : ShaderStateDep) (w : World) (r : Context × Nat) :
    (capture_shader_attrib ssd w r).1.shader_attrib = w.target_shader ∧
    (capture_shader_attrib ssd w r).1.state_rs = r.1.state_rs ∧
    (capture_shader_attrib ssd w r).1.modelview_transform = r.1.modelview_transform ∧
    (capture_shader_attrib ssd w r).1.camera_transform = r.1.camera_transform ∧
    (capture_shader_attrib ssd w r).1.projection_transform = r.1.projection_transform ∧
    (capture_shader_attrib ssd w r).1.frame_number = r.1.frame_number := by
  unfold capture_shader_attrib
  by_cases h : r.1.shader_attrib ≠ w.target_shader ∨ w.was_deleted r.1.shader_attrib = true
  · rw [if_pos h]; simp
  · rw [if_neg h]
    have : r.1.shader_attrib = w.target_shader := by
      by_contra hne; exact h (Or.inl hne)
    simp [this]

theorem capture_frame_fields (ssd : ShaderStateDep) (w : World) (r : Context × Nat) :
    (capture_frame ssd w r).1.frame_number = w.frame_count ∧
    (capture_frame ssd w r).1.shader_attrib = r.1.shader_attrib ∧
    (capture_frame ssd w r).1.state_rs = r.1.state_rs ∧
    (capture_frame ssd w r).1.modelview_transform = r.1.modelview_transform ∧
    (capture_frame ssd w r).1.camera_transform = r.1.camera_transform ∧
    (capture_frame ssd w r).1.projection_transform = r.1.projection_transform := by
  unfold capture_frame
  by_cases h : w.frame_count ≠ r.1.frame_number
  · rw [if_pos h]; simp
  · rw [if_neg h]
    have : w.frame_count = r.1.frame_number := by
      by_contra hne; exact h hne
    simp [this]

/-- The state captured by lines 2071-2142. -/
theorem set_state_and_transform_mask_captures (ssd : ShaderStateDep) (w : World) (ctx : Context)
    (target_rs : Nat) (mv cam proj : Option Nat) :
    (set_state_and_transform_mask ssd w ctx target_rs mv cam proj).1.modelview_transform = mv ∧
    (set_state_and_transform_mask ssd w ctx target_rs mv cam proj).1.camera_transform = cam ∧
    (set_state_and_transform_mask ssd w ctx target_rs mv cam proj).1.projection_transform = proj ∧
    (set_state_and_transform_mask ssd w ctx target_rs mv cam proj).1.state_rs = some target_rs ∧
    (set_state_and_transform_mask ssd w ctx target_rs mv cam proj).1.shader_attrib
      = w.target_shader ∧
    (set_state_and_transform_mask ssd w ctx target_rs mv cam proj).1.frame_number
      = w.frame_count := by
  unfold set_state_and_transform_mask
  obtain ⟨f1, f2, f3, f4, f5, f6⟩ := capture_frame_fields ssd w
    (capture_shader_attrib ssd w (capture_render_state ssd w
      (capture_transforms ssd ctx mv cam proj) target_rs))
  obtain ⟨s1, s2, s3, s4, s5, s6⟩ := capture_shader_attrib_fields ssd w
    (capture_render_state ssd w (capture_transforms ssd ctx mv cam proj) target_rs)
  obtain ⟨r1, r2, r3, r4, r5, r6⟩ := capture_render_state_fields ssd w
    (capture_transforms ssd ctx mv cam proj) target_rs
  refine ⟨?_, ?_, ?_, ?_, ?_, ?_⟩
  · rw [f4, s3, r2]; rfl
  · rw [f5, s4, r3]; rfl
  · rw [f6, s5, r4]; rfl
  · rw [f3, s2, r1]
  · rw [f2, s1]
  · exact f1

/-- A context that has captured the state of a draw yields the mask 0 when the
same draw is synchronised again. -/
theorem set_state_and_transform_mask_zero (ssd : ShaderStateDep) (w : World) (ctx : Context)
    (target_rs : Nat) (mv cam proj : Option Nat)
    (h1 : ctx.modelview_transform = mv) (h2 : ctx.camera_transform = cam)
    (h3 : ctx.projection_transform = proj) (h4 : ctx.state_rs = some target_rs)
    (h5 : ctx.shader_attrib = w.target_shader) (h6 : ctx.frame_number = w.frame_count)
    (hrs : w.alive target_rs = true) (hsh : ∀ a, w.target_shader = some a → w.alive a = true) :
    (set_state_and_transform_mask ssd w ctx target_rs mv cam proj).2 = 0 := by
  have hlock : w.lock ctx.state_rs = some target_rs := by
    rw [h4]; simp [World.lock, hrs]
  have hdel : w.was_deleted ctx.shader_attrib = false := by
    rw [h5]
    unfold World.was_deleted
    cases ht : w.target_shader with
    | none => rfl
    | some a => simp [hsh a ht]
  rw [set_state_and_transform_mask_alive ssd w ctx target_rs target_rs mv cam proj hlock]
  simp [h1, h2, h3, h5, h6, hdel, List.foldl]
  rw [h5] at hdel
  simp [hdel]

/-- The body of the pointer-data loop leaves the captured state alone. -/
theorem issue_ptr_binding_captured (gsg : GSG) (ctx : Context) (i : Nat) (spec : ShaderPtrSpec) :
    (issue_ptr_binding gsg ctx i spec).2.1.modelview_transform = ctx.modelview_transform ∧
    (issue_ptr_binding gsg ctx i spec).2.1.camera_transform = ctx.camera_transform ∧
    (issue_ptr_binding gsg ctx i spec).2.1.projection_transform = ctx.projection_transform ∧
    (issue_ptr_binding gsg ctx i spec).2.1.state_rs = ctx.state_rs ∧
    (issue_ptr_binding gsg ctx i spec).2.1.shader_attrib = ctx.shader_attrib ∧
    (issue_ptr_binding gsg ctx i spec).2.1.frame_number = ctx.frame_number := by
  unfold issue_ptr_binding
  cases h : ptr_outcome gsg ctx.uniform_location_map spec <;> simp
  unfold release_resources
  split <;> simp

/-- C2: if `set_state_and_transform` is called twice in succession with the same
arguments, and at the second call the frame count is unchanged, the guardian's
target shader attrib is the same object and alive, and `target_rs` is alive,
then the second call computes the mask 0 and does not invoke
`issue_parameters`. -/
theorem set_state_and_transform_twice (gsg1 gsg2 : GSG) (w1 w2 : World) (ctx : Context)
    (target_rs : Nat) (mv cam proj : Option Nat)
    (hframe : w2.frame_count = w1.frame_count)
    (hshader : w2.target_shader = w1.target_shader)
    (hlive : ∀ a, w2.target_shader = some a → w2.alive a = true)
    (hrs : w2.alive target_rs = true) :
    (set_state_and_transform gsg2 w2
      (set_state_and_transform gsg1 w1 ctx target_rs mv cam proj).1
      target_rs mv cam proj).2.1 = 0 ∧
    (set_state_and_transform gsg2 w2
      (set_state_and_transform gsg1 w1 ctx target_rs mv cam proj).1
      target_rs mv cam proj).2.2 = none := by
  have hcap : ∀ c : Context,
      (c.modelview_transform = mv ∧ c.camera_transform = cam ∧ c.projection_transform = proj ∧
        c.state_rs = some target_rs ∧ c.shader_attrib = w1.target_shader ∧
        c.frame_number = w1.frame_count) →
      ∀ altered, ((issue_parameters gsg1 c altered).1.modelview_transform = mv ∧
        (issue_parameters gsg1 c altered).1.camera_transform = cam ∧
        (issue_parameters gsg1 c altered).1.projection_transform = proj ∧
        (issue_parameters gsg1 c altered).1.state_rs = some target_rs ∧
        (issue_parameters gsg1 c altered).1.shader_attrib = w1.target_shader ∧
        (issue_parameters gsg1 c altered).1.frame_number = w1.frame_count) := by
    intro c hc altered
    exact issue_parameters_inv gsg1
      (fun c => c.modelview_transform = mv ∧ c.camera_transform = cam ∧
        c.projection_transform = proj ∧ c.state_rs = some target_rs ∧
        c.shader_attrib = w1.target_shader ∧ c.frame_number = w1.frame_count)
      (fun c i s h => by
        obtain ⟨b1, b2, b3, b4, b5, b6⟩ := issue_ptr_binding_captured gsg1 c i s
        exact ⟨b1.trans h.1, b2.trans h.2.1, b3.trans h.2.2.1, b4.trans h.2.2.2.1,
          b5.trans h.2.2.2.2.1, b6.trans h.2.2.2.2.2⟩)
      c altered hc
  have hfirst : (set_state_and_transform gsg1 w1 ctx target_rs mv cam proj).1.modelview_transform
        = mv ∧
      (set_state_and_transform gsg1 w1 ctx target_rs mv cam proj).1.camera_transform = cam ∧
      (set_state_and_transform gsg1 w1 ctx target_rs mv cam proj).1.projection_transform = proj ∧
      (set_state_and_transform gsg1 w1 ctx target_rs mv cam proj).1.state_rs = some target_rs ∧
      (set_state_and_transform gsg1 w1 ctx target_rs mv cam proj).1.shader_attrib
        = w1.target_shader ∧
      (set_state_and_transform gsg1 w1 ctx target_rs mv cam proj).1.frame_number
        = w1.frame_count := by
    have hm := set_state_and_transform_mask_captures gsg1.ssd w1 ctx target_rs mv cam proj
    unfold set_state_and_transform
    simp only
    split
    · exact hcap _ hm _
    · exact hm
  obtain ⟨c1, c2, c3, c4, c5, c6⟩ := hfirst
  have hzero := set_state_and_transform_mask_zero gsg2.ssd w2
    (set_state_and_transform gsg1 w1 ctx target_rs mv cam proj).1 target_rs mv cam proj
    c1 c2 c3 c4 (c5.trans hshader.symm) (c6.trans hframe.symm) hrs hlive
  constructor
  · rw [set_state_and_transform_altered]; exact hzero
  · generalize (set_state_and_transform gsg1 w1 ctx target_rs mv cam proj).1 = c at hzero
    unfold set_state_and_transform
    simp only
    rw [if_neg (by simpa using hzero)]

/-- C2, at a sample input: a first call with a new modelview transform, then the
same call again in the same world. -/
theorem set_state_and_transform_twice_witness :
    (sample_world.frame_count = sample_world.frame_count ∧
      sample_world.target_shader = sample_world.target_shader ∧
      (∀ a, sample_world.target_shader = some a → sample_world.alive a = true) ∧
      sample_world.alive 2 = true ∧
      (set_state_and_transform sample_gsg sample_world sample_ctx_sync 2
        (some 31) (some 40) (some 50)).2.1 ≠ 0) ∧
    ((set_state_and_transform sample_gsg sample_world
        (set_state_and_transform sample_gsg sample_world sample_ctx_sync 2
          (some 31) (some 40) (some 50)).1
        2 (some 31) (some 40) (some 50)).2.1 = 0 ∧
      (set_state_and_transform sample_gsg sample_world
        (set_state_and_transform sample_gsg sample_world sample_ctx_sync 2
          (some 31) (some 40) (some 50)).1
        2 (some 31) (some 40) (some 50)).2.2 = none) :=
  ⟨⟨rfl, rfl, fun _ _ => rfl, rfl, by decide⟩,
    set_state_and_transform_twice sample_gsg sample_gsg sample_world sample_world
      sample_ctx_sync 2 (some 31) (some 40) (some 50) rfl rfl (fun _ _ => rfl) rfl⟩

/-! ### C6: `update_shader_vertex_arrays` -/

theorem mem_ite_singleton {α : Type} (p : Prop) [Decidable p] (x c : α)
    (h : c ∈ (if p then [x] else [])) : c = x := by
  split at h
  · simpa using h
  · simp at h

theorem bind_vertex_buffers_no_toggle (l : List VertexArrayInfo) :
    ∀ (current : List Nat) (ai : Nat) (r : List Nat × List VertexCall),
      bind_vertex_buffers current ai l = some r → ∀ c ∈ r.2, c.is_toggle = false := by
  induction l with
  | nil =>
    intro current ai r h c hc
    simp [bind_vertex_buffers] at h
    subst h
    simp at hc
  | cons a rest ih =>
    intro current ai r h c hc
    unfold bind_vertex_buffers at h
    cases hg : a.gvbc with
    | none => rw [hg] at h; simp at h
    | some index =>
      rw [hg] at h
      simp only at h
      split at h
      · simp at h
      · split at h
        · simp at h
        · rename_i cur3 calls hrec
          simp only [Option.some.injEq] at h
          subst h
          simp only [List.mem_append] at hc
          rcases hc with hc | hc
          · have := mem_ite_singleton _ _ _ hc
            subst this; rfl
          · exact ih _ _ _ hrec c hc

theorem toggle_attribs_enable (a b i : Nat) :
    VertexCall.glEnableVertexAttribArray i ∈ toggle_attribs a b ↔
      i < 32 ∧ a.testBit i = true ∧ b.testBit i = false := by
  unfold toggle_attribs
  simp only [List.mem_filterMap, List.mem_range, Nat.testBit_xor]
  constructor
  · rintro ⟨j, hj, h⟩
    split at h
    · rename_i hx
      split at h
      · rename_i ha
        have : j = i := by simpa using h
        subst this
        refine ⟨hj, ha, ?_⟩
        rw [ha] at hx
        simpa using hx
      · simp at h
    · simp at h
  · rintro ⟨hi, ha, hb⟩
    exact ⟨i, hi, by simp [ha, hb]⟩

theorem toggle_attribs_disable (a b i : Nat) :
    VertexCall.glDisableVertexAttribArray i ∈ toggle_attribs a b ↔
      i < 32 ∧ b.testBit i = true ∧ a.testBit i = false := by
  unfold toggle_attribs
  simp only [List.mem_filterMap, List.mem_range, Nat.testBit_xor]
  constructor
  · rintro ⟨j, hj, h⟩
    split at h
    · rename_i hx
      split at h
      · simp at h
      · rename_i ha
        have : j = i := by simpa using h
        subst this
        have ha' : a.testBit j = false := by simpa using ha
        refine ⟨hj, ?_, ha'⟩
        rw [ha'] at hx
        simpa using hx
    · simp at h
  · rintro ⟨hi, hb, ha⟩
    exact ⟨i, hi, by simp [ha, hb]⟩

theorem toggle_attribs_nodup (a b : Nat) : (toggle_attribs a b).Nodup := by
  unfold toggle_attribs
  apply List.Nodup.filterMap _ (List.nodup_range 32)
  intro i j c hi hj
  simp only [Option.mem_def] at hi hj
  split at hi
  · split at hi
    · have hc : c = VertexCall.glEnableVertexAttribArray i := by simpa using hi.symm
      subst hc
      split at hj
      · split at hj
        · simpa using hj.symm
        · simp at hj
      · simp at hj
    · have hc : c = VertexCall.glDisableVertexAttribArray i := by simpa using hi.symm
      subst hc
      split at hj
      · split at hj
        · simp at hj
        · simpa using hj.symm
      · simp at hj
  · simp at hi

theorem toggle_attribs_is_toggle (a b : Nat) : ∀ c ∈ toggle_attribs a b, c.is_toggle = true := by
  intro c hc
  unfold toggle_attribs at hc
  simp only [List.mem_filterMap, List.mem_range] at hc
  obtain ⟨j, -, h⟩ := hc
  split at h
  · split at h
    · have : c = VertexCall.glEnableVertexAttribArray j := by simpa using h.symm
      subst this; rfl
    · have : c = VertexCall.glDisableVertexAttribArray j := by simpa using h.symm
      subst this; rfl
  · simp at h

/-- The enable and disable calls of a successful update on the
vertex-attrib-binding path are those of lines 2500-2510, and the guardian's
mask becomes the desired mask. -/
theorem update_shader_vertex_arrays_toggles
    (legacy : Context → VertexGSG → Option (VertexGSG × List VertexCall))
    (ctx : Context) (gsg gsg' : VertexGSG) (trace : List VertexCall)
    (hp : ctx.glsl_program ≠ 0) (hb : gsg.use_vertex_attrib_binding = true)
    (hres : update_shader_vertex_arrays legacy ctx gsg = some (gsg', trace)) :
    trace.filter VertexCall.is_toggle
      = toggle_attribs (desired_attribs ctx gsg) gsg.enabled_vertex_attrib_arrays ∧
    gsg'.enabled_vertex_attrib_arrays = desired_attribs ctx gsg := by
  unfold update_shader_vertex_arrays at hres
  rw [if_neg hp] at hres
  simp only [hb, if_true] at hres
  cases hbind : bind_vertex_buffers gsg.current_vertex_buffers 0 gsg.arrays with
  | none => rw [hbind] at hres; simp at hres
  | some r =>
    obtain ⟨buffers, calls⟩ := r
    have hcalls := bind_vertex_buffers_no_toggle gsg.arrays _ _ _ hbind
    rw [hbind] at hres
    simp only [Option.some.injEq, Prod.mk.injEq] at hres
    obtain ⟨hg, ht⟩ := hres
    subst hg ht
    refine ⟨?_, rfl⟩
    have h1 : calls.filter VertexCall.is_toggle = [] := by
      rw [List.filter_eq_nil_iff]
      intro c hc
      simp [hcalls c hc]
    have h2 : (toggle_attribs (desired_attribs ctx gsg) gsg.enabled_vertex_attrib_arrays).filter
        VertexCall.is_toggle
        = toggle_attribs (desired_attribs ctx gsg) gsg.enabled_vertex_attrib_arrays := by
      rw [List.filter_eq_self]
      exact toggle_attribs_is_toggle _ _
    simp only [List.filter_append, h1, h2, List.nil_append]
    have h3 : (if ctx.color_attrib_index ≠ -1 ∧ (!gsg.color_is_vertex) = true then
          [VertexCall.glVertexAttrib4fv ctx.color_attrib_index gsg.color]
        else []).filter VertexCall.is_toggle = [] := by
      split <;> simp [VertexCall.is_toggle]
    have h4 : (if ctx.transform_table_index ≥ 0
          then update_transform_table ctx gsg.transform_table else []).filter
        VertexCall.is_toggle = [] := by
      split <;> simp [update_transform_table, VertexCall.is_toggle]
    have h5 : (if ctx.slider_table_index ≥ 0
          then update_slider_table ctx gsg.slider_table else []).filter
        VertexCall.is_toggle = [] := by
      split <;> simp [update_slider_table, VertexCall.is_toggle]
    rw [h3, h4, h5]
    simp [VertexCall.is_toggle]

/-- C6: in the vertex-attrib-binding path of `update_shader_vertex_arrays`, with
`E_old` the guardian's `_enabled_vertex_attrib_arrays` and `E_new` the desired
mask of lines 2487-2492, a call that returns true issues
`glEnableVertexAttribArray(i)` exactly for the slots `i < 32` in `E_new` and not
in `E_old`, `glDisableVertexAttribArray(i)` exactly for the slots `i < 32` in
`E_old` and not in `E_new`, each at most once and neither for any other slot,
and leaves the guardian's enabled mask equal to `E_new`. -/
theorem update_shader_vertex_arrays_transition
    (legacy : Context → VertexGSG → Option (VertexGSG × List VertexCall))
    (ctx : Context) (gsg gsg' : VertexGSG) (trace : List VertexCall)
    (hp : ctx.glsl_program ≠ 0) (hb : gsg.use_vertex_attrib_binding = true)
    (hres : update_shader_vertex_arrays legacy ctx gsg = some (gsg', trace)) :
    (∀ i, VertexCall.glEnableVertexAttribArray i ∈ trace ↔
      i < 32 ∧ (desired_attribs ctx gsg).testBit i = true ∧
        gsg.enabled_vertex_attrib_arrays.testBit i = false) ∧
    (∀ i, VertexCall.glDisableVertexAttribArray i ∈ trace ↔
      i < 32 ∧ gsg.enabled_vertex_attrib_arrays.testBit i = true ∧
        (desired_attribs ctx gsg).testBit i = false) ∧
    (∀ i, trace.count (VertexCall.glEnableVertexAttribArray i) ≤ 1 ∧
      trace.count (VertexCall.glDisableVertexAttribArray i) ≤ 1) ∧
    gsg'.enabled_vertex_attrib_arrays = desired_attribs ctx gsg := by
  obtain ⟨hf, hm⟩ := update_shader_vertex_arrays_toggles legacy ctx gsg gsg' trace hp hb hres
  have hmem : ∀ c : VertexCall, c.is_toggle = true →
      (c ∈ trace ↔
        c ∈ toggle_attribs (desired_attribs ctx gsg) gsg.enabled_vertex_attrib_arrays) := by
    intro c hc
    rw [← hf, List.mem_filter]
    simp [hc]
  have hcount : ∀ c : VertexCall, c.is_toggle = true → trace.count c ≤ 1 := by
    intro c hc
    have h1 : (trace.filter VertexCall.is_toggle).count c = trace.count c :=
      List.count_filter hc
    rw [← h1, hf]
    exact List.nodup_iff_count_le_one.mp (toggle_attribs_nodup _ _) c
  refine ⟨?_, ?_, ?_, hm⟩
  · intro i
    rw [hmem (VertexCall.glEnableVertexAttribArray i) rfl]
    exact toggle_attribs_enable _ _ i
  · intro i
    rw [hmem (VertexCall.glDisableVertexAttribArray i) rfl]
    exact toggle_attribs_disable _ _ i
  · intro i
    exact ⟨hcount _ rfl, hcount _ rfl⟩

/-- C6, at the sample input of the spec: a program that needs the slots
`{0, 1, 2}` after one that used `{0, 1, 3}` enables 2, disables 3 and touches
neither 0 nor 1. -/
theorem update_shader_vertex_arrays_transition_witness :
    (sample_ctx_vertex.glsl_program ≠ 0 ∧
      sample_vertex_gsg.use_vertex_attrib_binding = true ∧
      update_shader_vertex_arrays (fun _ _ => none) sample_ctx_vertex sample_vertex_gsg =
        some ({ sample_vertex_gsg with enabled_vertex_attrib_arrays := 0b0111 },
          [VertexCall.glEnableVertexAttribArray 2, VertexCall.glDisableVertexAttribArray 3,
           VertexCall.report_my_gl_errors])) ∧
    ((∀ i, VertexCall.glEnableVertexAttribArray i ∈
          [VertexCall.glEnableVertexAttribArray 2, VertexCall.glDisableVertexAttribArray 3,
           VertexCall.report_my_gl_errors] ↔
        i < 32 ∧ (desired_attribs sample_ctx_vertex sample_vertex_gsg).testBit i = true ∧
          sample_vertex_gsg.enabled_vertex_attrib_arrays.testBit i = false) ∧
      (desired_attribs sample_ctx_vertex sample_vertex_gsg = 0b0111 ∧
        sample_vertex_gsg.enabled_vertex_attrib_arrays = 0b1011)) :=
  ⟨⟨by decide, by decide, by decide⟩,
    (update_shader_vertex_arrays_transition (fun _ _ => none) sample_ctx_vertex
      sample_vertex_gsg { sample_vertex_gsg with enabled_vertex_attrib_arrays := 0b0111 }
      [VertexCall.glEnableVertexAttribArray 2, VertexCall.glDisableVertexAttribArray 3,
       VertexCall.report_my_gl_errors] (by decide) (by decide) (by decide)).1,
    by decide, by decide⟩

/-! ### C20: `update_transform_table` -/

/-- C20: `update_transform_table` makes exactly one call,
`glUniformMatrix4fv(_transform_table_index, _transform_table_size, GL_FALSE, ..)`,
with exactly `_transform_table_size` matrices: entry `i` is the `i`-th transform
of the table for `i < min(_transform_table_size, number of transforms)` and the
identity matrix for every other `i`; with no table every entry is the identity. -/
theorem update_transform_table_pads_identity (ctx : Context)
    (table : Option (List (List Int))) :
    ∃ matrices,
      update_transform_table ctx table =
        [VertexCall.glUniformMatrix4fv ctx.transform_table_index ctx.transform_table_size
          false matrices] ∧
      matrices.length = ctx.transform_table_size ∧
      (∀ t, table = some t → ∀ i, i < min ctx.transform_table_size t.length →
        matrices[i]? = t[i]?) ∧
      (∀ t, table = some t → ∀ i, min ctx.transform_table_size t.length ≤ i →
        i < ctx.transform_table_size → matrices[i]? = some ident_mat) ∧
      (table = none → ∀ i, i < ctx.transform_table_size → matrices[i]? = some ident_mat) := by
  unfold update_transform_table
  refine ⟨_, rfl, ?_, ?_, ?_, ?_⟩
  · cases table with
    | none => simp
    | some t => simp only [List.length_append, List.length_take, List.length_replicate]; omega
  · intro t ht i hi
    subst ht
    simp only
    rw [List.getElem?_append_left (by simp only [List.length_take]; omega)]
    rw [List.getElem?_take]
    simp [hi]
  · intro t ht i hi1 hi2
    subst ht
    simp only
    rw [List.getElem?_append_right (by simp only [List.length_take]; omega)]
    rw [List.getElem?_replicate]
    simp only [List.length_take]
    rw [if_pos (by omega)]
  · intro ht i hi
    subst ht
    simp only [List.nil_append, List.length_nil, Nat.sub_zero]
    rw [List.getElem?_replicate, if_pos hi]

/-! ### The loops of `update_shader_texture_bindings` -/

theorem bind_textures_length (gsg : TexGSG) (multi : Bool) (l : List ShaderTexSpec) :
    ∀ (handles : List (Int × Nat)) (barriers i : Nat),
      (bind_textures gsg multi handles barriers i l).length = l.length := by
  induction l with
  | nil => intro h b i; rfl
  | cons s rest ih => intro h b i; simp [bind_textures, ih]

/-- The `k`-th iteration of the texture loop is the loop body run on the `k`-th
specification, with the handle map and the barrier mask of that moment. -/
theorem bind_textures_get (gsg : TexGSG) (multi : Bool) (l : List ShaderTexSpec) :
    ∀ (handles : List (Int × Nat)) (barriers i k : Nat) (spec : ShaderTexSpec),
      l[k]? = some spec →
      ∃ h b, (bind_textures gsg multi handles barriers i l)[k]?
        = some (bind_texture gsg multi h b (i + k) spec) := by
  induction l with
  | nil => intro h b i k spec hk; simp at hk
  | cons s rest ih =>
    intro h b i k spec hk
    cases k with
    | zero =>
      have : s = spec := by simpa using hk
      subst this
      exact ⟨h, b, by simp [bind_textures]⟩
    | succ k =>
      have hk' : rest[k]? = some spec := by simpa using hk
      obtain ⟨h', b', hget⟩ := ih (bind_texture gsg multi h b i s).handles
        (bind_texture gsg multi h b i s).barriers (i + 1) k spec hk'
      refine ⟨h', b', ?_⟩
      simp only [bind_textures, List.getElem?_cons_succ]
      rw [hget]
      congr 2
      omega

theorem bind_texture_normally_origin (multi : Bool) (handles : List (Int × Nat)) (barriers i : Nat)
    (g : TextureContext) (sampler : Option Nat) (pre : TexTrace)
    (hpre : ∀ e ∈ pre, e.1 = TexOrigin.texture i) :
    ∀ e ∈ (bind_texture_normally multi handles barriers i g sampler pre).calls,
      e.1 = TexOrigin.texture i := by
  intro e he
  unfold bind_texture_normally at he
  cases multi with
  | true =>
    simp only [if_true, List.mem_append] at he
    rcases he with (he | he | he) | he
    · exact hpre e he
    · simp only [List.mem_singleton] at he; rw [he]
    · have := mem_ite_singleton _ _ _ he; rw [this]
    · cases sampler with
      | none => simp at he
      | some sc => simp only [List.mem_singleton] at he; rw [he]
  | false =>
    simp only [Bool.false_eq_true, if_false] at he
    split at he
    · simp only [List.mem_append, List.mem_cons, List.mem_singleton, List.not_mem_nil,
        or_false] at he
      rcases he with he | he | he
      · exact hpre e he
      · rw [he]
      · rw [he]
    · simp only [List.mem_append, List.mem_cons, List.mem_singleton, List.not_mem_nil,
        or_false] at he
      rcases he with (he | he | he) | he | he
      · exact hpre e he
      · rw [he]
      · rw [he]
      · rw [he]
      · rw [he]

/-- Every call of the texture loop body carries the origin of its unit. -/
theorem bind_texture_origin (gsg : TexGSG) (multi : Bool) (handles : List (Int × Nat))
    (barriers i : Nat) (spec : ShaderTexSpec) :
    ∀ e ∈ (bind_texture gsg multi handles barriers i spec).calls, e.1 = TexOrigin.texture i := by
  intro e he
  unfold bind_texture at he
  cases ht : (gsg.fetch_specified_texture spec).tex with
  | none =>
    rw [ht] at he
    simp only at he
    split at he
    · simp at he
    · simp only [List.mem_singleton] at he; rw [he]
  | some tex =>
    rw [ht] at he
    simp only at he
    have hmis : ∀ e ∈ (if tex.texture_type ≠ spec.desired_type then
          [(TexOrigin.texture i, type_mismatch_error spec tex)] else ([] : TexTrace)),
        e.1 = TexOrigin.texture i := by
      intro e he
      have := mem_ite_singleton _ _ _ he
      rw [this]
    cases hg : tex.gtc with
    | none => rw [hg] at he; exact hmis e he
    | some g =>
      rw [hg] at he
      simp only at he
      have hforced : ∀ e ∈ (if tex.texture_type ≠ spec.desired_type then
            [(TexOrigin.texture i, type_mismatch_error spec tex)] else ([] : TexTrace))
            ++ [(TexOrigin.texture i, TexCall.update_texture g.index true)],
          e.1 = TexOrigin.texture i := by
        intro e he
        simp only [List.mem_append, List.mem_singleton] at he
        rcases he with he | he
        · exact hmis e he
        · rw [he]
      split at he
      · split at he
        · exact hforced e he
        · split at he
          · split at he
            · simp only [List.mem_append, List.mem_cons, List.mem_singleton,
                List.not_mem_nil, or_false] at he
              rcases he with (he | he) | he | he
              · exact hmis e he
              · rw [he]
              · rw [he]
              · rw [he]
            · simp only [List.mem_append, List.mem_cons, List.mem_singleton,
                List.not_mem_nil, or_false] at he
              rcases he with ((he | he) | he | he) | he
              · exact hmis e he
              · rw [he]
              · rw [he]
              · rw [he]
              · rw [he]
          · exact bind_texture_normally_origin _ _ _ _ _ _ _ hforced e he
      · exact bind_texture_normally_origin _ _ _ _ _ _ _ hmis e he

theorem bind_image_origin (gsg : TexGSG) (barriers i : Nat) (input : ImageInput) :
    ∀ e ∈ (bind_image gsg barriers i input).2.1, e.1 = TexOrigin.image i := by
  intro e he
  unfold bind_image at he
  cases hs : image_source (gsg.get_shader_input input.name) with
  | missing => rw [hs] at he; simp only [List.mem_singleton] at he; rw [he]
  | mismatching => rw [hs] at he; simp only [List.mem_singleton] at he; rw [he]
  | unprepared => rw [hs] at he; simp only [List.mem_singleton] at he; rw [he]
  | prepared param t g =>
    rw [hs] at he
    simp only at he
    unfold bind_prepared_image at he
    have hun : ∀ e ∈ unsized_format_error i t g, e.1 = TexOrigin.image i := by
      intro e he
      unfold unsized_format_error at he
      have := mem_ite_singleton _ _ _ he
      rw [this]
    split at he
    · simp only [List.mem_cons, List.mem_singleton, List.not_mem_nil, or_false] at he
      rcases he with he | he <;> rw [he]
    · cases param with
      | none =>
        simp only [List.mem_cons, List.mem_append, List.mem_singleton, List.not_mem_nil,
          or_false] at he
        rcases he with (he | he) | he
        · rw [he]
        · exact hun e he
        · rw [he]
      | some pm =>
        simp only [List.mem_cons, List.mem_append, List.mem_singleton, List.not_mem_nil,
          or_false] at he
        rcases he with (he | he) | he
        · rw [he]
        · exact hun e he
        · rw [he]

theorem bind_images_origin (gsg : TexGSG) (l : List ImageInput) :
    ∀ (barriers i : Nat), ∀ e ∈ (bind_images gsg barriers i l).2.1,
      ∃ k, e.1 = TexOrigin.image k := by
  induction l with
  | nil => intro b i e he; simp [bind_images] at he
  | cons input rest ih =>
    intro b i e he
    simp only [bind_images, List.mem_append] at he
    rcases he with he | he
    · exact ⟨i, bind_image_origin gsg b i input e he⟩
    · exact ih _ _ e he

/-- The trace of `update_shader_texture_bindings` for a linked program, part by
part. -/
theorem update_shader_texture_bindings_trace (gsg : TexGSG) (ctx : Context)
    (hp : ctx.glsl_program ≠ 0) :
    ∃ (barriers : Nat) (bound : TexTrace),
      (update_shader_texture_bindings gsg ctx).2 =
        (bind_images gsg 0 0
            (ctx.glsl_img_inputs.take (min ctx.glsl_img_inputs.length gsg.max_image_units))).2.1
          ++ ((bind_textures gsg (multi_bind_mode gsg ctx) ctx.glsl_uniform_handles
                (bind_images gsg 0 0 (ctx.glsl_img_inputs.take
                  (min ctx.glsl_img_inputs.length gsg.max_image_units))).2.2 0
                ctx.shader.tex_spec).map (·.calls)).flatten
          ++ bound
          ++ (if barriers ≠ 0 then [(TexOrigin.body, TexCall.issue_memory_barrier barriers)]
              else [])
          ++ [(TexOrigin.body, TexCall.report_my_gl_errors)] ∧
      (∀ e ∈ bound, e.1 = TexOrigin.body ∧ ∀ b, e.2 ≠ TexCall.issue_memory_barrier b) ∧
      (multi_bind_mode gsg ctx = true →
        bound =
          [(TexOrigin.body, TexCall.glBindTextures 0 ctx.shader.tex_spec.length
              ((bind_textures gsg (multi_bind_mode gsg ctx) ctx.glsl_uniform_handles
                (bind_images gsg 0 0 (ctx.glsl_img_inputs.take
                  (min ctx.glsl_img_inputs.length gsg.max_image_units))).2.2 0
                ctx.shader.tex_spec).map (·.texture))),
           (TexOrigin.body, TexCall.glBindSamplers 0 ctx.shader.tex_spec.length
              ((bind_textures gsg (multi_bind_mode gsg ctx) ctx.glsl_uniform_handles
                (bind_images gsg 0 0 (ctx.glsl_img_inputs.take
                  (min ctx.glsl_img_inputs.length gsg.max_image_units))).2.2 0
                ctx.shader.tex_spec).map (·.sampler)))]) ∧
      barriers = (match (bind_textures gsg (multi_bind_mode gsg ctx) ctx.glsl_uniform_handles
                (bind_images gsg 0 0 (ctx.glsl_img_inputs.take
                  (min ctx.glsl_img_inputs.length gsg.max_image_units))).2.2 0
                ctx.shader.tex_spec).getLast? with
        | some s => s.barriers
        | none => (bind_images gsg 0 0 (ctx.glsl_img_inputs.take
                  (min ctx.glsl_img_inputs.length gsg.max_image_units))).2.2) := by
  unfold update_shader_texture_bindings
  rw [if_neg hp]
  refine ⟨_, _, rfl, ?_, ?_, rfl⟩
  · intro e he
    split at he
    · simp only [List.mem_cons, List.mem_singleton, List.not_mem_nil, or_false] at he
      rcases he with he | he <;> rw [he] <;> simp
    · simp at he
  · intro hm
    have hlen : ctx.shader.tex_spec.length > 0 := by
      unfold multi_bind_mode at hm
      simp only [Bool.and_eq_true, decide_eq_true_eq] at hm
      omega
    rw [if_pos ⟨hm, hlen⟩]

/-- An entry with the origin of texture unit `i` is a call of the loop body run
on the `i`-th specification. -/
theorem update_shader_texture_bindings_texture_entry (gsg : TexGSG) (ctx : Context) (i : Nat)
    (spec : ShaderTexSpec) (hp : ctx.glsl_program ≠ 0)
    (hi : ctx.shader.tex_spec[i]? = some spec) (e : TexOrigin × TexCall)
    (he : e ∈ (update_shader_texture_bindings gsg ctx).2) (ho : e.1 = TexOrigin.texture i) :
    ∃ h b, e ∈ (bind_texture gsg (multi_bind_mode gsg ctx) h b i spec).calls := by
  obtain ⟨barriers, bound, htr, hbound, -, -⟩ :=
    update_shader_texture_bindings_trace gsg ctx hp
  rw [htr] at he
  simp only [List.mem_append, List.mem_singleton] at he
  rcases he with (((he | he) | he) | he) | he
  · obtain ⟨k, hk⟩ := bind_images_origin gsg _ _ _ e he
    rw [hk] at ho; simp at ho
  · simp only [List.mem_flatten, List.mem_map] at he
    obtain ⟨calls, ⟨slot, hslot, rfl⟩, hmem⟩ := he
    obtain ⟨k, hk, hget⟩ := List.getElem_of_mem hslot
    have hlen := bind_textures_length gsg (multi_bind_mode gsg ctx) ctx.shader.tex_spec
      ctx.glsl_uniform_handles
      (bind_images gsg 0 0 (ctx.glsl_img_inputs.take
        (min ctx.glsl_img_inputs.length gsg.max_image_units))).2.2 0
    have hk' : k < ctx.shader.tex_spec.length := by omega
    obtain ⟨h, b, hb⟩ := bind_textures_get gsg (multi_bind_mode gsg ctx) ctx.shader.tex_spec
      ctx.glsl_uniform_handles
      (bind_images gsg 0 0 (ctx.glsl_img_inputs.take
        (min ctx.glsl_img_inputs.length gsg.max_image_units))).2.2 0 k
      ctx.shader.tex_spec[k] (List.getElem?_eq_getElem hk')
    rw [List.getElem?_eq_getElem hk, hget] at hb
    have hslot_eq : slot = bind_texture gsg (multi_bind_mode gsg ctx) h b (0 + k)
        ctx.shader.tex_spec[k] := by simpa using hb
    rw [hslot_eq] at hmem
    have horig := bind_texture_origin gsg _ h b (0 + k) _ e hmem
    rw [ho] at horig
    have hki : i = k := by
      have : i = 0 + k := by simpa using horig
      omega
    subst hki
    rw [List.getElem?_eq_getElem hk'] at hi
    have hsp : ctx.shader.tex_spec[i] = spec := by simpa using hi
    rw [hsp, Nat.zero_add] at hmem
    exact ⟨h, b, hmem⟩
  · rw [(hbound e he).1] at ho; simp at ho
  · split at he
    · simp only [List.mem_singleton] at he
      rw [he] at ho; simp at ho
    · simp at he
  · rw [he] at ho; simp at ho

/-- The calls of every iteration of the texture loop are in the trace: the loop
has no early exit. -/
theorem update_shader_texture_bindings_all_units (gsg : TexGSG) (ctx : Context)
    (hp : ctx.glsl_program ≠ 0) (j : Nat) (sj : ShaderTexSpec)
    (hj : ctx.shader.tex_spec[j]? = some sj) :
    ∃ h b,
      (bind_textures gsg (multi_bind_mode gsg ctx) ctx.glsl_uniform_handles
        (bind_images gsg 0 0 (ctx.glsl_img_inputs.take
          (min ctx.glsl_img_inputs.length gsg.max_image_units))).2.2 0
        ctx.shader.tex_spec)[j]? = some (bind_texture gsg (multi_bind_mode gsg ctx) h b j sj) ∧
      ∀ e ∈ (bind_texture gsg (multi_bind_mode gsg ctx) h b j sj).calls,
        e ∈ (update_shader_texture_bindings gsg ctx).2 := by
  obtain ⟨barriers, bound, htr, -, -, -⟩ := update_shader_texture_bindings_trace gsg ctx hp
  obtain ⟨h, b, hb⟩ := bind_textures_get gsg (multi_bind_mode gsg ctx) ctx.shader.tex_spec
    ctx.glsl_uniform_handles
    (bind_images gsg 0 0 (ctx.glsl_img_inputs.take
      (min ctx.glsl_img_inputs.length gsg.max_image_units))).2.2 0 j sj hj
  rw [Nat.zero_add] at hb
  refine ⟨h, b, hb, ?_⟩
  intro e he
  rw [htr]
  simp only [List.mem_append, List.mem_singleton]
  refine Or.inl (Or.inl (Or.inl (Or.inr ?_)))
  simp only [List.mem_flatten, List.mem_map]
  exact ⟨_, ⟨_, List.getElem?_mem hb, rfl⟩, he⟩

/-! ### C7 -/

/-- C7: for the texture binding at unit `i` for which `fetch_specified_texture`
returns no texture, `update_shader_texture_bindings` binds the white fallback
texture to unit `i`: outside multi-bind mode its only call for the unit is
`apply_white_texture(i)`, in multi-bind mode it makes no call for the unit and
passes `textures[i]` = the white texture and `samplers[i] = 0` to
`glBindTextures` and `glBindSamplers`; it reports no error for the unit; and
the loop goes on: the calls of every iteration, for every unit `j`, are in the
trace. -/
theorem update_shader_texture_bindings_white_fallback (gsg : TexGSG) (ctx : Context) (i : Nat)
    (spec : ShaderTexSpec) (hp : ctx.glsl_program ≠ 0)
    (hi : ctx.shader.tex_spec[i]? = some spec)
    (hnull : (gsg.fetch_specified_texture spec).tex = none) :
    (∀ e ∈ (update_shader_texture_bindings gsg ctx).2, e.1 = TexOrigin.texture i →
      e.2 = TexCall.apply_white_texture i ∧ multi_bind_mode gsg ctx = false) ∧
    (multi_bind_mode gsg ctx = false →
      (TexOrigin.texture i, TexCall.apply_white_texture i)
        ∈ (update_shader_texture_bindings gsg ctx).2) ∧
    (multi_bind_mode gsg ctx = true →
      ∃ textures samplers,
        (TexOrigin.body, TexCall.glBindTextures 0 ctx.shader.tex_spec.length textures)
          ∈ (update_shader_texture_bindings gsg ctx).2 ∧
        (TexOrigin.body, TexCall.glBindSamplers 0 ctx.shader.tex_spec.length samplers)
          ∈ (update_shader_texture_bindings gsg ctx).2 ∧
        textures[i]? = some gsg.white_texture ∧ samplers[i]? = some 0) ∧
    (∀ e ∈ (update_shader_texture_bindings gsg ctx).2, e.1 = TexOrigin.texture i →
      ∀ msg name, e.2 ≠ TexCall.error msg name) ∧
    (∀ j sj, ctx.shader.tex_spec[j]? = some sj →
      ∃ h b, ∀ e ∈ (bind_texture gsg (multi_bind_mode gsg ctx) h b j sj).calls,
        e ∈ (update_shader_texture_bindings gsg ctx).2) := by
  have hbody : ∀ h b, bind_texture gsg (multi_bind_mode gsg ctx) h b i spec =
      if multi_bind_mode gsg ctx = true then
        { texture := gsg.white_texture, sampler := 0, handles := h, calls := [], barriers := b }
      else
        { texture := 0, sampler := 0, handles := h
          calls := [(TexOrigin.texture i, TexCall.apply_white_texture i)], barriers := b } := by
    intro h b
    unfold bind_texture
    rw [hnull]
  have hentry : ∀ e ∈ (update_shader_texture_bindings gsg ctx).2, e.1 = TexOrigin.texture i →
      e.2 = TexCall.apply_white_texture i ∧ multi_bind_mode gsg ctx = false := by
    intro e he ho
    obtain ⟨h, b, hm⟩ := update_shader_texture_bindings_texture_entry gsg ctx i spec hp hi e he ho
    rw [hbody] at hm
    cases hmb : multi_bind_mode gsg ctx with
    | true => rw [hmb] at hm; simp at hm
    | false =>
      rw [hmb] at hm
      simp only [Bool.false_eq_true, if_false, List.mem_singleton] at hm
      rw [hm]
      exact ⟨rfl, rfl⟩
  obtain ⟨h, b, hget, hall⟩ := update_shader_texture_bindings_all_units gsg ctx hp i spec hi
  refine ⟨hentry, ?_, ?_, ?_, ?_⟩
  · intro hmb
    apply hall
    rw [hbody, hmb]
    simp
  · intro hmb
    obtain ⟨barriers, bound, htr, -, hbound, -⟩ :=
      update_shader_texture_bindings_trace gsg ctx hp
    have hb2 := hbound hmb
    refine ⟨(bind_textures gsg (multi_bind_mode gsg ctx) ctx.glsl_uniform_handles
        (bind_images gsg 0 0 (ctx.glsl_img_inputs.take
          (min ctx.glsl_img_inputs.length gsg.max_image_units))).2.2 0
        ctx.shader.tex_spec).map (·.texture),
      (bind_textures gsg (multi_bind_mode gsg ctx) ctx.glsl_uniform_handles
        (bind_images gsg 0 0 (ctx.glsl_img_inputs.take
          (min ctx.glsl_img_inputs.length gsg.max_image_units))).2.2 0
        ctx.shader.tex_spec).map (·.sampler), ?_, ?_, ?_, ?_⟩
    · rw [htr, hb2]
      simp
    · rw [htr, hb2]
      simp
    · rw [List.getElem?_map, hget, hbody, hmb]
      rfl
    · rw [List.getElem?_map, hget, hbody, hmb]
      rfl
  · intro e he ho msg name
    rw [(hentry e he ho).1]
    simp
  · intro j sj hj
    obtain ⟨h', b', -, hall'⟩ := update_shader_texture_bindings_all_units gsg ctx hp j sj hj
    exact ⟨h', b', hall'⟩

/-- C7, at a sample input: the absent input `detail` at unit 1 gets the white
texture, with and without multi-bind. -/
theorem update_shader_texture_bindings_white_fallback_witness :
    (sample_ctx_tex.glsl_program ≠ 0 ∧
      sample_ctx_tex.shader.tex_spec[1]? = some sample_missing_spec ∧
      (sample_tex_gsg.fetch_specified_texture sample_missing_spec).tex = none) ∧
    ((∀ e ∈ (update_shader_texture_bindings sample_tex_gsg sample_ctx_tex).2,
        e.1 = TexOrigin.texture 1 →
        e.2 = TexCall.apply_white_texture 1 ∧ multi_bind_mode sample_tex_gsg sample_ctx_tex = false) ∧
      (TexOrigin.texture 1, TexCall.apply_white_texture 1)
        ∈ (update_shader_texture_bindings sample_tex_gsg sample_ctx_tex).2 ∧
      (TexOrigin.body, TexCall.glBindTextures 0 2 [21, 99])
        ∈ (update_shader_texture_bindings sample_tex_gsg_multi sample_ctx_tex).2) :=
  ⟨⟨by decide, by decide, by decide⟩,
    (update_shader_texture_bindings_white_fallback sample_tex_gsg sample_ctx_tex 1
      sample_missing_spec (by decide) (by decide) (by decide)).1,
    by decide, by decide⟩

/-! ### C18 -/

theorem bind_texture_normally_no_barrier (multi : Bool) (handles : List (Int × Nat)) (barriers i : Nat)
    (g : TextureContext) (sampler : Option Nat) (pre : TexTrace)
    (hpre : ∀ e ∈ pre, e.2.is_barrier = false) :
    ∀ e ∈ (bind_texture_normally multi handles barriers i g sampler pre).calls,
      e.2.is_barrier = false := by
  intro e he
  unfold bind_texture_normally at he
  cases multi with
  | true =>
    simp only [if_true, List.mem_append] at he
    rcases he with (he | he | he) | he
    · exact hpre e he
    · simp only [List.mem_singleton] at he; (rw [he]; rfl)
    · have := mem_ite_singleton _ _ _ he; (rw [this]; rfl)
    · cases sampler with
      | none => simp at he
      | some sc => simp only [List.mem_singleton] at he; (rw [he]; rfl)
  | false =>
    simp only [Bool.false_eq_true, if_false] at he
    split at he
    · simp only [List.mem_append, List.mem_cons, List.mem_singleton, List.not_mem_nil,
        or_false] at he
      rcases he with he | he | he
      · exact hpre e he
      · (rw [he]; rfl)
      · (rw [he]; rfl)
    · simp only [List.mem_append, List.mem_cons, List.mem_singleton, List.not_mem_nil,
        or_false] at he
      rcases he with (he | he | he) | he | he
      · exact hpre e he
      · (rw [he]; rfl)
      · (rw [he]; rfl)
      · (rw [he]; rfl)
      · (rw [he]; rfl)

theorem bind_texture_no_barrier (gsg : TexGSG) (multi : Bool) (handles : List (Int × Nat))
    (barriers i : Nat) (spec : ShaderTexSpec) :
    ∀ e ∈ (bind_texture gsg multi handles barriers i spec).calls, e.2.is_barrier = false := by
  intro e he
  unfold bind_texture at he
  cases ht : (gsg.fetch_specified_texture spec).tex with
  | none =>
    rw [ht] at he
    simp only at he
    split at he
    · simp at he
    · simp only [List.mem_singleton] at he; (rw [he]; rfl)
  | some tex =>
    rw [ht] at he
    simp only at he
    have hmis : ∀ e ∈ (if tex.texture_type ≠ spec.desired_type then
          [(TexOrigin.texture i, type_mismatch_error spec tex)] else ([] : TexTrace)),
        e.2.is_barrier = false := by
      intro e he
      have := mem_ite_singleton _ _ _ he
      (rw [this]; first | rfl | (unfold type_mismatch_error; split <;> rfl))
    cases hg : tex.gtc with
    | none => rw [hg] at he; exact hmis e he
    | some g =>
      rw [hg] at he
      simp only at he
      have hforced : ∀ e ∈ (if tex.texture_type ≠ spec.desired_type then
            [(TexOrigin.texture i, type_mismatch_error spec tex)] else ([] : TexTrace))
            ++ [(TexOrigin.texture i, TexCall.update_texture g.index true)],
          e.2.is_barrier = false := by
        intro e he
        simp only [List.mem_append, List.mem_singleton] at he
        rcases he with he | he
        · exact hmis e he
        · (rw [he]; rfl)
      split at he
      · split at he
        · exact hforced e he
        · split at he
          · split at he
            · simp only [List.mem_append, List.mem_cons, List.mem_singleton,
                List.not_mem_nil, or_false] at he
              rcases he with (he | he) | he | he
              · exact hmis e he
              · (rw [he]; rfl)
              · (rw [he]; rfl)
              · (rw [he]; rfl)
            · simp only [List.mem_append, List.mem_cons, List.mem_singleton,
                List.not_mem_nil, or_false] at he
              rcases he with ((he | he) | he | he) | he
              · exact hmis e he
              · (rw [he]; rfl)
              · (rw [he]; rfl)
              · (rw [he]; rfl)
              · (rw [he]; rfl)
          · exact bind_texture_normally_no_barrier _ _ _ _ _ _ _ hforced e he
      · exact bind_texture_normally_no_barrier _ _ _ _ _ _ _ hmis e he

theorem bind_image_no_barrier (gsg : TexGSG) (barriers i : Nat) (input : ImageInput) :
    ∀ e ∈ (bind_image gsg barriers i input).2.1, e.2.is_barrier = false := by
  intro e he
  unfold bind_image at he
  cases hs : image_source (gsg.get_shader_input input.name) with
  | missing => rw [hs] at he; simp only [List.mem_singleton] at he; (rw [he]; rfl)
  | mismatching => rw [hs] at he; simp only [List.mem_singleton] at he; (rw [he]; rfl)
  | unprepared => rw [hs] at he; simp only [List.mem_singleton] at he; (rw [he]; rfl)
  | prepared param t g =>
    rw [hs] at he
    simp only at he
    unfold bind_prepared_image at he
    have hun : ∀ e ∈ unsized_format_error i t g, e.2.is_barrier = false := by
      intro e he
      unfold unsized_format_error at he
      have := mem_ite_singleton _ _ _ he
      (rw [this]; rfl)
    split at he
    · simp only [List.mem_cons, List.mem_singleton, List.not_mem_nil, or_false] at he
      rcases he with he | he <;> (rw [he]; rfl)
    · cases param with
      | none =>
        simp only [List.mem_cons, List.mem_append, List.mem_singleton, List.not_mem_nil,
          or_false] at he
        rcases he with (he | he) | he
        · (rw [he]; rfl)
        · exact hun e he
        · (rw [he]; rfl)
      | some pm =>
        simp only [List.mem_cons, List.mem_append, List.mem_singleton, List.not_mem_nil,
          or_false] at he
        rcases he with (he | he) | he
        · (rw [he]; rfl)
        · exact hun e he
        · (rw [he]; rfl)


theorem bind_images_no_barrier (gsg : TexGSG) (l : List ImageInput) :
    ∀ (barriers i : Nat), ∀ e ∈ (bind_images gsg barriers i l).2.1, e.2.is_barrier = false := by
  induction l with
  | nil => intro b i e he; simp [bind_images] at he
  | cons input rest ih =>
    intro b i e he
    simp only [bind_images, List.mem_append] at he
    rcases he with he | he
    · exact bind_image_no_barrier gsg b i input e he
    · exact ih _ _ e he

theorem bind_textures_no_barrier (gsg : TexGSG) (multi : Bool) (l : List ShaderTexSpec) :
    ∀ (handles : List (Int × Nat)) (barriers i : Nat),
      ∀ e ∈ ((bind_textures gsg multi handles barriers i l).map (·.calls)).flatten,
        e.2.is_barrier = false := by
  induction l with
  | nil => intro h b i e he; simp [bind_textures] at he
  | cons s rest ih =>
    intro h b i e he
    simp only [bind_textures, List.map_cons, List.flatten_cons, List.mem_append] at he
    rcases he with he | he
    · exact bind_texture_no_barrier gsg multi h b i s e he
    · exact ih _ _ _ e he

theorem or_barrier_bit (b bit : Nat) (p q : Bool) :
    (if p = true then b ||| bit else b) ||| (if q = true then bit else 0)
      = b ||| (if (p || q) = true then bit else 0) := by
  cases p <;> cases q <;> simp [Nat.or_assoc]

theorem bind_image_barriers (gsg : TexGSG) (barriers i : Nat) (input : ImageInput) :
    (bind_image gsg barriers i input).2.2 =
      if image_needs_barrier gsg input = true
      then barriers ||| GL_SHADER_IMAGE_ACCESS_BARRIER_BIT else barriers := by
  unfold bind_image image_needs_barrier
  cases hs : image_source (gsg.get_shader_input input.name) <;> simp

/-- The barrier mask after the image loop: the image access bit is ORed in when
some bound image needs it. -/
theorem bind_images_barriers (gsg : TexGSG) (l : List ImageInput) :
    ∀ (barriers i : Nat), (bind_images gsg barriers i l).2.2 =
      barriers ||| (if l.any (image_needs_barrier gsg) = true
        then GL_SHADER_IMAGE_ACCESS_BARRIER_BIT else 0) := by
  induction l with
  | nil => intro b i; simp [bind_images]
  | cons input rest ih =>
    intro b i
    simp only [bind_images, List.any_cons]
    rw [ih, bind_image_barriers, or_barrier_bit]

theorem bind_texture_normally_barriers (multi : Bool) (handles : List (Int × Nat))
    (barriers i : Nat) (g : TextureContext) (sampler : Option Nat) (pre : TexTrace) :
    (bind_texture_normally multi handles barriers i g sampler pre).barriers = barriers := by
  unfold bind_texture_normally
  split
  · rfl
  · split <;> rfl

theorem bind_texture_barriers (gsg : TexGSG) (multi : Bool) (handles : List (Int × Nat))
    (barriers i : Nat) (spec : ShaderTexSpec) :
    (bind_texture gsg multi handles barriers i spec).barriers =
      if texture_needs_barrier gsg spec = true
      then barriers ||| GL_TEXTURE_FETCH_BARRIER_BIT else barriers := by
  unfold bind_texture texture_needs_barrier
  cases ht : (gsg.fetch_specified_texture spec).tex with
  | none => simp only; split <;> simp
  | some tex =>
    simp only
    split
    · rename_i hg
      simp [hg]
    · rename_i g hg
      simp only [hg]
      split
      · split
        · rfl
        · split
          · split <;> rfl
          · rw [bind_texture_normally_barriers]
      · rw [bind_texture_normally_barriers]

theorem getLast_barriers (r : TextureSlot) (rs : List TextureSlot) (x : Nat) :
    (match (r :: rs).getLast? with
      | some s => s.barriers
      | none => x) =
    (match rs.getLast? with
      | some s => s.barriers
      | none => r.barriers) := by
  cases rs with
  | nil => rfl
  | cons a t =>
    rw [List.getLast?_cons_cons]
    cases hl : (a :: t).getLast? with
    | none => simp at hl
    | some s => rfl

/-- The barrier mask after the texture loop: the texture fetch bit is ORed in
when some bound texture needs it. -/
theorem bind_textures_barriers (gsg : TexGSG) (multi : Bool) (l : List ShaderTexSpec) :
    ∀ (handles : List (Int × Nat)) (barriers i : Nat),
      (match (bind_textures gsg multi handles barriers i l).getLast? with
        | some s => s.barriers
        | none => barriers) =
      barriers ||| (if l.any (texture_needs_barrier gsg) = true
        then GL_TEXTURE_FETCH_BARRIER_BIT else 0) := by
  induction l with
  | nil => intro h b i; simp [bind_textures]
  | cons s rest ih =>
    intro h b i
    simp only [bind_textures, List.any_cons]
    rw [getLast_barriers, ih, bind_texture_barriers, or_barrier_bit]

/-- C18: for a linked program, `update_shader_texture_bindings` issues at most
one `issue_memory_barrier` call; the call is issued if and only if some bound
image or some bound texture reports `needs_barrier`; it comes after every call
of the image loop and of the texture loop (only `report_my_gl_errors` follows
it); and its argument is the OR of `GL_SHADER_IMAGE_ACCESS_BARRIER_BIT`, present
iff some bound image needs it, and `GL_TEXTURE_FETCH_BARRIER_BIT`, present iff
some bound texture needs it. -/
theorem update_shader_texture_bindings_barrier (gsg : TexGSG) (ctx : Context)
    (hp : ctx.glsl_program ≠ 0) :
    ∃ pre,
      (update_shader_texture_bindings gsg ctx).2 =
        pre ++
          (if (ctx.glsl_img_inputs.take
                  (min ctx.glsl_img_inputs.length gsg.max_image_units)).any
                (image_needs_barrier gsg) = true
              ∨ ctx.shader.tex_spec.any (texture_needs_barrier gsg) = true
            then [(TexOrigin.body, TexCall.issue_memory_barrier
              ((if (ctx.glsl_img_inputs.take
                    (min ctx.glsl_img_inputs.length gsg.max_image_units)).any
                  (image_needs_barrier gsg) = true
                then GL_SHADER_IMAGE_ACCESS_BARRIER_BIT else 0)
              ||| (if ctx.shader.tex_spec.any (texture_needs_barrier gsg) = true
                then GL_TEXTURE_FETCH_BARRIER_BIT else 0)))]
            else [])
          ++ [(TexOrigin.body, TexCall.report_my_gl_errors)] ∧
      (∀ e ∈ pre, e.2.is_barrier = false) ∧
      (update_shader_texture_bindings gsg ctx).2.countP (fun e => e.2.is_barrier) ≤ 1 ∧
      ((∃ e ∈ (update_shader_texture_bindings gsg ctx).2, e.2.is_barrier = true) ↔
        ((ctx.glsl_img_inputs.take
            (min ctx.glsl_img_inputs.length gsg.max_image_units)).any
          (image_needs_barrier gsg) = true
        ∨ ctx.shader.tex_spec.any (texture_needs_barrier gsg) = true)) := by
  obtain ⟨barriers, bound, htr, hbound, -, hbar⟩ :=
    update_shader_texture_bindings_trace gsg ctx hp
  rw [bind_textures_barriers, bind_images_barriers] at hbar
  have hpre : ∀ e ∈ (bind_images gsg 0 0
        (ctx.glsl_img_inputs.take (min ctx.glsl_img_inputs.length gsg.max_image_units))).2.1
      ++ ((bind_textures gsg (multi_bind_mode gsg ctx) ctx.glsl_uniform_handles
            (bind_images gsg 0 0 (ctx.glsl_img_inputs.take
              (min ctx.glsl_img_inputs.length gsg.max_image_units))).2.2 0
            ctx.shader.tex_spec).map (·.calls)).flatten
      ++ bound, e.2.is_barrier = false := by
    intro e he
    simp only [List.mem_append] at he
    rcases he with (he | he) | he
    · exact bind_images_no_barrier gsg _ _ _ e he
    · exact bind_textures_no_barrier gsg _ _ _ _ _ e he
    · have := (hbound e he).2
      cases hc : e.2 <;> simp [TexCall.is_barrier]
      exact this _ hc
  have hcond : barriers ≠ 0 ↔
      ((ctx.glsl_img_inputs.take
          (min ctx.glsl_img_inputs.length gsg.max_image_units)).any
        (image_needs_barrier gsg) = true
      ∨ ctx.shader.tex_spec.any (texture_needs_barrier gsg) = true) := by
    rw [hbar]
    cases (ctx.glsl_img_inputs.take
        (min ctx.glsl_img_inputs.length gsg.max_image_units)).any (image_needs_barrier gsg) <;>
      cases ctx.shader.tex_spec.any (texture_needs_barrier gsg) <;>
      simp [GL_SHADER_IMAGE_ACCESS_BARRIER_BIT, GL_TEXTURE_FETCH_BARRIER_BIT]
  have hval : barriers =
      (if (ctx.glsl_img_inputs.take
            (min ctx.glsl_img_inputs.length gsg.max_image_units)).any
          (image_needs_barrier gsg) = true
        then GL_SHADER_IMAGE_ACCESS_BARRIER_BIT else 0)
      ||| (if ctx.shader.tex_spec.any (texture_needs_barrier gsg) = true
        then GL_TEXTURE_FETCH_BARRIER_BIT else 0) := by
    rw [hbar, Nat.zero_or]
  have htr2 : (update_shader_texture_bindings gsg ctx).2 =
      ((bind_images gsg 0 0
        (ctx.glsl_img_inputs.take (min ctx.glsl_img_inputs.length gsg.max_image_units))).2.1
      ++ ((bind_textures gsg (multi_bind_mode gsg ctx) ctx.glsl_uniform_handles
            (bind_images gsg 0 0 (ctx.glsl_img_inputs.take
              (min ctx.glsl_img_inputs.length gsg.max_image_units))).2.2 0
            ctx.shader.tex_spec).map (·.calls)).flatten
      ++ bound) ++
          (if (ctx.glsl_img_inputs.take
                  (min ctx.glsl_img_inputs.length gsg.max_image_units)).any
                (image_needs_barrier gsg) = true
              ∨ ctx.shader.tex_spec.any (texture_needs_barrier gsg) = true
            then [(TexOrigin.body, TexCall.issue_memory_barrier
              ((if (ctx.glsl_img_inputs.take
                    (min ctx.glsl_img_inputs.length gsg.max_image_units)).any
                  (image_needs_barrier gsg) = true
                then GL_SHADER_IMAGE_ACCESS_BARRIER_BIT else 0)
              ||| (if ctx.shader.tex_spec.any (texture_needs_barrier gsg) = true
                then GL_TEXTURE_FETCH_BARRIER_BIT else 0)))]
            else [])
          ++ [(TexOrigin.body, TexCall.report_my_gl_errors)] := by
    rw [htr]
    congr 2
    by_cases hb : barriers ≠ 0
    · rw [if_pos hb, if_pos (hcond.mp hb), ← hval]
    · rw [if_neg hb, if_neg (fun h => hb (hcond.mpr h))]
  have hzero : List.countP (fun e : TexOrigin × TexCall => e.2.is_barrier)
      ((bind_images gsg 0 0
        (ctx.glsl_img_inputs.take (min ctx.glsl_img_inputs.length gsg.max_image_units))).2.1
      ++ ((bind_textures gsg (multi_bind_mode gsg ctx) ctx.glsl_uniform_handles
            (bind_images gsg 0 0 (ctx.glsl_img_inputs.take
              (min ctx.glsl_img_inputs.length gsg.max_image_units))).2.2 0
            ctx.shader.tex_spec).map (·.calls)).flatten
      ++ bound) = 0 := by
    rw [List.countP_eq_zero]
    intro e he
    simp [hpre e he]
  refine ⟨_, htr2, hpre, ?_, ?_⟩
  · rw [htr2]
    simp only [List.countP_append, hzero]
    split <;> simp [TexCall.is_barrier]
  · rw [htr2]
    constructor
    · rintro ⟨e, he, hb⟩
      rw [List.mem_append, List.mem_append, List.mem_singleton] at he
      rcases he with (he | he) | he
      · rw [hpre e he] at hb; simp at hb
      · split at he
        · assumption
        · simp at he
      · rw [he] at hb; simp [TexCall.is_barrier] at hb
    · intro h
      rw [if_pos h]
      exact ⟨_, List.mem_append_left _ (List.mem_append_right _ (List.mem_singleton.mpr rfl)),
        rfl⟩

/-- C18, at a sample input: the texture `tex` was written recently, so one fetch
barrier follows the bindings. -/
theorem update_shader_texture_bindings_barrier_witness :
    sample_ctx_tex.glsl_program ≠ 0 ∧
    (update_shader_texture_bindings sample_tex_gsg sample_ctx_tex).2 =
      [(TexOrigin.texture 0, TexCall.set_active_texture_stage 0),
       (TexOrigin.texture 0, TexCall.update_texture 21 false),
       (TexOrigin.texture 0, TexCall.apply_texture 21),
       (TexOrigin.texture 0, TexCall.apply_sampler 0 21),
       (TexOrigin.texture 1, TexCall.apply_white_texture 1),
       (TexOrigin.body, TexCall.issue_memory_barrier GL_TEXTURE_FETCH_BARRIER_BIT),
       (TexOrigin.body, TexCall.report_my_gl_errors)] ∧
    ∃ pre,
      (update_shader_texture_bindings sample_tex_gsg sample_ctx_tex).2 =
        pre ++
          (if (sample_ctx_tex.glsl_img_inputs.take
                  (min sample_ctx_tex.glsl_img_inputs.length sample_tex_gsg.max_image_units)).any
                (image_needs_barrier sample_tex_gsg) = true
              ∨ sample_ctx_tex.shader.tex_spec.any (texture_needs_barrier sample_tex_gsg) = true
            then [(TexOrigin.body, TexCall.issue_memory_barrier
              ((if (sample_ctx_tex.glsl_img_inputs.take
                    (min sample_ctx_tex.glsl_img_inputs.length
                      sample_tex_gsg.max_image_units)).any
                  (image_needs_barrier sample_tex_gsg) = true
                then GL_SHADER_IMAGE_ACCESS_BARRIER_BIT else 0)
              ||| (if sample_ctx_tex.shader.tex_spec.any
                    (texture_needs_barrier sample_tex_gsg) = true
                then GL_TEXTURE_FETCH_BARRIER_BIT else 0)))]
            else [])
          ++ [(TexOrigin.body, TexCall.report_my_gl_errors)] :=
  ⟨by decide, by decide,
    (update_shader_texture_bindings_barrier sample_tex_gsg sample_ctx_tex (by decide)).imp
      (fun _ h => h.1)⟩

/-! ### C19 -/

theorem bind_image_no_handle_push (gsg : TexGSG) (barriers i : Nat) (input : ImageInput) :
    ∀ e ∈ (bind_image gsg barriers i input).2.1, e.2.is_handle_push = false := by
  intro e he
  unfold bind_image at he
  cases hs : image_source (gsg.get_shader_input input.name) with
  | missing => rw [hs] at he; simp only [List.mem_singleton] at he; (rw [he]; rfl)
  | mismatching => rw [hs] at he; simp only [List.mem_singleton] at he; (rw [he]; rfl)
  | unprepared => rw [hs] at he; simp only [List.mem_singleton] at he; (rw [he]; rfl)
  | prepared param t g =>
    rw [hs] at he
    simp only at he
    unfold bind_prepared_image at he
    have hun : ∀ e ∈ unsized_format_error i t g, e.2.is_handle_push = false := by
      intro e he
      unfold unsized_format_error at he
      have := mem_ite_singleton _ _ _ he
      (rw [this]; rfl)
    split at he
    · simp only [List.mem_cons, List.mem_singleton, List.not_mem_nil, or_false] at he
      rcases he with he | he <;> (rw [he]; rfl)
    · cases param with
      | none =>
        simp only [List.mem_cons, List.mem_append, List.mem_singleton, List.not_mem_nil,
          or_false] at he
        rcases he with (he | he) | he
        · (rw [he]; rfl)
        · exact hun e he
        · (rw [he]; rfl)
      | some pm =>
        simp only [List.mem_cons, List.mem_append, List.mem_singleton, List.not_mem_nil,
          or_false] at he
        rcases he with (he | he) | he
        · (rw [he]; rfl)
        · exact hun e he
        · (rw [he]; rfl)

theorem bind_images_no_handle_push (gsg : TexGSG) (l : List ImageInput) :
    ∀ (barriers i : Nat), ∀ e ∈ (bind_images gsg barriers i l).2.1, e.2.is_handle_push = false := by
  induction l with
  | nil => intro b i e he; simp [bind_images] at he
  | cons input rest ih =>
    intro b i e he
    simp only [bind_images, List.mem_append] at he
    rcases he with he | he
    · exact bind_image_no_handle_push gsg b i input e he
    · exact ih _ _ e he

theorem bind_texture_normally_handle_push (multi : Bool) (handles : List (Int × Nat)) (barriers i : Nat)
    (g : TextureContext) (sampler : Option Nat) (pre : TexTrace) (p : Int)
    (hpre : ∀ e ∈ pre, (e.2.is_handle_push = false ∨ ∃ h, e.2 = TexCall.glUniformHandleui64 p h)) :
    ∀ e ∈ (bind_texture_normally multi handles barriers i g sampler pre).calls,
      (e.2.is_handle_push = false ∨ ∃ h, e.2 = TexCall.glUniformHandleui64 p h) := by
  intro e he
  unfold bind_texture_normally at he
  cases multi with
  | true =>
    simp only [if_true, List.mem_append] at he
    rcases he with (he | he | he) | he
    · exact hpre e he
    · simp only [List.mem_singleton] at he; (rw [he]; exact Or.inl rfl)
    · have := mem_ite_singleton _ _ _ he; (rw [this]; exact Or.inl rfl)
    · cases sampler with
      | none => simp at he
      | some sc => simp only [List.mem_singleton] at he; (rw [he]; exact Or.inl rfl)
  | false =>
    simp only [Bool.false_eq_true, if_false] at he
    split at he
    · simp only [List.mem_append, List.mem_cons, List.mem_singleton, List.not_mem_nil,
        or_false] at he
      rcases he with he | he | he
      · exact hpre e he
      · (rw [he]; exact Or.inl rfl)
      · (rw [he]; exact Or.inl rfl)
    · simp only [List.mem_append, List.mem_cons, List.mem_singleton, List.not_mem_nil,
        or_false] at he
      rcases he with (he | he | he) | he | he
      · exact hpre e he
      · (rw [he]; exact Or.inl rfl)
      · (rw [he]; exact Or.inl rfl)
      · (rw [he]; exact Or.inl rfl)
      · (rw [he]; exact Or.inl rfl)

theorem bind_texture_handle_push (gsg : TexGSG) (multi : Bool) (handles : List (Int × Nat))
    (barriers i : Nat) (spec : ShaderTexSpec) :
    ∀ e ∈ (bind_texture gsg multi handles barriers i spec).calls, (e.2.is_handle_push = false ∨ ∃ h, e.2 = TexCall.glUniformHandleui64 spec.location h) := by
  intro e he
  unfold bind_texture at he
  cases ht : (gsg.fetch_specified_texture spec).tex with
  | none =>
    rw [ht] at he
    simp only at he
    split at he
    · simp at he
    · simp only [List.mem_singleton] at he; (rw [he]; exact Or.inl rfl)
  | some tex =>
    rw [ht] at he
    simp only at he
    have hmis : ∀ e ∈ (if tex.texture_type ≠ spec.desired_type then
          [(TexOrigin.texture i, type_mismatch_error spec tex)] else ([] : TexTrace)),
        (e.2.is_handle_push = false ∨ ∃ h, e.2 = TexCall.glUniformHandleui64 spec.location h) := by
      intro e he
      have := mem_ite_singleton _ _ _ he
      rw [this]; exact Or.inl (by unfold type_mismatch_error; split <;> rfl)
    cases hg : tex.gtc with
    | none => rw [hg] at he; exact hmis e he
    | some g =>
      rw [hg] at he
      simp only at he
      have hforced : ∀ e ∈ (if tex.texture_type ≠ spec.desired_type then
            [(TexOrigin.texture i, type_mismatch_error spec tex)] else ([] : TexTrace))
            ++ [(TexOrigin.texture i, TexCall.update_texture g.index true)],
          (e.2.is_handle_push = false ∨ ∃ h, e.2 = TexCall.glUniformHandleui64 spec.location h) := by
        intro e he
        simp only [List.mem_append, List.mem_singleton] at he
        rcases he with he | he
        · exact hmis e he
        · (rw [he]; exact Or.inl rfl)
      split at he
      · split at he
        · exact hforced e he
        · split at he
          · split at he
            · simp only [List.mem_append, List.mem_cons, List.mem_singleton,
                List.not_mem_nil, or_false] at he
              rcases he with (he | he) | he | he
              · exact hmis e he
              · (rw [he]; exact Or.inl rfl)
              · (rw [he]; exact Or.inl rfl)
              · (rw [he]; exact Or.inl rfl)
            · simp only [List.mem_append, List.mem_cons, List.mem_singleton,
                List.not_mem_nil, or_false] at he
              rcases he with ((he | he) | he | he) | he
              · exact hmis e he
              · (rw [he]; exact Or.inl rfl)
              · (rw [he]; exact Or.inl rfl)
              · (rw [he]; exact Or.inl rfl)
              · (rw [he]; exact Or.inr ⟨_, rfl⟩)
          · exact bind_texture_normally_handle_push _ _ _ _ _ _ _ _ hforced e he
      · exact bind_texture_normally_handle_push _ _ _ _ _ _ _ _ hmis e he


theorem handle_of_set_handle (m : List (Int × Nat)) (p : Int) (h : Nat) :
    handle_of (set_handle m p h) p = some h := by
  induction m with
  | nil => simp [set_handle, handle_of]
  | cons a rest ih =>
    obtain ⟨q, h'⟩ := a
    unfold set_handle
    by_cases hq : q = p
    · simp [hq, handle_of]
    · simp [hq, handle_of, ih]

theorem handle_of_set_handle_ne (m : List (Int × Nat)) (p q : Int) (h : Nat) (hq : q ≠ p) :
    handle_of (set_handle m p h) q = handle_of m q := by
  induction m with
  | nil => simp [set_handle, handle_of, Ne.symm hq]
  | cons a rest ih =>
    obtain ⟨r, h'⟩ := a
    unfold set_handle
    by_cases hr : r = p
    · have hrq : ¬ r = q := fun e => hq (e.symm.trans hr)
      have hpq : ¬ p = q := fun e => hq e.symm
      simp [hr, handle_of, hpq]
    · simp only [if_neg hr, handle_of, ih]

theorem bind_texture_normally_handles (multi : Bool) (handles : List (Int × Nat))
    (barriers i : Nat) (g : TextureContext) (sampler : Option Nat) (pre : TexTrace) :
    (bind_texture_normally multi handles barriers i g sampler pre).handles = handles := by
  unfold bind_texture_normally
  split
  · rfl
  · split <;> rfl

/-- An iteration of the texture loop leaves the resident-handle map as it was at
every location other than its own. -/
theorem bind_texture_handles_ne (gsg : TexGSG) (multi : Bool) (handles : List (Int × Nat))
    (barriers i : Nat) (spec : ShaderTexSpec) (q : Int) (hq : q ≠ spec.location) :
    handle_of (bind_texture gsg multi handles barriers i spec).handles q = handle_of handles q := by
  unfold bind_texture
  cases ht : (gsg.fetch_specified_texture spec).tex with
  | none =>
    simp only
    split <;> rfl
  | some tex =>
    simp only
    cases hg : tex.gtc with
    | none => rfl
    | some g =>
      simp only
      split
      · split
        · rfl
        · split
          · split
            · rfl
            · exact handle_of_set_handle_ne _ _ _ _ hq
          · rw [bind_texture_normally_handles]
      · rw [bind_texture_normally_handles]

/-- The bindless path of an iteration of the texture loop (lines 2914-2944): the
handle is pushed exactly when the map does not hold it, and the map holds it
afterwards. -/
theorem bind_texture_bindless (gsg : TexGSG) (multi : Bool) (handles : List (Int × Nat))
    (barriers i : Nat) (spec : ShaderTexSpec) (tex : Texture) (g : TextureContext)
    (ht : (gsg.fetch_specified_texture spec).tex = some tex) (hg : tex.gtc = some g)
    (hb : gsg.gl_use_bindless_texture = true) (hs : gsg.supports_bindless_texture = true)
    (hu : g.update_forced_ok = true) (hh : g.handle ≠ 0) :
    handle_of (bind_texture gsg multi handles barriers i spec).handles spec.location
      = some g.handle ∧
    ((∃ e ∈ (bind_texture gsg multi handles barriers i spec).calls,
        e.2 = TexCall.glUniformHandleui64 spec.location g.handle) ↔
      handle_of handles spec.location ≠ some g.handle) := by
  unfold bind_texture
  rw [ht]
  simp only [hg, hb, hs, hu, and_self, if_true, Bool.not_true, Bool.false_eq_true, if_false,
    ne_eq, hh, not_false_eq_true]
  by_cases hc : handle_of handles spec.location = some g.handle
  · rw [if_pos hc]
    refine ⟨hc, ?_⟩
    simp only [hc, not_true_eq_false, iff_false, not_exists, not_and]
    intro e he
    simp only [List.mem_append, List.mem_cons, List.mem_singleton, List.not_mem_nil,
      or_false] at he
    rcases he with (he | he) | he | he
    · have := mem_ite_singleton _ _ _ he
      rw [this]
      unfold type_mismatch_error
      split <;> simp
    · rw [he]; simp
    · rw [he]; simp
    · rw [he]; simp
  · rw [if_neg hc]
    refine ⟨handle_of_set_handle _ _ _, ?_⟩
    simp only [hc, not_false_eq_true, iff_true]
    exact ⟨(TexOrigin.texture i, TexCall.glUniformHandleui64 spec.location g.handle),
      List.mem_append_right _ (List.mem_singleton.mpr rfl), rfl⟩

theorem getLast_handles (r : TextureSlot) (rs : List TextureSlot) (x : List (Int × Nat)) :
    (match (r :: rs).getLast? with | some s => s.handles | none => x) =
    (match rs.getLast? with | some s => s.handles | none => r.handles) := by
  cases rs with
  | nil => rfl
  | cons a t =>
    rw [List.getLast?_cons_cons]
    cases hl : (a :: t).getLast? with
    | none => simp at hl
    | some s => rfl

/-- Iterations of the texture loop at other locations neither change the map at
`p` nor push a handle to `p`. -/
theorem bind_textures_handles_ne (gsg : TexGSG) (multi : Bool) (p : Int)
    (l : List ShaderTexSpec) (hl : ∀ s ∈ l, s.location ≠ p) :
    ∀ (handles : List (Int × Nat)) (barriers i : Nat),
      handle_of (match (bind_textures gsg multi handles barriers i l).getLast? with
          | some s => s.handles
          | none => handles) p = handle_of handles p ∧
      ∀ e ∈ ((bind_textures gsg multi handles barriers i l).map (·.calls)).flatten,
        ∀ h, e.2 ≠ TexCall.glUniformHandleui64 p h := by
  induction l with
  | nil => intro h b i; simp [bind_textures]
  | cons s rest ih =>
    intro h b i
    have hs : s.location ≠ p := hl s (List.mem_cons_self _ _)
    obtain ⟨ih1, ih2⟩ := ih (fun s' hs' => hl s' (List.mem_cons_of_mem _ hs'))
      (bind_texture gsg multi h b i s).handles (bind_texture gsg multi h b i s).barriers (i + 1)
    simp only [bind_textures]
    rw [getLast_handles]
    refine ⟨?_, ?_⟩
    · rw [ih1]
      exact bind_texture_handles_ne gsg multi h b i s p (Ne.symm hs)
    · intro e he hh heq
      simp only [List.map_cons, List.flatten_cons, List.mem_append] at he
      rcases he with he | he
      · rcases bind_texture_handle_push gsg multi h b i s e he with hf | ⟨h', hf⟩
        · rw [heq] at hf; simp [TexCall.is_handle_push] at hf
        · rw [heq] at hf
          injection hf with h1 h2
          exact hs h1.symm
      · exact ih2 e he hh heq

/-- The texture loop with a bindless texture at index `k`, the only entry of its
location: the handle is pushed exactly when the map the loop starts with does
not hold it, and the map the loop ends with holds it. -/
theorem bind_textures_bindless (gsg : TexGSG) (multi : Bool) (spec : ShaderTexSpec)
    (tex : Texture) (g : TextureContext)
    (ht : (gsg.fetch_specified_texture spec).tex = some tex) (hg : tex.gtc = some g)
    (hb : gsg.gl_use_bindless_texture = true) (hs : gsg.supports_bindless_texture = true)
    (hu : g.update_forced_ok = true) (hh : g.handle ≠ 0) (l : List ShaderTexSpec) :
    ∀ (handles : List (Int × Nat)) (barriers i k : Nat), l[k]? = some spec →
      (∀ j s', l[j]? = some s' → j ≠ k → s'.location ≠ spec.location) →
      handle_of (match (bind_textures gsg multi handles barriers i l).getLast? with
          | some s => s.handles
          | none => handles) spec.location = some g.handle ∧
      ((∃ e ∈ ((bind_textures gsg multi handles barriers i l).map (·.calls)).flatten,
          e.2 = TexCall.glUniformHandleui64 spec.location g.handle) ↔
        handle_of handles spec.location ≠ some g.handle) := by
  induction l with
  | nil => intro h b i k hk; simp at hk
  | cons s rest ih =>
    intro h b i k hk hd
    simp only [bind_textures]
    rw [getLast_handles]
    simp only [List.map_cons, List.flatten_cons, List.mem_append]
    cases k with
    | zero =>
      have hsp : s = spec := by simpa using hk
      subst hsp
      have hrest : ∀ s' ∈ rest, s'.location ≠ s.location := by
        intro s' hs'
        obtain ⟨j, hj, hget⟩ := List.getElem_of_mem hs'
        exact hd (j + 1) s' (by simp [List.getElem?_eq_getElem hj, hget]) (by omega)
      obtain ⟨r1, r2⟩ := bind_textures_handles_ne gsg multi s.location rest hrest
        (bind_texture gsg multi h b i s).handles (bind_texture gsg multi h b i s).barriers (i + 1)
      obtain ⟨b1, b2⟩ := bind_texture_bindless gsg multi h b i s tex g ht hg hb hs hu hh
      refine ⟨by rw [r1]; exact b1, ?_⟩
      rw [← b2]
      constructor
      · rintro ⟨e, he | he, hc⟩
        · exact ⟨e, he, hc⟩
        · exact absurd hc (r2 e he _)
      · rintro ⟨e, he, hc⟩
        exact ⟨e, Or.inl he, hc⟩
    | succ k =>
      have hk' : rest[k]? = some spec := by simpa using hk
      have hsl : s.location ≠ spec.location := hd 0 s (by simp) (by omega)
      obtain ⟨i1, i2⟩ := ih (bind_texture gsg multi h b i s).handles
        (bind_texture gsg multi h b i s).barriers (i + 1) k hk'
        (fun j s' hj hjk => hd (j + 1) s' (by simpa using hj) (by omega))
      have hlast : (bind_textures gsg multi (bind_texture gsg multi h b i s).handles
          (bind_texture gsg multi h b i s).barriers (i + 1) rest).getLast? ≠ none := by
        intro hn
        have hlen := bind_textures_length gsg multi rest (bind_texture gsg multi h b i s).handles
          (bind_texture gsg multi h b i s).barriers (i + 1)
        rw [List.getLast?_eq_none_iff] at hn
        rw [hn] at hlen
        have : rest = [] := List.length_eq_zero.mp hlen.symm
        rw [this] at hk'
        simp at hk'
      refine ⟨?_, ?_⟩
      · cases hl : (bind_textures gsg multi (bind_texture gsg multi h b i s).handles
          (bind_texture gsg multi h b i s).barriers (i + 1) rest).getLast? with
        | none => exact absurd hl hlast
        | some x => rw [hl] at i1; exact i1
      · rw [← bind_texture_handles_ne gsg multi h b i s spec.location (Ne.symm hsl), ← i2]
        constructor
        · rintro ⟨e, he | he, hc⟩
          · rcases bind_texture_handle_push gsg multi h b i s e he with hf | ⟨h', hf⟩
            · rw [hc] at hf; simp [TexCall.is_handle_push] at hf
            · rw [hc] at hf
              injection hf with h1 h2
              exact absurd h1.symm hsl
          · exact ⟨e, he, hc⟩
        · rintro ⟨e, he, hc⟩
          exact ⟨e, Or.inr he, hc⟩

theorem update_shader_texture_bindings_same_shader (gsg : TexGSG) (ctx : Context) :
    (update_shader_texture_bindings gsg ctx).1.shader = ctx.shader ∧
    (update_shader_texture_bindings gsg ctx).1.glsl_program = ctx.glsl_program := by
  unfold update_shader_texture_bindings
  split <;> exact ⟨rfl, rfl⟩

/-- For a linked program, the handle pushes of `update_shader_texture_bindings`
are those of its texture loop, and the map it leaves is the one the loop ends
with. -/
theorem update_shader_texture_bindings_pushes (gsg : TexGSG) (ctx : Context)
    (hp : ctx.glsl_program ≠ 0) (p : Int) (h : Nat) :
    (update_shader_texture_bindings gsg ctx).1.glsl_uniform_handles =
      (match (bind_textures gsg (multi_bind_mode gsg ctx) ctx.glsl_uniform_handles
            (bind_images gsg 0 0 (ctx.glsl_img_inputs.take
              (min ctx.glsl_img_inputs.length gsg.max_image_units))).2.2 0
            ctx.shader.tex_spec).getLast? with
        | some s => s.handles
        | none => ctx.glsl_uniform_handles) ∧
    ((∃ e ∈ (update_shader_texture_bindings gsg ctx).2, e.2 = TexCall.glUniformHandleui64 p h) ↔
      (∃ e ∈ ((bind_textures gsg (multi_bind_mode gsg ctx) ctx.glsl_uniform_handles
            (bind_images gsg 0 0 (ctx.glsl_img_inputs.take
              (min ctx.glsl_img_inputs.length gsg.max_image_units))).2.2 0
            ctx.shader.tex_spec).map (·.calls)).flatten,
        e.2 = TexCall.glUniformHandleui64 p h)) := by
  refine ⟨?_, ?_⟩
  · unfold update_shader_texture_bindings
    rw [if_neg hp]
  · unfold update_shader_texture_bindings
    rw [if_neg hp]
    simp only
    constructor
    · rintro ⟨e, he, hc⟩
      simp only [List.mem_append, List.mem_singleton] at he
      rcases he with (((he | he) | he) | he) | he
      · have := bind_images_no_handle_push gsg _ _ _ e he
        rw [hc] at this
        simp [TexCall.is_handle_push] at this
      · exact ⟨e, he, hc⟩
      · exfalso
        split at he
        · simp only [List.mem_cons, List.mem_singleton, List.not_mem_nil, or_false] at he
          rcases he with he | he <;> rw [he] at hc <;> simp at hc
        · simp at he
      · have := mem_ite_singleton _ _ _ he
        rw [this] at hc
        simp at hc
      · rw [he] at hc
        simp at hc
    · rintro ⟨e, he, hc⟩
      exact ⟨e, by simp only [List.mem_append]; exact Or.inl (Or.inl (Or.inl (Or.inr he))), hc⟩

/-- C19: in bindless mode, for a linked program and a texture binding that is
the only one of its location `p` and whose texture is prepared, updates and
yields a non-zero handle `h`: `update_shader_texture_bindings` issues
`glUniformHandleui64(p, h)` if and only if the resident-handle map it starts
with does not map `p` to `h`, and the map it leaves maps `p` to `h`; a second
update in which the binding yields the same handle issues no
`glUniformHandleui64(p, h)` and leaves `p` mapped to `h`. -/
theorem update_shader_texture_bindings_resident_handle (gsg gsg2 : TexGSG) (ctx : Context)
    (k : Nat) (spec : ShaderTexSpec) (tex tex2 : Texture) (g g2 : TextureContext)
    (hp : ctx.glsl_program ≠ 0)
    (hk : ctx.shader.tex_spec[k]? = some spec)
    (hd : ∀ j s', ctx.shader.tex_spec[j]? = some s' → j ≠ k → s'.location ≠ spec.location)
    (ht : (gsg.fetch_specified_texture spec).tex = some tex) (hg : tex.gtc = some g)
    (hb : gsg.gl_use_bindless_texture = true) (hs : gsg.supports_bindless_texture = true)
    (hu : g.update_forced_ok = true) (hh : g.handle ≠ 0)
    (ht2 : (gsg2.fetch_specified_texture spec).tex = some tex2) (hg2 : tex2.gtc = some g2)
    (hb2 : gsg2.gl_use_bindless_texture = true) (hs2 : gsg2.supports_bindless_texture = true)
    (hu2 : g2.update_forced_ok = true) (hsame : g2.handle = g.handle) :
    ((∃ e ∈ (update_shader_texture_bindings gsg ctx).2,
        e.2 = TexCall.glUniformHandleui64 spec.location g.handle) ↔
      handle_of ctx.glsl_uniform_handles spec.location ≠ some g.handle) ∧
    handle_of (update_shader_texture_bindings gsg ctx).1.glsl_uniform_handles spec.location
      = some g.handle ∧
    (∀ e ∈ (update_shader_texture_bindings gsg2 (update_shader_texture_bindings gsg ctx).1).2,
        e.2 ≠ TexCall.glUniformHandleui64 spec.location g.handle) ∧
    handle_of (update_shader_texture_bindings gsg2
        (update_shader_texture_bindings gsg ctx).1).1.glsl_uniform_handles spec.location
      = some g.handle := by
  obtain ⟨hsh, hpr⟩ := update_shader_texture_bindings_same_shader gsg ctx
  obtain ⟨m1, c1⟩ := update_shader_texture_bindings_pushes gsg ctx hp spec.location g.handle
  obtain ⟨l1, l2⟩ := bind_textures_bindless gsg (multi_bind_mode gsg ctx) spec tex g ht hg hb hs
    hu hh ctx.shader.tex_spec ctx.glsl_uniform_handles
    (bind_images gsg 0 0 (ctx.glsl_img_inputs.take
      (min ctx.glsl_img_inputs.length gsg.max_image_units))).2.2 0 k hk hd
  have hfirst : handle_of (update_shader_texture_bindings gsg ctx).1.glsl_uniform_handles
      spec.location = some g.handle := by rw [m1]; exact l1
  have hp2 : (update_shader_texture_bindings gsg ctx).1.glsl_program ≠ 0 := by rw [hpr]; exact hp
  have hh2 : g2.handle ≠ 0 := by rw [hsame]; exact hh
  obtain ⟨m2, c2⟩ := update_shader_texture_bindings_pushes gsg2
    (update_shader_texture_bindings gsg ctx).1 hp2 spec.location g2.handle
  obtain ⟨n1, n2⟩ := bind_textures_bindless gsg2
    (multi_bind_mode gsg2 (update_shader_texture_bindings gsg ctx).1) spec tex2 g2 ht2 hg2 hb2 hs2
    hu2 hh2 (update_shader_texture_bindings gsg ctx).1.shader.tex_spec
    (update_shader_texture_bindings gsg ctx).1.glsl_uniform_handles
    (bind_images gsg2 0 0 ((update_shader_texture_bindings gsg ctx).1.glsl_img_inputs.take
      (min (update_shader_texture_bindings gsg ctx).1.glsl_img_inputs.length
        gsg2.max_image_units))).2.2 0 k (by rw [hsh]; exact hk) (by rw [hsh]; exact hd)
  refine ⟨c1.trans l2, hfirst, ?_, ?_⟩
  · intro e he hc
    rw [← hsame] at hc hfirst
    exact (c2.trans n2).mp ⟨e, he, hc⟩ hfirst
  · rw [m2, ← hsame]
    exact n1

/-- C19, at a sample input: the bindless guardian, the binding `tex` at location 4
with handle 900 and an empty map; the handle is pushed by the first update and
not by the second. -/
theorem update_shader_texture_bindings_resident_handle_witness :
    ((∃ e ∈ (update_shader_texture_bindings sample_tex_gsg_bindless sample_ctx_tex).2,
        e.2 = TexCall.glUniformHandleui64 4 900) ↔
      handle_of sample_ctx_tex.glsl_uniform_handles 4 ≠ some 900) ∧
    handle_of (update_shader_texture_bindings sample_tex_gsg_bindless
        sample_ctx_tex).1.glsl_uniform_handles 4 = some 900 ∧
    (∀ e ∈ (update_shader_texture_bindings sample_tex_gsg_bindless
          (update_shader_texture_bindings sample_tex_gsg_bindless sample_ctx_tex).1).2,
        e.2 ≠ TexCall.glUniformHandleui64 4 900) ∧
    handle_of (update_shader_texture_bindings sample_tex_gsg_bindless
        (update_shader_texture_bindings sample_tex_gsg_bindless
          sample_ctx_tex).1).1.glsl_uniform_handles 4 = some 900 :=
  update_shader_texture_bindings_resident_handle sample_tex_gsg_bindless sample_tex_gsg_bindless
    sample_ctx_tex 0 sample_tex_spec sample_texture sample_texture
    { index := 21, internal_format := 0x8058, needs_image_barrier := false,
      needs_fetch_barrier := true, update_forced_ok := true, update_ok := true, handle := 900 }
    { index := 21, internal_format := 0x8058, needs_image_barrier := false,
      needs_fetch_barrier := true, update_forced_ok := true, update_ok := true, handle := 900 }
    (by decide) (by decide)
    (by
      intro j s' hj hjk
      match j, hjk, hj with
      | 1, _, hj =>
        have : s' = sample_missing_spec := by simpa [sample_ctx_tex] using hj.symm
        rw [this]; decide
      | (j + 2), _, hj => simp [sample_ctx_tex] at hj)
    (by decide) rfl rfl rfl rfl (by decide) (by decide) rfl rfl rfl rfl rfl

/-! ### C15 -/

theorem rebind_tex_spec_eq (assertions : Bool) (map : List Int) (l : List ShaderTexSpec) :
    ∀ (i : Nat), (assertions = false ∨ ∀ s ∈ l, 0 ≤ s.location) →
      rebind_tex_spec assertions map i l =
        some (l.filter (fun s => decide (0 ≤ get_uniform_location map s.location)),
          unit_calls map i
            ((l.filter (fun s => decide (0 ≤ get_uniform_location map s.location))).map
              (·.location))) := by
  induction l with
  | nil => intro i _; rfl
  | cons spec rest ih =>
    intro i hpre
    have hrest : assertions = false ∨ ∀ s ∈ rest, 0 ≤ s.location :=
      hpre.imp id (fun h s hs => h s (List.mem_cons_of_mem _ hs))
    have hno : ¬ (assertions = true ∧ ¬ (spec.location ≥ 0)) := by
      rintro ⟨ha, hn⟩
      rcases hpre with h | h
      · rw [h] at ha; cases ha
      · exact hn (h spec (List.mem_cons_self _ _))
    unfold rebind_tex_spec
    rw [if_neg hno]
    simp only
    by_cases hl : get_uniform_location map spec.location < 0
    · rw [if_pos hl, ih i hrest, List.filter_cons_of_neg (by simpa using hl)]
    · rw [if_neg hl, ih (i + 1) hrest, List.filter_cons_of_pos (by simpa using hl)]
      rfl

theorem rebind_img_spec_eq (assertions : Bool) (map : List Int) (l : List ShaderImgSpec) :
    ∀ (i n : Nat), (assertions = false ∨ ∀ s ∈ l.take n, 0 ≤ s.location) →
      rebind_img_spec assertions map i n l =
        some ((l.take n).filter (fun s => decide (0 ≤ get_uniform_location map s.location))
            ++ l.drop n,
          ((l.take n).filter (fun s => decide (0 ≤ get_uniform_location map s.location))).map
            (fun s => { name := s.name, gtc := none, writable := s.writable }),
          unit_calls map i
            (((l.take n).filter (fun s => decide (0 ≤ get_uniform_location map s.location))).map
              (·.location))) := by
  induction l with
  | nil => intro i n _; cases n <;> rfl
  | cons spec rest ih =>
    intro i n hpre
    cases n with
    | zero => rfl
    | succ n =>
      have hrest : assertions = false ∨ ∀ s ∈ rest.take n, 0 ≤ s.location :=
        hpre.imp id (fun h s hs => h s (by simp [List.take_succ_cons, hs]))
      have hno : ¬ (assertions = true ∧ ¬ (spec.location ≥ 0)) := by
        rintro ⟨ha, hn⟩
        rcases hpre with h | h
        · rw [h] at ha; cases ha
        · exact hn (h spec (by simp [List.take_succ_cons]))
      unfold rebind_img_spec
      rw [if_neg hno]
      simp only [List.take_succ_cons, List.drop_succ_cons]
      by_cases hl : get_uniform_location map spec.location < 0
      · rw [if_pos hl, ih i n hrest, List.filter_cons_of_neg (by simpa using hl)]
      · rw [if_neg hl, ih (i + 1) n hrest, List.filter_cons_of_pos (by simpa using hl)]
        rfl

theorem rebind_mat_spec_eq (map : List Int) (l : List ShaderMatSpec) :
    rebind_mat_spec map l
      = l.filter (fun s => decide (0 ≤ get_uniform_location map s.location)) := by
  induction l with
  | nil => rfl
  | cons spec rest ih =>
    unfold rebind_mat_spec
    by_cases hl : get_uniform_location map spec.location < 0
    · rw [if_pos hl, ih, List.filter_cons_of_neg (by simpa using hl)]
    · rw [if_neg hl, ih, List.filter_cons_of_pos (by simpa using hl)]

theorem rebind_ptr_spec_eq (map : List Int) (l : List ShaderPtrSpec) :
    rebind_ptr_spec map l
      = l.filter (fun s => decide (0 ≤ get_uniform_location map s.location)) := by
  induction l with
  | nil => rfl
  | cons spec rest ih =>
    unfold rebind_ptr_spec
    by_cases hl : get_uniform_location map spec.location < 0
    · rw [if_pos hl, ih, List.filter_cons_of_neg (by simpa using hl)]
    · rw [if_neg hl, ih, List.filter_cons_of_pos (by simpa using hl)]

/-- Entry `k` of the list gets unit `i + k`. -/
theorem unit_calls_get (map : List Int) (l : List Int) :
    ∀ (i k : Nat), (unit_calls map i l)[k]? =
      l[k]?.map (fun p => GLCall.glUniform1i (get_uniform_location map p) ((i + k : Nat) : Int)) := by
  induction l with
  | nil => intro i k; rfl
  | cons p rest ih =>
    intro i k
    cases k with
    | zero => simp [unit_calls]
    | succ k =>
      simp only [unit_calls, List.getElem?_cons_succ]
      rw [ih (i + 1) k, show i + 1 + k = i + (k + 1) by omega]

/-- C15, as first written, fails: with one image unit, the second image entry is
never looked at and stays in the image table although the driver dropped its
location. -/
theorem rebind_inputs_image_cap_counterexample :
    ∃ ctx' calls, rebind_inputs true 1 sample_ctx_reflected = some (ctx', calls) ∧
      ∃ s ∈ ctx'.shader.img_spec,
        get_uniform_location ctx'.uniform_location_map s.location < 0 :=
  ⟨_, _, rfl, { id_name := "b".toList, location := 3, name := "b".toList }, by decide, by decide⟩

/-- C15, amended: on the metadata path, when no assertion stops a loop (assertions
compiled out, or every texture entry and every image entry among the first
`min(size, _max_image_units)` has a non-negative declared location), the
constructor's pass returns; the texture, matrix/state and pointer-data tables it
leaves are the entries of the old tables whose remapped location is
non-negative, in their old order; the image table it leaves is the live entries
among the first `min(size, _max_image_units)` followed by all the later entries,
which are not looked at; and surviving texture entry `k` is given texture unit `k`
at its remapped location. -/
theorem rebind_inputs_live (assertions : Bool) (max_image_units : Nat) (ctx : Context)
    (hpre : assertions = false ∨
      ((∀ s ∈ ctx.shader.tex_spec, 0 ≤ s.location) ∧
       ∀ s ∈ ctx.shader.img_spec.take (min ctx.shader.img_spec.length max_image_units),
         0 ≤ s.location)) :
    ∃ ctx' calls, rebind_inputs assertions max_image_units ctx = some (ctx', calls) ∧
      ctx'.uniform_location_map = ctx.uniform_location_map ∧
      ctx'.shader.tex_spec = ctx.shader.tex_spec.filter
        (fun s => decide (0 ≤ get_uniform_location ctx.uniform_location_map s.location)) ∧
      ctx'.shader.mat_spec = ctx.shader.mat_spec.filter
        (fun s => decide (0 ≤ get_uniform_location ctx.uniform_location_map s.location)) ∧
      ctx'.shader.ptr_spec = ctx.shader.ptr_spec.filter
        (fun s => decide (0 ≤ get_uniform_location ctx.uniform_location_map s.location)) ∧
      ctx'.shader.img_spec =
        (ctx.shader.img_spec.take (min ctx.shader.img_spec.length max_image_units)).filter
          (fun s => decide (0 ≤ get_uniform_location ctx.uniform_location_map s.location))
        ++ ctx.shader.img_spec.drop (min ctx.shader.img_spec.length max_image_units) ∧
      (∀ s ∈ ctx'.shader.tex_spec, 0 ≤ get_uniform_location ctx'.uniform_location_map s.location) ∧
      (∀ s ∈ ctx'.shader.mat_spec, 0 ≤ get_uniform_location ctx'.uniform_location_map s.location) ∧
      (∀ s ∈ ctx'.shader.ptr_spec, 0 ≤ get_uniform_location ctx'.uniform_location_map s.location) ∧
      (∀ (k : Nat) (s : ShaderTexSpec), ctx'.shader.tex_spec[k]? = some s →
        calls[k]? = some (GLCall.glUniform1i
          (get_uniform_location ctx'.uniform_location_map s.location) (k : Int))) := by
  have htex := rebind_tex_spec_eq assertions ctx.uniform_location_map ctx.shader.tex_spec 0
    (hpre.imp id (fun h => h.1))
  have himg := rebind_img_spec_eq assertions ctx.uniform_location_map ctx.shader.img_spec 0
    (min ctx.shader.img_spec.length max_image_units) (hpre.imp id (fun h => h.2))
  refine ⟨{ ctx with
      shader := { ctx.shader with
        tex_spec := ctx.shader.tex_spec.filter
          (fun s => decide (0 ≤ get_uniform_location ctx.uniform_location_map s.location))
        img_spec :=
          (ctx.shader.img_spec.take (min ctx.shader.img_spec.length max_image_units)).filter
            (fun s => decide (0 ≤ get_uniform_location ctx.uniform_location_map s.location))
          ++ ctx.shader.img_spec.drop (min ctx.shader.img_spec.length max_image_units)
        mat_spec := rebind_mat_spec ctx.uniform_location_map ctx.shader.mat_spec
        ptr_spec := rebind_ptr_spec ctx.uniform_location_map ctx.shader.ptr_spec }
      glsl_img_inputs := ctx.glsl_img_inputs ++
        ((ctx.shader.img_spec.take (min ctx.shader.img_spec.length max_image_units)).filter
          (fun s => decide (0 ≤ get_uniform_location ctx.uniform_location_map s.location))).map
            (fun s => { name := s.name, gtc := none, writable := s.writable }) },
    unit_calls ctx.uniform_location_map 0
        ((ctx.shader.tex_spec.filter (fun s =>
          decide (0 ≤ get_uniform_location ctx.uniform_location_map s.location))).map
            (·.location)) ++
      unit_calls ctx.uniform_location_map 0
        (((ctx.shader.img_spec.take (min ctx.shader.img_spec.length max_image_units)).filter
          (fun s => decide (0 ≤ get_uniform_location ctx.uniform_location_map s.location))).map
            (·.location)),
    by unfold rebind_inputs; rw [htex, himg], rfl, rfl,
    rebind_mat_spec_eq _ _, rebind_ptr_spec_eq _ _, rfl, ?_, ?_, ?_, ?_⟩
  · intro s hs
    simpa using (List.mem_filter.mp hs).2
  · intro s hs
    simp only [rebind_mat_spec_eq] at hs
    simpa using (List.mem_filter.mp hs).2
  · intro s hs
    simp only [rebind_ptr_spec_eq] at hs
    simpa using (List.mem_filter.mp hs).2
  · intro k s hk
    simp only at hk ⊢
    have hlt : k < (unit_calls ctx.uniform_location_map 0
        ((ctx.shader.tex_spec.filter (fun s =>
          decide (0 ≤ get_uniform_location ctx.uniform_location_map s.location))).map
            (·.location))).length := by
      by_contra hge
      have hnone := List.getElem?_eq_none (Nat.le_of_not_lt hge)
      rw [unit_calls_get, List.getElem?_map, hk] at hnone
      simp at hnone
    rw [List.getElem?_append_left hlt, unit_calls_get, List.getElem?_map, hk]
    simp

/-- C15, amended, at a sample input: the sampler at declared slot 1 and the
matrix binding at slot 1 are dropped, the sampler at slot 2 becomes texture 0. -/
theorem rebind_inputs_live_witness :
    rebind_inputs true 8 sample_ctx_reflected =
      some ({ sample_ctx_reflected with
              shader :=
                { tex_spec := [{ sample_missing_spec with location := 2 }]
                  img_spec := [{ id_name := "a".toList, location := 0, name := "a".toList }]
                  mat_spec := []
                  ptr_spec := [{ sample_int_spec with location := 2 }] }
              glsl_img_inputs := [{ name := "a".toList, gtc := none, writable := false }] },
            [GLCall.glUniform1i 9 0, GLCall.glUniform1i 7 0]) ∧
    ∃ ctx' calls, rebind_inputs true 8 sample_ctx_reflected = some (ctx', calls) ∧
      (∀ s ∈ ctx'.shader.tex_spec,
        0 ≤ get_uniform_location ctx'.uniform_location_map s.location) :=
  ⟨by decide,
    (rebind_inputs_live true 8 sample_ctx_reflected (Or.inr ⟨by decide, by decide⟩)).imp
      (fun _ h => h.imp (fun _ h' => ⟨h'.1, h'.2.2.2.2.2.2.1⟩))⟩

/-! ### C16 -/

theorem add_locations_zero (from_location : Nat) (h : from_location < 4294967296) :
    add_locations from_location 0 = from_location := by
  unfold add_locations
  omega

theorem add_locations_lt (from_location : Nat) (n : Int) :
    add_locations from_location n < 4294967296 := by
  unfold add_locations
  omega

theorem add_locations_add (from_location : Nat) (a b : Int) :
    add_locations (add_locations from_location a) b = add_locations from_location (a + b) := by
  unfold add_locations
  omega

theorem map_leaves_congr (driver : CStr → Int) (leaves : List (Nat × CStr)) :
    ∀ (m1 m2 : List Int), (∀ s, get_uniform_location m1 s = get_uniform_location m2 s) →
      ∀ s, get_uniform_location (map_leaves driver leaves m1) s =
        get_uniform_location (map_leaves driver leaves m2) s := by
  induction leaves with
  | nil => intro m1 m2 h; exact h
  | cons l rest ih =>
    intro m1 m2 h
    simp only [map_leaves, List.foldl_cons]
    apply ih
    intro s
    rw [get_set_uniform_location, get_set_uniform_location, h]

theorem map_leaves_append (driver : CStr → Int) (l1 l2 : List (Nat × CStr)) (m : List Int) :
    map_leaves driver (l1 ++ l2) m = map_leaves driver l2 (map_leaves driver l1 m) := by
  simp [map_leaves, List.foldl_append]

theorem query_refines_trans (driver : CStr → Int) (st r1 r2 : QueryState)
    (l1 l2 : List (Nat × CStr)) (h1 : query_refines driver st r1 l1)
    (h2 : query_refines driver r1 r2 l2) : query_refines driver st r2 (l1 ++ l2) := by
  refine ⟨?_, ?_⟩
  · rw [h2.1, h1.1, List.map_append, List.append_assoc]
  · intro s
    rw [h2.2 s, map_leaves_append]
    exact map_leaves_congr driver l2 _ _ h1.2 s

theorem get_uniform_location_pad (map : List Int) (k : Nat) (s : Int) :
    get_uniform_location (map ++ List.replicate k (-1)) s = get_uniform_location map s := by
  unfold get_uniform_location
  split
  · rfl
  · rw [List.getD_eq_getElem?_getD, List.getD_eq_getElem?_getD, List.getElem?_append]
    split
    · rfl
    · rename_i hlt
      rw [List.getElem?_eq_none (Nat.le_of_not_lt hlt), List.getElem?_replicate]
      split <;> rfl

theorem query_refines_pad (driver : CStr → Int) (from_location : Nat) (st : QueryState) :
    query_refines driver st (pad_location_map from_location st) [] :=
  ⟨by simp [pad_location_map], fun s => get_uniform_location_pad _ _ s⟩

theorem query_refines_leaf (driver : CStr → Int) (from_location : Nat) (name : CStr)
    (st : QueryState) :
    query_refines driver st (query_leaf driver from_location name st) [(from_location, name)] := by
  refine ⟨rfl, fun s => ?_⟩
  simp only [query_leaf, map_leaves, List.foldl_cons, List.foldl_nil]
  split <;> rfl

/-- The loop over the elements of an array of aggregates, given what the
function does on the element type. -/
theorem r_query_array (info : ShaderTypeInfo) (driver : CStr → Int) (e : ShaderType)
    (name : CStr) (k : Int)
    (ih : ∀ (from_location : Nat) (name : CStr) (st : QueryState),
      from_location < 4294967296 →
      query_refines driver st (r_query_uniform_locations info driver from_location e name st)
        (leaf_lookups info from_location e name))
    (from_location : Nat) (hf : from_location < 4294967296) (st : QueryState) (n : Nat) :
    ((List.range n).foldl
        (fun (acc : Nat × QueryState) i =>
          (add_locations acc.1 k,
            r_query_uniform_locations info driver acc.1 e
              (name ++ "[".toList ++ decimal i ++ "]".toList) acc.2))
        (from_location, st)).1 = add_locations from_location (n * k) ∧
    query_refines driver st
      ((List.range n).foldl
        (fun (acc : Nat × QueryState) i =>
          (add_locations acc.1 k,
            r_query_uniform_locations info driver acc.1 e
              (name ++ "[".toList ++ decimal i ++ "]".toList) acc.2))
        (from_location, st)).2
      ((List.range n).flatMap (fun i =>
        leaf_lookups info (add_locations from_location (i * k)) e
          (name ++ "[".toList ++ decimal i ++ "]".toList))) := by
  induction n with
  | zero =>
    refine ⟨?_, ?_, ?_⟩
    · simp [add_locations_zero from_location hf]
    · simp
    · intro s; simp [map_leaves]
  | succ n ihn =>
    obtain ⟨h1, h2⟩ := ihn
    rw [List.range_succ, List.foldl_append, List.flatMap_append]
    simp only [List.foldl_cons, List.foldl_nil, List.flatMap_cons, List.flatMap_nil,
      List.append_nil]
    refine ⟨?_, ?_⟩
    · rw [h1, add_locations_add]
      congr 1
      push_cast
      ring
    · refine query_refines_trans driver _ _ _ _ _ h2 ?_
      rw [h1]
      exact ih _ _ _ (add_locations_lt _ _)

mutual
/-- The function `r_query_uniform_locations` does the lookups of the leaves the
specification names, in order. -/
theorem r_query_uniform_locations_refines (info : ShaderTypeInfo) (driver : CStr → Int) :
    ∀ (type : ShaderType) (from_location : Nat) (name : CStr) (st : QueryState),
      from_location < 4294967296 →
      query_refines driver st (r_query_uniform_locations info driver from_location type name st)
        (leaf_lookups info from_location type name)
  | .basic _, from_location, name, st, _ => by
    unfold r_query_uniform_locations leaf_lookups
    exact query_refines_trans driver _ _ _ [] _ (query_refines_pad driver from_location st)
      (query_refines_leaf driver from_location name _)
  | .array e n, from_location, name, st, hf => by
    unfold r_query_uniform_locations leaf_lookups
    simp only
    split
    · exact query_refines_trans driver _ _ _ [] _ (query_refines_pad driver from_location st)
        (r_query_array info driver e name _
          (fun f nm s h => r_query_uniform_locations_refines info driver e f nm s h)
          from_location hf _ n).2
    · exact query_refines_trans driver _ _ _ [] _ (query_refines_pad driver from_location st)
        (query_refines_leaf driver from_location name _)
  | .struct ms, from_location, name, st, hf => by
    unfold r_query_uniform_locations leaf_lookups
    exact query_refines_trans driver _ _ _ [] _ (query_refines_pad driver from_location st)
      (r_query_members_refines info driver ms from_location [] from_location name _
        (by simp [add_locations_zero from_location hf]))
/-- The loop over the members of a struct does the lookups of the leaves of the
members left. -/
theorem r_query_members_refines (info : ShaderTypeInfo) (driver : CStr → Int) :
    ∀ (ms : List ShaderType) (base : Nat) (done : List ShaderType) (from_location : Nat)
      (name : CStr) (st : QueryState),
      from_location = add_locations base (done.map info.get_num_parameter_locations).sum →
      query_refines driver st
        (r_query_members info driver from_location ms done.length name st)
        (member_lookups info base done ms name)
  | [], base, done, from_location, name, st, _ => by
    unfold r_query_members member_lookups
    exact ⟨by simp, fun s => rfl⟩
  | m :: rest, base, done, from_location, name, st, hf => by
    unfold r_query_members member_lookups
    have hlt : from_location < 4294967296 := by rw [hf]; exact add_locations_lt _ _
    have h1 := r_query_uniform_locations_refines info driver m from_location
      (name ++ "._m".toList ++ decimal done.length) st hlt
    have hlen : done.length + 1 = (done ++ [m]).length := by simp
    have h2 := r_query_members_refines info driver rest base (done ++ [m])
      (add_locations from_location (info.get_num_parameter_locations m)) name
      (r_query_uniform_locations info driver from_location m
        (name ++ "._m".toList ++ decimal done.length) st)
      (by rw [hf, add_locations_add]; simp)
    rw [← hlen] at h2
    rw [← hf]
    exact query_refines_trans driver _ _ _ _ _ h1 h2
end

/-- C16: for a `uint32_t` slot `from_location`, `r_query_uniform_locations`
returns, and issues exactly one driver lookup per leaf of the type, in order:
the names it looks up are those of `leaf_lookups` (member `j` of a struct under
`name._m<j>` at the slot after the locations of the members before it, element
`i` of an array of aggregates under `name[<i>]` at `from + i * k`, anything else
one leaf), and the location map it leaves reads, at every slot, like the old map
with each leaf's slot mapped to the location the driver returned for its name,
or to `-1` when that is negative. -/
theorem r_query_uniform_locations_leaves (info : ShaderTypeInfo) (driver : CStr → Int)
    (type : ShaderType) (from_location : Nat) (name : CStr) (st : QueryState)
    (hf : from_location < 4294967296) :
    (r_query_uniform_locations info driver from_location type name st).lookups =
      st.lookups ++ (leaf_lookups info from_location type name).map (·.2) ∧
    ∀ s, get_uniform_location
        (r_query_uniform_locations info driver from_location type name st).uniform_location_map s =
      get_uniform_location
        (map_leaves driver (leaf_lookups info from_location type name) st.uniform_location_map) s :=
  r_query_uniform_locations_refines info driver type from_location name st hf

/-- C16, at a sample input: the struct `sample_type` at slot 5 has five leaves;
the one the driver dropped is mapped to `-1`. -/
theorem r_query_uniform_locations_leaves_witness :
    leaf_lookups sample_type_info 5 sample_type "p5".toList =
      [(5, "p5._m0".toList), (6, "p5._m1[0]._m0".toList), (7, "p5._m1[0]._m1".toList),
       (10, "p5._m1[1]._m0".toList), (11, "p5._m1[1]._m1".toList)] ∧
    (r_query_uniform_locations sample_type_info sample_driver 5 sample_type "p5".toList
        { }).uniform_location_map = [-1, -1, -1, -1, -1, 6, 13, 13, -1, -1, -1, 13] ∧
    (r_query_uniform_locations sample_type_info sample_driver 5 sample_type "p5".toList
        { }).lookups =
      ({ } : QueryState).lookups ++
        (leaf_lookups sample_type_info 5 sample_type "p5".toList).map (·.2) ∧
    ∀ s, get_uniform_location
        (r_query_uniform_locations sample_type_info sample_driver 5 sample_type "p5".toList
          { }).uniform_location_map s =
      get_uniform_location
        (map_leaves sample_driver (leaf_lookups sample_type_info 5 sample_type "p5".toList)
          ({ } : QueryState).uniform_location_map) s :=
  ⟨by decide, by decide,
    r_query_uniform_locations_leaves sample_type_info sample_driver sample_type 5 "p5".toList { }
      (by decide)⟩

/-! ### C21 -/

theorem bind_texture_normally_pre (multi : Bool) (handles : List (Int × Nat)) (barriers i : Nat)
    (g : TextureContext) (sampler : Option Nat) (pre : TexTrace) :
    (∀ e ∈ pre, e ∈ (bind_texture_normally multi handles barriers i g sampler pre).calls) ∧
    (TexOrigin.texture i, TexCall.update_texture g.index false)
      ∈ (bind_texture_normally multi handles barriers i g sampler pre).calls ∧
    (g.update_ok = true →
      (multi = false → (TexOrigin.texture i, TexCall.apply_texture g.index)
        ∈ (bind_texture_normally multi handles barriers i g sampler pre).calls) ∧
      (multi = true →
        (bind_texture_normally multi handles barriers i g sampler pre).texture = g.index)) := by
  unfold bind_texture_normally
  cases multi with
  | true =>
    rw [if_pos rfl]
    refine ⟨fun e he => ?_, ?_, fun hu => ⟨fun h => (by cases h), fun _ => by simp [hu]⟩⟩
    · simp only [List.mem_append]; exact Or.inl (Or.inl he)
    · simp
  | false =>
    rw [if_neg (by simp)]
    cases hu : g.update_ok with
    | true =>
      rw [if_neg (by simp)]
      refine ⟨fun e he => ?_, ?_, fun _ => ⟨fun _ => ?_, fun h => by cases h⟩⟩
      · simp only [List.mem_append]; exact Or.inl (Or.inl he)
      · simp
      · simp
    | false =>
      rw [if_pos (by simp)]
      refine ⟨fun e he => ?_, ?_, fun h => by cases h⟩
      · simp only [List.mem_append]; exact Or.inl he
      · simp

/-- The loop body on a texture whose type is not the desired one: the error is
among its calls, and the texture is prepared, updated and bound all the same. -/
theorem bind_texture_mismatch (gsg : TexGSG) (multi : Bool) (handles : List (Int × Nat))
    (barriers i : Nat) (spec : ShaderTexSpec) (tex : Texture)
    (ht : (gsg.fetch_specified_texture spec).tex = some tex)
    (hne : tex.texture_type ≠ spec.desired_type) :
    (TexOrigin.texture i, type_mismatch_error spec tex)
      ∈ (bind_texture gsg multi handles barriers i spec).calls ∧
    ∀ g, tex.gtc = some g →
      (∃ force, (TexOrigin.texture i, TexCall.update_texture g.index force)
        ∈ (bind_texture gsg multi handles barriers i spec).calls) ∧
      (¬ (gsg.gl_use_bindless_texture = true ∧ gsg.supports_bindless_texture = true) →
        g.update_ok = true →
        (multi = false → (TexOrigin.texture i, TexCall.apply_texture g.index)
          ∈ (bind_texture gsg multi handles barriers i spec).calls) ∧
        (multi = true → (bind_texture gsg multi handles barriers i spec).texture = g.index)) := by
  unfold bind_texture
  rw [ht]
  simp only [ne_eq, hne, not_false_eq_true, if_true]
  cases hg : tex.gtc with
  | none => exact ⟨by simp, fun g h => by cases h⟩
  | some g =>
    simp only
    by_cases hb : gsg.gl_use_bindless_texture = true ∧ gsg.supports_bindless_texture = true
    · rw [if_pos hb]
      have hforced : (TexOrigin.texture i, TexCall.update_texture g.index true) ∈
          [(TexOrigin.texture i, type_mismatch_error spec tex)] ++
            [(TexOrigin.texture i, TexCall.update_texture g.index true)] := by simp
      have herr : (TexOrigin.texture i, type_mismatch_error spec tex) ∈
          [(TexOrigin.texture i, type_mismatch_error spec tex)] ++
            [(TexOrigin.texture i, TexCall.update_texture g.index true)] := by simp
      split
      · refine ⟨herr, fun g' hg' => ?_⟩
        cases hg'
        exact ⟨⟨true, hforced⟩, fun h => absurd hb h⟩
      · split
        · split
          · refine ⟨by simp, fun g' hg' => ?_⟩
            cases hg'
            exact ⟨⟨true, by simp⟩, fun h => absurd hb h⟩
          · refine ⟨by simp, fun g' hg' => ?_⟩
            cases hg'
            exact ⟨⟨true, by simp⟩, fun h => absurd hb h⟩
        · obtain ⟨h1, _, _⟩ := bind_texture_normally_pre multi handles
            (if g.needs_fetch_barrier = true then barriers ||| GL_TEXTURE_FETCH_BARRIER_BIT
              else barriers) i g (gsg.fetch_specified_texture spec).sampler
            ([(TexOrigin.texture i, type_mismatch_error spec tex)] ++
              [(TexOrigin.texture i, TexCall.update_texture g.index true)])
          refine ⟨h1 _ herr, fun g' hg' => ?_⟩
          cases hg'
          exact ⟨⟨true, h1 _ hforced⟩, fun h => absurd hb h⟩
    · rw [if_neg hb]
      obtain ⟨h1, h2, h3⟩ := bind_texture_normally_pre multi handles
        (if g.needs_fetch_barrier = true then barriers ||| GL_TEXTURE_FETCH_BARRIER_BIT
          else barriers) i g (gsg.fetch_specified_texture spec).sampler
        [(TexOrigin.texture i, type_mismatch_error spec tex)]
      refine ⟨h1 _ (by simp), fun g' hg' => ?_⟩
      cases hg'
      exact ⟨⟨false, h2⟩, fun _ hu => h3 hu⟩

/-- C21: for a linked program and the texture binding at unit `i` whose fetched
texture has another type than the binding's desired type,
`update_shader_texture_bindings` reports the type error for the unit, naming the
texture, and goes on: a prepared texture is updated (and, on the normal path
with a successful update, applied to the unit, or passed as `textures[i]` in
multi-bind mode), the calls of every iteration, for every unit `j`, are in the
trace, and the trace ends with `report_my_gl_errors`. -/
theorem update_shader_texture_bindings_type_mismatch (gsg : TexGSG) (ctx : Context) (i : Nat)
    (spec : ShaderTexSpec) (tex : Texture) (hp : ctx.glsl_program ≠ 0)
    (hi : ctx.shader.tex_spec[i]? = some spec)
    (ht : (gsg.fetch_specified_texture spec).tex = some tex)
    (hne : tex.texture_type ≠ spec.desired_type) :
    (TexOrigin.texture i, type_mismatch_error spec tex)
      ∈ (update_shader_texture_bindings gsg ctx).2 ∧
    (∃ msg, type_mismatch_error spec tex = TexCall.error msg tex.name) ∧
    (∀ g, tex.gtc = some g →
      (∃ force, (TexOrigin.texture i, TexCall.update_texture g.index force)
        ∈ (update_shader_texture_bindings gsg ctx).2) ∧
      (¬ (gsg.gl_use_bindless_texture = true ∧ gsg.supports_bindless_texture = true) →
        g.update_ok = true →
        (multi_bind_mode gsg ctx = false →
          (TexOrigin.texture i, TexCall.apply_texture g.index)
            ∈ (update_shader_texture_bindings gsg ctx).2) ∧
        (multi_bind_mode gsg ctx = true →
          ∃ textures,
            (TexOrigin.body, TexCall.glBindTextures 0 ctx.shader.tex_spec.length textures)
              ∈ (update_shader_texture_bindings gsg ctx).2 ∧
            textures[i]? = some g.index))) ∧
    (∀ j sj, ctx.shader.tex_spec[j]? = some sj →
      ∃ h b, ∀ e ∈ (bind_texture gsg (multi_bind_mode gsg ctx) h b j sj).calls,
        e ∈ (update_shader_texture_bindings gsg ctx).2) ∧
    (update_shader_texture_bindings gsg ctx).2.getLast?
      = some (TexOrigin.body, TexCall.report_my_gl_errors) := by
  obtain ⟨h, b, hslot, hall⟩ := update_shader_texture_bindings_all_units gsg ctx hp i spec hi
  obtain ⟨herr, hgtc⟩ := bind_texture_mismatch gsg (multi_bind_mode gsg ctx) h b i spec tex ht hne
  obtain ⟨barriers, bound, htr, -, hmulti, -⟩ := update_shader_texture_bindings_trace gsg ctx hp
  refine ⟨hall _ herr, ?_, ?_, ?_, ?_⟩
  · unfold type_mismatch_error
    split <;> exact ⟨_, rfl⟩
  · intro g hg
    obtain ⟨⟨force, hf⟩, hbind⟩ := hgtc g hg
    refine ⟨⟨force, hall _ hf⟩, fun hb hu => ⟨fun hm => hall _ ((hbind hb hu).1 hm), fun hm => ?_⟩⟩
    refine ⟨(bind_textures gsg (multi_bind_mode gsg ctx) ctx.glsl_uniform_handles
        (bind_images gsg 0 0 (ctx.glsl_img_inputs.take
          (min ctx.glsl_img_inputs.length gsg.max_image_units))).2.2 0
        ctx.shader.tex_spec).map (·.texture), ?_, ?_⟩
    · rw [htr, hmulti hm]
      simp
    · rw [List.getElem?_map, hslot]
      simp only [Option.map_some']
      rw [(hbind hb hu).2 hm]
  · intro j sj hj
    obtain ⟨h', b', -, hall'⟩ := update_shader_texture_bindings_all_units gsg ctx hp j sj hj
    exact ⟨h', b', hall'⟩
  · rw [htr]
    simp

/-- C21, at a sample input: the binding `tex` asks for a 3-D texture and gets a
2-D one; the error is reported, the texture is applied, and the next unit gets
its white texture. -/
theorem update_shader_texture_bindings_type_mismatch_witness :
    (update_shader_texture_bindings sample_tex_gsg sample_ctx_mismatch).2 =
      [(TexOrigin.texture 0,
          TexCall.error "Sampler type of shader input does not match type of texture"
            "tex".toList),
       (TexOrigin.texture 0, TexCall.set_active_texture_stage 0),
       (TexOrigin.texture 0, TexCall.update_texture 21 false),
       (TexOrigin.texture 0, TexCall.apply_texture 21),
       (TexOrigin.texture 0, TexCall.apply_sampler 0 21),
       (TexOrigin.texture 1, TexCall.apply_white_texture 1),
       (TexOrigin.body, TexCall.issue_memory_barrier GL_TEXTURE_FETCH_BARRIER_BIT),
       (TexOrigin.body, TexCall.report_my_gl_errors)] ∧
    (TexOrigin.texture 0,
        type_mismatch_error { sample_tex_spec with desired_type := TextureType.TT_3d_texture }
          sample_texture)
      ∈ (update_shader_texture_bindings sample_tex_gsg sample_ctx_mismatch).2 :=
  ⟨by decide,
    (update_shader_texture_bindings_type_mismatch sample_tex_gsg sample_ctx_mismatch 0
      { sample_tex_spec with desired_type := TextureType.TT_3d_texture } sample_texture
      (by decide) rfl rfl (by decide)).1⟩

/-! ### The image loop, entry by entry -/

theorem bind_images_origin_ge (gsg : TexGSG) (l : List ImageInput) :
    ∀ (barriers i : Nat), ∀ e ∈ (bind_images gsg barriers i l).2.1,
      ∃ k, i ≤ k ∧ e.1 = TexOrigin.image k := by
  induction l with
  | nil => intro b i e he; simp [bind_images] at he
  | cons input rest ih =>
    intro b i e he
    simp only [bind_images, List.mem_append] at he
    rcases he with he | he
    · exact ⟨i, Nat.le_refl _, bind_image_origin gsg b i input e he⟩
    · obtain ⟨k, hk, ho⟩ := ih _ _ e he
      exact ⟨k, by omega, ho⟩

/-- The `k`-th iteration of the image loop is the loop body run on the `k`-th
input: its image input is the `k`-th one left, and its calls are the entries of
the trace with the origin of that unit. -/
theorem bind_images_get (gsg : TexGSG) (l : List ImageInput) :
    ∀ (barriers i k : Nat) (input : ImageInput), l[k]? = some input →
      ∃ b, (bind_images gsg barriers i l).1[k]? = some (bind_image gsg b (i + k) input).1 ∧
        (∀ e ∈ (bind_image gsg b (i + k) input).2.1, e ∈ (bind_images gsg barriers i l).2.1) ∧
        (∀ e ∈ (bind_images gsg barriers i l).2.1, e.1 = TexOrigin.image (i + k) →
          e ∈ (bind_image gsg b (i + k) input).2.1) := by
  induction l with
  | nil => intro b i k input hk; simp at hk
  | cons s rest ih =>
    intro b i k input hk
    cases k with
    | zero =>
      have : s = input := by simpa using hk
      subst this
      refine ⟨b, by simp [bind_images], ?_, ?_⟩
      · intro e he
        simp only [bind_images, List.mem_append]
        exact Or.inl he
      · intro e he ho
        simp only [bind_images, List.mem_append] at he
        rcases he with he | he
        · exact he
        · obtain ⟨k, hk, ho'⟩ := bind_images_origin_ge gsg rest _ _ e he
          rw [ho] at ho'
          injection ho' with h1
          omega
    | succ k =>
      have hk' : rest[k]? = some input := by simpa using hk
      obtain ⟨b', h1, h2, h3⟩ := ih (bind_image gsg b i s).2.2 (i + 1) k input hk'
      rw [show i + 1 + k = i + (k + 1) by omega] at h1 h2 h3
      refine ⟨b', by simpa [bind_images] using h1, ?_, ?_⟩
      · intro e he
        simp only [bind_images, List.mem_append]
        exact Or.inr (h2 e he)
      · intro e he ho
        simp only [bind_images, List.mem_append] at he
        rcases he with he | he
        · have := bind_image_origin gsg b i s e he
          rw [ho] at this
          injection this with h1
          omega
        · exact h3 e he ho

/-- For a linked program and an image input within the image units, the entries
of the trace with the origin of its unit are the calls of the loop body on it,
and the image input the function leaves at its index is the one the body
leaves. -/
theorem update_shader_texture_bindings_image_entry (gsg : TexGSG) (ctx : Context) (i : Nat)
    (input : ImageInput) (hp : ctx.glsl_program ≠ 0)
    (hi : ctx.glsl_img_inputs[i]? = some input) (hlt : i < gsg.max_image_units) :
    ∃ b, (update_shader_texture_bindings gsg ctx).1.glsl_img_inputs[i]?
        = some (bind_image gsg b i input).1 ∧
      ∀ e, e.1 = TexOrigin.image i →
        (e ∈ (update_shader_texture_bindings gsg ctx).2 ↔ e ∈ (bind_image gsg b i input).2.1) := by
  have hlen : i < ctx.glsl_img_inputs.length := by
    by_contra hge
    rw [List.getElem?_eq_none (Nat.le_of_not_lt hge)] at hi
    cases hi
  have htake : (ctx.glsl_img_inputs.take
      (min ctx.glsl_img_inputs.length gsg.max_image_units))[i]? = some input := by
    rw [List.getElem?_take]
    rw [if_pos (by omega)]
    exact hi
  obtain ⟨b, h1, h2, h3⟩ := bind_images_get gsg _ 0 0 i input htake
  rw [Nat.zero_add] at h1 h2 h3
  obtain ⟨barriers, bound, htr, hbound, -, -⟩ := update_shader_texture_bindings_trace gsg ctx hp
  refine ⟨b, ?_, ?_⟩
  · have hctx : (update_shader_texture_bindings gsg ctx).1.glsl_img_inputs =
        (bind_images gsg 0 0 (ctx.glsl_img_inputs.take
          (min ctx.glsl_img_inputs.length gsg.max_image_units))).1 ++
        ctx.glsl_img_inputs.drop (min ctx.glsl_img_inputs.length gsg.max_image_units) := by
      unfold update_shader_texture_bindings
      rw [if_neg hp]
    rw [hctx, List.getElem?_append_left, h1]
    by_contra hge
    rw [List.getElem?_eq_none (Nat.le_of_not_lt hge)] at h1
    cases h1
  · intro e ho
    rw [htr]
    simp only [List.mem_append, List.mem_singleton]
    constructor
    · rintro ((((he | he) | he) | he) | he)
      · exact h3 e he ho
      · exfalso
        simp only [List.mem_flatten, List.mem_map] at he
        obtain ⟨calls, ⟨slot, hslot, rfl⟩, hmem⟩ := he
        obtain ⟨k, hk, hget⟩ := List.getElem_of_mem hslot
        have hlen2 := bind_textures_length gsg (multi_bind_mode gsg ctx) ctx.shader.tex_spec
          ctx.glsl_uniform_handles
          (bind_images gsg 0 0 (ctx.glsl_img_inputs.take
            (min ctx.glsl_img_inputs.length gsg.max_image_units))).2.2 0
        have hk' : k < ctx.shader.tex_spec.length := by omega
        obtain ⟨h, b', hb⟩ := bind_textures_get gsg (multi_bind_mode gsg ctx)
          ctx.shader.tex_spec ctx.glsl_uniform_handles
          (bind_images gsg 0 0 (ctx.glsl_img_inputs.take
            (min ctx.glsl_img_inputs.length gsg.max_image_units))).2.2 0 k
          ctx.shader.tex_spec[k] (List.getElem?_eq_getElem hk')
        rw [List.getElem?_eq_getElem hk, hget] at hb
        have hslot_eq : slot = bind_texture gsg (multi_bind_mode gsg ctx) h b' (0 + k)
            ctx.shader.tex_spec[k] := by simpa using hb
        rw [hslot_eq] at hmem
        have horig := bind_texture_origin gsg _ h b' (0 + k) _ e hmem
        rw [ho] at horig
        cases horig
      · rw [(hbound e he).1] at ho; cases ho
      · have := mem_ite_singleton _ _ _ he
        rw [this] at ho; cases ho
      · rw [he] at ho; cases ho
    · intro he
      exact Or.inl (Or.inl (Or.inl (Or.inl (h2 e he))))

/-! ### C27 -/

/-- C27: for a linked program and an image input within the image units whose
texture is prepared with a non-zero index and an unsized internal format
(`GL_RGBA` or `GL_RGB`), `update_shader_texture_bindings` reports the error and
then binds the image with that same unsized format: every `glBindImageTexture`
of the unit carries `gtc->_internal_format`, whatever
`get_internal_image_format` answered. -/
theorem update_shader_texture_bindings_unsized_format (gsg : TexGSG) (ctx : Context) (i : Nat)
    (input : ImageInput) (param : Option ParamTextureImage) (t : Texture) (g : TextureContext)
    (hp : ctx.glsl_program ≠ 0)
    (hi : ctx.glsl_img_inputs[i]? = some input) (hlt : i < gsg.max_image_units)
    (hs : image_source (gsg.get_shader_input input.name) = ImageSource.prepared param t g)
    (hidx : g.index ≠ 0)
    (hfmt : g.internal_format = GL_RGBA ∨ g.internal_format = GL_RGB) :
    (TexOrigin.image i, TexCall.error "Texture has an unsized format" t.name)
      ∈ (update_shader_texture_bindings gsg ctx).2 ∧
    (∃ tex level layered layer access,
      (TexOrigin.image i,
        TexCall.glBindImageTexture i tex level layered layer access g.internal_format)
        ∈ (update_shader_texture_bindings gsg ctx).2) ∧
    (∀ unit tex level layered layer access format,
      (TexOrigin.image i, TexCall.glBindImageTexture unit tex level layered layer access format)
        ∈ (update_shader_texture_bindings gsg ctx).2 →
      format = g.internal_format) := by
  obtain ⟨b, -, hiff⟩ := update_shader_texture_bindings_image_entry gsg ctx i input hp hi hlt
  have hbody : (bind_image gsg b i input).2.1 =
      (bind_prepared_image gsg i input param t g).2 := by
    unfold bind_image
    rw [hs]
  have herr : unsized_format_error i t g =
      [(TexOrigin.image i, TexCall.error "Texture has an unsized format" t.name)] := by
    unfold unsized_format_error
    rw [if_pos hfmt]
  unfold bind_prepared_image at hbody
  rw [if_neg hidx] at hbody
  refine ⟨?_, ?_, ?_⟩
  · rw [hiff _ rfl, hbody]
    cases param <;> simp [herr]
  · cases param with
    | none =>
      exact ⟨g.index, 0, true, 0, ImageAccess.GL_READ_WRITE, by rw [hiff _ rfl, hbody]; simp⟩
    | some pm =>
      exact ⟨(image_access gsg pm g.index).2, pm.bind_level, pm.bind_layered, pm.bind_layer,
        (image_access gsg pm g.index).1, by rw [hiff _ rfl, hbody]; simp⟩
  · intro unit tex level layered layer access format he
    rw [hiff _ rfl, hbody] at he
    cases param <;> simp [herr] at he <;> exact he.2.2.2.2.2.2

/-- C27, at a sample input: the texture `canvas` has the internal format
`GL_RGBA` and the replacement `GL_RGBA8` (0x8058); the image is bound with
`GL_RGBA`. -/
theorem update_shader_texture_bindings_unsized_format_witness :
    (update_shader_texture_bindings sample_image_gsg sample_ctx_image).2 =
      [(TexOrigin.image 0, TexCall.update_texture 31 true),
       (TexOrigin.image 0, TexCall.error "Texture has an unsized format" "canvas".toList),
       (TexOrigin.image 0,
        TexCall.glBindImageTexture 0 31 0 true 0 ImageAccess.GL_READ_WRITE GL_RGBA),
       (TexOrigin.body, TexCall.report_my_gl_errors)] ∧
    sample_unsized_texture.image_format = 0x8058 ∧
    ∀ unit tex level layered layer access format,
      (TexOrigin.image 0, TexCall.glBindImageTexture unit tex level layered layer access format)
        ∈ (update_shader_texture_bindings sample_image_gsg sample_ctx_image).2 →
      format = GL_RGBA :=
  ⟨by decide, rfl,
    (update_shader_texture_bindings_unsized_format sample_image_gsg sample_ctx_image 0
      { name := "canvas".toList } none sample_unsized_texture
      { index := 31, internal_format := GL_RGBA, needs_image_barrier := false,
        needs_fetch_barrier := false, update_forced_ok := true, update_ok := true, handle := 0 }
      (by decide) rfl (by decide) rfl (by decide) (Or.inl rfl)).2.2⟩

/-! ### C30 -/

/-- A plain texture (not a texture image parameter), prepared with a non-zero
index, is bound with the access mode `GL_READ_WRITE` while `_writable = false`
is recorded on the image input. -/
theorem update_shader_texture_bindings_plain_texture_writable (gsg : TexGSG) (ctx : Context)
    (i : Nat) (input : ImageInput) (t : Texture) (g : TextureContext)
    (hp : ctx.glsl_program ≠ 0)
    (hi : ctx.glsl_img_inputs[i]? = some input) (hlt : i < gsg.max_image_units)
    (hv : gsg.get_shader_input input.name = ShaderInputValue.M_texture (some t))
    (hg : t.gtc = some g) (hidx : g.index ≠ 0) :
    (∃ left, (update_shader_texture_bindings gsg ctx).1.glsl_img_inputs[i]? = some left ∧
      left.writable = false) ∧
    (TexOrigin.image i,
      TexCall.glBindImageTexture i g.index 0 true 0 ImageAccess.GL_READ_WRITE g.internal_format)
      ∈ (update_shader_texture_bindings gsg ctx).2 := by
  obtain ⟨b, hleft, hiff⟩ := update_shader_texture_bindings_image_entry gsg ctx i input hp hi hlt
  have hs : image_source (gsg.get_shader_input input.name) = ImageSource.prepared none t g := by
    rw [hv]
    simp [image_source, hg]
  have hbody : bind_image gsg b i input =
      ((bind_prepared_image gsg i input none t g).1,
        (bind_prepared_image gsg i input none t g).2,
        if g.needs_image_barrier = true then b ||| GL_SHADER_IMAGE_ACCESS_BARRIER_BIT else b) := by
    unfold bind_image
    rw [hs]
  rw [bind_prepared_image, if_neg hidx] at hbody
  refine ⟨⟨_, hleft, by rw [hbody]⟩, ?_⟩
  rw [hiff _ rfl, hbody]
  simp

/-- C30, as first written, fails: with `gl_force_image_bindings_writeonly`, a
parameter with read access only is bound `GL_WRITE_ONLY` to the non-zero texture
21, and `_writable` is recorded false. -/
theorem update_shader_texture_bindings_force_writeonly_counterexample :
    (update_shader_texture_bindings sample_force_gsg sample_ctx_image).1.glsl_img_inputs =
      [{ name := "canvas".toList, gtc := some 21, writable := false }] ∧
    (update_shader_texture_bindings sample_force_gsg sample_ctx_image).2 =
      [(TexOrigin.image 0, TexCall.update_texture 21 true),
       (TexOrigin.image 0,
        TexCall.glBindImageTexture 0 21 0 true 0 ImageAccess.GL_WRITE_ONLY 0x8058),
       (TexOrigin.body, TexCall.report_my_gl_errors)] := by
  decide

/-- C30, amended: for a linked program and an image input within the image units
that is given a texture image parameter whose texture is prepared with a
non-zero index, `update_shader_texture_bindings` records
`_writable = has_write_access` on the image input and issues one kind of
`glBindImageTexture` for the unit; when `gl_force_image_bindings_writeonly` is
off and the texture bound is not zero, `_writable` is true if and only if the
access mode is `GL_WRITE_ONLY` or `GL_READ_WRITE`; when it is on, the access mode
is `GL_WRITE_ONLY` whatever `_writable` is. -/
theorem update_shader_texture_bindings_image_writable (gsg : TexGSG) (ctx : Context)
    (i : Nat) (input : ImageInput) (pm : ParamTextureImage) (t : Texture) (g : TextureContext)
    (hp : ctx.glsl_program ≠ 0)
    (hi : ctx.glsl_img_inputs[i]? = some input) (hlt : i < gsg.max_image_units)
    (hv : gsg.get_shader_input input.name = ShaderInputValue.M_texture_image pm)
    (ht : pm.texture = some t) (hg : t.gtc = some g) (hidx : g.index ≠ 0) :
    ∃ left gl_tex access,
      (update_shader_texture_bindings gsg ctx).1.glsl_img_inputs[i]? = some left ∧
      left.writable = pm.has_write_access ∧
      (TexOrigin.image i,
        TexCall.glBindImageTexture i gl_tex pm.bind_level pm.bind_layered pm.bind_layer access
          g.internal_format) ∈ (update_shader_texture_bindings gsg ctx).2 ∧
      (∀ unit tex level layered layer a format,
        (TexOrigin.image i, TexCall.glBindImageTexture unit tex level layered layer a format)
          ∈ (update_shader_texture_bindings gsg ctx).2 → tex = gl_tex ∧ a = access) ∧
      (gsg.gl_force_image_bindings_writeonly = false → gl_tex ≠ 0 →
        (left.writable = true ↔
          (access = ImageAccess.GL_WRITE_ONLY ∨ access = ImageAccess.GL_READ_WRITE))) ∧
      (gsg.gl_force_image_bindings_writeonly = true → access = ImageAccess.GL_WRITE_ONLY) := by
  obtain ⟨b, hleft, hiff⟩ := update_shader_texture_bindings_image_entry gsg ctx i input hp hi hlt
  have hs : image_source (gsg.get_shader_input input.name)
      = ImageSource.prepared (some pm) t g := by
    rw [hv]
    simp [image_source, ht, hg]
  have hbody : bind_image gsg b i input =
      ((bind_prepared_image gsg i input (some pm) t g).1,
        (bind_prepared_image gsg i input (some pm) t g).2,
        if g.needs_image_barrier = true then b ||| GL_SHADER_IMAGE_ACCESS_BARRIER_BIT else b) := by
    unfold bind_image
    rw [hs]
  rw [bind_prepared_image, if_neg hidx] at hbody
  have hun : ∀ e ∈ unsized_format_error i t g,
      ∀ unit tex level layered layer a format,
        e ≠ (TexOrigin.image i, TexCall.glBindImageTexture unit tex level layered layer a format) := by
    intro e he
    unfold unsized_format_error at he
    have := mem_ite_singleton _ _ _ he
    rw [this]
    simp
  refine ⟨_, (image_access gsg pm g.index).2, (image_access gsg pm g.index).1, hleft,
    by rw [hbody], ?_, ?_, ?_, ?_⟩
  · rw [hiff _ rfl, hbody]
    simp
  · intro unit tex level layered layer a format he
    rw [hiff _ rfl, hbody] at he
    simp only [List.mem_cons, List.mem_append, List.mem_singleton, List.not_mem_nil,
      or_false] at he
    rcases he with (he | he) | he
    · simp at he
    · exact absurd rfl (hun _ he unit tex level layered layer a format)
    · simp only [Prod.mk.injEq, TexCall.glBindImageTexture.injEq, true_and] at he
      exact ⟨he.2.1, he.2.2.2.2.2.1⟩
  · intro hf hnz
    rw [hbody]
    simp only
    unfold image_access at hnz ⊢
    rw [if_neg (by simp [hf])] at hnz ⊢
    cases hr : pm.has_read_access <;> cases hw : pm.has_write_access <;>
      simp [hr, hw] at hnz ⊢
  · intro hf
    unfold image_access
    rw [if_pos hf]

/-- C30, amended, at a sample input: a parameter with read access only is bound
`GL_READ_ONLY` and recorded as not writable. -/
theorem update_shader_texture_bindings_image_writable_witness :
    (update_shader_texture_bindings sample_param_gsg sample_ctx_image).1.glsl_img_inputs =
      [{ name := "canvas".toList, gtc := some 21, writable := false }] ∧
    (update_shader_texture_bindings sample_param_gsg sample_ctx_image).2 =
      [(TexOrigin.image 0, TexCall.update_texture 21 true),
       (TexOrigin.image 0,
        TexCall.glBindImageTexture 0 21 0 true 0 ImageAccess.GL_READ_ONLY 0x8058),
       (TexOrigin.body, TexCall.report_my_gl_errors)] ∧
    ∃ left gl_tex access,
      (update_shader_texture_bindings sample_param_gsg sample_ctx_image).1.glsl_img_inputs[0]?
        = some left ∧
      left.writable = sample_readonly_param.has_write_access ∧
      (TexOrigin.image 0,
        TexCall.glBindImageTexture 0 gl_tex sample_readonly_param.bind_level
          sample_readonly_param.bind_layered sample_readonly_param.bind_layer access 0x8058)
        ∈ (update_shader_texture_bindings sample_param_gsg sample_ctx_image).2 :=
  ⟨by decide, by decide,
    (update_shader_texture_bindings_image_writable sample_param_gsg sample_ctx_image 0
      { name := "canvas".toList } sample_readonly_param sample_texture
      { index := 21, internal_format := 0x8058, needs_image_barrier := false,
        needs_fetch_barrier := true, update_forced_ok := true, update_ok := true, handle := 900 }
      (by decide) rfl (by decide) rfl rfl rfl (by decide)).imp
      (fun _ h => h.imp (fun _ h' => h'.imp (fun _ h'' => ⟨h''.1, h''.2.1, h''.2.2.1⟩)))⟩

/-! ### C26 -/

/-- C26, at the failing input: without multi-bind and bindless textures, the cube
map array sampler at unit 0 gets `set_active_texture_stage(0)` and no unbind
call, the 2-D sampler at unit 1 is unbound. -/
theorem disable_shader_texture_bindings_cube_map_array :
    (disable_shader_texture_bindings sample_tex_gsg true sample_ctx_cube_array).2 =
      [DisableCall.set_active_texture_stage 0,
       DisableCall.set_active_texture_stage 1,
       DisableCall.glBindTexture TextureTarget.GL_TEXTURE_2D 0,
       DisableCall.report_my_gl_errors] := by
  decide

/-! ### C23 -/

theorem attach_shaders_no_error (env : LinkEnv) (l : List Nat) :
    ∀ e ∈ (attach_shaders env l).2.2, e.is_error = false := by
  induction l with
  | nil => intro e he; simp [attach_shaders] at he
  | cons m rest ih =>
    intro e he
    unfold attach_shaders at he
    split at he
    · simp only [List.mem_cons] at he
      rcases he with he | he
      · rw [he]; rfl
      · exact ih e he
    · simp only [List.mem_cons] at he
      rcases he with he | he
      · rw [he]; rfl
      · exact ih e he

theorem link_calls_no_error (env : LinkEnv) (program : Nat) (modules : List (Nat × Bool)) :
    ∀ e ∈ link_calls env program modules, e.is_error = false := by
  intro e he
  unfold link_calls at he
  simp only [List.mem_append, List.mem_map, List.mem_cons, List.mem_singleton,
    List.not_mem_nil, or_false] at he
  rcases he with ((((⟨m, -, he⟩ | he) | he) | he) | he) | he
  · rw [← he]; rfl
  · rcases he with he | he | he | he <;> (rw [he]; rfl)
  · split at he
    · simp only [List.mem_cons, List.mem_singleton, List.not_mem_nil, or_false] at he
      rcases he with he | he | he | he | he | he <;> (rw [he]; rfl)
    · simp at he
  · have := mem_ite_singleton _ _ _ he
    rw [this]; rfl
  · have := mem_ite_singleton _ _ _ he
    rw [this]; rfl
  · rcases he with he | he <;> (rw [he]; rfl)

/-- The loop over the modules after a failed link: it tells whether a module
failed to compile, and its only errors are compile errors. -/
theorem check_modules_spec (env : LinkEnv) (l : List (Nat × Bool)) :
    ((check_modules env l).1 = true ↔ ∃ m ∈ l, env.compile_status m.1 = false) ∧
    (∀ e ∈ (check_modules env l).2, e.is_error = true →
      e = LinkCall.error "An error occurred while compiling shader module") ∧
    ((∀ m ∈ l, env.compile_status m.1 = true) →
      ∀ e ∈ (check_modules env l).2, e.is_error = false) := by
  induction l with
  | nil => simp [check_modules]
  | cons m rest ih =>
    obtain ⟨ih1, ih2, ih3⟩ := ih
    unfold check_modules
    cases hc : env.compile_status m.1 with
    | false =>
      simp only [Bool.not_false, if_true]
      refine ⟨⟨fun _ => ⟨m, List.mem_cons_self _ _, hc⟩, fun _ => trivial⟩, ?_, ?_⟩
      · intro e he herr
        simp only [List.mem_append, List.mem_cons, List.mem_singleton, List.not_mem_nil,
          or_false] at he
        rcases he with (he | he | he | he) | he
        · rw [he] at herr; cases herr
        · exact he
        · rw [he] at herr; cases herr
        · rw [he] at herr; cases herr
        · exact ih2 e he herr
      · intro hall
        have := hall m (List.mem_cons_self _ _)
        rw [hc] at this
        cases this
    | true =>
      simp only [Bool.not_true, Bool.false_eq_true, if_false]
      refine ⟨?_, ?_, ?_⟩
      · rw [ih1]
        constructor
        · rintro ⟨x, hx, hxc⟩
          exact ⟨x, List.mem_cons_of_mem _ hx, hxc⟩
        · rintro ⟨x, hx, hxc⟩
          rcases List.mem_cons.mp hx with rfl | hx'
          · rw [hc] at hxc; cases hxc
          · exact ⟨x, hx', hxc⟩
      · intro e he herr
        simp only [List.mem_append, List.mem_cons, List.mem_singleton, List.not_mem_nil,
          or_false] at he
        rcases he with (he | he | he) | he
        · rw [he] at herr; cases herr
        · rw [he] at herr; cases herr
        · rw [he] at herr; cases herr
        · exact ih2 e he herr
      · intro hall e he
        simp only [List.mem_append, List.mem_cons, List.mem_singleton, List.not_mem_nil,
          or_false] at he
        rcases he with (he | he | he) | he
        · rw [he]; rfl
        · rw [he]; rfl
        · rw [he]; rfl
        · exact ih3 (fun x hx => hall x (List.mem_cons_of_mem _ hx)) e he

/-- C23: when `compile_and_link` reaches `glLinkProgram` (a program was created,
no precompiled binary linked, every module attached) and the link status is not
`GL_TRUE`, it returns false and leaves `_modules` empty; it reports the link
error ("An error occurred while linking shader" and `report_program_errors`
with `fatal = true`) if and only if every attached module's compile status is
`GL_TRUE`; and if some module failed to compile, its only errors are the module
compile errors. -/
theorem compile_and_link_link_failure (env : LinkEnv) (ctx : Context)
    (hprog : env.glCreateProgram ≠ 0)
    (hbin : ¬ (env.get_compiled = true ∧ env.binary_link_status = true))
    (hatt : (attach_shaders env env.shader_modules).1 = true)
    (hlink : env.link_status = false) :
    (compile_and_link env ctx).1 = false ∧
    (compile_and_link env ctx).2.1.modules = [] ∧
    (LinkCall.error "An error occurred while linking shader" ∈ (compile_and_link env ctx).2.2 ↔
      ∀ m ∈ (attach_shaders env env.shader_modules).2.1, env.compile_status m.1 = true) ∧
    (LinkCall.report_program_errors env.glCreateProgram true ∈ (compile_and_link env ctx).2.2 ↔
      ∀ m ∈ (attach_shaders env env.shader_modules).2.1, env.compile_status m.1 = true) ∧
    ((∃ m ∈ (attach_shaders env env.shader_modules).2.1, env.compile_status m.1 = false) →
      ∀ e ∈ (compile_and_link env ctx).2.2, e.is_error = true →
        e = LinkCall.error "An error occurred while compiling shader module") := by
  obtain ⟨c1, c2, c3⟩ := check_modules_spec env (attach_shaders env env.shader_modules).2.1
  have hpre : ∀ e ∈ [LinkCall.glCreateProgram]
        ++ (if env.use_object_labels = true then [LinkCall.glObjectLabel env.glCreateProgram]
            else [])
        ++ (if env.get_compiled = true then
              [LinkCall.glProgramBinary env.glCreateProgram,
               LinkCall.glGetProgramiv env.glCreateProgram "GL_LINK_STATUS"]
            else [])
        ++ (attach_shaders env env.shader_modules).2.2
        ++ link_calls env env.glCreateProgram (attach_shaders env env.shader_modules).2.1,
      e.is_error = false := by
    intro e he
    simp only [List.mem_append, List.mem_singleton] at he
    rcases he with (((he | he) | he) | he) | he
    · rw [he]; rfl
    · have := mem_ite_singleton _ _ _ he
      rw [this]; rfl
    · split at he
      · simp only [List.mem_cons, List.mem_singleton, List.not_mem_nil, or_false] at he
        rcases he with he | he <;> (rw [he]; rfl)
      · simp at he
    · exact attach_shaders_no_error env _ e he
    · exact link_calls_no_error env _ _ e he
  have hall : (∀ m ∈ (attach_shaders env env.shader_modules).2.1, env.compile_status m.1 = true)
      ↔ (check_modules env (attach_shaders env env.shader_modules).2.1).1 = false := by
    constructor
    · intro h
      cases hc : (check_modules env (attach_shaders env env.shader_modules).2.1).1 with
      | false => rfl
      | true =>
        obtain ⟨m, hm, hf⟩ := c1.mp hc
        rw [h m hm] at hf
        cases hf
    · intro h m hm
      cases hc : env.compile_status m.1 with
      | true => rfl
      | false =>
        rw [c1.mpr ⟨m, hm, hc⟩] at h
        cases h
  unfold compile_and_link
  simp only [hprog, if_false, hbin, hatt, Bool.not_true, Bool.false_eq_true, hlink,
    Bool.not_false, if_true]
  cases hc : (check_modules env (attach_shaders env env.shader_modules).2.1).1 with
  | true =>
    have hnot : ¬ ∀ m ∈ (attach_shaders env env.shader_modules).2.1,
        env.compile_status m.1 = true := by
      intro h
      rw [hall.mp h] at hc
      cases hc
    have hmem : ∀ e, e.is_error = true → e ≠
        LinkCall.error "An error occurred while compiling shader module" →
        e ∉ [LinkCall.glCreateProgram]
        ++ (if env.use_object_labels = true then [LinkCall.glObjectLabel env.glCreateProgram]
            else [])
        ++ (if env.get_compiled = true then
              [LinkCall.glProgramBinary env.glCreateProgram,
               LinkCall.glGetProgramiv env.glCreateProgram "GL_LINK_STATUS"]
            else [])
        ++ (attach_shaders env env.shader_modules).2.2
        ++ link_calls env env.glCreateProgram (attach_shaders env env.shader_modules).2.1
        ++ (check_modules env (attach_shaders env env.shader_modules).2.1).2 := by
      intro e herr hne hin
      rcases List.mem_append.mp hin with hin | hin
      · rw [hpre e hin] at herr
        cases herr
      · exact hne (c2 e hin herr)
    simp only [if_true]
    refine ⟨trivial, trivial, ?_, ?_, ?_⟩
    · simp only [hnot, iff_false]
      exact hmem _ rfl (by decide)
    · simp only [hnot, iff_false]
      exact hmem _ rfl (by simp)
    · intro _ e he herr
      by_contra hne
      exact hmem e herr hne he
  | false =>
    have hyes := hall.mpr hc
    simp only [Bool.false_eq_true, if_false]
    refine ⟨trivial, trivial, ?_, ?_, ?_⟩
    · refine ⟨fun _ => hyes, fun _ => ?_⟩
      simp
    · refine ⟨fun _ => hyes, fun _ => ?_⟩
      simp
    · rintro ⟨m, hm, hf⟩
      rw [hyes m hm] at hf
      cases hf

/-- C23, at a sample input: shader 12 fails to compile, the link fails, and the
only error is the compile error of shader 12. -/
theorem compile_and_link_link_failure_witness :
    (compile_and_link sample_link_env { }).2.2 =
      [LinkCall.glCreateProgram, LinkCall.attach_shader 1, LinkCall.attach_shader 2,
       LinkCall.glCompileShader 11, LinkCall.glCompileShader 12,
       LinkCall.glBindAttribLocation 5 0 "p3d_Vertex",
       LinkCall.glBindAttribLocation 5 0 "vertex",
       LinkCall.glBindAttribLocation 5 2 "p3d_Normal",
       LinkCall.glBindAttribLocation 5 3 "p3d_Color",
       LinkCall.glLinkProgram 5, LinkCall.glGetProgramiv 5 "GL_LINK_STATUS",
       LinkCall.glGetShaderiv 11, LinkCall.report_shader_errors 11 false,
       LinkCall.glDeleteShader 11,
       LinkCall.glGetShaderiv 12,
       LinkCall.error "An error occurred while compiling shader module",
       LinkCall.report_shader_errors 12 true, LinkCall.glDeleteShader 12] ∧
    (compile_and_link sample_link_env { }).1 = false ∧
    (compile_and_link sample_link_env { }).2.1.modules = [] :=
  ⟨by decide,
    (compile_and_link_link_failure sample_link_env { } (by decide) (by decide) (by decide)
      rfl).1,
    (compile_and_link_link_failure sample_link_env { } (by decide) (by decide) (by decide)
      rfl).2.1⟩

/-! ### C22 -/

theorem compile_and_link_has_glgsg (env : LinkEnv) (ctx : Context) :
    (compile_and_link env ctx).2.1.has_glgsg = ctx.has_glgsg ∧
    (compile_and_link env ctx).2.1.shader = ctx.shader := by
  unfold compile_and_link
  simp only
  split_ifs <;> exact ⟨rfl, rfl⟩

theorem bind_iterate_shader (ctx : Context) (n : Nat) :
    ((fun c => (bind c).1)^[n] ctx).shader = ctx.shader ∧
    ((fun c => (bind c).1)^[n] ctx).glsl_program = ctx.glsl_program ∧
    ((fun c => (bind c).1)^[n] ctx).modules = ctx.modules := by
  induction n with
  | zero => exact ⟨rfl, rfl, rfl⟩
  | succ n ih =>
    rw [Function.iterate_succ_apply']
    exact ih

theorem bind_error_flag (ctx : Context) (h : ctx.shader.error_flag = true) :
    ∀ p, BindCall.glUseProgram p ∉ (bind ctx).2 := by
  intro p hp
  unfold bind at hp
  simp only [h, Bool.not_true, Bool.false_eq_true, if_false, List.append_nil, List.mem_append,
    List.mem_singleton] at hp
  rcases hp with hp | hp
  · split at hp
    · simp at hp
    · simp at hp
  · cases hp

/-- C22: if `compile_and_link` returns false during construction, the
constructor returns at line 64 with the shader's error flag set, no program
(handle 0) and no module; `valid()` is false, and no later `bind()`, however many
come, issues a `glUseProgram` call. -/
theorem construct_compile_failure (env : LinkEnv) (gl_validate_shaders : Bool) (s : Shader)
    (hfail : (compile_and_link env (initial_context gl_validate_shaders s)).1 = false) :
    ∃ ctx link release,
      construct env gl_validate_shaders s = Constructed.failed ctx link release ∧
      ctx.shader.error_flag = true ∧ ctx.glsl_program = 0 ∧ ctx.modules = [] ∧
      valid ctx = false ∧
      ∀ n, valid ((fun c => (bind c).1)^[n] ctx) = false ∧
        ∀ p, BindCall.glUseProgram p ∉ (bind ((fun c => (bind c).1)^[n] ctx)).2 := by
  have hg : (compile_and_link env (initial_context gl_validate_shaders s)).2.1.has_glgsg = true :=
    (compile_and_link_has_glgsg env _).1
  have hrel : (release_resources
      (compile_and_link env (initial_context gl_validate_shaders s)).2.1).1 =
      { (compile_and_link env (initial_context gl_validate_shaders s)).2.1 with
        glsl_program := 0, modules := [] } := by
    unfold release_resources
    simp [hg]
  have hc : construct env gl_validate_shaders s = Constructed.failed
      { (release_resources
          (compile_and_link env (initial_context gl_validate_shaders s)).2.1).1 with
        shader := { (release_resources
          (compile_and_link env (initial_context gl_validate_shaders s)).2.1).1.shader with
          error_flag := true } }
      (compile_and_link env (initial_context gl_validate_shaders s)).2.2
      (release_resources (compile_and_link env (initial_context gl_validate_shaders s)).2.1).2 := by
    unfold construct
    simp only [hfail, Bool.not_false, if_true]
  refine ⟨_, _, _, hc, rfl, by rw [hrel], by rw [hrel], by simp [valid], ?_⟩
  intro n
  obtain ⟨h1, h2, -⟩ := bind_iterate_shader
    { (release_resources (compile_and_link env (initial_context gl_validate_shaders s)).2.1).1 with
      shader := { (release_resources
        (compile_and_link env (initial_context gl_validate_shaders s)).2.1).1.shader with
        error_flag := true } } n
  refine ⟨by simp [valid, h1], bind_error_flag _ (by rw [h1])⟩

/-- C22, at a sample input: the link fails; the constructor deletes the program
5, and `bind` validates and reports errors but uses no program. -/
theorem construct_compile_failure_witness :
    (compile_and_link sample_link_env (initial_context true { })).1 = false ∧
    (match construct sample_link_env true { } with
      | Constructed.failed ctx _ release =>
          release = [GLCall.glDeleteProgram 5, GLCall.report_my_gl_errors] ∧
          (bind ctx).2 = [BindCall.glValidateProgram 0, BindCall.report_program_errors 0 false,
            BindCall.report_my_gl_errors]
      | Constructed.linked _ _ => False) ∧
    ∃ ctx link release,
      construct sample_link_env true { } = Constructed.failed ctx link release ∧
      ctx.shader.error_flag = true ∧ ctx.glsl_program = 0 ∧ ctx.modules = [] ∧
      valid ctx = false ∧
      ∀ n, valid ((fun c => (bind c).1)^[n] ctx) = false ∧
        ∀ p, BindCall.glUseProgram p ∉ (bind ((fun c => (bind c).1)^[n] ctx)).2 :=
  ⟨by decide, ⟨by decide, by decide⟩,
    construct_compile_failure sample_link_env true { } (by decide)⟩

/-! ### `reflect_uniform` on a matrix name -/

/-- A uniform with a live location whose name is `p3d_` followed by a matrix name
with suffixes is handled by the matrix branch. -/
theorem reflect_uniform_matrix (env : ReflectEnv) (st : ReflectState) (i : Nat)
    (name : CStr) (param_size : Int) (param_type : GLType) (p : Int)
    (matrix_name : CStr) (transpose inverse : Bool)
    (hmain : name.take 6 ≠ "_main_".toList)
    (hstrip : strip_array_suffix name = name)
    (hp3d : name.take 4 = "p3d_".toList)
    (hparse : parse_matrix_suffix (name.drop 4) = (matrix_name, transpose, inverse))
    (hmat : is_matrix_name matrix_name = true)
    (hp : 0 ≤ p) :
    reflect_uniform env st i
        { name := name, param_size := param_size, param_type := param_type, location := p } =
      reflect_matrix env st i name param_size param_type p matrix_name transpose inverse := by
  unfold reflect_uniform
  simp only [hstrip]
  rw [if_neg hmain, if_neg (by omega), if_pos hp3d]
  unfold reflect_p3d
  simp only [hparse, hmat, if_true]

/-! ### C24 -/

/-- C24: for every base name `B` of the matrix vocabulary and every suffix `s`
among none, `Inverse`, `Transpose` and `InverseTranspose`, the suffix parser of
`reflect_uniform` applied to `B ++ s` (the name without `p3d_`) recovers
`matrix_name = B`, `transpose` and `inverse` as the suffix holds them, and `B`
passes the `Matrix` test; so `reflect_uniform` on `p3d_<B><s>` with a live
location is the matrix branch run on `B` with these flags. -/
theorem parse_matrix_suffix_vocabulary :
    ∀ B ∈ matrix_vocabulary, ∀ s ∈ matrix_suffixes,
      parse_matrix_suffix (B ++ s.1) = (B, s.2.2, s.2.1) ∧ is_matrix_name B = true ∧
      ∀ (env : ReflectEnv) (st : ReflectState) (i : Nat) (param_size : Int)
        (param_type : GLType) (p : Int), 0 ≤ p →
        reflect_uniform env st i
            { name := "p3d_".toList ++ B ++ s.1, param_size := param_size,
              param_type := param_type, location := p } =
          reflect_matrix env st i ("p3d_".toList ++ B ++ s.1) param_size param_type p B
            s.2.2 s.2.1 := by
  have key : ∀ B ∈ matrix_vocabulary, ∀ s ∈ matrix_suffixes,
      parse_matrix_suffix (B ++ s.1) = (B, s.2.2, s.2.1) ∧ is_matrix_name B = true ∧
      ("p3d_".toList ++ B ++ s.1).take 6 ≠ "_main_".toList ∧
      strip_array_suffix ("p3d_".toList ++ B ++ s.1) = "p3d_".toList ++ B ++ s.1 ∧
      ("p3d_".toList ++ B ++ s.1).take 4 = "p3d_".toList ∧
      ("p3d_".toList ++ B ++ s.1).drop 4 = B ++ s.1 := by
    decide
  intro B hB s hs
  obtain ⟨h1, h2, h3, h4, h5, h6⟩ := key B hB s hs
  refine ⟨h1, h2, ?_⟩
  intro env st i param_size param_type p hp
  exact reflect_uniform_matrix env st i _ param_size param_type p B s.2.2 s.2.1 h3 h4 h5
    (by rw [h6]; exact h1) h2 hp

/-- C24, at a sample input: `ViewMatrixInverse`. -/
theorem parse_matrix_suffix_vocabulary_witness :
    "ViewMatrix".toList ∈ matrix_vocabulary ∧
    ("Inverse".toList, true, false) ∈ matrix_suffixes ∧
    parse_matrix_suffix ("ViewMatrix".toList ++ "Inverse".toList)
      = ("ViewMatrix".toList, false, true) :=
  ⟨by decide, by decide,
    (parse_matrix_suffix_vocabulary "ViewMatrix".toList (by decide)
      ("Inverse".toList, true, false) (by decide)).1⟩

/-! ### C4 -/

/-- C4: `reflect_uniform` applied to a uniform named
`p3d_ModelViewProjectionMatrix` of type `mat4` with a non-negative location adds
exactly one matrix/state binding, at the end of the table: its function is
compose, its parts are `model_to_apiview` and `apiview_to_apiclip`, its piece is
the whole matrix; the texture and pointer-data tables stay as they are. -/
theorem reflect_uniform_model_view_projection (env : ReflectEnv) (st : ReflectState) (i : Nat)
    (param_size : Int) (p : Int) (hp : 0 ≤ p) :
    (reflect_uniform env st i
        { name := "p3d_ModelViewProjectionMatrix".toList, param_size := param_size,
          param_type := GLType.GL_FLOAT_MAT4, location := p }).ctx.shader.mat_spec =
      st.ctx.shader.mat_spec ++
        [{ name := "p3d_ModelViewProjectionMatrix".toList, location := p,
           func := ShaderMatFunc.SMF_compose,
           part0 := ShaderMatInput.SMO_model_to_apiview,
           part1 := ShaderMatInput.SMO_apiview_to_apiclip,
           arg0 := none, arg1 := none, piece := ShaderMatPiece.SMP_whole,
           dep := env.cp_dependency ShaderMatInput.SMO_model_to_apiview
             ||| env.cp_dependency ShaderMatInput.SMO_apiview_to_apiclip }] ∧
    (reflect_uniform env st i
        { name := "p3d_ModelViewProjectionMatrix".toList, param_size := param_size,
          param_type := GLType.GL_FLOAT_MAT4, location := p }).ctx.shader.tex_spec =
      st.ctx.shader.tex_spec ∧
    (reflect_uniform env st i
        { name := "p3d_ModelViewProjectionMatrix".toList, param_size := param_size,
          param_type := GLType.GL_FLOAT_MAT4, location := p }).ctx.shader.ptr_spec =
      st.ctx.shader.ptr_spec := by
  rw [reflect_uniform_matrix env st i "p3d_ModelViewProjectionMatrix".toList param_size
    GLType.GL_FLOAT_MAT4 p "ModelViewProjectionMatrix".toList false false (by decide) (by decide)
    (by decide) (by decide) (by decide) hp]
  have hs : simple_matrix "ModelViewProjectionMatrix".toList false =
      some (ShaderMatFunc.SMF_compose, ShaderMatInput.SMO_model_to_apiview,
        ShaderMatInput.SMO_apiview_to_apiclip) := by decide
  have hn : ¬ ("ModelViewProjectionMatrix".toList = "NormalMatrix".toList ∧
      GLType.GL_FLOAT_MAT4.is_mat3 = false) := by decide
  unfold reflect_matrix
  simp only [matrix_piece, hs, if_neg hn, Bool.false_eq_true, if_false]
  exact ⟨rfl, rfl, rfl⟩

/-- C4, at a sample input: location 3, an empty state. -/
theorem reflect_uniform_model_view_projection_witness :
    (0 : Int) ≤ 3 ∧
    (reflect_uniform sample_reflect_env { } 0
        { name := "p3d_ModelViewProjectionMatrix".toList, param_size := 1,
          param_type := GLType.GL_FLOAT_MAT4, location := 3 }).ctx.shader.mat_spec =
      ({ } : ReflectState).ctx.shader.mat_spec ++
        [{ name := "p3d_ModelViewProjectionMatrix".toList, location := 3,
           func := ShaderMatFunc.SMF_compose,
           part0 := ShaderMatInput.SMO_model_to_apiview,
           part1 := ShaderMatInput.SMO_apiview_to_apiclip,
           arg0 := none, arg1 := none, piece := ShaderMatPiece.SMP_whole,
           dep := sample_reflect_env.cp_dependency ShaderMatInput.SMO_model_to_apiview
             ||| sample_reflect_env.cp_dependency ShaderMatInput.SMO_apiview_to_apiclip }] :=
  ⟨by decide,
    (reflect_uniform_model_view_projection sample_reflect_env { } 0 1 3 (by decide)).1⟩

/-! ### C5 -/

/-- The matrix branch on one of the seven names that take no index: one binding
is added, with the function and parts of `simple_matrix`. -/
theorem reflect_matrix_simple (env : ReflectEnv) (st : ReflectState) (i : Nat) (name : CStr)
    (param_size : Int) (param_type : GLType) (p : Int) (B : CStr) (transpose inverse : Bool)
    (piece : ShaderMatPiece) (parts : ShaderMatFunc × ShaderMatInput × ShaderMatInput)
    (hpiece : matrix_piece param_type transpose = some piece)
    (hs : simple_matrix B inverse = some parts) :
    (reflect_matrix env st i name param_size param_type p B transpose
        inverse).ctx.shader.mat_spec =
      st.ctx.shader.mat_spec ++
        [{ name := name, location := p, func := parts.1, part0 := parts.2.1, part1 := parts.2.2,
           arg0 := none, arg1 := none, piece := piece,
           dep := env.cp_dependency parts.2.1 ||| env.cp_dependency parts.2.2 }] := by
  unfold reflect_matrix
  simp only [hpiece, hs]
  split <;> rfl

/-- C5, as first written, fails: the binding for
`p3d_LightSource[2].shadowViewMatrixInverse` has the same first part as the one
for `p3d_LightSource[2].shadowViewMatrix`, a part that names no `from_to` pair;
the two differ in the attribute they name. -/
theorem reflect_uniform_shadow_view_counterexample :
    (reflect_uniform sample_reflect_env { } 0
        (sample_shadow_view_uniform "")).ctx.shader.mat_spec.map
        (fun b => (b.func, b.part0, b.arg0)) =
      [(ShaderMatFunc.SMF_first, ShaderMatInput.SMO_light_source_i_attrib,
        some "shadowViewMatrix".toList)] ∧
    (reflect_uniform sample_reflect_env { } 0
        (sample_shadow_view_uniform "Inverse")).ctx.shader.mat_spec.map
        (fun b => (b.func, b.part0, b.arg0)) =
      [(ShaderMatFunc.SMF_first, ShaderMatInput.SMO_light_source_i_attrib,
        some "shadowViewMatrixInverse".toList)] ∧
    inverse_part ShaderMatInput.SMO_light_source_i_attrib = none := by
  decide

theorem add_texture_matrices_spec (env : ReflectEnv) (bind : ShaderMatSpec) (p : Int) :
    ∀ (n index : Nat) (st : ReflectState),
      (add_texture_matrices env bind p index n st).ctx.shader.mat_spec =
        st.ctx.shader.mat_spec ++ (List.range n).map (fun k =>
          { bind with index := ((index + k : Nat) : Int)
                      location := if env.apple then p + ((index + k : Nat) : Int) * 4
                                  else p + ((index + k : Nat) : Int)
                      dep := env.cp_dependency bind.part0 ||| env.cp_dependency bind.part1 }) := by
  intro n
  induction n with
  | zero => intro index st; simp [add_texture_matrices]
  | succ n ih =>
    intro index st
    unfold add_texture_matrices
    rw [ih (index + 1), List.range_succ_eq_map, List.map_cons, List.map_map]
    simp only [ReflectState.add_mat, cp_add_mat_spec, List.append_assoc, List.singleton_append,
      Nat.add_zero]
    congr 2
    apply List.map_congr_left
    intro k _
    simp only [Function.comp, show index + 1 + k = index + (k + 1) by omega]

theorem light_source_not_simple (mn : CStr) (inverse : Bool)
    (htake : mn.take 12 = "LightSource[".toList) :
    simple_matrix mn inverse = none ∧ mn ≠ "TextureMatrix".toList := by
  have hne : ∀ s : CStr, s.take 12 ≠ "LightSource[".toList → mn ≠ s := by
    intro s hs h
    rw [h] at htake
    exact hs htake
  refine ⟨?_, hne _ (by decide)⟩
  unfold simple_matrix
  rw [if_neg (hne _ (by decide)), if_neg (hne _ (by decide)), if_neg (hne _ (by decide)),
    if_neg (hne _ (by decide)), if_neg (hne _ (by decide)), if_neg (hne _ (by decide)),
    if_neg (hne _ (by decide))]

theorem matrix_piece_transpose (param_type : GLType) (piece tpiece : ShaderMatPiece)
    (h1 : matrix_piece param_type false = some piece)
    (h2 : matrix_piece param_type true = some tpiece) : tpiece ≠ piece := by
  unfold matrix_piece at h1 h2
  cases param_type <;> simp at h1 h2 <;> (rw [← h1, ← h2]; decide)

/-- C5, amended: for each of the seven matrix names that take no index, declared
`mat3` or `mat4` at a live location, the binding that `reflect_uniform` adds for
`p3d_<N>Inverse` has the reversed and individually inverted parts of the one for
`p3d_<N>` (`inverse_parts`), and the one for `p3d_<N>Transpose` has the function,
parts and arguments of the one for `p3d_<N>` and another piece; for
`p3d_TextureMatrix`, declared `mat4`, every suffix gives one binding for each
index, reading `inv_texmat_i` with `Inverse` and `texmat_i` without, the piece
alone following `Transpose`; and for a `LightSource[i].shadowViewMatrix` the
binding keeps the part `light_source_i_attrib` and names the attribute
`shadowViewMatrixInverse` with `Inverse`, `shadowViewMatrix` without. -/
theorem reflect_uniform_matrix_suffixes (env : ReflectEnv) (st : ReflectState) (i : Nat)
    (param_size : Int) (param_type : GLType) (p : Int) (hp : 0 ≤ p) :
    (∀ B ∈ simple_matrix_names, ∀ piece tpiece,
      matrix_piece param_type false = some piece →
      matrix_piece param_type true = some tpiece →
      ∃ parts iparts,
        simple_matrix B false = some parts ∧ inverse_parts parts = some iparts ∧
        tpiece ≠ piece ∧
        (reflect_uniform env st i
            { name := "p3d_".toList ++ B, param_size := param_size, param_type := param_type,
              location := p }).ctx.shader.mat_spec =
          st.ctx.shader.mat_spec ++
            [{ name := "p3d_".toList ++ B, location := p, func := parts.1, part0 := parts.2.1,
               part1 := parts.2.2, arg0 := none, arg1 := none, piece := piece,
               dep := env.cp_dependency parts.2.1 ||| env.cp_dependency parts.2.2 }] ∧
        (reflect_uniform env st i
            { name := "p3d_".toList ++ B ++ "Inverse".toList, param_size := param_size,
              param_type := param_type, location := p }).ctx.shader.mat_spec =
          st.ctx.shader.mat_spec ++
            [{ name := "p3d_".toList ++ B ++ "Inverse".toList, location := p, func := iparts.1,
               part0 := iparts.2.1, part1 := iparts.2.2, arg0 := none, arg1 := none,
               piece := piece,
               dep := env.cp_dependency iparts.2.1 ||| env.cp_dependency iparts.2.2 }] ∧
        (reflect_uniform env st i
            { name := "p3d_".toList ++ B ++ "Transpose".toList, param_size := param_size,
              param_type := param_type, location := p }).ctx.shader.mat_spec =
          st.ctx.shader.mat_spec ++
            [{ name := "p3d_".toList ++ B ++ "Transpose".toList, location := p, func := parts.1,
               part0 := parts.2.1, part1 := parts.2.2, arg0 := none, arg1 := none,
               piece := tpiece,
               dep := env.cp_dependency parts.2.1 ||| env.cp_dependency parts.2.2 }]) ∧
    (param_type.is_mat4 = true → ∀ s ∈ matrix_suffixes,
      (reflect_uniform env st i
          { name := "p3d_TextureMatrix".toList ++ s.1, param_size := param_size,
            param_type := param_type, location := p }).ctx.shader.mat_spec =
        st.ctx.shader.mat_spec ++ (List.range param_size.toNat).map (fun k =>
          { name := "p3d_TextureMatrix".toList ++ s.1
            location := if env.apple then p + ((0 + k : Nat) : Int) * 4
                        else p + ((0 + k : Nat) : Int)
            func := ShaderMatFunc.SMF_first
            part0 := if s.2.1 then ShaderMatInput.SMO_inv_texmat_i
                     else ShaderMatInput.SMO_texmat_i
            part1 := ShaderMatInput.SMO_identity
            arg0 := none, arg1 := none
            piece := if s.2.2 then ShaderMatPiece.SMP_transpose else ShaderMatPiece.SMP_whole
            index := ((0 + k : Nat) : Int)
            dep := env.cp_dependency (if s.2.1 then ShaderMatInput.SMO_inv_texmat_i
                     else ShaderMatInput.SMO_texmat_i)
              ||| env.cp_dependency ShaderMatInput.SMO_identity })) ∧
    (∀ (name mn : CStr) (transpose inverse : Bool) (index : Int) (piece : ShaderMatPiece),
      matrix_piece param_type transpose = some piece →
      mn.length > 15 → mn.take 12 = "LightSource[".toList →
      sscanf_light_source mn = some (index, "shadowViewMatrix".toList) →
      (reflect_matrix env st i name param_size param_type p mn transpose
          inverse).ctx.shader.mat_spec =
        st.ctx.shader.mat_spec ++
          [{ name := name, location := p, func := ShaderMatFunc.SMF_first,
             part0 := ShaderMatInput.SMO_light_source_i_attrib,
             arg0 := some (if inverse then "shadowViewMatrixInverse".toList
                           else "shadowViewMatrix".toList),
             part1 := ShaderMatInput.SMO_identity, arg1 := none, piece := piece, index := index,
             dep := env.cp_dependency ShaderMatInput.SMO_light_source_i_attrib
               ||| env.cp_dependency ShaderMatInput.SMO_identity }]) := by
  refine ⟨?_, ?_, ?_⟩
  · have key : ∀ B ∈ simple_matrix_names,
        (simple_matrix B false).isSome = true ∧
        (simple_matrix B false).bind inverse_parts = simple_matrix B true ∧
        ((simple_matrix B false).bind inverse_parts).isSome = true ∧
        (∀ s ∈ matrix_suffixes,
          parse_matrix_suffix (B ++ s.1) = (B, s.2.2, s.2.1) ∧ is_matrix_name B = true ∧
          ("p3d_".toList ++ B ++ s.1).take 6 ≠ "_main_".toList ∧
          strip_array_suffix ("p3d_".toList ++ B ++ s.1) = "p3d_".toList ++ B ++ s.1 ∧
          ("p3d_".toList ++ B ++ s.1).take 4 = "p3d_".toList ∧
          ("p3d_".toList ++ B ++ s.1).drop 4 = B ++ s.1) := by
      decide
    intro B hB piece tpiece hpiece htpiece
    obtain ⟨k1, k2, k3, k4⟩ := key B hB
    obtain ⟨parts, hparts⟩ := Option.isSome_iff_exists.mp k1
    rw [hparts] at k2 k3
    simp only [Option.some_bind] at k2 k3
    obtain ⟨iparts, hiparts⟩ := Option.isSome_iff_exists.mp k3
    refine ⟨parts, iparts, hparts, hiparts, matrix_piece_transpose _ _ _ hpiece htpiece,
      ?_, ?_, ?_⟩
    · obtain ⟨h1, h2, h3, h4, h5, h6⟩ := k4 ([], false, false) (by decide)
      simp only [List.append_nil] at h1 h3 h4 h5 h6
      rw [reflect_uniform_matrix env st i _ param_size param_type p B false false h3 h4 h5
        (by rw [h6]; exact h1) h2 hp]
      exact reflect_matrix_simple env st i _ param_size param_type p B false false piece parts
        hpiece hparts
    · obtain ⟨h1, h2, h3, h4, h5, h6⟩ := k4 ("Inverse".toList, true, false) (by decide)
      rw [reflect_uniform_matrix env st i _ param_size param_type p B false true h3 h4 h5
        (by rw [h6]; exact h1) h2 hp]
      exact reflect_matrix_simple env st i _ param_size param_type p B false true piece iparts
        hpiece (by rw [← k2, hiparts])
    · obtain ⟨h1, h2, h3, h4, h5, h6⟩ := k4 ("Transpose".toList, false, true) (by decide)
      rw [reflect_uniform_matrix env st i _ param_size param_type p B true false h3 h4 h5
        (by rw [h6]; exact h1) h2 hp]
      exact reflect_matrix_simple env st i _ param_size param_type p B true false tpiece parts
        htpiece hparts
  · intro hm4 s hs
    have key : ∀ s ∈ matrix_suffixes,
        parse_matrix_suffix ("TextureMatrix".toList ++ s.1)
          = ("TextureMatrix".toList, s.2.2, s.2.1) ∧
        ("p3d_TextureMatrix".toList ++ s.1).take 6 ≠ "_main_".toList ∧
        strip_array_suffix ("p3d_TextureMatrix".toList ++ s.1)
          = "p3d_TextureMatrix".toList ++ s.1 ∧
        ("p3d_TextureMatrix".toList ++ s.1).take 4 = "p3d_".toList ∧
        ("p3d_TextureMatrix".toList ++ s.1).drop 4 = "TextureMatrix".toList ++ s.1 := by
      decide
    obtain ⟨h1, h3, h4, h5, h6⟩ := key s hs
    rw [reflect_uniform_matrix env st i _ param_size param_type p "TextureMatrix".toList
      s.2.2 s.2.1 h3 h4 h5 (by rw [h6]; exact h1) (by decide) hp]
    have hpc : matrix_piece param_type s.2.2 =
        some (if s.2.2 = true then ShaderMatPiece.SMP_transpose else ShaderMatPiece.SMP_whole) := by
      unfold matrix_piece
      cases param_type <;> simp [GLType.is_mat4] at hm4 ⊢
    have hsm : simple_matrix "TextureMatrix".toList s.2.1 = none := by
      cases s.2.1 <;> decide
    unfold reflect_matrix
    simp only [hpc, hsm, if_true, hm4, Bool.not_true, Bool.false_eq_true, if_false]
    rw [add_texture_matrices_spec]
  · intro name mn transpose inverse index piece hpiece hlen htake hscan
    obtain ⟨hsm, hne⟩ := light_source_not_simple mn inverse htake
    unfold reflect_matrix
    simp only [hpiece, hsm, if_neg hne, hlen, htake, and_self, if_true, hscan]
    unfold reflect_light_matrix
    rw [if_pos rfl]
    cases inverse <;> rfl

/-- C5, amended, at a sample input: `p3d_TextureMatrixInverse`, a `mat4[2]` at
location 3, gives two bindings that read `inv_texmat_i`. -/
theorem reflect_uniform_matrix_suffixes_witness :
    (0 : Int) ≤ 3 ∧
    (reflect_uniform sample_reflect_env { } 0
        { name := "p3d_TextureMatrixInverse".toList, param_size := 2,
          param_type := GLType.GL_FLOAT_MAT4, location := 3 }).ctx.shader.mat_spec.map
        (fun b => (b.location, b.index, b.func, b.part0, b.part1, b.piece)) =
      [(3, 0, ShaderMatFunc.SMF_first, ShaderMatInput.SMO_inv_texmat_i,
          ShaderMatInput.SMO_identity, ShaderMatPiece.SMP_whole),
       (4, 1, ShaderMatFunc.SMF_first, ShaderMatInput.SMO_inv_texmat_i,
          ShaderMatInput.SMO_identity, ShaderMatPiece.SMP_whole)] ∧
    ∃ parts iparts,
      simple_matrix "ViewMatrix".toList false = some parts ∧
      inverse_parts parts = some iparts ∧
      (reflect_uniform sample_reflect_env { } 0
          { name := "p3d_".toList ++ "ViewMatrix".toList ++ "Inverse".toList, param_size := 1,
            param_type := GLType.GL_FLOAT_MAT4, location := 3 }).ctx.shader.mat_spec =
        ({ } : ReflectState).ctx.shader.mat_spec ++
          [{ name := "p3d_".toList ++ "ViewMatrix".toList ++ "Inverse".toList, location := 3,
             func := iparts.1, part0 := iparts.2.1, part1 := iparts.2.2, arg0 := none,
             arg1 := none, piece := ShaderMatPiece.SMP_whole,
             dep := sample_reflect_env.cp_dependency iparts.2.1
               ||| sample_reflect_env.cp_dependency iparts.2.2 }] :=
  ⟨by decide, by decide,
    ((reflect_uniform_matrix_suffixes sample_reflect_env { } 0 1 GLType.GL_FLOAT_MAT4 3
        (by decide)).1 "ViewMatrix".toList (by decide) ShaderMatPiece.SMP_whole
        ShaderMatPiece.SMP_transpose rfl rfl).imp
      (fun _ h => h.imp (fun _ h' => ⟨h'.1, h'.2.1, h'.2.2.2.2.1⟩))⟩

/-! ### C12 -/

/-- C12, at the failing input: `p3d_Fog.bogus`, a `float` at location 3, is no
field of the fog; no error is logged, and a binding with the part and the piece
never assigned enters the matrix/state table. -/
theorem reflect_uniform_unknown_fog_field :
    (reflect_uniform sample_reflect_env { } 0
        { name := "p3d_Fog.bogus".toList, param_size := 1, param_type := GLType.GL_FLOAT,
          location := 3 }).ctx.shader.mat_spec =
      [{ name := "p3d_Fog.bogus".toList, location := 3, func := ShaderMatFunc.SMF_first,
         part0 := ShaderMatInput.SMO_INVALID, part1 := ShaderMatInput.SMO_identity,
         arg0 := none, arg1 := none, piece := ShaderMatPiece.SMP_INVALID, dep := 0 }] ∧
    (reflect_uniform sample_reflect_env { } 0
        { name := "p3d_Fog.bogus".toList, param_size := 1, param_type := GLType.GL_FLOAT,
          location := 3 }).calls = [] ∧
    (reflect_uniform sample_reflect_env { } 0
        { name := "p3d_Material.bogus".toList, param_size := 1, param_type := GLType.GL_FLOAT,
          location := 3 }).ctx.shader.mat_spec = [] ∧
    (reflect_uniform sample_reflect_env { } 0
        { name := "p3d_Material.bogus".toList, param_size := 1, param_type := GLType.GL_FLOAT,
          location := 3 }).calls =
      [(0, ReflectCall.error "Unrecognized uniform name" "p3d_Material.bogus".toList)] := by
  decide

/-! ### C13 -/

/-- C13, at the failing input: `p3d_Material.ambient` declared `float` at location
3 is reported, and its binding enters the matrix/state table all the same;
`p3d_Fog.density` declared `vec4` is reported and dropped. -/
theorem reflect_uniform_material_wrong_type :
    (reflect_uniform sample_reflect_env { } 0
        { name := "p3d_Material.ambient".toList, param_size := 1, param_type := GLType.GL_FLOAT,
          location := 3 }).calls =
      [(0, ReflectCall.error "p3d_Material.ambient should be vec4" [])] ∧
    (reflect_uniform sample_reflect_env { } 0
        { name := "p3d_Material.ambient".toList, param_size := 1, param_type := GLType.GL_FLOAT,
          location := 3 }).ctx.shader.mat_spec =
      [{ name := "p3d_Material.ambient".toList, location := 3, func := ShaderMatFunc.SMF_first,
         part0 := ShaderMatInput.SMO_attr_material, part1 := ShaderMatInput.SMO_identity,
         arg0 := none, arg1 := none, piece := ShaderMatPiece.SMP_row0, dep := 0x010 }] ∧
    (reflect_uniform sample_reflect_env { } 0
        { name := "p3d_Fog.density".toList, param_size := 1,
          param_type := GLType.GL_FLOAT_VEC4, location := 3 }).calls =
      [(0, ReflectCall.error "p3d_Fog.density should be float" [])] ∧
    (reflect_uniform sample_reflect_env { } 0
        { name := "p3d_Fog.density".toList, param_size := 1,
          param_type := GLType.GL_FLOAT_VEC4, location := 3 }).ctx.shader.mat_spec = [] := by
  decide

theorem get_sampler_texture_type_not_image (env : ReflectEnv) (t : GLType) (tt : TextureType)
    (h : (get_sampler_texture_type env t).1 = some tt) : t.is_image = false := by
  cases t <;> first | rfl | cases h

theorem unit_pushes_log_all (env : ReflectEnv) (t : GLType) (i : Nat) :
    unit_pushes ((get_sampler_texture_type env t).2.map (fun c => (i, c))) = [] := by
  cases t <;>
    first
    | rfl
    | (simp only [get_sampler_texture_type]; repeat' split) <;> rfl

theorem unit_pushes_append (a b : List (Nat × ReflectCall)) :
    unit_pushes (a ++ b) = unit_pushes a ++ unit_pushes b := by
  simp [unit_pushes]

theorem quiet_step_refl (i : Nat) (st : ReflectState) : quiet_step i st st :=
  ⟨[], by simp, by simp, rfl, rfl, rfl⟩

theorem quiet_step_trans {i : Nat} {a b c : ReflectState} (h1 : quiet_step i a b)
    (h2 : quiet_step i b c) : quiet_step i a c := by
  obtain ⟨n1, hc1, ht1, hx1, hp1, hu1⟩ := h1
  obtain ⟨n2, hc2, ht2, hx2, hp2, hu2⟩ := h2
  refine ⟨n1 ++ n2, by rw [hc2, hc1, List.append_assoc], ?_, hx2.trans hx1, hp2.trans hp1, ?_⟩
  · intro c hc
    rcases List.mem_append.mp hc with h | h
    · exact ht1 c h
    · exact ht2 c h
  · rw [unit_pushes_append, hu1, hu2]; rfl

theorem quiet_step_log (i : Nat) (st : ReflectState) (c : ReflectCall) (hc : c.unit = none) :
    quiet_step i st (st.log i c) :=
  ⟨[(i, c)], rfl, by simp, rfl, rfl, by simp [unit_pushes, hc]⟩

theorem quiet_step_log_all (env : ReflectEnv) (t : GLType) (i : Nat) (st : ReflectState) :
    quiet_step i st (st.log_all i (get_sampler_texture_type env t).2) :=
  ⟨_, rfl, by simp, rfl, rfl, unit_pushes_log_all env t i⟩

theorem quiet_step_add_mat (env : ReflectEnv) (i : Nat) (st : ReflectState)
    (bind : ShaderMatSpec) : quiet_step i st (st.add_mat env bind) :=
  ⟨[], by simp [ReflectState.add_mat], by simp, rfl, rfl, rfl⟩

theorem quiet_step_warned_light (i : Nat) (st : ReflectState) (b : Bool) :
    quiet_step i st { st with warned_light_source := b } :=
  ⟨[], by simp, by simp, rfl, rfl, rfl⟩

theorem quiet_step_warned_named (i : Nat) (st : ReflectState) (b : Bool) :
    quiet_step i st { st with warned_named := b } :=
  ⟨[], by simp, by simp, rfl, rfl, rfl⟩

theorem quiet_step_add_texture_matrices (env : ReflectEnv) (i : Nat) (bind : ShaderMatSpec)
    (p : Int) (n : Nat) :
    ∀ (index : Nat) (st : ReflectState),
      quiet_step i st (add_texture_matrices env bind p index n st) := by
  induction n with
  | zero => intro index st; exact quiet_step_refl i st
  | succ n ih =>
      intro index st
      exact quiet_step_trans (quiet_step_add_mat env i st _) (ih (index + 1) _)

theorem quiet_step_add_clip_planes (env : ReflectEnv) (i : Nat) (name : CStr)
    (p : Int) (n : Nat) :
    ∀ (index : Nat) (st : ReflectState),
      quiet_step i st (add_clip_planes env name p index n st) := by
  induction n with
  | zero => intro index st; exact quiet_step_refl i st
  | succ n ih =>
      intro index st
      exact quiet_step_trans (quiet_step_add_mat env i st _) (ih (index + 1) _)

theorem reflect_light_matrix_quiet (env : ReflectEnv) (st : ReflectState) (i : Nat)
    (bind : ShaderMatSpec) (matrix_name : CStr) (inverse : Bool) (index : Int)
    (member : CStr) :
    quiet_step i st (reflect_light_matrix env st i bind matrix_name inverse index member) := by
  unfold reflect_light_matrix
  dsimp only
  repeat' first
    | exact quiet_step_refl _ _
    | exact quiet_step_log _ _ _ rfl
    | exact quiet_step_add_mat _ _ _ _
    | exact quiet_step_add_texture_matrices _ _ _ _ _ _ _
    | exact quiet_step_add_clip_planes _ _ _ _ _ _ _
    | exact quiet_step_trans (quiet_step_log _ _ _ rfl) (quiet_step_warned_light _ _ _)
    | exact quiet_step_trans (quiet_step_log _ _ _ rfl) (quiet_step_warned_named _ _ _)
    | refine quiet_step_trans ?_ (quiet_step_add_mat _ _ _ _)
    | split

theorem reflect_matrix_quiet (env : ReflectEnv) (st : ReflectState) (i : Nat) (name : CStr)
    (param_size : Int) (param_type : GLType) (p : Int) (matrix_name : CStr)
    (transpose inverse : Bool) :
    quiet_step i st
      (reflect_matrix env st i name param_size param_type p matrix_name transpose inverse) := by
  unfold reflect_matrix
  dsimp only
  repeat' first
    | exact quiet_step_refl _ _
    | exact quiet_step_log _ _ _ rfl
    | exact quiet_step_add_mat _ _ _ _
    | exact quiet_step_add_texture_matrices _ _ _ _ _ _ _
    | exact reflect_light_matrix_quiet _ _ _ _ _ _ _ _
    | refine quiet_step_trans ?_ (quiet_step_add_mat _ _ _ _)
    | split

theorem reflect_material_quiet (env : ReflectEnv) (st : ReflectState) (i : Nat) (name : CStr)
    (param_type : GLType) (p : Int) ( noprefix : CStr) (r : ReflectState)
    (h : reflect_material env st i name param_type p noprefix = some r) :
    quiet_step i st r := by
  unfold reflect_material at h
  split at h
  · cases h
  · simp only [Option.some.injEq] at h
    subst h
    refine quiet_step_trans ?_ (quiet_step_add_mat env i _ _)
    split
    · exact quiet_step_log i st _ rfl
    · exact quiet_step_refl i st

theorem reflect_color_quiet (env : ReflectEnv) (st : ReflectState) (i : Nat) (name : CStr)
    (param_type : GLType) (p : Int) (part : ShaderMatInput) (msg : String) :
    quiet_step i st (reflect_color env st i name param_type p part msg) := by
  unfold reflect_color
  repeat' first
    | exact quiet_step_refl _ _
    | exact quiet_step_log _ _ _ rfl
    | exact quiet_step_add_mat _ _ _ _
    | exact quiet_step_add_texture_matrices _ _ _ _ _ _ _
    | exact quiet_step_add_clip_planes _ _ _ _ _ _ _
    | exact quiet_step_trans (quiet_step_log _ _ _ rfl) (quiet_step_warned_light _ _ _)
    | exact quiet_step_trans (quiet_step_log _ _ _ rfl) (quiet_step_warned_named _ _ _)
    | refine quiet_step_trans ?_ (quiet_step_add_mat _ _ _ _)
    | split

theorem reflect_fog_quiet (env : ReflectEnv) (st : ReflectState) (i : Nat) (name : CStr)
    (param_type : GLType) (p : Int) ( noprefix : CStr) :
    quiet_step i st (reflect_fog env st i name param_type p noprefix) := by
  unfold reflect_fog
  dsimp only
  repeat' first
    | exact quiet_step_refl _ _
    | exact quiet_step_log _ _ _ rfl
    | exact quiet_step_add_mat _ _ _ _
    | exact quiet_step_add_texture_matrices _ _ _ _ _ _ _
    | exact quiet_step_add_clip_planes _ _ _ _ _ _ _
    | exact quiet_step_trans (quiet_step_log _ _ _ rfl) (quiet_step_warned_light _ _ _)
    | exact quiet_step_trans (quiet_step_log _ _ _ rfl) (quiet_step_warned_named _ _ _)
    | refine quiet_step_trans ?_ (quiet_step_add_mat _ _ _ _)
    | split

theorem reflect_tables_quiet (env : ReflectEnv) (st : ReflectState) (i : Nat) (name : CStr)
    (param_size : Int) (param_type : GLType) (p : Int) ( noprefix : CStr) :
    quiet_step i st (reflect_tables env st i name param_size param_type p noprefix) := by
  unfold reflect_tables
  dsimp only
  repeat' first
    | exact quiet_step_refl _ _
    | exact quiet_step_log _ _ _ rfl
    | exact quiet_step_add_mat _ _ _ _
    | exact quiet_step_add_texture_matrices _ _ _ _ _ _ _
    | exact quiet_step_add_clip_planes _ _ _ _ _ _ _
    | exact quiet_step_trans (quiet_step_log _ _ _ rfl) (quiet_step_warned_light _ _ _)
    | exact quiet_step_trans (quiet_step_log _ _ _ rfl) (quiet_step_warned_named _ _ _)
    | refine quiet_step_trans ?_ (quiet_step_add_mat _ _ _ _)
    | split

theorem reflect_osg_quiet (env : ReflectEnv) (st : ReflectState) (i : Nat) (name : CStr)
    (param_type : GLType) (p : Int) :
    quiet_step i st (reflect_osg env st i name param_type p) := by
  unfold reflect_osg
  dsimp only
  repeat' first
    | exact quiet_step_refl _ _
    | exact quiet_step_log _ _ _ rfl
    | exact quiet_step_add_mat _ _ _ _
    | exact quiet_step_add_texture_matrices _ _ _ _ _ _ _
    | exact quiet_step_add_clip_planes _ _ _ _ _ _ _
    | exact quiet_step_trans (quiet_step_log _ _ _ rfl) (quiet_step_warned_light _ _ _)
    | exact quiet_step_trans (quiet_step_log _ _ _ rfl) (quiet_step_warned_named _ _ _)
    | refine quiet_step_trans ?_ (quiet_step_add_mat _ _ _ _)
    | split

theorem reflect_step_of_quiet (env : ReflectEnv) {i : Nat} (t : GLType) {st r : ReflectState}
    (h : quiet_step i st r) : reflect_step env i t st r := by
  obtain ⟨new, hc, ht, hx, hp, hu⟩ := h
  exact ⟨new, hc, ht, Or.inl ⟨hx, fun b hb => Or.inl (hp ▸ hb), hu⟩⟩

theorem reflect_step_add_tex (env : ReflectEnv) {i : Nat} (t : GLType) {st s : ReflectState}
    (p : Int) (b : ShaderTexSpec) (h : quiet_step i st s) (himg : t.is_image = false)
    (hloc : b.location = p) : reflect_step env i t st (s.add_tex i p b) := by
  obtain ⟨new, hc, ht, hx, hp, hu⟩ := h
  refine ⟨new ++ [(i, ReflectCall.glUniform1i p (s.ctx.shader.tex_spec.length : Int))], ?_, ?_,
    Or.inr (Or.inl ⟨himg, hp, b, ?_, ?_⟩)⟩
  · simp [ReflectState.add_tex, hc]
  · intro c hc
    rcases List.mem_append.mp hc with h | h
    · exact ht c h
    · simp at h; rw [h]
  · simp [ReflectState.add_tex, hx]
  · rw [unit_pushes_append, hu, hloc, hx]; rfl

theorem ptr_dims_valid (t : GLType)
    (h : t.is_integral = true ∨ t.is_float_vector = true ∨ t.is_mat3 = true ∨ t.is_mat4 = true) :
    ∃ d ty, ptr_dims t = some d ∧ ptr_type t = some ty ∧ d.1 ≥ 1 ∧ d.2 ∈ [1, 2, 3, 4] ∧
      d.1 * d.2 ∈ [1, 2, 3, 4, 9, 16] ∧ (d.1 * d.2 ∈ [9, 16] → ty = ScalarType.ST_float) := by
  cases t <;>
    first
    | exact ⟨_, _, rfl, rfl, by decide⟩
    | (rcases h with h | h | h | h <;> cases h)

theorem make_ptr_spec_valid_dims (name : CStr) (p : Int) (dim0 : Nat) (t : GLType)
    (h : t.is_integral = true ∨ t.is_float_vector = true ∨ t.is_mat3 = true ∨ t.is_mat4 = true) :
    (make_ptr_spec name p dim0 t).valid_dims := by
  obtain ⟨d, ty, hd, hty, h1, h2, h3, h4⟩ := ptr_dims_valid t h
  unfold ShaderPtrSpec.valid_dims make_ptr_spec
  simp only [hd, hty]
  exact ⟨h1, h2, h3, h4⟩

theorem reflect_step_add_ptr (env : ReflectEnv) (i : Nat) (t : GLType) (st : ReflectState)
    (b : ShaderPtrSpec) (h : b.valid_dims) : reflect_step env i t st (st.add_ptr b) := by
  refine ⟨[], by simp [ReflectState.add_ptr], by simp, Or.inl ⟨rfl, ?_, rfl⟩⟩
  intro c hc
  simp only [ReflectState.add_ptr, List.mem_append, List.mem_singleton] at hc
  rcases hc with hc | hc
  · exact Or.inl hc
  · exact Or.inr (hc ▸ h)

theorem reflect_step_bind_parameter (env : ReflectEnv) (i : Nat) (t : GLType)
    (st : ReflectState) (name : CStr) (p : Int) :
    reflect_step env i t st (st.bind_parameter env name p) :=
  ⟨[], by simp [ReflectState.bind_parameter], by simp,
    Or.inr (Or.inr (Or.inr ⟨name, p, rfl, rfl⟩))⟩

theorem reflect_texture_stage_step (env : ReflectEnv) (st : ReflectState) (i : Nat)
    (name : CStr) (param_type : GLType) (p : Int) ( noprefix : CStr) :
    reflect_step env i param_type st
      (reflect_texture_stage env st i name param_type p noprefix) := by
  unfold reflect_texture_stage
  dsimp only
  split
  · exact reflect_step_of_quiet env _ (quiet_step_log _ _ _ rfl)
  · split
    · rename_i tt htt
      exact reflect_step_add_tex env _ p _ (quiet_step_log_all env _ _ _)
        (get_sampler_texture_type_not_image env _ tt htt) rfl
    · exact reflect_step_of_quiet env _
        (quiet_step_trans (quiet_step_log_all env _ _ _) (quiet_step_log _ _ _ rfl))

theorem reflect_light_source_step (env : ReflectEnv) (st : ReflectState) (i : Nat)
    (name : CStr) (param_type : GLType) (p : Int) (index : Int) (member : CStr) :
    reflect_step env i param_type st
      (reflect_light_source env st i name param_type p index member) := by
  unfold reflect_light_source
  split
  · split
    · split
      · rename_i tt htt
        exact reflect_step_add_tex env _ p _ (quiet_step_log_all env _ _ _)
          (get_sampler_texture_type_not_image env _ tt htt) rfl
      · exact reflect_step_of_quiet env _ (quiet_step_log_all env _ _ _)
    · exact reflect_step_of_quiet env _ (quiet_step_log _ _ _ rfl)
  · split
    · exact reflect_step_of_quiet env _ (quiet_step_add_mat _ _ _ _)
    · exact reflect_step_of_quiet env _ (quiet_step_log _ _ _ rfl)

theorem reflect_p3d_step (env : ReflectEnv) (st : ReflectState) (i : Nat) (name : CStr)
    (param_size : Int) (param_type : GLType) (p : Int) :
    reflect_step env i param_type st (reflect_p3d env st i name param_size param_type p) := by
  unfold reflect_p3d
  dsimp only
  split
  · exact reflect_step_of_quiet env _ (reflect_matrix_quiet _ _ _ _ _ _ _ _ _ _)
  · split
    · exact reflect_texture_stage_step _ _ _ _ _ _ _
    · split
      · rename_i r hr
        split at hr
        · exact reflect_step_of_quiet env _ (reflect_material_quiet _ _ _ _ _ _ _ _ hr)
        · cases hr
      · repeat' first
          | exact reflect_step_of_quiet env _ (reflect_color_quiet _ _ _ _ _ _ _ _)
          | exact reflect_step_of_quiet env _ (quiet_step_log _ _ _ rfl)
          | exact reflect_step_of_quiet env _ (quiet_step_add_clip_planes _ _ _ _ _ _ _)
          | exact reflect_step_of_quiet env _ (reflect_fog_quiet _ _ _ _ _ _ _)
          | exact reflect_light_source_step _ _ _ _ _ _ _ _
          | exact reflect_step_of_quiet env _ (reflect_tables_quiet _ _ _ _ _ _ _ _)
          | split

theorem reflect_single_step (env : ReflectEnv) (st : ReflectState) (i : Nat) (name : CStr)
    (param_type : GLType) (p : Int) :
    reflect_step env i param_type st (reflect_single env st i name param_type p) := by
  unfold reflect_single
  split
  · split
    · rename_i tt htt
      exact reflect_step_add_tex env _ p _ (quiet_step_log_all env _ _ _)
        (get_sampler_texture_type_not_image env _ tt htt) rfl
    · exact reflect_step_of_quiet env _ (quiet_step_log_all env _ _ _)
  · split
    · exact reflect_step_of_quiet env _ (quiet_step_log _ _ _ rfl)
    · split
      · split
        · exact reflect_step_of_quiet env _ (quiet_step_add_mat _ _ _ _)
        · exact reflect_step_bind_parameter _ _ _ _ _ _
      · split
        · split
          · split
            · refine reflect_step_of_quiet env _
                (quiet_step_trans ?_ (quiet_step_add_mat _ _ _ _))
              split
              · exact quiet_step_log _ _ _ rfl
              · exact quiet_step_refl _ _
            · exact reflect_step_of_quiet env _ (quiet_step_add_mat _ _ _ _)
          · exact reflect_step_bind_parameter _ _ _ _ _ _
        · split
          · split
            · exact reflect_step_of_quiet env _ (quiet_step_add_mat _ _ _ _)
            · exact reflect_step_bind_parameter _ _ _ _ _ _
          · split
            · rename_i hint
              exact reflect_step_add_ptr _ _ _ _ _
                (make_ptr_spec_valid_dims _ _ _ _ (Or.inl hint))
            · split
              · rename_i himg
                exact ⟨_, rfl, by simp, Or.inr (Or.inr (Or.inl ⟨himg, rfl, rfl⟩))⟩
              · exact reflect_step_of_quiet env _ (quiet_step_log _ _ _ rfl)

theorem reflect_array_step (env : ReflectEnv) (st : ReflectState) (i : Nat) (name : CStr)
    (param_size : Int) (param_type : GLType) (p : Int) :
    reflect_step env i param_type st (reflect_array st i name param_size param_type p) := by
  unfold reflect_array
  split
  · exact reflect_step_of_quiet env _ (quiet_step_log _ _ _ rfl)
  · split
    · rename_i h
      exact reflect_step_add_ptr _ _ _ _ _ (make_ptr_spec_valid_dims _ _ _ _ h)
    · exact reflect_step_of_quiet env _ (quiet_step_log _ _ _ rfl)

theorem reflect_uniform_step (env : ReflectEnv) (st : ReflectState) (i : Nat)
    (u : ActiveUniform) :
    reflect_step env i u.param_type st (reflect_uniform env st i u) := by
  unfold reflect_uniform
  dsimp only
  split
  · exact reflect_step_of_quiet env _ (quiet_step_refl _ _)
  · split
    · exact reflect_step_of_quiet env _ (quiet_step_refl _ _)
    · split
      · exact reflect_p3d_step _ _ _ _ _ _ _
      · split
        · exact reflect_step_of_quiet env _ (reflect_osg_quiet _ _ _ _ _ _)
        · split
          · exact reflect_single_step _ _ _ _ _ _
          · exact reflect_array_step _ _ _ _ _ _ _

/-! ### C14 -/

theorem unit_pushes_filter_nil (f : Nat × ReflectCall → Bool) (l : List (Nat × ReflectCall))
    (h : unit_pushes l = []) : unit_pushes (l.filter f) = [] := by
  induction l with
  | nil => rfl
  | cons c rest ih =>
    simp only [unit_pushes, List.filterMap_cons] at h
    cases hu : c.2.unit with
    | some v => rw [hu] at h; cases h
    | none =>
      rw [hu] at h
      by_cases hf : f c = true
      · rw [List.filter_cons_of_pos hf]
        simp only [unit_pushes, List.filterMap_cons, hu]
        exact ih h
      · rw [List.filter_cons_of_neg hf]
        exact ih h

theorem sampler_pushes_append (img : Nat → Bool) (a b : List (Nat × ReflectCall)) :
    sampler_pushes img (a ++ b) = sampler_pushes img a ++ sampler_pushes img b := by
  simp [sampler_pushes, unit_pushes_append]

theorem filter_all_of_tag (img : Nat → Bool) (i : Nat) (l : List (Nat × ReflectCall))
    (ht : ∀ c ∈ l, c.1 = i) (h : img i = false) : l.filter (fun c => !img c.1) = l := by
  apply List.filter_eq_self.mpr
  intro c hc
  rw [ht c hc, h]; rfl

theorem filter_none_of_tag (img : Nat → Bool) (i : Nat) (l : List (Nat × ReflectCall))
    (ht : ∀ c ∈ l, c.1 = i) (h : img i = true) : l.filter (fun c => !img c.1) = [] := by
  apply List.filter_eq_nil_iff.mpr
  intro c hc
  rw [ht c hc, h]; simp

theorem units_from_append (a b : List ShaderTexSpec) :
    ∀ k, units_from k (a ++ b) = units_from k a ++ units_from (k + a.length) b := by
  induction a with
  | nil => intro k; simp [units_from]
  | cons x rest ih =>
    intro k
    have e : k + 1 + rest.length = k + (rest.length + 1) := by omega
    show (x.location, (k : Int)) :: units_from (k + 1) (rest ++ b) = _
    rw [ih (k + 1), e]
    rfl

theorem units_from_length (l : List ShaderTexSpec) : ∀ k, (units_from k l).length = l.length := by
  induction l with
  | nil => intro k; rfl
  | cons x rest ih => intro k; simp [units_from, ih]

theorem units_from_get (l : List ShaderTexSpec) :
    ∀ (k j : Nat) (b : ShaderTexSpec), l[j]? = some b →
      (units_from k l)[j]? = some (b.location, ((k + j : Nat) : Int)) := by
  induction l with
  | nil => intro k j b h; simp at h
  | cons x rest ih =>
    intro k j b h
    cases j with
    | zero =>
      simp only [List.getElem?_cons_zero, Option.some.injEq] at h
      simp [units_from, h]
    | succ j =>
      simp only [List.getElem?_cons_succ] at h
      simp only [units_from, List.getElem?_cons_succ]
      rw [ih (k + 1) j b h]
      have : k + 1 + j = k + (j + 1) := by omega
      rw [this]

/-- One `reflect_uniform`: the `glUniform1i` calls made for a uniform that is no
image are those of the texture bindings it adds, each with its table index. -/
theorem reflect_uniform_units (env : ReflectEnv)
    (hbp : ∀ s name p, (env.bind_parameter s name p).tex_spec = s.tex_spec)
    (img : Nat → Bool) (st : ReflectState) (i : Nat) (u : ActiveUniform)
    (himg : img i = u.param_type.is_image) :
    ∃ new added, (reflect_uniform env st i u).calls = st.calls ++ new ∧
      (reflect_uniform env st i u).ctx.shader.tex_spec = st.ctx.shader.tex_spec ++ added ∧
      sampler_pushes img new = units_from st.ctx.shader.tex_spec.length added := by
  obtain ⟨new, hc, ht, h⟩ := reflect_uniform_step env st i u
  rcases h with ⟨hx, -, hu⟩ | ⟨hi, -, b, hx, hu⟩ | ⟨hi, hx, -⟩ | ⟨name, p, hs, hn⟩
  · exact ⟨new, [], hc, by simp [hx], unit_pushes_filter_nil _ _ hu⟩
  · refine ⟨new, [b], hc, hx, ?_⟩
    unfold sampler_pushes
    rw [filter_all_of_tag img i new ht (himg.trans hi), hu]
    rfl
  · refine ⟨new, [], hc, by simp [hx], ?_⟩
    unfold sampler_pushes
    rw [filter_none_of_tag img i new ht (himg.trans hi)]
    rfl
  · refine ⟨new, [], hc, ?_, ?_⟩
    · rw [hs, hbp]; simp
    · rw [hn]; rfl

theorem reflect_uniforms_units (env : ReflectEnv)
    (hbp : ∀ s name p, (env.bind_parameter s name p).tex_spec = s.tex_spec)
    (img : Nat → Bool) :
    ∀ (us : List ActiveUniform) (st : ReflectState) (i : Nat),
      (∀ j u, us[j]? = some u → img (i + j) = u.param_type.is_image) →
      ∃ new added, (reflect_uniforms env st i us).calls = st.calls ++ new ∧
        (reflect_uniforms env st i us).ctx.shader.tex_spec = st.ctx.shader.tex_spec ++ added ∧
        sampler_pushes img new = units_from st.ctx.shader.tex_spec.length added := by
  intro us
  induction us with
  | nil => intro st i _; exact ⟨[], [], by simp [reflect_uniforms], by simp [reflect_uniforms], rfl⟩
  | cons u rest ih =>
    intro st i himg
    obtain ⟨n1, a1, hc1, hx1, hu1⟩ :=
      reflect_uniform_units env hbp img st i u (by simpa using himg 0 u (by simp))
    obtain ⟨n2, a2, hc2, hx2, hu2⟩ := ih (reflect_uniform env st i u) (i + 1) (by
      intro j v hj
      have := himg (j + 1) v (by simpa using hj)
      have e : i + 1 + j = i + (j + 1) := by omega
      rw [e]; exact this)
    refine ⟨n1 ++ n2, a1 ++ a2, ?_, ?_, ?_⟩
    · simp only [reflect_uniforms]; rw [hc2, hc1, List.append_assoc]
    · simp only [reflect_uniforms]; rw [hx2, hx1, List.append_assoc]
    · rw [sampler_pushes_append, hu1, hu2, hx1, units_from_append, List.length_append]

/-- C14: when `bind_parameter` leaves the texture table alone, the `glUniform1i`
calls that `reflect_program` makes for the uniforms that are no images are, in
order, one for each binding of the texture table: the binding at index `k` gets
`glUniform1i(location, k)`, whatever its location, and there is no other such
call, so a sampler that is not accepted takes no unit. -/
theorem reflect_program_texture_units (env : ReflectEnv) (st : ReflectState)
    (us : List ActiveUniform)
    (hbp : ∀ s name p, (env.bind_parameter s name p).tex_spec = s.tex_spec) :
    ∃ new, (reflect_program env st us).calls = st.calls ++ new ∧
      (sampler_pushes (image_uniform us) new).length =
        (reflect_program env st us).ctx.shader.tex_spec.length ∧
      ∀ (k : Nat) (b : ShaderTexSpec),
        (reflect_program env st us).ctx.shader.tex_spec[k]? = some b →
        (sampler_pushes (image_uniform us) new)[k]? = some (b.location, (k : Int)) := by
  obtain ⟨new, added, hc, hx, hu⟩ := reflect_uniforms_units env hbp (image_uniform us) us
    { st with ctx := { st.ctx with
        shader := { st.ctx.shader with ptr_spec := [], mat_spec := [], tex_spec := [] } } } 0
    (by intro j u hj; simp [image_uniform, hj])
  simp only [List.nil_append, List.length_nil] at hx hu
  refine ⟨new, hc, ?_, ?_⟩
  · rw [hu, units_from_length]
    unfold reflect_program
    rw [hx]
  · intro k b hk
    unfold reflect_program at hk
    rw [hx] at hk
    rw [hu, units_from_get added 0 k b hk, Nat.zero_add]

theorem reflect_program_texture_units_witness :
    (∀ s name p, (sample_reflect_env.bind_parameter s name p).tex_spec = s.tex_spec) ∧
    ∃ new,
      (reflect_program sample_reflect_env { }
        [{ name := "shadow".toList, param_size := 1, param_type := GLType.GL_SAMPLER_2D,
           location := 7 },
         { name := "p3d_TextureX".toList, param_size := 1, param_type := GLType.GL_SAMPLER_2D,
           location := 5 },
         { name := "p3d_Texture0".toList, param_size := 1, param_type := GLType.GL_SAMPLER_2D,
           location := 2 }]).calls = ({ } : ReflectState).calls ++ new ∧
      (sampler_pushes (image_uniform
        [{ name := "shadow".toList, param_size := 1, param_type := GLType.GL_SAMPLER_2D,
           location := 7 },
         { name := "p3d_TextureX".toList, param_size := 1, param_type := GLType.GL_SAMPLER_2D,
           location := 5 },
         { name := "p3d_Texture0".toList, param_size := 1, param_type := GLType.GL_SAMPLER_2D,
           location := 2 }]) new).length =
        (reflect_program sample_reflect_env { }
        [{ name := "shadow".toList, param_size := 1, param_type := GLType.GL_SAMPLER_2D,
           location := 7 },
         { name := "p3d_TextureX".toList, param_size := 1, param_type := GLType.GL_SAMPLER_2D,
           location := 5 },
         { name := "p3d_Texture0".toList, param_size := 1, param_type := GLType.GL_SAMPLER_2D,
           location := 2 }]).ctx.shader.tex_spec.length ∧
      ∀ (k : Nat) (b : ShaderTexSpec),
        (reflect_program sample_reflect_env { }
        [{ name := "shadow".toList, param_size := 1, param_type := GLType.GL_SAMPLER_2D,
           location := 7 },
         { name := "p3d_TextureX".toList, param_size := 1, param_type := GLType.GL_SAMPLER_2D,
           location := 5 },
         { name := "p3d_Texture0".toList, param_size := 1, param_type := GLType.GL_SAMPLER_2D,
           location := 2 }]).ctx.shader.tex_spec[k]? = some b →
        (sampler_pushes (image_uniform
        [{ name := "shadow".toList, param_size := 1, param_type := GLType.GL_SAMPLER_2D,
           location := 7 },
         { name := "p3d_TextureX".toList, param_size := 1, param_type := GLType.GL_SAMPLER_2D,
           location := 5 },
         { name := "p3d_Texture0".toList, param_size := 1, param_type := GLType.GL_SAMPLER_2D,
           location := 2 }]) new)[k]? = some (b.location, (k : Int)) :=
  ⟨fun _ _ _ => rfl, reflect_program_texture_units sample_reflect_env { } _ (fun _ _ _ => rfl)⟩

/-! ### C29 -/

theorem reflect_uniforms_ptr_valid (env : ReflectEnv)
    (hbp : ∀ s name p, ∀ b ∈ (env.bind_parameter s name p).ptr_spec,
      b ∈ s.ptr_spec ∨ b.valid_dims) :
    ∀ (us : List ActiveUniform) (st : ReflectState) (i : Nat),
      ∀ b ∈ (reflect_uniforms env st i us).ctx.shader.ptr_spec,
        b ∈ st.ctx.shader.ptr_spec ∨ b.valid_dims := by
  intro us
  induction us with
  | nil => intro st i b hb; exact Or.inl hb
  | cons u rest ih =>
    intro st i b hb
    rcases ih (reflect_uniform env st i u) (i + 1) b hb with h | h
    · obtain ⟨new, -, -, hs⟩ := reflect_uniform_step env st i u
      rcases hs with ⟨-, hp, -⟩ | ⟨-, hp, -⟩ | ⟨-, -, hp⟩ | ⟨name, p, hs, -⟩
      · exact hp b h
      · exact Or.inl (hp ▸ h)
      · exact Or.inl (hp ▸ h)
      · rw [hs] at h; exact hbp _ name p b h
    · exact Or.inr h

theorem release_resources_no_assertion (ctx : Context) (c : GLCall)
    (hc : c ∈ (release_resources ctx).2) :
    c ≠ GLCall.division_by_zero ∧ c ≠ GLCall.assertion_failed := by
  unfold release_resources at hc
  split at hc
  · simp at hc
  · simp only [List.mem_append, List.mem_map, List.mem_singleton] at hc
    rcases hc with (hc | hc) | hc
    · split at hc
      · simp only [List.mem_append, List.mem_map, List.mem_singleton] at hc
        rcases hc with ⟨h, -, rfl⟩ | rfl <;> simp
      · simp at hc
    · obtain ⟨h, -, rfl⟩ := hc
      simp
    · rw [hc]; simp

theorem push_float_matches (dim : Nat) (p : Int) (n : Int) (data : List Int)
    (h : dim ∈ [1, 2, 3, 4, 9, 16]) : push_float dim p n data ≠ GLCall.assertion_failed := by
  simp only [List.mem_cons, List.mem_singleton, List.not_mem_nil, or_false] at h
  rcases h with h | h | h | h | h | h <;> subst h <;> simp [push_float]

theorem push_int_matches (dim : Nat) (p : Int) (n : Int) (data : List Int)
    (h : dim ∈ [1, 2, 3, 4]) : push_int dim p n data ≠ GLCall.assertion_failed := by
  simp only [List.mem_cons, List.mem_singleton, List.not_mem_nil, or_false] at h
  rcases h with h | h | h | h <;> subst h <;> simp [push_int]

theorem push_uint_matches (dim : Nat) (p : Int) (n : Int) (data : List Int)
    (h : dim ∈ [1, 2, 3, 4]) : push_uint dim p n data ≠ GLCall.assertion_failed := by
  simp only [List.mem_cons, List.mem_singleton, List.not_mem_nil, or_false] at h
  rcases h with h | h | h | h <;> subst h <;> simp [push_uint]

theorem valid_dims_small (b : ShaderPtrSpec) (h : b.valid_dims) :
    (b.dim1 * b.dim2) % 4294967296 = b.dim1 * b.dim2 ∧ b.dim1 * b.dim2 ≠ 0 ∧
      (b.type ≠ ScalarType.ST_float → b.dim1 * b.dim2 ∈ [1, 2, 3, 4]) := by
  obtain ⟨-, -, hprod, hf⟩ := h
  simp only [List.mem_cons, List.mem_singleton, List.not_mem_nil, or_false] at hprod hf ⊢
  refine ⟨?_, ?_, ?_⟩
  · rcases hprod with h | h | h | h | h | h <;> rw [h]
  · rcases hprod with h | h | h | h | h | h <;> rw [h] <;> decide
  · intro hne
    rcases hprod with h | h | h | h | h | h
    · exact Or.inl h
    · exact Or.inr (Or.inl h)
    · exact Or.inr (Or.inr (Or.inl h))
    · exact Or.inr (Or.inr (Or.inr h))
    · exact absurd (hf (Or.inl h)) hne
    · exact absurd (hf (Or.inr h)) hne

/-- The body of the pointer-data loop on a binding with valid dimensions: no
failed `nassertd(spec._dim[1] > 0)`, no division by zero, and a push that
matches a case whenever the kind of the source is one the float branch
accepts. -/
theorem ptr_outcome_valid_dims (gsg : GSG) (map : List Int) (b : ShaderPtrSpec)
    (h : b.valid_dims) :
    ptr_outcome gsg map b ≠ PtrOutcome.assert_dim ∧
    ptr_outcome gsg map b ≠ PtrOutcome.div_zero ∧
    ((∀ pd, gsg.fetch_ptr_parameter b = some pd →
        pd.type = ScalarType.ST_int ∨ pd.type = ScalarType.ST_uint ∨
        pd.type = ScalarType.ST_double ∨ pd.type = ScalarType.ST_float) →
      ptr_outcome gsg map b ≠ PtrOutcome.call GLCall.assertion_failed) := by
  obtain ⟨hmod, hne, hsmall⟩ := valid_dims_small b h
  have hd1 : b.dim1 ≠ 0 := by have := h.1; omega
  have hprod := h.2.2.1
  unfold ptr_outcome
  cases hf : gsg.fetch_ptr_parameter b with
  | none => simp
  | some pd =>
    simp only [hd1, if_false, hmod, hne]
    refine ⟨?_, ?_, ?_⟩
    · split
      · simp
      · unfold ptr_switch; cases b.type <;> simp <;> split <;> simp
    · split
      · simp
      · unfold ptr_switch; cases b.type <;> simp <;> split <;> simp
    · intro hacc
      have hk := hacc pd rfl
      split
      · simp
      · unfold ptr_switch
        cases ht : b.type with
        | ST_unknown => simp
        | ST_double => simp
        | ST_float =>
          simp only
          cases hfd : float_data gsg pd
              (min b.dim0 ((pd.size / (b.dim1 * b.dim2)) % 4294967296)) (b.dim1 * b.dim2) with
          | none =>
            unfold float_data at hfd
            rcases hk with hk | hk | hk | hk <;> rw [hk] at hfd <;> simp at hfd
          | some data =>
            simp only [ne_eq, PtrOutcome.call.injEq]
            exact push_float_matches _ _ _ _ hprod
        | ST_bool =>
          simp only
          cases hfd : float_data gsg pd
              (min b.dim0 ((pd.size / (b.dim1 * b.dim2)) % 4294967296)) (b.dim1 * b.dim2) with
          | none =>
            unfold float_data at hfd
            rcases hk with hk | hk | hk | hk <;> rw [hk] at hfd <;> simp at hfd
          | some data =>
            simp only [ne_eq, PtrOutcome.call.injEq]
            exact push_float_matches _ _ _ _ hprod
        | ST_int =>
          simp only
          split
          · simp
          · simp only [ne_eq, PtrOutcome.call.injEq]
            exact push_int_matches _ _ _ _ (hsmall (by rw [ht]; decide))
        | ST_uint =>
          simp only
          split
          · simp
          · simp only [ne_eq, PtrOutcome.call.injEq]
            exact push_uint_matches _ _ _ _ (hsmall (by rw [ht]; decide))

/-- C29: when the bindings `bind_parameter` adds have valid dimensions, every
pointer-data binding of the table `reflect_program` builds has `_dim[1] >= 1`,
`_dim[2]` in 1..4 and a product `_dim[1] * _dim[2]` in 1, 2, 3, 4, 9, 16, with 9
and 16 for the `float` destination only; and `issue_parameters` on a context with
this table never divides by zero and, when every fetched source has one of the
kinds int, uint, double or float, never reaches an `nassertd` that fails. -/
theorem reflect_program_pointer_dims (env : ReflectEnv) (st : ReflectState)
    (us : List ActiveUniform)
    (hbp : ∀ s name p, ∀ b ∈ (env.bind_parameter s name p).ptr_spec,
      b ∈ s.ptr_spec ∨ b.valid_dims) :
    (∀ b ∈ (reflect_program env st us).ctx.shader.ptr_spec,
      b.dim1 ≥ 1 ∧ b.dim2 ∈ [1, 2, 3, 4] ∧ b.dim1 * b.dim2 ∈ [1, 2, 3, 4, 9, 16] ∧
        (b.dim1 * b.dim2 ∈ [9, 16] → b.type = ScalarType.ST_float)) ∧
    ∀ (gsg : GSG) (ctx : Context) (altered : Nat),
      ctx.shader.ptr_spec = (reflect_program env st us).ctx.shader.ptr_spec →
      ∀ e ∈ (issue_parameters gsg ctx altered).2,
        e.2 ≠ GLCall.division_by_zero ∧
        ((∀ b pd, gsg.fetch_ptr_parameter b = some pd →
            pd.type = ScalarType.ST_int ∨ pd.type = ScalarType.ST_uint ∨
            pd.type = ScalarType.ST_double ∨ pd.type = ScalarType.ST_float) →
          e.2 ≠ GLCall.assertion_failed) := by
  have hvalid : ∀ b ∈ (reflect_program env st us).ctx.shader.ptr_spec, b.valid_dims := by
    intro b hb
    rcases reflect_uniforms_ptr_valid env hbp us _ 0 b hb with h | h
    · simp at h
    · exact h
  refine ⟨hvalid, ?_⟩
  intro gsg ctx altered htab e he
  rcases issue_parameters_mem gsg ctx altered e he with h | h | h | h | h
  · rw [h]; simp
  · obtain ⟨k, spec, ctx', hk, -, hm⟩ := h
    have hv : spec.valid_dims := hvalid spec (htab ▸ List.getElem?_mem hk)
    obtain ⟨ha, hz, hacc⟩ := ptr_outcome_valid_dims gsg ctx'.uniform_location_map spec hv
    rcases issue_ptr_binding_mem gsg ctx' k spec e hm with h1 | h1 | h1 | h1 | h1 | h1
    · rw [h1]; simp
    · have := release_resources_no_assertion ctx' _ h1.2
      exact ⟨this.1, fun _ => this.2⟩
    · exact absurd h1.1 ha
    · exact absurd h1.1 hz
    · obtain ⟨pd, -, -, -, -, hsw⟩ :=
        ptr_outcome_switch gsg _ spec _ h1 (Or.inl ⟨_, rfl⟩)
      refine ⟨?_, ?_⟩
      · rcases (ptr_switch_call gsg spec pd _ _ _ _ hsw).1 with h2 | h2
        · rw [h2]; simp
        · intro h3; rw [h3] at h2; simp [GLCall.is_push] at h2
      · intro hk2 h3
        rw [h3] at h1
        exact hacc (fun pd hpd => hk2 spec pd hpd) h1
    · obtain ⟨pd, -, -, -, -, hsw⟩ :=
        ptr_outcome_switch gsg _ spec _ h1 (Or.inr ⟨_, rfl⟩)
      have h2 := (ptr_switch_deactivate gsg spec pd _ _ _ _ hsw).1
      refine ⟨?_, fun _ => ?_⟩ <;> intro h3 <;> rw [h3] at h2 <;> simp [GLCall.is_error] at h2
  · rw [h.1]; simp
  · obtain ⟨k, spec, ctx', -, -, hm⟩ := h
    rcases (issue_mat_binding_mem gsg ctx' altered k spec e hm).2.2 with h1 | h1
    · rw [h1]; simp
    · refine ⟨?_, fun _ => ?_⟩ <;> intro h3 <;> rw [h3] at h1 <;> simp [GLCall.is_push] at h1
  · rw [h]; simp

theorem reflect_program_pointer_dims_witness :
    (∀ s name p, ∀ b ∈ (sample_reflect_env.bind_parameter s name p).ptr_spec,
      b ∈ s.ptr_spec ∨ b.valid_dims) ∧
    ((∀ b ∈ (reflect_program sample_reflect_env { }
        [{ name := "weights".toList, param_size := 1, param_type := GLType.GL_INT_VEC3,
           location := 4 },
         { name := "bones".toList, param_size := 8, param_type := GLType.GL_FLOAT_MAT4,
           location := 9 }]).ctx.shader.ptr_spec,
      b.dim1 ≥ 1 ∧ b.dim2 ∈ [1, 2, 3, 4] ∧ b.dim1 * b.dim2 ∈ [1, 2, 3, 4, 9, 16] ∧
        (b.dim1 * b.dim2 ∈ [9, 16] → b.type = ScalarType.ST_float)) ∧
    ∀ (gsg : GSG) (ctx : Context) (altered : Nat),
      ctx.shader.ptr_spec = (reflect_program sample_reflect_env { }
        [{ name := "weights".toList, param_size := 1, param_type := GLType.GL_INT_VEC3,
           location := 4 },
         { name := "bones".toList, param_size := 8, param_type := GLType.GL_FLOAT_MAT4,
           location := 9 }]).ctx.shader.ptr_spec →
      ∀ e ∈ (issue_parameters gsg ctx altered).2,
        e.2 ≠ GLCall.division_by_zero ∧
        ((∀ b pd, gsg.fetch_ptr_parameter b = some pd →
            pd.type = ScalarType.ST_int ∨ pd.type = ScalarType.ST_uint ∨
            pd.type = ScalarType.ST_double ∨ pd.type = ScalarType.ST_float) →
          e.2 ≠ GLCall.assertion_failed)) :=
  ⟨fun _ _ _ _ hb => Or.inl hb,
    reflect_program_pointer_dims sample_reflect_env { } _ (fun _ _ _ _ hb => Or.inl hb)⟩

theorem reflect_program_samples :
    (reflect_program sample_reflect_env { }
        [{ name := "weights".toList, param_size := 1, param_type := GLType.GL_INT_VEC3,
           location := 4 },
         { name := "bones".toList, param_size := 8, param_type := GLType.GL_FLOAT_MAT4,
           location := 9 }]).ctx.shader.ptr_spec.length = 2 ∧
    (reflect_program sample_reflect_env { }
        [{ name := "shadow".toList, param_size := 1, param_type := GLType.GL_SAMPLER_2D,
           location := 7 },
         { name := "p3d_TextureX".toList, param_size := 1, param_type := GLType.GL_SAMPLER_2D,
           location := 5 },
         { name := "p3d_Texture0".toList, param_size := 1, param_type := GLType.GL_SAMPLER_2D,
           location := 2 }]).ctx.shader.tex_spec.length = 2 := by
  decide

/-! ### C28 -/

theorem adds_pieces_refl (piece : ShaderMatPiece) (st : ReflectState) :
    adds_pieces piece st st := ⟨[], by simp, by simp⟩

theorem adds_pieces_log (piece : ShaderMatPiece) (st : ReflectState) (i : Nat)
    (c : ReflectCall) : adds_pieces piece st (st.log i c) := ⟨[], by simp [ReflectState.log], by simp⟩

theorem adds_pieces_add_mat (env : ReflectEnv) (piece : ShaderMatPiece) (st s : ReflectState)
    (bind : ShaderMatSpec) (hs : adds_pieces piece st s) (hb : bind.piece = piece) :
    adds_pieces piece st (s.add_mat env bind) := by
  obtain ⟨added, ha, hp⟩ := hs
  refine ⟨added ++ [{ bind with dep := env.cp_dependency bind.part0 ||| env.cp_dependency bind.part1 }],
    by simp [ReflectState.add_mat, cp_add_mat_spec, ha], ?_⟩
  intro b hb'
  rcases List.mem_append.mp hb' with h | h
  · exact hp b h
  · simp only [List.mem_singleton] at h; rw [h]; exact hb

theorem reflect_matrix_pieces (env : ReflectEnv) (st : ReflectState) (i : Nat) (name : CStr)
    (param_size : Int) (param_type : GLType) (p : Int) (matrix_name : CStr)
    (transpose inverse : Bool) (piece : ShaderMatPiece)
    (h : matrix_piece param_type transpose = some piece) :
    adds_pieces piece st
      (reflect_matrix env st i name param_size param_type p matrix_name transpose inverse) := by
  unfold reflect_matrix
  simp only [h]
  split
  · refine adds_pieces_add_mat env piece st _ _ ?_ rfl
    split
    · exact adds_pieces_log _ _ _ _
    · exact adds_pieces_refl _ _
  · split
    · split
      · exact adds_pieces_log _ _ _ _
      · refine ⟨_, add_texture_matrices_spec env _ p _ 0 st, ?_⟩
        intro b hb
        simp only [List.mem_map] at hb
        obtain ⟨k, -, rfl⟩ := hb
        rfl
    · split
      · unfold reflect_light_matrix
        split
        · exact adds_pieces_add_mat env piece st _ _ (adds_pieces_refl _ _) rfl
        · split
          · refine adds_pieces_add_mat env piece st _ _ ?_ rfl
            split
            · exact ⟨[], by simp [ReflectState.log], by simp⟩
            · exact adds_pieces_refl _ _
          · exact adds_pieces_log _ _ _ _
      · exact adds_pieces_log _ _ _ _

/-- C28, as stated, fails: `p3d_NormalMatrix` carries no `Transpose` suffix, and
declared `mat3` it gets the piece `SMP_transpose3x3`, which `issue_parameters`
pushes with the transpose flag true. -/
theorem reflect_uniform_mat3_transposed_counterexample :
    (parse_matrix_suffix "NormalMatrix".toList).2.1 = false ∧
    (reflect_uniform sample_reflect_env { } 0
        { name := "p3d_NormalMatrix".toList, param_size := 1,
          param_type := GLType.GL_FLOAT_MAT3, location := 0 }).ctx.shader.mat_spec.map
      (fun b => b.piece) = [ShaderMatPiece.SMP_transpose3x3] ∧
    (issue_parameters sample_gsg
        { (reflect_uniform sample_reflect_env { } 0
            { name := "p3d_NormalMatrix".toList, param_size := 1,
              param_type := GLType.GL_FLOAT_MAT3, location := 0 }).ctx with
          uniform_location_map := [5] } 0x002).2.filterMap (fun e => e.2.transpose_flag)
      = [true] := by
  decide

theorem push_piece_transpose_flag (piece : ShaderMatPiece) (q : Int) (val : List Int) :
    (push_piece piece q val).bind GLCall.transpose_flag = piece_transpose_flag piece := by
  cases piece <;> rfl

/-- C28, amended: declared `mat4` at a live location, every binding that
`reflect_uniform` adds for a name of the matrix vocabulary is pushed by
`issue_parameters` with the transpose flag true exactly when the name carries the
`Transpose` suffix, and so is every binding `reflect_matrix` adds for any matrix
name; `p3d_NormalMatrix` declared `mat3` is pushed with the flag true exactly
when the name does not carry the suffix. -/
theorem reflect_uniform_transpose_flag (env : ReflectEnv) (st : ReflectState) (i : Nat)
    (param_size : Int) (p : Int) (hp : 0 ≤ p) :
    (∀ B ∈ matrix_vocabulary, ∀ s ∈ matrix_suffixes,
      ∃ added,
        (reflect_uniform env st i
            { name := "p3d_".toList ++ B ++ s.1, param_size := param_size,
              param_type := GLType.GL_FLOAT_MAT4, location := p }).ctx.shader.mat_spec =
          st.ctx.shader.mat_spec ++ added ∧
        (B ∈ simple_matrix_names → added.length = 1) ∧
        ∀ b ∈ added, ∀ q val,
          (push_piece b.piece q val).bind GLCall.transpose_flag = some s.2.2) ∧
    (∀ s ∈ matrix_suffixes,
      ∃ b,
        (reflect_uniform env st i
            { name := "p3d_".toList ++ "NormalMatrix".toList ++ s.1, param_size := param_size,
              param_type := GLType.GL_FLOAT_MAT3, location := p }).ctx.shader.mat_spec =
          st.ctx.shader.mat_spec ++ [b] ∧
        ∀ q val, (push_piece b.piece q val).bind GLCall.transpose_flag = some (!s.2.2)) ∧
    (∀ (name mn : CStr) (transpose inverse : Bool),
      ∃ added,
        (reflect_matrix env st i name param_size GLType.GL_FLOAT_MAT4 p mn transpose
            inverse).ctx.shader.mat_spec = st.ctx.shader.mat_spec ++ added ∧
        ∀ b ∈ added, ∀ q val,
          (push_piece b.piece q val).bind GLCall.transpose_flag = some transpose) := by
  have key : ∀ B ∈ matrix_vocabulary, ∀ s ∈ matrix_suffixes,
      parse_matrix_suffix (B ++ s.1) = (B, s.2.2, s.2.1) ∧ is_matrix_name B = true ∧
      ("p3d_".toList ++ B ++ s.1).take 6 ≠ "_main_".toList ∧
      strip_array_suffix ("p3d_".toList ++ B ++ s.1) = "p3d_".toList ++ B ++ s.1 ∧
      ("p3d_".toList ++ B ++ s.1).take 4 = "p3d_".toList ∧
      ("p3d_".toList ++ B ++ s.1).drop 4 = B ++ s.1 ∧
      (B ∈ simple_matrix_names → (simple_matrix B s.2.1).isSome = true) := by
    decide
  have h4 : ∀ t : Bool, matrix_piece GLType.GL_FLOAT_MAT4 t =
      some (if t then ShaderMatPiece.SMP_transpose else ShaderMatPiece.SMP_whole) := fun _ => rfl
  have h3 : ∀ t : Bool, matrix_piece GLType.GL_FLOAT_MAT3 t =
      some (if t then ShaderMatPiece.SMP_upper3x3 else ShaderMatPiece.SMP_transpose3x3) :=
    fun _ => rfl
  have hall : ∀ (name mn : CStr) (transpose inverse : Bool),
      ∃ added,
        (reflect_matrix env st i name param_size GLType.GL_FLOAT_MAT4 p mn transpose
            inverse).ctx.shader.mat_spec = st.ctx.shader.mat_spec ++ added ∧
        ∀ b ∈ added, ∀ q val,
          (push_piece b.piece q val).bind GLCall.transpose_flag = some transpose := by
    intro name mn transpose inverse
    obtain ⟨added, ha, hpc⟩ := reflect_matrix_pieces env st i name param_size
      GLType.GL_FLOAT_MAT4 p mn transpose inverse _ (h4 transpose)
    refine ⟨added, ha, ?_⟩
    intro b hb q val
    rw [push_piece_transpose_flag, hpc b hb]
    cases transpose <;> rfl
  refine ⟨?_, ?_, hall⟩
  · intro B hB s hs
    obtain ⟨k1, k2, k3, k4, k5, k6, k7⟩ := key B hB s hs
    have hru := reflect_uniform_matrix env st i _ param_size GLType.GL_FLOAT_MAT4 p B
      s.2.2 s.2.1 k3 k4 k5 (by rw [k6]; exact k1) k2 hp
    obtain ⟨added, ha, hfl⟩ := hall ("p3d_".toList ++ B ++ s.1) B s.2.2 s.2.1
    refine ⟨added, by rw [hru]; exact ha, ?_, hfl⟩
    intro hsimple
    obtain ⟨parts, hparts⟩ := Option.isSome_iff_exists.mp (k7 hsimple)
    have hone := reflect_matrix_simple env st i ("p3d_".toList ++ B ++ s.1) param_size
      GLType.GL_FLOAT_MAT4 p B s.2.2 s.2.1 _ parts (h4 s.2.2) hparts
    rw [ha] at hone
    rw [List.append_cancel_left hone]
    rfl
  · intro s hs
    obtain ⟨k1, k2, k3, k4, k5, k6, k7⟩ := key "NormalMatrix".toList (by decide) s hs
    obtain ⟨parts, hparts⟩ := Option.isSome_iff_exists.mp (k7 (by decide))
    rw [reflect_uniform_matrix env st i _ param_size GLType.GL_FLOAT_MAT3 p
      "NormalMatrix".toList s.2.2 s.2.1 k3 k4 k5 (by rw [k6]; exact k1) k2 hp]
    refine ⟨_, reflect_matrix_simple env st i _ param_size GLType.GL_FLOAT_MAT3 p
      "NormalMatrix".toList s.2.2 s.2.1 _ parts (h3 s.2.2) hparts, ?_⟩
    intro q val
    rw [push_piece_transpose_flag]
    cases s.2.2 <;> rfl

/-- C28, amended, at a sample input: `p3d_NormalMatrix`, a `mat3` at location 3,
gets one binding, pushed with the transpose flag true. -/
theorem reflect_uniform_transpose_flag_witness :
    (0 : Int) ≤ 3 ∧
    ∃ b,
      (reflect_uniform sample_reflect_env { } 0
          { name := "p3d_".toList ++ "NormalMatrix".toList ++ [], param_size := 1,
            param_type := GLType.GL_FLOAT_MAT3, location := 3 }).ctx.shader.mat_spec =
        ({ } : ReflectState).ctx.shader.mat_spec ++ [b] ∧
      ∀ q val, (push_piece b.piece q val).bind GLCall.transpose_flag = some (!false) :=
  ⟨by decide,
    (reflect_uniform_transpose_flag sample_reflect_env { } 0 1 3 (by decide)).2.1
      ([], false, false) (by decide)⟩

/-! ### C25 -/

/-- C25: the part and the piece of a `p3d_Material` field do not depend on the
declared type, and the binding `reflect_uniform` adds for the field carries them
(ambient row 0, diffuse row 1, emission row 2, specular the first three cells of
row 3, shininess cell 15 of the material part; baseColor row 0, roughness cell
15, metallic cell 12, refractiveIndex cell 13 of the second material part); for
two distinct fields of the same part, the cells `issue_parameters` delivers are
disjoint; and the same holds for the fog fields density, start, end and scale
declared `float` (cells 12, 13, 14 and 15 of the fog part). -/
theorem material_fog_cells_disjoint (env : ReflectEnv) (st : ReflectState) (i : Nat)
    (name : CStr) (p : Int) (t : GLType) (f : CStr) :
    material_part_piece f t = material_part_piece f GLType.GL_FLOAT ∧
    (match material_part_piece f t with
      | some pp =>
          ∃ r, reflect_material env st i name t p f = some r ∧
            r.ctx.shader.mat_spec.getLast?.map (fun b => (b.part0, b.piece)) = some pp
      | none => reflect_material env st i name t p f = none) ∧
    material_fields.map (fun g => material_part_piece g GLType.GL_FLOAT) =
      [some (ShaderMatInput.SMO_attr_material, ShaderMatPiece.SMP_row0),
       some (ShaderMatInput.SMO_attr_material, ShaderMatPiece.SMP_row1),
       some (ShaderMatInput.SMO_attr_material, ShaderMatPiece.SMP_row2),
       some (ShaderMatInput.SMO_attr_material, ShaderMatPiece.SMP_row3x3),
       some (ShaderMatInput.SMO_attr_material, ShaderMatPiece.SMP_cell15),
       some (ShaderMatInput.SMO_attr_material2, ShaderMatPiece.SMP_row0),
       some (ShaderMatInput.SMO_attr_material2, ShaderMatPiece.SMP_cell15),
       some (ShaderMatInput.SMO_attr_material2, ShaderMatPiece.SMP_row3x1),
       some (ShaderMatInput.SMO_attr_material2, ShaderMatPiece.SMP_cell13)] ∧
    [ShaderMatPiece.SMP_row0, ShaderMatPiece.SMP_row1, ShaderMatPiece.SMP_row2,
      ShaderMatPiece.SMP_row3x3, ShaderMatPiece.SMP_row3x1, ShaderMatPiece.SMP_cell13,
      ShaderMatPiece.SMP_cell14, ShaderMatPiece.SMP_cell15].map delivered_cells =
      [[0, 1, 2, 3], [4, 5, 6, 7], [8, 9, 10, 11], [12, 13, 14], [12], [13], [14], [15]] ∧
    (∀ g ∈ material_fields, ∀ h ∈ material_fields, g ≠ h →
      ∀ a ∈ (material_part_piece g GLType.GL_FLOAT).toList,
      ∀ b ∈ (material_part_piece h GLType.GL_FLOAT).toList, a.1 = b.1 →
      ∀ c ∈ delivered_cells a.2, c ∉ delivered_cells b.2) ∧
    fog_scalar_fields.map fog_part_piece =
      [some (ShaderMatInput.SMO_attr_fog, ShaderMatPiece.SMP_row3x1),
       some (ShaderMatInput.SMO_attr_fog, ShaderMatPiece.SMP_cell13),
       some (ShaderMatInput.SMO_attr_fog, ShaderMatPiece.SMP_cell14),
       some (ShaderMatInput.SMO_attr_fog, ShaderMatPiece.SMP_cell15)] ∧
    (∀ g ∈ fog_scalar_fields, ∀ h ∈ fog_scalar_fields, g ≠ h →
      ∀ a ∈ (fog_part_piece g).toList, ∀ b ∈ (fog_part_piece h).toList, a.1 = b.1 →
      ∀ c ∈ delivered_cells a.2, c ∉ delivered_cells b.2) ∧
    (∀ g ∈ fog_scalar_fields, ∀ a ∈ (fog_part_piece g).toList,
      (reflect_fog env st i name GLType.GL_FLOAT p g).ctx.shader.mat_spec.getLast?.map
        (fun b => (b.part0, b.piece)) = some a) := by
  refine ⟨?_, ?_, by decide, by decide, by decide, by decide, by decide, ?_⟩
  · unfold material_part_piece material_field
    repeat' split
    all_goals rfl
  · unfold material_part_piece reflect_material
    cases hm : material_field f t with
    | none => rfl
    | some r =>
      obtain ⟨ok, msg, part, piece⟩ := r
      simp only [Option.map_some']
      refine ⟨_, rfl, ?_⟩
      simp [ReflectState.add_mat, cp_add_mat_spec]
  · intro g _ a ha
    have hfp : fog_part_piece g = some a := by
      cases h : fog_part_piece g with
      | none => rw [h] at ha; simp at ha
      | some b => rw [h] at ha; simp at ha; rw [ha]
    unfold fog_part_piece at hfp
    unfold reflect_fog
    cases hff : fog_field g GLType.GL_FLOAT with
    | none => rw [hff] at hfp; simp at hfp
    | some r =>
      obtain ⟨part, opiece, msg⟩ := r
      cases opiece with
      | none => rw [hff] at hfp; simp at hfp
      | some piece =>
        rw [hff] at hfp
        simp only [Option.some.injEq] at hfp
        subst hfp
        simp [ReflectState.add_mat, cp_add_mat_spec]

end GLShaderContext
